import Mathlib

/-!
# Reconciliation layer of the Saga Data Terraform provider

A shallow embedding of `internal/provider` (Go): the Kubernetes cluster and
private network resources, their state projectors and their lifecycle
operations.

* A Go method that talks to the remote API or to the plugin framework is a
  pure function of an explicit environment: the `Client` answers each call
  from its arguments and, for the repeated poll waits and reads, from the
  number of earlier calls of the same method; the `Framework` answers
  `Plan.Get`, `State.Get`, `State.Set` and `ContextWithTimeout`.
* The response under construction (`resp.Diagnostics`, `resp.State`) is an
  explicit `Run` value, which also records the trace of client calls.
* The unbounded `for` loops take a fuel argument: `none` means that the loop
  did not return within that many iterations.
-/

namespace Provider

/-! ## Plugin framework values -/

/-- A `types.String` of the plugin framework: null, unknown, or a known string. -/
inductive TfString where
  | null
  | unknown
  | value (s : String)
  deriving DecidableEq, Repr

/-- The constructor `types.StringValue`. -/
def types.StringValue (s : String) : TfString := TfString.value s

/-- The constructor `types.StringNull`. -/
def types.StringNull : TfString := TfString.null

/-- The method `IsNull`. -/
def TfString.IsNull : TfString → Bool
  | .null => true
  | _ => false

/-- The method `IsUnknown`. -/
def TfString.IsUnknown : TfString → Bool
  | .unknown => true
  | _ => false

/-- The method `ValueString`: the known string, the empty string for null and unknown. -/
def TfString.ValueString : TfString → String
  | .value s => s
  | _ => ""

/-- The method `ValueStringPointer`: nil for null, else a pointer to the stored string. -/
def TfString.ValueStringPointer : TfString → Option String
  | .null => none
  | .unknown => some ""
  | .value s => some s

/-- The generic helper `pointer` of the package: a pointer to its argument. -/
def pointer {α : Type} (a : α) : Option α := some a

/-- The timeouts block of a model (`timeouts.Value`); the operations never change it. -/
structure TimeoutsValue where
  Create : TfString
  Read : TfString
  Update : TfString
  Delete : TfString
  deriving DecidableEq, Repr

/-! ## Errors and diagnostics -/

/-- A Go `error` value: the package's sentinel `ErrResourceInErrorState`, or any other error. -/
inductive GoError where
  | ErrResourceInErrorState
  | other (msg : String)
  deriving DecidableEq, Repr

/-- The `*http.Response` of a generated client response, reduced to its status code. -/
structure HTTPResponse where
  StatusCode : Int
  deriving DecidableEq, Repr

/-- The package's `ErrorResponse`, the argument of `generateClientErrorMessage`. -/
structure ErrorResponse where
  Body : String
  HTTPResponse : Option HTTPResponse
  Error : Option String
  deriving DecidableEq, Repr

/-- The detail text of a diagnostic. The two message builders of the package are kept
symbolic: the text is identified by the builder and its arguments. `attribute` is the
detail of a diagnostic attached to the attribute path `path.Root(path)`. -/
inductive Detail where
  | generateErrorMessage (action : String) (err : GoError)
  | generateClientErrorMessage (action : String) (resp : ErrorResponse)
  | text (s : String)
  | attribute (path : String) (s : String)
  deriving DecidableEq, Repr

/-- Severity of a diagnostic. -/
inductive Severity where
  | Error
  | Warning
  deriving DecidableEq, Repr

/-- A `diag.Diagnostic`. -/
structure Diagnostic where
  severity : Severity
  summary : String
  detail : Detail
  deriving DecidableEq, Repr

/-- The type `diag.Diagnostics`. -/
abbrev Diagnostics := List Diagnostic

/-- The method `HasError`: some diagnostic has error severity. -/
def Diagnostics.HasError (ds : Diagnostics) : Bool :=
  ds.any (fun d => decide (d.severity = Severity.Error))

/-- The method `Append`: adds the given diagnostics in order, skipping one already present. -/
def Diagnostics.Append (ds : Diagnostics) (new : Diagnostics) : Diagnostics :=
  new.foldl (fun acc d => if d ∈ acc then acc else acc ++ [d]) ds

/-- The method `AddError`: appends an error diagnostic with the given summary and detail. -/
def Diagnostics.AddError (ds : Diagnostics) (summary : String) (detail : Detail) : Diagnostics :=
  Diagnostics.Append ds [{ severity := Severity.Error, summary := summary, detail := detail }]

/-- The error diagnostics of a list, in order. -/
def Diagnostics.Errors (ds : Diagnostics) : Diagnostics :=
  ds.filter (fun d => decide (d.severity = Severity.Error))

/-! ## Remote API types (package `sagadata`) -/

/-- A `time.Time` of a remote record. Formatting is library code: an instant carries the
text that `Format(time.RFC3339)` renders for it. -/
structure Time where
  rfc3339 : String
  deriving DecidableEq, Repr

/-- The call `t.Format(time.RFC3339)`. -/
def Time.Format (t : Time) : String := t.rfc3339

/-- The remote record `sagadata.KubernetesCluster`; `Status` is a string-typed enum. -/
structure sagadata.KubernetesCluster where
  CreatedAt : Time
  Id : String
  Name : String
  Network : Option String
  Status : String
  UpdatedAt : Time
  deriving DecidableEq, Repr

/-- The remote record `sagadata.PrivateNetwork`; `Region` and `Status` are string-typed. -/
structure sagadata.PrivateNetwork where
  CidrV4 : Option String
  CidrV6 : Option String
  CreatedAt : Time
  Description : String
  Id : String
  Name : String
  Region : String
  Status : String
  UpdatedAt : Time
  deriving DecidableEq, Repr

/-- The remote record `sagadata.K8sClusterCredentialsResponse`. -/
structure sagadata.K8sClusterCredentialsResponse where
  Kubeconfig : String
  JoinCommand : Option String
  deriving DecidableEq, Repr

/-- Modelled from the spec: the constant `sagadata.KubernetesClusterStatusActive` of the client
library, the settled-success status "active" of a Kubernetes cluster. -/
def sagadata.KubernetesClusterStatusActive : String := "active"

/-- Modelled from the spec: the constant `sagadata.KubernetesClusterStatusError` of the client
library, the settled-failure status "error" of a Kubernetes cluster. -/
def sagadata.KubernetesClusterStatusError : String := "error"

/-- Modelled from the spec: the constant `sagadata.PrivateNetworkStatusCreated` of the client
library, the settled-success status "created" of a private network. -/
def sagadata.PrivateNetworkStatusCreated : String := "created"

/-- Modelled from the spec: the constant `sagadata.PrivateNetworkStatusError` of the client
library, the settled-failure status "error" of a private network. -/
def sagadata.PrivateNetworkStatusError : String := "error"

/-- The request body `sagadata.CreateKubernetesClusterJSONRequestBody`. -/
structure sagadata.CreateKubernetesClusterJSONRequestBody where
  Id : Option String
  Network : Option String
  deriving DecidableEq, Repr

/-- The request body `sagadata.UpdateKubernetesClusterJSONRequestBody`. -/
structure sagadata.UpdateKubernetesClusterJSONRequestBody where
  Network : Option String
  deriving DecidableEq, Repr

/-- The request body `sagadata.CreatePrivateNetworkJSONRequestBody`. -/
structure sagadata.CreatePrivateNetworkJSONRequestBody where
  CidrV4 : Option String
  CidrV6 : Option String
  Description : Option String
  Name : String
  Region : String
  deriving DecidableEq, Repr

/-- The request body `sagadata.UpdatePrivateNetworkJSONRequestBody`. -/
structure sagadata.UpdatePrivateNetworkJSONRequestBody where
  Description : Option String
  Name : Option String
  deriving DecidableEq, Repr

/-- The JSON envelope of a Kubernetes cluster response body. -/
structure sagadata.ClusterBody where
  Cluster : sagadata.KubernetesCluster
  deriving DecidableEq, Repr

/-- The JSON envelope of a private network response body. -/
structure sagadata.PrivateNetworkBody where
  PrivateNetwork : sagadata.PrivateNetwork
  deriving DecidableEq, Repr

/-- A generated client response for a Kubernetes cluster call: raw body, HTTP response, and the
decoded bodies. `JSON201` is filled by the create call only, `JSON200` by get and update. -/
structure sagadata.KubernetesClusterResponse where
  Body : String
  HTTPResponse : Option HTTPResponse
  JSON200 : Option sagadata.ClusterBody
  JSON201 : Option sagadata.ClusterBody
  JSONDefault : Option String
  deriving DecidableEq, Repr

/-- A generated client response for a private network call. -/
structure sagadata.PrivateNetworkResponse where
  Body : String
  HTTPResponse : Option HTTPResponse
  JSON200 : Option sagadata.PrivateNetworkBody
  JSON201 : Option sagadata.PrivateNetworkBody
  JSONDefault : Option String
  deriving DecidableEq, Repr

/-- A generated client response for the credentials call. -/
structure sagadata.CredentialsResponse where
  Body : String
  HTTPResponse : Option HTTPResponse
  JSON200 : Option sagadata.K8sClusterCredentialsResponse
  JSONDefault : Option String
  deriving DecidableEq, Repr

/-- The method `StatusCode` of a generated response: the HTTP status, 0 without a response. -/
def sagadata.KubernetesClusterResponse.StatusCode (r : sagadata.KubernetesClusterResponse) : Int :=
  match r.HTTPResponse with
  | some h => h.StatusCode
  | none => 0

/-- The method `StatusCode` of a generated response: the HTTP status, 0 without a response. -/
def sagadata.PrivateNetworkResponse.StatusCode (r : sagadata.PrivateNetworkResponse) : Int :=
  match r.HTTPResponse with
  | some h => h.StatusCode
  | none => 0

/-- The Go result pair `(response, err)` of a client call. -/
inductive CallResult (α : Type) where
  | err (e : GoError)
  | ok (response : α)
  deriving DecidableEq, Repr

/-! ## The environment: remote client and plugin framework -/

/-- The provider's client `r.client`. The poll wait and the reads, which an operation repeats,
are answered from the number of earlier calls of the same method within the operation (and
the read's argument); the calls made once are answered from their arguments. `PollingWait`
returns nil after the interval, or the cancellation error of the bounded context. -/
structure Client where
  PollingWait : Nat → Option GoError
  CreateKubernetesClusterWithResponse :
    sagadata.CreateKubernetesClusterJSONRequestBody → CallResult sagadata.KubernetesClusterResponse
  GetKubernetesClusterWithResponse : Nat → String → CallResult sagadata.KubernetesClusterResponse
  UpdateKubernetesClusterWithResponse : String → sagadata.UpdateKubernetesClusterJSONRequestBody →
    CallResult sagadata.KubernetesClusterResponse
  DeleteKubernetesClusterWithResponse : String → CallResult sagadata.KubernetesClusterResponse
  GetKubernetesClusterCredentialsWithResponse : String → CallResult sagadata.CredentialsResponse
  CreatePrivateNetworkWithResponse :
    sagadata.CreatePrivateNetworkJSONRequestBody → CallResult sagadata.PrivateNetworkResponse
  GetPrivateNetworkWithResponse : Nat → String → CallResult sagadata.PrivateNetworkResponse
  UpdatePrivateNetworkWithResponse : String → sagadata.UpdatePrivateNetworkJSONRequestBody →
    CallResult sagadata.PrivateNetworkResponse
  DeletePrivateNetworkWithResponse : String → CallResult sagadata.PrivateNetworkResponse

/-- One interaction with the client: the call, its arguments and its result. -/
inductive Event where
  | PollingWait (err : Option GoError)
  | CreateKubernetesCluster (body : sagadata.CreateKubernetesClusterJSONRequestBody)
      (res : CallResult sagadata.KubernetesClusterResponse)
  | GetKubernetesCluster (id : String) (res : CallResult sagadata.KubernetesClusterResponse)
  | UpdateKubernetesCluster (id : String) (body : sagadata.UpdateKubernetesClusterJSONRequestBody)
      (res : CallResult sagadata.KubernetesClusterResponse)
  | DeleteKubernetesCluster (id : String) (res : CallResult sagadata.KubernetesClusterResponse)
  | GetKubernetesClusterCredentials (id : String) (res : CallResult sagadata.CredentialsResponse)
  | CreatePrivateNetwork (body : sagadata.CreatePrivateNetworkJSONRequestBody)
      (res : CallResult sagadata.PrivateNetworkResponse)
  | GetPrivateNetwork (id : String) (res : CallResult sagadata.PrivateNetworkResponse)
  | UpdatePrivateNetwork (id : String) (body : sagadata.UpdatePrivateNetworkJSONRequestBody)
      (res : CallResult sagadata.PrivateNetworkResponse)
  | DeletePrivateNetwork (id : String) (res : CallResult sagadata.PrivateNetworkResponse)
  deriving DecidableEq, Repr

/-- Whether the event is a call to the remote API (everything but the poll wait). -/
def Event.isRemote : Event → Bool
  | .PollingWait _ => false
  | _ => true

/-- The plugin framework and the timeout scope, as seen by one operation on a model `M`:
`PlanGet` and `StateGet` are the decoded model and the diagnostics of `req.Plan.Get` and
`req.State.Get`; `ContextWithTimeout` is the diagnostics of the timeout scope, nil when the
bounded context was derived; `StateSet k m` is the diagnostics of the call of `resp.State.Set`
on `m` that follows `k` earlier calls. -/
structure Framework (M : Type) where
  PlanGet : M × Diagnostics
  StateGet : M × Diagnostics
  ContextWithTimeout : Option Diagnostics
  StateSet : Nat → M → Diagnostics

/-- The response under construction and the bookkeeping of one operation: `resp.Diagnostics`,
`resp.State` (`none` is the null state), the number of `State.Set` calls, poll waits and polling
reads so far, and the trace of client interactions. -/
structure Run (M : Type) where
  Diagnostics : Diagnostics
  State : Option M
  sets : Nat
  waits : Nat
  reads : Nat
  calls : List Event
  deriving DecidableEq, Repr

/-- The statement `resp.Diagnostics.Append(ds...)`. -/
def Run.Append {M : Type} (resp : Run M) (ds : Provider.Diagnostics) : Run M :=
  { resp with Diagnostics := Provider.Diagnostics.Append resp.Diagnostics ds }

/-- The statement `resp.Diagnostics.AddError(summary, detail)`. -/
def Run.AddError {M : Type} (resp : Run M) (summary : String) (detail : Detail) : Run M :=
  { resp with Diagnostics := Provider.Diagnostics.AddError resp.Diagnostics summary detail }

/-- The test `resp.Diagnostics.HasError()`. -/
def Run.HasError {M : Type} (resp : Run M) : Bool :=
  Provider.Diagnostics.HasError resp.Diagnostics

/-- The statement `resp.Diagnostics.Append(resp.State.Set(ctx, &data)...)`: the framework
stores the model unless setting it reports an error, and the diagnostics are appended. -/
def Run.StateSet {M : Type} (fw : Framework M) (resp : Run M) (data : M) : Run M :=
  let ds := fw.StateSet resp.sets data
  { resp with
    Diagnostics := Provider.Diagnostics.Append resp.Diagnostics ds
    State := if Provider.Diagnostics.HasError ds then resp.State else some data
    sets := resp.sets + 1 }

/-- Records a completed poll wait. -/
def Run.waited {M : Type} (resp : Run M) (err : Option GoError) : Run M :=
  { resp with waits := resp.waits + 1, calls := resp.calls ++ [Event.PollingWait err] }

/-- Records a completed polling read. -/
def Run.polled {M : Type} (resp : Run M) (e : Event) : Run M :=
  { resp with reads := resp.reads + 1, calls := resp.calls ++ [e] }

/-- Records a completed single call (create, update, delete). -/
def Run.called {M : Type} (resp : Run M) (e : Event) : Run M :=
  { resp with calls := resp.calls ++ [e] }

/-! ## Models and state projectors -/

/-- The model `KubernetesClusterResourceModel`. -/
structure KubernetesClusterResourceModel where
  CreatedAt : TfString
  Id : TfString
  Name : TfString
  Network : TfString
  Status : TfString
  UpdatedAt : TfString
  Timeouts : TimeoutsValue
  deriving DecidableEq, Repr

/-- The method `PopulateFromClientResponse` of `KubernetesClusterResourceModel`: the updated
model and the returned diagnostics (the named result is never assigned, hence nil). -/
def KubernetesClusterResourceModel.PopulateFromClientResponse
    (data : KubernetesClusterResourceModel) (cluster : sagadata.KubernetesCluster) :
    KubernetesClusterResourceModel × Diagnostics :=
  let data := { data with CreatedAt := types.StringValue cluster.CreatedAt.Format }
  let data := { data with Id := types.StringValue cluster.Id }
  let data := { data with Name := types.StringValue cluster.Name }
  let data := { data with Status := types.StringValue cluster.Status }
  let data := { data with UpdatedAt := types.StringValue cluster.UpdatedAt.Format }
  let data :=
    match cluster.Network with
    | some network => { data with Network := types.StringValue network }
    | none => { data with Network := types.StringNull }
  (data, [])

/-- The model `PrivateNetworkResourceModel`. -/
structure PrivateNetworkResourceModel where
  CreatedAt : TfString
  CidrV4 : TfString
  CidrV6 : TfString
  Description : TfString
  Id : TfString
  Name : TfString
  Region : TfString
  Status : TfString
  UpdatedAt : TfString
  Timeouts : TimeoutsValue
  deriving DecidableEq, Repr

/-- The method `PopulateFromClientResponse` of `PrivateNetworkResourceModel`: the updated model
and the returned diagnostics (the named result is never assigned, hence nil). -/
def PrivateNetworkResourceModel.PopulateFromClientResponse
    (data : PrivateNetworkResourceModel) (network : sagadata.PrivateNetwork) :
    PrivateNetworkResourceModel × Diagnostics :=
  let data := { data with CreatedAt := types.StringValue network.CreatedAt.Format }
  let data := { data with Id := types.StringValue network.Id }
  let data := { data with Name := types.StringValue network.Name }
  let data := { data with Description := types.StringValue network.Description }
  let data := { data with Region := types.StringValue network.Region }
  let data := { data with Status := types.StringValue network.Status }
  let data := { data with UpdatedAt := types.StringValue network.UpdatedAt.Format }
  let data :=
    match network.CidrV4 with
    | some cidr => { data with CidrV4 := types.StringValue cidr }
    | none => { data with CidrV4 := types.StringNull }
  let data :=
    match network.CidrV6 with
    | some cidr => { data with CidrV6 := types.StringValue cidr }
    | none => { data with CidrV6 := types.StringNull }
  (data, [])

/-- The fresh response of an operation: no diagnostics, the given state, nothing called yet. -/
def Run.init {M : Type} (state : Option M) : Run M :=
  { Diagnostics := [], State := state, sets := 0, waits := 0, reads := 0, calls := [] }

/-! ## Kubernetes cluster resource -/

/-- The settling loop of `KubernetesClusterResource.Create` (the `for` statement after the
create call), with at most `fuel` iterations: `none` when none of them returned. -/
def KubernetesClusterResource.Create.loop (client : Client)
    (fw : Framework KubernetesClusterResourceModel) (clusterId : String) :
    Nat → KubernetesClusterResourceModel → Run KubernetesClusterResourceModel →
    Option (Run KubernetesClusterResourceModel)
  | 0, _, _ => none
  | fuel + 1, data, resp =>
    let err := client.PollingWait resp.waits
    let resp := resp.waited err
    match err with
    | some err =>
      some (resp.AddError "Polling Error"
        (Detail.generateErrorMessage "polling kubernetes cluster" err))
    | none =>
      let result := client.GetKubernetesClusterWithResponse resp.reads clusterId
      let resp := resp.polled (Event.GetKubernetesCluster clusterId result)
      match result with
      | .err err =>
        some (resp.AddError "Client Error"
          (Detail.generateErrorMessage "polling kubernetes cluster" err))
      | .ok response =>
        match response.JSON200 with
        | none =>
          some (resp.AddError "Client Error"
            (Detail.generateClientErrorMessage "polling kubernetes cluster"
              { Body := response.Body, HTTPResponse := response.HTTPResponse,
                Error := response.JSONDefault }))
        | some clusterResponse =>
          let status := clusterResponse.Cluster.Status
          if status = sagadata.KubernetesClusterStatusActive ∨
              status = sagadata.KubernetesClusterStatusError then
            let populated := data.PopulateFromClientResponse clusterResponse.Cluster
            let data := populated.1
            let resp := resp.Append populated.2
            if resp.HasError then some resp
            else
              let resp := Run.StateSet fw resp data
              if resp.HasError then some resp
              else if status = sagadata.KubernetesClusterStatusError then
                some (resp.AddError "Provisioning Error"
                  (Detail.generateErrorMessage "polling kubernetes cluster"
                    GoError.ErrResourceInErrorState))
              else some resp
          else KubernetesClusterResource.Create.loop client fw clusterId fuel data resp

/-- The request body that `KubernetesClusterResource.Create` builds from the plan (the
statements from `body := sagadata.CreateKubernetesClusterJSONRequestBody{}` up to the call). -/
def KubernetesClusterResource.Create.body (data : KubernetesClusterResourceModel) :
    sagadata.CreateKubernetesClusterJSONRequestBody :=
  let body : sagadata.CreateKubernetesClusterJSONRequestBody := { Id := none, Network := none }
  let body := { body with Id := pointer data.Name.ValueString }
  let body :=
    if !data.Network.IsNull && !data.Network.IsUnknown then
      { body with Network := data.Network.ValueStringPointer }
    else body
  body

/-- The method `KubernetesClusterResource.Create`, its settling loop bounded by `fuel`. -/
def KubernetesClusterResource.Create (client : Client)
    (fw : Framework KubernetesClusterResourceModel) (fuel : Nat) :
    Option (Run KubernetesClusterResourceModel) :=
  let data := fw.PlanGet.1
  let resp : Run KubernetesClusterResourceModel := Run.init none
  let resp := resp.Append fw.PlanGet.2
  if resp.HasError then some resp
  else
    match fw.ContextWithTimeout with
    | some diag => some (resp.Append diag)
    | none =>
      let body := KubernetesClusterResource.Create.body data
      let result := client.CreateKubernetesClusterWithResponse body
      let resp := resp.called (Event.CreateKubernetesCluster body result)
      match result with
      | .err err =>
        some (resp.AddError "Client Error"
          (Detail.generateErrorMessage "create kubernetes cluster" err))
      | .ok response =>
        match response.JSON201 with
        | none =>
          some (resp.AddError "Client Error"
            (Detail.generateClientErrorMessage "create kubernetes cluster"
              { Body := response.Body, HTTPResponse := response.HTTPResponse,
                Error := response.JSONDefault }))
        | some clusterResponse =>
          let populated := data.PopulateFromClientResponse clusterResponse.Cluster
          let data := populated.1
          let resp := resp.Append populated.2
          if resp.HasError then some resp
          else
            let resp := Run.StateSet fw resp data
            if resp.HasError then some resp
            else
              let clusterId := clusterResponse.Cluster.Id
              KubernetesClusterResource.Create.loop client fw clusterId fuel data resp

/-- The disappearance loop of `KubernetesClusterResource.Delete` (the `for` statement after the
delete call), with at most `fuel` iterations: `none` when none of them returned. -/
def KubernetesClusterResource.Delete.loop (client : Client) (clusterId : String) :
    Nat → Run KubernetesClusterResourceModel → Option (Run KubernetesClusterResourceModel)
  | 0, _ => none
  | fuel + 1, resp =>
    let err := client.PollingWait resp.waits
    let resp := resp.waited err
    match err with
    | some err =>
      some (resp.AddError "Polling Error"
        (Detail.generateErrorMessage "polling kubernetes cluster" err))
    | none =>
      let result := client.GetKubernetesClusterWithResponse resp.reads clusterId
      let resp := resp.polled (Event.GetKubernetesCluster clusterId result)
      match result with
      | .err err =>
        some (resp.AddError "Client Error"
          (Detail.generateErrorMessage "polling kubernetes cluster" err))
      | .ok response =>
        if response.StatusCode = 404 then some resp
        else KubernetesClusterResource.Delete.loop client clusterId fuel resp

/-- The method `KubernetesClusterResource.Delete`, its disappearance loop bounded by `fuel`.
The response state starts as the prior state. -/
def KubernetesClusterResource.Delete (client : Client)
    (fw : Framework KubernetesClusterResourceModel) (fuel : Nat) :
    Option (Run KubernetesClusterResourceModel) :=
  let data := fw.StateGet.1
  let resp : Run KubernetesClusterResourceModel := Run.init (some fw.StateGet.1)
  let resp := resp.Append fw.StateGet.2
  if resp.HasError then some resp
  else
    match fw.ContextWithTimeout with
    | some diag => some (resp.Append diag)
    | none =>
      let clusterId := data.Id.ValueString
      let result := client.DeleteKubernetesClusterWithResponse clusterId
      let resp := resp.called (Event.DeleteKubernetesCluster clusterId result)
      match result with
      | .err err =>
        some (resp.AddError "Client Error"
          (Detail.generateErrorMessage "delete kubernetes cluster" err))
      | .ok response =>
        if response.StatusCode ≠ 204 then
          some (resp.AddError "Client Error"
            (Detail.generateClientErrorMessage "delete kubernetes cluster"
              { Body := response.Body, HTTPResponse := response.HTTPResponse,
                Error := response.JSONDefault }))
        else KubernetesClusterResource.Delete.loop client clusterId fuel resp

/-! ## Private network resource -/

/-- The settling loop of `PrivateNetworkResource.Create` (the `for` statement after the
create call), with at most `fuel` iterations: `none` when none of them returned. -/
def PrivateNetworkResource.Create.loop (client : Client)
    (fw : Framework PrivateNetworkResourceModel) (networkId : String) :
    Nat → PrivateNetworkResourceModel → Run PrivateNetworkResourceModel →
    Option (Run PrivateNetworkResourceModel)
  | 0, _, _ => none
  | fuel + 1, data, resp =>
    let err := client.PollingWait resp.waits
    let resp := resp.waited err
    match err with
    | some err =>
      some (resp.AddError "Polling Error"
        (Detail.generateErrorMessage "polling private network" err))
    | none =>
      let result := client.GetPrivateNetworkWithResponse resp.reads networkId
      let resp := resp.polled (Event.GetPrivateNetwork networkId result)
      match result with
      | .err err =>
        some (resp.AddError "Client Error"
          (Detail.generateErrorMessage "polling private network" err))
      | .ok response =>
        match response.JSON200 with
        | none =>
          some (resp.AddError "Client Error"
            (Detail.generateClientErrorMessage "polling private network"
              { Body := response.Body, HTTPResponse := response.HTTPResponse,
                Error := response.JSONDefault }))
        | some networkResponse =>
          let status := networkResponse.PrivateNetwork.Status
          if status = sagadata.PrivateNetworkStatusCreated ∨
              status = sagadata.PrivateNetworkStatusError then
            let populated := data.PopulateFromClientResponse networkResponse.PrivateNetwork
            let data := populated.1
            let resp := resp.Append populated.2
            if resp.HasError then some resp
            else
              let resp := Run.StateSet fw resp data
              if resp.HasError then some resp
              else if status = sagadata.PrivateNetworkStatusError then
                some (resp.AddError "Provisioning Error"
                  (Detail.generateErrorMessage "polling private network"
                    GoError.ErrResourceInErrorState))
              else some resp
          else PrivateNetworkResource.Create.loop client fw networkId fuel data resp

/-- The request body that `PrivateNetworkResource.Create` builds from the plan (the
statements from `body := sagadata.CreatePrivateNetworkJSONRequestBody{}` up to the call). -/
def PrivateNetworkResource.Create.body (data : PrivateNetworkResourceModel) :
    sagadata.CreatePrivateNetworkJSONRequestBody :=
  let body : sagadata.CreatePrivateNetworkJSONRequestBody :=
    { CidrV4 := none, CidrV6 := none, Description := none, Name := "", Region := "" }
  let body := { body with Name := data.Name.ValueString }
  let body := { body with Region := data.Region.ValueString }
  let body :=
    if !data.Description.IsNull && !data.Description.IsUnknown then
      { body with Description := pointer data.Description.ValueString }
    else body
  let body :=
    if !data.CidrV4.IsNull && !data.CidrV4.IsUnknown then
      { body with CidrV4 := pointer data.CidrV4.ValueString }
    else body
  let body :=
    if !data.CidrV6.IsNull && !data.CidrV6.IsUnknown then
      { body with CidrV6 := pointer data.CidrV6.ValueString }
    else body
  body

/-- The method `PrivateNetworkResource.Create`, its settling loop bounded by `fuel`. -/
def PrivateNetworkResource.Create (client : Client)
    (fw : Framework PrivateNetworkResourceModel) (fuel : Nat) :
    Option (Run PrivateNetworkResourceModel) :=
  let data := fw.PlanGet.1
  let resp : Run PrivateNetworkResourceModel := Run.init none
  let resp := resp.Append fw.PlanGet.2
  if resp.HasError then some resp
  else
    match fw.ContextWithTimeout with
    | some diag => some (resp.Append diag)
    | none =>
      let body := PrivateNetworkResource.Create.body data
      let result := client.CreatePrivateNetworkWithResponse body
      let resp := resp.called (Event.CreatePrivateNetwork body result)
      match result with
      | .err err =>
        some (resp.AddError "Client Error"
          (Detail.generateErrorMessage "create private network" err))
      | .ok response =>
        match response.JSON201 with
        | none =>
          some (resp.AddError "Client Error"
            (Detail.generateClientErrorMessage "create private network"
              { Body := response.Body, HTTPResponse := response.HTTPResponse,
                Error := response.JSONDefault }))
        | some networkResponse =>
          let populated := data.PopulateFromClientResponse networkResponse.PrivateNetwork
          let data := populated.1
          let resp := resp.Append populated.2
          if resp.HasError then some resp
          else
            let resp := Run.StateSet fw resp data
            if resp.HasError then some resp
            else
              let networkId := networkResponse.PrivateNetwork.Id
              PrivateNetworkResource.Create.loop client fw networkId fuel data resp

/-- The disappearance loop of `PrivateNetworkResource.Delete` (the `for` statement after the
delete call), with at most `fuel` iterations: `none` when none of them returned. -/
def PrivateNetworkResource.Delete.loop (client : Client) (networkId : String) :
    Nat → Run PrivateNetworkResourceModel → Option (Run PrivateNetworkResourceModel)
  | 0, _ => none
  | fuel + 1, resp =>
    let err := client.PollingWait resp.waits
    let resp := resp.waited err
    match err with
    | some err =>
      some (resp.AddError "Polling Error"
        (Detail.generateErrorMessage "polling private network" err))
    | none =>
      let result := client.GetPrivateNetworkWithResponse resp.reads networkId
      let resp := resp.polled (Event.GetPrivateNetwork networkId result)
      match result with
      | .err err =>
        some (resp.AddError "Client Error"
          (Detail.generateErrorMessage "polling private network" err))
      | .ok response =>
        if response.StatusCode = 404 then some resp
        else PrivateNetworkResource.Delete.loop client networkId fuel resp

/-- The method `PrivateNetworkResource.Delete`, its disappearance loop bounded by `fuel`.
The response state starts as the prior state. -/
def PrivateNetworkResource.Delete (client : Client)
    (fw : Framework PrivateNetworkResourceModel) (fuel : Nat) :
    Option (Run PrivateNetworkResourceModel) :=
  let data := fw.StateGet.1
  let resp : Run PrivateNetworkResourceModel := Run.init (some fw.StateGet.1)
  let resp := resp.Append fw.StateGet.2
  if resp.HasError then some resp
  else
    match fw.ContextWithTimeout with
    | some diag => some (resp.Append diag)
    | none =>
      let networkId := data.Id.ValueString
      let result := client.DeletePrivateNetworkWithResponse networkId
      let resp := resp.called (Event.DeletePrivateNetwork networkId result)
      match result with
      | .err err =>
        some (resp.AddError "Client Error"
          (Detail.generateErrorMessage "delete private network" err))
      | .ok response =>
        if response.StatusCode ≠ 204 then
          some (resp.AddError "Client Error"
            (Detail.generateClientErrorMessage "delete private network"
              { Body := response.Body, HTTPResponse := response.HTTPResponse,
                Error := response.JSONDefault }))
        else PrivateNetworkResource.Delete.loop client networkId fuel resp

/-- The request body that `KubernetesClusterResource.Update` builds from the plan (the
statements from `body := sagadata.UpdateKubernetesClusterJSONRequestBody{}` up to the call). -/
def KubernetesClusterResource.Update.body (data : KubernetesClusterResourceModel) :
    sagadata.UpdateKubernetesClusterJSONRequestBody :=
  let body : sagadata.UpdateKubernetesClusterJSONRequestBody := { Network := none }
  let body :=
    if !data.Network.IsNull && !data.Network.IsUnknown then
      { body with Network := data.Network.ValueStringPointer }
    else body
  body

/-- The request body that `PrivateNetworkResource.Update` builds from the plan (the
statements from `body := sagadata.UpdatePrivateNetworkJSONRequestBody{}` up to the call). -/
def PrivateNetworkResource.Update.body (data : PrivateNetworkResourceModel) :
    sagadata.UpdatePrivateNetworkJSONRequestBody :=
  let body : sagadata.UpdatePrivateNetworkJSONRequestBody :=
    { Description := none, Name := none }
  let body := { body with Name := pointer data.Name.ValueString }
  let body := { body with Description := pointer data.Description.ValueString }
  body

/-! ## Data source and instance status models -/

/-- The timeouts block of a data source model (`datasource/timeouts.Value`). -/
structure DataSourceTimeoutsValue where
  Read : TfString
  deriving DecidableEq, Repr

/-- The model `KubernetesClusterDataSourceModel`. -/
structure KubernetesClusterDataSourceModel where
  Id : TfString
  Name : TfString
  Network : TfString
  Status : TfString
  CreatedAt : TfString
  UpdatedAt : TfString
  Kubeconfig : TfString
  JoinCommand : TfString
  Timeouts : DataSourceTimeoutsValue
  deriving DecidableEq, Repr

/-- The method `PopulateFromClientResponse` of `KubernetesClusterDataSourceModel`: the updated
model and the returned diagnostics (the named result is never assigned, hence nil). -/
def KubernetesClusterDataSourceModel.PopulateFromClientResponse
    (data : KubernetesClusterDataSourceModel) (cluster : sagadata.KubernetesCluster) :
    KubernetesClusterDataSourceModel × Diagnostics :=
  let data := { data with CreatedAt := types.StringValue cluster.CreatedAt.Format }
  let data := { data with Id := types.StringValue cluster.Id }
  let data := { data with Name := types.StringValue cluster.Name }
  let data := { data with Status := types.StringValue cluster.Status }
  let data := { data with UpdatedAt := types.StringValue cluster.UpdatedAt.Format }
  let data :=
    match cluster.Network with
    | some network => { data with Network := types.StringValue network }
    | none => { data with Network := types.StringNull }
  (data, [])

/-- The method `PopulateCredentialsFromClientResponse` of `KubernetesClusterDataSourceModel`:
the updated model and the returned diagnostics (nil). -/
def KubernetesClusterDataSourceModel.PopulateCredentialsFromClientResponse
    (data : KubernetesClusterDataSourceModel) (creds : sagadata.K8sClusterCredentialsResponse) :
    KubernetesClusterDataSourceModel × Diagnostics :=
  let data := { data with Kubeconfig := types.StringValue creds.Kubeconfig }
  let data :=
    match creds.JoinCommand with
    | some joinCommand => { data with JoinCommand := types.StringValue joinCommand }
    | none => { data with JoinCommand := types.StringNull }
  (data, [])

/-- The remote record `sagadata.Instance`, reduced to the fields the package reads here;
`Status` is a string-typed enum. -/
structure sagadata.Instance where
  Id : String
  Status : String
  deriving DecidableEq, Repr

/-- The model `InstanceStatusResourceModel`. -/
structure InstanceStatusResourceModel where
  InstanceId : TfString
  Status : TfString
  Timeouts : TimeoutsValue
  deriving DecidableEq, Repr

/-- The method `PopulateFromClientResponse` of `InstanceStatusResourceModel`: the updated
model and the returned diagnostics (nil). -/
def InstanceStatusResourceModel.PopulateFromClientResponse
    (data : InstanceStatusResourceModel) (remote : sagadata.Instance) :
    InstanceStatusResourceModel × Diagnostics :=
  let data := { data with InstanceId := types.StringValue remote.Id }
  let data := { data with Status := types.StringValue remote.Status }
  (data, [])

/-! ## Kubernetes cluster data source -/

/-- The plugin framework and the timeout scope, as seen by the Read of a data source on a
model `M`: `ConfigGet` is the decoded model and the diagnostics of `req.Config.Get`;
`ContextWithTimeout` is the diagnostics of the timeout scope, nil when the bounded context was
derived; `StateSet k m` is the diagnostics of the call of `resp.State.Set` on `m` that follows
`k` earlier calls. -/
structure DataSourceFramework (M : Type) where
  ConfigGet : M × Diagnostics
  ContextWithTimeout : Option Diagnostics
  StateSet : Nat → M → Diagnostics

/-- The statement `resp.Diagnostics.Append(resp.State.Set(ctx, &data)...)` of a data source:
the framework stores the model unless setting it reports an error, and the diagnostics are
appended. -/
def Run.DataSourceStateSet {M : Type} (fw : DataSourceFramework M) (resp : Run M) (data : M) :
    Run M :=
  let ds := fw.StateSet resp.sets data
  { resp with
    Diagnostics := Provider.Diagnostics.Append resp.Diagnostics ds
    State := if Provider.Diagnostics.HasError ds then resp.State else some data
    sets := resp.sets + 1 }

/-- The method `KubernetesClusterDataSource.Read`. The response state starts null; the read of
the cluster is counted like a polling read. -/
def KubernetesClusterDataSource.Read (client : Client)
    (fw : DataSourceFramework KubernetesClusterDataSourceModel) :
    Run KubernetesClusterDataSourceModel :=
  let data := fw.ConfigGet.1
  let resp : Run KubernetesClusterDataSourceModel := Run.init none
  let resp := resp.Append fw.ConfigGet.2
  if resp.HasError then resp
  else
    match fw.ContextWithTimeout with
    | some diag => resp.Append diag
    | none =>
      let clusterId := data.Id.ValueString
      let result := client.GetKubernetesClusterWithResponse resp.reads clusterId
      let resp := resp.polled (Event.GetKubernetesCluster clusterId result)
      match result with
      | .err err =>
        resp.AddError "Client Error" (Detail.generateErrorMessage "read kubernetes cluster" err)
      | .ok clusterResponse =>
        match clusterResponse.JSON200 with
        | none =>
          resp.AddError "Client Error"
            (Detail.generateClientErrorMessage "read kubernetes cluster"
              { Body := clusterResponse.Body, HTTPResponse := clusterResponse.HTTPResponse,
                Error := clusterResponse.JSONDefault })
        | some clusterData =>
          let populated := data.PopulateFromClientResponse clusterData.Cluster
          let data := populated.1
          let resp := resp.Append populated.2
          if resp.HasError then resp
          else
            let credsResult := client.GetKubernetesClusterCredentialsWithResponse clusterId
            let resp :=
              resp.called (Event.GetKubernetesClusterCredentials clusterId credsResult)
            match credsResult with
            | .err err =>
              resp.AddError "Client Error"
                (Detail.generateErrorMessage "read kubernetes cluster credentials" err)
            | .ok credsResponse =>
              match credsResponse.JSON200 with
              | none =>
                resp.AddError "Client Error"
                  (Detail.generateClientErrorMessage "read kubernetes cluster credentials"
                    { Body := credsResponse.Body, HTTPResponse := credsResponse.HTTPResponse,
                      Error := credsResponse.JSONDefault })
              | some credsData =>
                let populated := data.PopulateCredentialsFromClientResponse credsData
                let data := populated.1
                let resp := resp.Append populated.2
                if resp.HasError then resp
                else Run.DataSourceStateSet fw resp data

/-! ## The provider -/

/-- The resource constructors of the package, as referred to by `Resources`. -/
inductive ResourceConstructor where
  | NewInstanceResource
  | NewInstanceStatusResource
  | NewSSHKeyResource
  | NewFloatingIPResource
  | NewVolumeResource
  | NewFilesystemResource
  | NewSecurityGroupResource
  | NewSnapshotResource
  | NewPrivateNetworkResource
  | NewKubernetesClusterResource
  deriving DecidableEq, Repr

/-- The data source constructors of the package, as referred to by `DataSources`. -/
inductive DataSourceConstructor where
  | NewImagesDataSource
  | NewKubernetesClusterDataSource
  deriving DecidableEq, Repr

/-- The method `SagaDataProvider.Resources`: the list it returns. -/
def SagaDataProvider.Resources : List ResourceConstructor :=
  [ ResourceConstructor.NewInstanceResource,
    ResourceConstructor.NewInstanceStatusResource,
    ResourceConstructor.NewSSHKeyResource,
    ResourceConstructor.NewFloatingIPResource,
    ResourceConstructor.NewVolumeResource,
    ResourceConstructor.NewFilesystemResource,
    ResourceConstructor.NewSecurityGroupResource,
    ResourceConstructor.NewSnapshotResource,
    ResourceConstructor.NewPrivateNetworkResource ]

/-- The method `SagaDataProvider.DataSources`: the list it returns. -/
def SagaDataProvider.DataSources : List DataSourceConstructor :=
  [ DataSourceConstructor.NewImagesDataSource ]

/-- The model `SagaDataProviderModel`. -/
structure SagaDataProviderModel where
  Endpoint : TfString
  Token : TfString
  PollingInterval : TfString
  deriving DecidableEq, Repr

/-- A `time.Duration`, in nanoseconds. -/
abbrev Duration := Int

/-- The constant `time.Second`. -/
def time.Second : Duration := 1000000000

/-- The package's `ClientConfig`: the embedded `sagadata.ClientConfig` (endpoint and token) and
the polling interval. -/
structure ClientConfig where
  Endpoint : String
  Token : String
  PollingInterval : Duration
  deriving DecidableEq, Repr

/-- What `Configure` consults outside the package: `req.Config.Get` (decoded model and
diagnostics), `os.Getenv`, `time.ParseDuration` (the duration, or the text of the error), the
constant `sagadata.DefaultEndpoint`, and the package's `NewClient`, of which only the error
text matters here (`none`: the client was built). -/
structure ConfigureHost where
  ConfigGet : SagaDataProviderModel × Diagnostics
  Getenv : String → String
  ParseDuration : String → Except String Duration
  DefaultEndpoint : String
  NewClient : ClientConfig → Option String

/-- The response of `Configure`: its diagnostics, the client stored for data sources and for
resources (a built client is identified by the configuration it was built from), and the
configuration `NewClient` was called with, if it was called. -/
structure ConfigureResponse where
  Diagnostics : Diagnostics
  DataSourceData : Option ClientConfig
  ResourceData : Option ClientConfig
  newClient : Option ClientConfig
  deriving DecidableEq, Repr

/-- The statement `resp.Diagnostics.AddAttributeError(path.Root(path), summary, detail)`. -/
def Diagnostics.AddAttributeError (ds : Diagnostics) (path summary detail : String) :
    Diagnostics :=
  Diagnostics.Append ds
    [{ severity := Severity.Error, summary := summary, detail := Detail.attribute path detail }]

/-- The method `SagaDataProvider.Configure`. -/
def SagaDataProvider.Configure (host : ConfigureHost) : ConfigureResponse :=
  let data := host.ConfigGet.1
  let diags : Diagnostics := Diagnostics.Append [] host.ConfigGet.2
  if Diagnostics.HasError diags then
    { Diagnostics := diags, DataSourceData := none, ResourceData := none, newClient := none }
  else
    let diags :=
      if data.Endpoint.IsUnknown then
        Diagnostics.AddAttributeError diags "endpoint" "Unknown Saga Data API endpoint"
          ("The provider cannot create the Saga Data API client as there is an unknown " ++
            "configuration value for the Saga Data API endpoint. " ++
            "Either target apply the source of the value first, set the value statically in " ++
            "the configuration, or use the SAGADATA_ENDPOINT environment variable.")
      else diags
    let diags :=
      if data.Token.IsUnknown then
        Diagnostics.AddAttributeError diags "token" "Unknown Saga Data API token"
          ("The provider cannot create the Saga Data API client as there is an unknown " ++
            "configuration value for the Saga Data API token. " ++
            "Either target apply the source of the value first, set the value statically in " ++
            "the configuration, or use the SAGADATA_TOKEN environment variable.")
      else diags
    let diags :=
      if data.PollingInterval.IsUnknown then
        Diagnostics.AddAttributeError diags "polling_interval" "Unknown Polling Interval"
          ("The provider cannot create the Saga Data API client as there is an unknown " ++
            "configuration value for the Polling Interval. " ++
            "Either target apply the source of the value first, set the value statically in " ++
            "the configuration, or remove it to use the default.")
      else diags
    if Diagnostics.HasError diags then
      { Diagnostics := diags, DataSourceData := none, ResourceData := none, newClient := none }
    else
      let endpoint := host.Getenv "SAGADATA_ENDPOINT"
      let token := host.Getenv "SAGADATA_TOKEN"
      let pollingInterval : Duration := 2 * time.Second
      let endpoint := if !data.Endpoint.IsNull then data.Endpoint.ValueString else endpoint
      let token := if !data.Token.IsNull then data.Token.ValueString else token
      let parsed : Except String Duration :=
        if !data.PollingInterval.IsNull then
          host.ParseDuration data.PollingInterval.ValueString
        else .ok pollingInterval
      match parsed with
      | .error err =>
        { Diagnostics :=
            Diagnostics.AddAttributeError diags "polling_interval" "Timeout Cannot Be Parsed" err,
          DataSourceData := none, ResourceData := none, newClient := none }
      | .ok pollingInterval =>
        let endpoint := if endpoint = "" then host.DefaultEndpoint else endpoint
        let diags :=
          if token = "" then
            Diagnostics.AddAttributeError diags "token" "Missing Saga Data API token"
              ("The provider cannot create the Saga Data API client as there is a missing or " ++
                "empty value for the Saga Data API token. " ++
                "Set the token value in the configuration or use the SAGADATA_TOKEN " ++
                "environment variable. " ++
                "If either is already set, ensure the value is not empty.")
          else diags
        if Diagnostics.HasError diags then
          { Diagnostics := diags, DataSourceData := none, ResourceData := none,
            newClient := none }
        else
          let config : ClientConfig :=
            { Endpoint := endpoint, Token := token, PollingInterval := pollingInterval }
          match host.NewClient config with
          | some err =>
            { Diagnostics :=
                Diagnostics.AddError diags "Unable to Create Saga Data API Client"
                  (Detail.text
                    ("An unexpected error occurred when creating the Saga Data API client. " ++
                      "If the error is not clear, please contact the provider developers.\n\n" ++
                      "Error: " ++ err)),
              DataSourceData := none, ResourceData := none, newClient := some config }
          | none =>
            { Diagnostics := diags, DataSourceData := some config, ResourceData := some config,
              newClient := some config }

/-! ## Observations on a run -/

/-- The calls to the remote API in a trace, in order (poll waits skipped). -/
def remoteCalls (calls : List Event) : List Event :=
  calls.filter Event.isRemote

/-- The last call to the remote API in a trace (poll waits skipped). -/
def lastRemote (calls : List Event) : Option Event :=
  (calls.filter Event.isRemote).getLast?

/-- The record of the 201 body of the create call that opens a Kubernetes cluster trace. -/
def KubernetesClusterResource.created : List Event → Option sagadata.KubernetesCluster
  | Event.CreateKubernetesCluster _ (.ok response) :: _ =>
    response.JSON201.map (fun b => b.Cluster)
  | _ => none

/-- The record of the 200 body of the read that ends a Kubernetes cluster trace, when the last
interaction is such a read. -/
def KubernetesClusterResource.lastRead (calls : List Event) : Option sagadata.KubernetesCluster :=
  match calls.getLast? with
  | some (Event.GetKubernetesCluster _ (.ok response)) => response.JSON200.map (fun b => b.Cluster)
  | _ => none

/-- The record of the 201 body of the create call that opens a private network trace. -/
def PrivateNetworkResource.created : List Event → Option sagadata.PrivateNetwork
  | Event.CreatePrivateNetwork _ (.ok response) :: _ =>
    response.JSON201.map (fun b => b.PrivateNetwork)
  | _ => none

/-- The record of the 200 body of the read that ends a private network trace, when the last
interaction is such a read. -/
def PrivateNetworkResource.lastRead (calls : List Event) : Option sagadata.PrivateNetwork :=
  match calls.getLast? with
  | some (Event.GetPrivateNetwork _ (.ok response)) =>
    response.JSON200.map (fun b => b.PrivateNetwork)
  | _ => none

/-- The record of the 200 body of the last call to the remote API in a Kubernetes cluster
trace, when that call is such a read. -/
def KubernetesClusterResource.lastRemoteRead (calls : List Event) :
    Option sagadata.KubernetesCluster :=
  match lastRemote calls with
  | some (Event.GetKubernetesCluster _ (.ok response)) => response.JSON200.map (fun b => b.Cluster)
  | _ => none

/-- The record of the 200 body of the last call to the remote API in a private network trace,
when that call is such a read. -/
def PrivateNetworkResource.lastRemoteRead (calls : List Event) :
    Option sagadata.PrivateNetwork :=
  match lastRemote calls with
  | some (Event.GetPrivateNetwork _ (.ok response)) =>
    response.JSON200.map (fun b => b.PrivateNetwork)
  | _ => none

/-! ## Example environments -/

/-- A sample instant. -/
def Example.t0 : Time := ⟨"2024-05-01T10:00:00Z"⟩

/-- A later sample instant. -/
def Example.t1 : Time := ⟨"2024-05-01T10:00:07Z"⟩

/-- A sample remote cluster with the given status and update time. -/
def Example.cluster (status : String) (updated : Time) : sagadata.KubernetesCluster :=
  { CreatedAt := Example.t0, Id := "k8s-1", Name := "demo", Network := some "net-1",
    Status := status, UpdatedAt := updated }

/-- A sample remote private network with the given status and update time. -/
def Example.network (status : String) (updated : Time) : sagadata.PrivateNetwork :=
  { CidrV4 := some "10.0.0.0/24", CidrV6 := none, CreatedAt := Example.t0, Description := "",
    Id := "net-1", Name := "lan", Region := "NORD-NO-KRS-1", Status := status,
    UpdatedAt := updated }

/-- A cluster response with the given HTTP status and no decoded body. -/
def Example.clusterStatus (code : Int) : sagadata.KubernetesClusterResponse :=
  { Body := "", HTTPResponse := some ⟨code⟩, JSON200 := none, JSON201 := none,
    JSONDefault := none }

/-- A 200 response carrying a cluster. -/
def Example.cluster200 (c : sagadata.KubernetesCluster) : sagadata.KubernetesClusterResponse :=
  { Example.clusterStatus 200 with JSON200 := some ⟨c⟩ }

/-- A 201 response carrying a cluster. -/
def Example.cluster201 (c : sagadata.KubernetesCluster) : sagadata.KubernetesClusterResponse :=
  { Example.clusterStatus 201 with JSON201 := some ⟨c⟩ }

/-- A network response with the given HTTP status and no decoded body. -/
def Example.networkStatus (code : Int) : sagadata.PrivateNetworkResponse :=
  { Body := "", HTTPResponse := some ⟨code⟩, JSON200 := none, JSON201 := none,
    JSONDefault := none }

/-- A 200 response carrying a private network. -/
def Example.network200 (n : sagadata.PrivateNetwork) : sagadata.PrivateNetworkResponse :=
  { Example.networkStatus 200 with JSON200 := some ⟨n⟩ }

/-- A 201 response carrying a private network. -/
def Example.network201 (n : sagadata.PrivateNetwork) : sagadata.PrivateNetworkResponse :=
  { Example.networkStatus 201 with JSON201 := some ⟨n⟩ }

/-- A client on which every remote call fails with a transport error and every poll wait
passes; the examples override the calls they script. -/
def Example.offline : Client :=
  { PollingWait := fun _ => none
    CreateKubernetesClusterWithResponse := fun _ => .err (.other "connection refused")
    GetKubernetesClusterWithResponse := fun _ _ => .err (.other "connection refused")
    UpdateKubernetesClusterWithResponse := fun _ _ => .err (.other "connection refused")
    DeleteKubernetesClusterWithResponse := fun _ => .err (.other "connection refused")
    GetKubernetesClusterCredentialsWithResponse := fun _ => .err (.other "connection refused")
    CreatePrivateNetworkWithResponse := fun _ => .err (.other "connection refused")
    GetPrivateNetworkWithResponse := fun _ _ => .err (.other "connection refused")
    UpdatePrivateNetworkWithResponse := fun _ _ => .err (.other "connection refused")
    DeletePrivateNetworkWithResponse := fun _ => .err (.other "connection refused") }

/-- A client scripted by its create answers, its successive read answers (the last one
repeats) and the index of the poll wait that is cancelled (`none`: no wait fails). -/
def Example.scripted (createK : CallResult sagadata.KubernetesClusterResponse)
    (readsK : List (CallResult sagadata.KubernetesClusterResponse))
    (createP : CallResult sagadata.PrivateNetworkResponse)
    (readsP : List (CallResult sagadata.PrivateNetworkResponse))
    (deadline : Option Nat) : Client :=
  { Example.offline with
    PollingWait := fun i =>
      if deadline = some i then some (.other "context deadline exceeded") else none
    CreateKubernetesClusterWithResponse := fun _ => createK
    GetKubernetesClusterWithResponse := fun i _ =>
      (readsK.get? (min i (readsK.length - 1))).getD (.err (.other "connection refused"))
    CreatePrivateNetworkWithResponse := fun _ => createP
    GetPrivateNetworkWithResponse := fun i _ =>
      (readsP.get? (min i (readsP.length - 1))).getD (.err (.other "connection refused")) }

/-- An empty timeouts block. -/
def Example.timeouts : TimeoutsValue := ⟨.null, .null, .null, .null⟩

/-- A planned cluster: name and network configured, computed attributes unknown. -/
def Example.clusterPlan : KubernetesClusterResourceModel :=
  { CreatedAt := .unknown, Id := .unknown, Name := .value "demo", Network := .value "net-1",
    Status := .unknown, UpdatedAt := .unknown, Timeouts := Example.timeouts }

/-- A planned private network. -/
def Example.networkPlan : PrivateNetworkResourceModel :=
  { CreatedAt := .unknown, CidrV4 := .value "10.0.0.0/24", CidrV6 := .null,
    Description := .value "", Id := .unknown, Name := .value "lan",
    Region := .value "NORD-NO-KRS-1", Status := .unknown, UpdatedAt := .unknown,
    Timeouts := Example.timeouts }

/-- A stored cluster, as a prior state. -/
def Example.clusterState : KubernetesClusterResourceModel :=
  (Example.clusterPlan.PopulateFromClientResponse (Example.cluster "active" Example.t0)).1

/-- A stored private network, as a prior state. -/
def Example.networkState : PrivateNetworkResourceModel :=
  (Example.networkPlan.PopulateFromClientResponse (Example.network "created" Example.t0)).1

/-- A framework that decodes the given plan and prior state without diagnostics, derives the
bounded context, and stores every model without diagnostics. -/
def Example.framework {M : Type} (plan state : M) : Framework M :=
  { PlanGet := (plan, []), StateGet := (state, []), ContextWithTimeout := none,
    StateSet := fun _ _ => [] }

/-- The cluster framework of the examples. -/
def Example.clusterFw : Framework KubernetesClusterResourceModel :=
  Example.framework Example.clusterPlan Example.clusterState

/-- The private network framework of the examples. -/
def Example.networkFw : Framework PrivateNetworkResourceModel :=
  Example.framework Example.networkPlan Example.networkState

/-- The transport error of the examples. -/
def Example.refused : GoError := .other "connection refused"

/-- The cancellation error of the examples. -/
def Example.deadlineExceeded : GoError := .other "context deadline exceeded"

/-- A client that creates a cluster (a network) in status "creating", reads it twice in that
status and then as settled: "active" (resp. "created"). -/
def Example.settling : Client :=
  Example.scripted
    (.ok (Example.cluster201 (Example.cluster "creating" Example.t0)))
    [.ok (Example.cluster200 (Example.cluster "creating" Example.t0)),
     .ok (Example.cluster200 (Example.cluster "creating" Example.t1)),
     .ok (Example.cluster200 (Example.cluster "active" Example.t1))]
    (.ok (Example.network201 (Example.network "creating" Example.t0)))
    [.ok (Example.network200 (Example.network "creating" Example.t0)),
     .ok (Example.network200 (Example.network "creating" Example.t1)),
     .ok (Example.network200 (Example.network "created" Example.t1))]
    none

/-- A client that creates a cluster (a network) whose first read reports status "error". -/
def Example.failing : Client :=
  Example.scripted
    (.ok (Example.cluster201 (Example.cluster "creating" Example.t0)))
    [.ok (Example.cluster200 (Example.cluster "error" Example.t1))]
    (.ok (Example.network201 (Example.network "creating" Example.t0)))
    [.ok (Example.network200 (Example.network "error" Example.t1))]
    none

/-- A client that creates a cluster (a network) in status "creating" and reads it for ever in
the transient status "provisioning"; the poll wait of the given index is cancelled. -/
def Example.stalled (deadline : Option Nat) : Client :=
  Example.scripted
    (.ok (Example.cluster201 (Example.cluster "creating" Example.t0)))
    [.ok (Example.cluster200 (Example.cluster "provisioning" Example.t1))]
    (.ok (Example.network201 (Example.network "creating" Example.t0)))
    [.ok (Example.network200 (Example.network "provisioning" Example.t1))]
    deadline

/-- A client that accepts a deletion with status 204 and answers the following reads with the
given status codes (the last one repeats). -/
def Example.deleting (codes : List Int) : Client :=
  { Example.scripted (.err Example.refused)
      (codes.map (fun code => .ok (Example.clusterStatus code)))
      (.err Example.refused)
      (codes.map (fun code => .ok (Example.networkStatus code))) none with
    DeleteKubernetesClusterWithResponse := fun _ => .ok (Example.clusterStatus 204)
    DeletePrivateNetworkWithResponse := fun _ => .ok (Example.networkStatus 204) }

/-- A client that creates a cluster (a network) and then answers every read with a typed
not-found: status 404, no 200 body. -/
def Example.vanishing : Client :=
  Example.scripted
    (.ok (Example.cluster201 (Example.cluster "creating" Example.t0)))
    [.ok (Example.clusterStatus 404)]
    (.ok (Example.network201 (Example.network "creating" Example.t0)))
    [.ok (Example.networkStatus 404)]
    none

/-- A client that answers every read and every update with a 200 body: the cluster in status
"active", the private network in status "created". -/
def Example.serving : Client :=
  { Example.scripted (.err Example.refused)
      [.ok (Example.cluster200 (Example.cluster "active" Example.t1))]
      (.err Example.refused)
      [.ok (Example.network200 (Example.network "created" Example.t1))] none with
    UpdateKubernetesClusterWithResponse := fun _ _ =>
      .ok (Example.cluster200 (Example.cluster "active" Example.t1))
    UpdatePrivateNetworkWithResponse := fun _ _ =>
      .ok (Example.network200 (Example.network "created" Example.t1)) }

/-- A host for `Configure`: the given configuration, decoded without diagnostics, the two
environment variables, a duration reader that knows "5s" only, and a `NewClient` that
always builds the client. -/
def Example.host (config : SagaDataProviderModel) (envEndpoint envToken : String) :
    ConfigureHost :=
  { ConfigGet := (config, [])
    Getenv := fun key =>
      if key = "SAGADATA_ENDPOINT" then envEndpoint
      else if key = "SAGADATA_TOKEN" then envToken
      else ""
    ParseDuration := fun s =>
      if s = "5s" then .ok (5 * time.Second) else .error "time: invalid duration"
    DefaultEndpoint := "https://api.sagadata.example"
    NewClient := fun _ => none }

/-- Sample credentials of a cluster. -/
def Example.credentials : sagadata.K8sClusterCredentialsResponse :=
  { Kubeconfig := "apiVersion: v1", JoinCommand := some "kubeadm join 10.0.0.2:6443" }

/-- The serving client, answering the credentials call with a 200 body as well. -/
def Example.credentialed : Client :=
  { Example.serving with
    GetKubernetesClusterCredentialsWithResponse := fun _ =>
      .ok { Body := "", HTTPResponse := some ⟨200⟩, JSON200 := some Example.credentials,
            JSONDefault := none } }

/-- The configuration of a cluster data source: the id alone is set. -/
def Example.clusterConfig : KubernetesClusterDataSourceModel :=
  { Id := .value "k8s-1", Name := .null, Network := .null, Status := .null, CreatedAt := .null,
    UpdatedAt := .null, Kubeconfig := .null, JoinCommand := .null, Timeouts := ⟨.null⟩ }

/-- The data source framework of the examples: the configuration is decoded without
diagnostics, the bounded context is derived and the state is stored without diagnostics. -/
def Example.dataSourceFw : DataSourceFramework KubernetesClusterDataSourceModel :=
  { ConfigGet := (Example.clusterConfig, []), ContextWithTimeout := none,
    StateSet := fun _ _ => [] }

/-! ## Kubernetes cluster: loop entry -/

/-- The response of `KubernetesClusterResource.Create` right before its settling loop, after a
create call that returned `result`, with `data` the model projected from the 201 body. -/
def KubernetesClusterResource.Create.entry (client : Client)
    (fw : Framework KubernetesClusterResourceModel) (data : KubernetesClusterResourceModel) :
    Run KubernetesClusterResourceModel :=
  Run.StateSet fw
    (((Run.init none).Append fw.PlanGet.2).called
      (Event.CreateKubernetesCluster (KubernetesClusterResource.Create.body fw.PlanGet.1)
        (client.CreateKubernetesClusterWithResponse
          (KubernetesClusterResource.Create.body fw.PlanGet.1)))) data

/-- The response of `KubernetesClusterResource.Delete` right before its disappearance loop,
after the delete call. -/
def KubernetesClusterResource.Delete.entry (client : Client)
    (fw : Framework KubernetesClusterResourceModel) : Run KubernetesClusterResourceModel :=
  ((Run.init (some fw.StateGet.1)).Append fw.StateGet.2).called
    (Event.DeleteKubernetesCluster fw.StateGet.1.Id.ValueString
      (client.DeleteKubernetesClusterWithResponse fw.StateGet.1.Id.ValueString))

/-- The method `KubernetesClusterResource.Read`. The response state starts as the stored
state; the single read is counted like a polling read. -/
def KubernetesClusterResource.Read (client : Client)
    (fw : Framework KubernetesClusterResourceModel) : Run KubernetesClusterResourceModel :=
  let data := fw.StateGet.1
  let resp : Run KubernetesClusterResourceModel := Run.init (some fw.StateGet.1)
  let resp := resp.Append fw.StateGet.2
  if resp.HasError then resp
  else
    match fw.ContextWithTimeout with
    | some diag => resp.Append diag
    | none =>
      let clusterId := data.Id.ValueString
      let result := client.GetKubernetesClusterWithResponse resp.reads clusterId
      let resp := resp.polled (Event.GetKubernetesCluster clusterId result)
      match result with
      | .err err =>
        resp.AddError "Client Error" (Detail.generateErrorMessage "read kubernetes cluster" err)
      | .ok response =>
        match response.JSON200 with
        | none =>
          resp.AddError "Client Error"
            (Detail.generateClientErrorMessage "read kubernetes cluster"
              { Body := response.Body, HTTPResponse := response.HTTPResponse,
                Error := response.JSONDefault })
        | some clusterResponse =>
          let populated := data.PopulateFromClientResponse clusterResponse.Cluster
          let data := populated.1
          let resp := resp.Append populated.2
          if resp.HasError then resp
          else Run.StateSet fw resp data

/-- The method `KubernetesClusterResource.Update`. The response state starts as the prior
state. -/
def KubernetesClusterResource.Update (client : Client)
    (fw : Framework KubernetesClusterResourceModel) : Run KubernetesClusterResourceModel :=
  let data := fw.PlanGet.1
  let resp : Run KubernetesClusterResourceModel := Run.init (some fw.StateGet.1)
  let resp := resp.Append fw.PlanGet.2
  if resp.HasError then resp
  else
    match fw.ContextWithTimeout with
    | some diag => resp.Append diag
    | none =>
      let body := KubernetesClusterResource.Update.body data
      let clusterId := data.Id.ValueString
      let result := client.UpdateKubernetesClusterWithResponse clusterId body
      let resp := resp.called (Event.UpdateKubernetesCluster clusterId body result)
      match result with
      | .err err =>
        resp.AddError "Client Error"
          (Detail.generateErrorMessage "update kubernetes cluster" err)
      | .ok response =>
        match response.JSON200 with
        | none =>
          resp.AddError "Client Error"
            (Detail.generateClientErrorMessage "update kubernetes cluster"
              { Body := response.Body, HTTPResponse := response.HTTPResponse,
                Error := response.JSONDefault })
        | some clusterResponse =>
          let populated := data.PopulateFromClientResponse clusterResponse.Cluster
          let data := populated.1
          let resp := resp.Append populated.2
          if resp.HasError then resp
          else Run.StateSet fw resp data

/-! ## Private network: loop entry -/

/-- The response of `PrivateNetworkResource.Create` right before its settling loop, after a
create call that returned `result`, with `data` the model projected from the 201 body. -/
def PrivateNetworkResource.Create.entry (client : Client)
    (fw : Framework PrivateNetworkResourceModel) (data : PrivateNetworkResourceModel) :
    Run PrivateNetworkResourceModel :=
  Run.StateSet fw
    (((Run.init none).Append fw.PlanGet.2).called
      (Event.CreatePrivateNetwork (PrivateNetworkResource.Create.body fw.PlanGet.1)
        (client.CreatePrivateNetworkWithResponse
          (PrivateNetworkResource.Create.body fw.PlanGet.1)))) data

/-- The response of `PrivateNetworkResource.Delete` right before its disappearance loop,
after the delete call. -/
def PrivateNetworkResource.Delete.entry (client : Client)
    (fw : Framework PrivateNetworkResourceModel) : Run PrivateNetworkResourceModel :=
  ((Run.init (some fw.StateGet.1)).Append fw.StateGet.2).called
    (Event.DeletePrivateNetwork fw.StateGet.1.Id.ValueString
      (client.DeletePrivateNetworkWithResponse fw.StateGet.1.Id.ValueString))

/-- The method `PrivateNetworkResource.Read`. The response state starts as the stored
state; the single read is counted like a polling read. -/
def PrivateNetworkResource.Read (client : Client)
    (fw : Framework PrivateNetworkResourceModel) : Run PrivateNetworkResourceModel :=
  let data := fw.StateGet.1
  let resp : Run PrivateNetworkResourceModel := Run.init (some fw.StateGet.1)
  let resp := resp.Append fw.StateGet.2
  if resp.HasError then resp
  else
    match fw.ContextWithTimeout with
    | some diag => resp.Append diag
    | none =>
      let networkId := data.Id.ValueString
      let result := client.GetPrivateNetworkWithResponse resp.reads networkId
      let resp := resp.polled (Event.GetPrivateNetwork networkId result)
      match result with
      | .err err =>
        resp.AddError "Client Error" (Detail.generateErrorMessage "read private network" err)
      | .ok response =>
        match response.JSON200 with
        | none =>
          resp.AddError "Client Error"
            (Detail.generateClientErrorMessage "read private network"
              { Body := response.Body, HTTPResponse := response.HTTPResponse,
                Error := response.JSONDefault })
        | some clusterResponse =>
          let populated := data.PopulateFromClientResponse clusterResponse.PrivateNetwork
          let data := populated.1
          let resp := resp.Append populated.2
          if resp.HasError then resp
          else Run.StateSet fw resp data

/-- The method `PrivateNetworkResource.Update`. The response state starts as the prior
state. -/
def PrivateNetworkResource.Update (client : Client)
    (fw : Framework PrivateNetworkResourceModel) : Run PrivateNetworkResourceModel :=
  let data := fw.PlanGet.1
  let resp : Run PrivateNetworkResourceModel := Run.init (some fw.StateGet.1)
  let resp := resp.Append fw.PlanGet.2
  if resp.HasError then resp
  else
    match fw.ContextWithTimeout with
    | some diag => resp.Append diag
    | none =>
      let body := PrivateNetworkResource.Update.body data
      let networkId := data.Id.ValueString
      let result := client.UpdatePrivateNetworkWithResponse networkId body
      let resp := resp.called (Event.UpdatePrivateNetwork networkId body result)
      match result with
      | .err err =>
        resp.AddError "Client Error"
          (Detail.generateErrorMessage "update private network" err)
      | .ok response =>
        match response.JSON200 with
        | none =>
          resp.AddError "Client Error"
            (Detail.generateClientErrorMessage "update private network"
              { Body := response.Body, HTTPResponse := response.HTTPResponse,
                Error := response.JSONDefault })
        | some clusterResponse =>
          let populated := data.PopulateFromClientResponse clusterResponse.PrivateNetwork
          let data := populated.1
          let resp := resp.Append populated.2
          if resp.HasError then resp
          else Run.StateSet fw resp data

/-! ## Diagnostics lemmas -/

theorem Diagnostics.Append_nil (ds : Diagnostics) : Diagnostics.Append ds [] = ds := rfl

theorem Diagnostics.Append_cons (ds : Diagnostics) (d : Diagnostic) (new : Diagnostics) :
    Diagnostics.Append ds (d :: new) =
      Diagnostics.Append (if d ∈ ds then ds else ds ++ [d]) new := rfl

theorem Diagnostics.HasError_eq_false_iff (ds : Diagnostics) :
    Diagnostics.HasError ds = false ↔ ∀ d ∈ ds, d.severity ≠ Severity.Error := by
  simp [Diagnostics.HasError]

theorem Diagnostics.HasError_nil : Diagnostics.HasError [] = false := rfl

theorem Diagnostics.HasError_concat (ds es : Diagnostics) :
    Diagnostics.HasError (ds ++ es) = (Diagnostics.HasError ds || Diagnostics.HasError es) := by
  simp [Diagnostics.HasError]

theorem Diagnostics.HasError_Append (ds new : Diagnostics) :
    Diagnostics.HasError (Diagnostics.Append ds new) =
      (Diagnostics.HasError ds || Diagnostics.HasError new) := by
  induction new generalizing ds with
  | nil => simp [Diagnostics.Append_nil, Diagnostics.HasError_nil]
  | cons d new ih =>
    rw [Diagnostics.Append_cons, ih]
    by_cases hd : d ∈ ds
    · have h1 : Diagnostics.HasError (d :: new) =
          (decide (d.severity = Severity.Error) || Diagnostics.HasError new) := by
        simp [Diagnostics.HasError]
      rw [if_pos hd, h1]
      by_cases he : d.severity = Severity.Error
      · have : Diagnostics.HasError ds = true := by
          simp only [Diagnostics.HasError, List.any_eq_true, decide_eq_true_eq]
          exact ⟨d, hd, he⟩
        simp [this]
      · simp [he]
    · rw [if_neg hd, Diagnostics.HasError_concat]
      simp [Diagnostics.HasError, Bool.or_assoc]

theorem Diagnostics.Errors_eq_nil (ds : Diagnostics) (h : Diagnostics.HasError ds = false) :
    Diagnostics.Errors ds = [] := by
  rw [Diagnostics.HasError_eq_false_iff] at h
  simp only [Diagnostics.Errors, List.filter_eq_nil_iff, decide_eq_true_eq]
  exact h

theorem Diagnostics.Errors_append (ds es : Diagnostics) :
    Diagnostics.Errors (ds ++ es) = Diagnostics.Errors ds ++ Diagnostics.Errors es := by
  simp [Diagnostics.Errors]

theorem Diagnostics.AddError_eq (ds : Diagnostics) (summary : String) (detail : Detail)
    (h : Diagnostics.HasError ds = false) :
    Diagnostics.AddError ds summary detail =
      ds ++ [{ severity := Severity.Error, summary := summary, detail := detail }] := by
  rw [Diagnostics.HasError_eq_false_iff] at h
  have hn : ({ severity := Severity.Error, summary := summary, detail := detail } : Diagnostic)
      ∉ ds := fun hmem => h _ hmem rfl
  simp [Diagnostics.AddError, Diagnostics.Append_cons, Diagnostics.Append_nil, hn]

theorem Diagnostics.HasError_AddError (ds : Diagnostics) (summary : String) (detail : Detail) :
    Diagnostics.HasError (Diagnostics.AddError ds summary detail) = true := by
  rw [Diagnostics.AddError, Diagnostics.HasError_Append]
  simp [Diagnostics.HasError]

theorem Diagnostics.Errors_AddError (ds : Diagnostics) (summary : String) (detail : Detail)
    (h : Diagnostics.HasError ds = false) :
    Diagnostics.Errors (Diagnostics.AddError ds summary detail) =
      [{ severity := Severity.Error, summary := summary, detail := detail }] := by
  rw [Diagnostics.AddError_eq ds summary detail h, Diagnostics.Errors_append,
    Diagnostics.Errors_eq_nil ds h]
  simp [Diagnostics.Errors]

theorem cluster_populate_snd (data : KubernetesClusterResourceModel)
    (cluster : sagadata.KubernetesCluster) : (data.PopulateFromClientResponse cluster).2 = [] := rfl

theorem network_populate_snd (data : PrivateNetworkResourceModel)
    (network : sagadata.PrivateNetwork) : (data.PopulateFromClientResponse network).2 = [] := rfl

theorem cluster_populate_twice (data : KubernetesClusterResourceModel)
    (c d : sagadata.KubernetesCluster) :
    ((data.PopulateFromClientResponse c).1.PopulateFromClientResponse d).1 =
      (data.PopulateFromClientResponse d).1 := by
  cases hc : c.Network <;> cases hd : d.Network <;>
    simp [KubernetesClusterResourceModel.PopulateFromClientResponse, hc, hd]

theorem network_populate_twice (data : PrivateNetworkResourceModel)
    (c d : sagadata.PrivateNetwork) :
    ((data.PopulateFromClientResponse c).1.PopulateFromClientResponse d).1 =
      (data.PopulateFromClientResponse d).1 := by
  cases h4 : c.CidrV4 <;> cases h6 : c.CidrV6 <;> cases k4 : d.CidrV4 <;> cases k6 : d.CidrV6 <;>
    simp [PrivateNetworkResourceModel.PopulateFromClientResponse, h4, h6, k4, k6]

theorem cluster_populate_status (data : KubernetesClusterResourceModel)
    (c : sagadata.KubernetesCluster) :
    (data.PopulateFromClientResponse c).1.Status = TfString.value c.Status := by
  cases hc : c.Network <;> simp [KubernetesClusterResourceModel.PopulateFromClientResponse, hc,
    types.StringValue]

theorem network_populate_status (data : PrivateNetworkResourceModel)
    (c : sagadata.PrivateNetwork) :
    (data.PopulateFromClientResponse c).1.Status = TfString.value c.Status := by
  cases h4 : c.CidrV4 <;> cases h6 : c.CidrV6 <;>
    simp [PrivateNetworkResourceModel.PopulateFromClientResponse, h4, h6, types.StringValue]

theorem cluster_populate_id (data : KubernetesClusterResourceModel)
    (c : sagadata.KubernetesCluster) :
    (data.PopulateFromClientResponse c).1.Id = TfString.value c.Id := by
  cases hc : c.Network <;> simp [KubernetesClusterResourceModel.PopulateFromClientResponse, hc,
    types.StringValue]

theorem network_populate_id (data : PrivateNetworkResourceModel)
    (c : sagadata.PrivateNetwork) :
    (data.PopulateFromClientResponse c).1.Id = TfString.value c.Id := by
  cases h4 : c.CidrV4 <;> cases h6 : c.CidrV6 <;>
    simp [PrivateNetworkResourceModel.PopulateFromClientResponse, h4, h6, types.StringValue]

theorem cluster_status_ne :
    sagadata.KubernetesClusterStatusActive ≠ sagadata.KubernetesClusterStatusError := by decide

theorem network_status_ne :
    sagadata.PrivateNetworkStatusCreated ≠ sagadata.PrivateNetworkStatusError := by decide

theorem lastRemote_append_wait (calls : List Event) (err : Option GoError) :
    lastRemote (calls ++ [Event.PollingWait err]) = lastRemote calls := by
  simp [lastRemote, List.filter_append, Event.isRemote]

theorem lastRemote_append_remote (calls : List Event) (e : Event) (he : e.isRemote = true) :
    lastRemote (calls ++ [e]) = some e := by
  simp [lastRemote, List.filter_append, he]

theorem remoteCalls_append (xs ys : List Event) :
    remoteCalls (xs ++ ys) = remoteCalls xs ++ remoteCalls ys := by
  simp [remoteCalls]

theorem remoteCalls_nil : remoteCalls [] = [] := rfl

/-! ## Configure -/

theorem Diagnostics.HasError_AddAttributeError (ds : Diagnostics) (path summary detail : String) :
    Diagnostics.HasError (Diagnostics.AddAttributeError ds path summary detail) = true :=
  Diagnostics.HasError_AddError ds summary (Detail.attribute path detail)

theorem Diagnostics.Errors_AddAttributeError (ds : Diagnostics) (path summary detail : String)
    (h : Diagnostics.HasError ds = false) :
    Diagnostics.Errors (Diagnostics.AddAttributeError ds path summary detail) =
      [{ severity := Severity.Error, summary := summary,
         detail := Detail.attribute path detail }] :=
  Diagnostics.Errors_AddError ds summary (Detail.attribute path detail) h

theorem configure_decoded_ok (host : ConfigureHost)
    (hget : Diagnostics.HasError host.ConfigGet.2 = false) :
    Diagnostics.HasError (Diagnostics.Append [] host.ConfigGet.2) = false := by
  rw [Diagnostics.HasError_Append]
  simp [hget, Diagnostics.HasError_nil]

theorem configure_missing_token (host : ConfigureHost) (interval : Duration)
    (hget : Diagnostics.HasError host.ConfigGet.2 = false)
    (hE : host.ConfigGet.1.Endpoint.IsUnknown = false)
    (hT : host.ConfigGet.1.Token.IsUnknown = false)
    (hP : host.ConfigGet.1.PollingInterval.IsUnknown = false)
    (hparse : (if !host.ConfigGet.1.PollingInterval.IsNull then
        host.ParseDuration host.ConfigGet.1.PollingInterval.ValueString
      else Except.ok (2 * time.Second)) = Except.ok interval)
    (htoken : (if !host.ConfigGet.1.Token.IsNull then host.ConfigGet.1.Token.ValueString
      else host.Getenv "SAGADATA_TOKEN") = "") :
    (SagaDataProvider.Configure host).newClient = none ∧
    (SagaDataProvider.Configure host).DataSourceData = none ∧
    (SagaDataProvider.Configure host).ResourceData = none ∧
    ∃ s, Diagnostics.Errors (SagaDataProvider.Configure host).Diagnostics =
      [{ severity := Severity.Error, summary := "Missing Saga Data API token",
         detail := Detail.attribute "token" s }] := by
  have h0 := configure_decoded_ok host hget
  unfold SagaDataProvider.Configure
  simp only [h0, hE, hT, hP, hparse, htoken, Bool.false_eq_true, if_false, if_true,
    Diagnostics.HasError_AddAttributeError]
  exact ⟨trivial, trivial, trivial, _, Diagnostics.Errors_AddAttributeError _ _ _ _ h0⟩

theorem configure_builds_client (host : ConfigureHost) (interval : Duration)
    (cfg : ClientConfig)
    (hget : Diagnostics.HasError host.ConfigGet.2 = false)
    (hE : host.ConfigGet.1.Endpoint.IsUnknown = false)
    (hT : host.ConfigGet.1.Token.IsUnknown = false)
    (hP : host.ConfigGet.1.PollingInterval.IsUnknown = false)
    (hparse : (if !host.ConfigGet.1.PollingInterval.IsNull then
        host.ParseDuration host.ConfigGet.1.PollingInterval.ValueString
      else Except.ok (2 * time.Second)) = Except.ok interval)
    (htoken : (if !host.ConfigGet.1.Token.IsNull then host.ConfigGet.1.Token.ValueString
      else host.Getenv "SAGADATA_TOKEN") ≠ "")
    (hcfg : cfg =
      { Endpoint :=
          if (if !host.ConfigGet.1.Endpoint.IsNull then host.ConfigGet.1.Endpoint.ValueString
            else host.Getenv "SAGADATA_ENDPOINT") = "" then host.DefaultEndpoint
          else (if !host.ConfigGet.1.Endpoint.IsNull then
            host.ConfigGet.1.Endpoint.ValueString else host.Getenv "SAGADATA_ENDPOINT"),
        Token := if !host.ConfigGet.1.Token.IsNull then host.ConfigGet.1.Token.ValueString
          else host.Getenv "SAGADATA_TOKEN",
        PollingInterval := interval }) :
    SagaDataProvider.Configure host =
      match host.NewClient cfg with
      | some err =>
        { Diagnostics := Diagnostics.AddError (Diagnostics.Append [] host.ConfigGet.2)
            "Unable to Create Saga Data API Client"
            (Detail.text
              ("An unexpected error occurred when creating the Saga Data API client. " ++
                "If the error is not clear, please contact the provider developers.\n\n" ++
                "Error: " ++ err)),
          DataSourceData := none, ResourceData := none, newClient := some cfg }
      | none =>
        { Diagnostics := Diagnostics.Append [] host.ConfigGet.2,
          DataSourceData := some cfg, ResourceData := some cfg, newClient := some cfg } := by
  have h0 := configure_decoded_ok host hget
  subst hcfg
  unfold SagaDataProvider.Configure
  simp only [h0, hE, hT, hP, hparse, htoken, Bool.false_eq_true, if_false, if_true]

theorem configure_client_facts (host : ConfigureHost) (interval : Duration)
    (cfg : ClientConfig)
    (hget : Diagnostics.HasError host.ConfigGet.2 = false)
    (hE : host.ConfigGet.1.Endpoint.IsUnknown = false)
    (hT : host.ConfigGet.1.Token.IsUnknown = false)
    (hP : host.ConfigGet.1.PollingInterval.IsUnknown = false)
    (hparse : (if !host.ConfigGet.1.PollingInterval.IsNull then
        host.ParseDuration host.ConfigGet.1.PollingInterval.ValueString
      else Except.ok (2 * time.Second)) = Except.ok interval)
    (htoken : (if !host.ConfigGet.1.Token.IsNull then host.ConfigGet.1.Token.ValueString
      else host.Getenv "SAGADATA_TOKEN") ≠ "")
    (hcfg : cfg =
      { Endpoint :=
          if (if !host.ConfigGet.1.Endpoint.IsNull then host.ConfigGet.1.Endpoint.ValueString
            else host.Getenv "SAGADATA_ENDPOINT") = "" then host.DefaultEndpoint
          else (if !host.ConfigGet.1.Endpoint.IsNull then
            host.ConfigGet.1.Endpoint.ValueString else host.Getenv "SAGADATA_ENDPOINT"),
        Token := if !host.ConfigGet.1.Token.IsNull then host.ConfigGet.1.Token.ValueString
          else host.Getenv "SAGADATA_TOKEN",
        PollingInterval := interval }) :
    (SagaDataProvider.Configure host).newClient = some cfg ∧
    (∀ d, d ∈ Diagnostics.Errors (SagaDataProvider.Configure host).Diagnostics →
      d.summary ≠ "Missing Saga Data API token") ∧
    (host.NewClient cfg = none →
      (SagaDataProvider.Configure host).DataSourceData = some cfg ∧
      (SagaDataProvider.Configure host).ResourceData = some cfg ∧
      Diagnostics.HasError (SagaDataProvider.Configure host).Diagnostics = false) ∧
    (host.NewClient cfg ≠ none →
      (SagaDataProvider.Configure host).DataSourceData = none ∧
      (SagaDataProvider.Configure host).ResourceData = none ∧
      ∃ d, Diagnostics.Errors (SagaDataProvider.Configure host).Diagnostics = [d] ∧
        d.summary = "Unable to Create Saga Data API Client") := by
  have h0 := configure_decoded_ok host hget
  rw [configure_builds_client host interval cfg hget hE hT hP hparse htoken hcfg]
  cases hnew : host.NewClient cfg with
  | none =>
    refine ⟨rfl, ?_, fun _ => ⟨rfl, rfl, h0⟩, fun h => absurd rfl h⟩
    intro d hd
    rw [show Diagnostics.Errors (Diagnostics.Append [] host.ConfigGet.2) = [] from
      Diagnostics.Errors_eq_nil _ h0] at hd
    cases hd
  | some err =>
    refine ⟨rfl, ?_, (fun h => Option.noConfusion h), (fun _ => ⟨rfl, rfl, _,
      Diagnostics.Errors_AddError _ _ _ h0, rfl⟩)⟩
    intro d hd
    rw [show Diagnostics.Errors (Diagnostics.AddError (Diagnostics.Append [] host.ConfigGet.2)
        "Unable to Create Saga Data API Client"
        (Detail.text
          ("An unexpected error occurred when creating the Saga Data API client. " ++
            "If the error is not clear, please contact the provider developers.\n\n" ++
            "Error: " ++ err))) = _ from Diagnostics.Errors_AddError _ _ _ h0] at hd
    rw [List.mem_singleton] at hd
    subst hd
    show "Unable to Create Saga Data API Client" ≠ "Missing Saga Data API token"
    decide

/-! ## Kubernetes cluster data source: Read -/

theorem datasource_populate_snd (data : KubernetesClusterDataSourceModel)
    (cluster : sagadata.KubernetesCluster) : (data.PopulateFromClientResponse cluster).2 = [] :=
  rfl

theorem datasource_credentials_snd (data : KubernetesClusterDataSourceModel)
    (creds : sagadata.K8sClusterCredentialsResponse) :
    (data.PopulateCredentialsFromClientResponse creds).2 = [] := rfl

theorem datasource_read_decoded (fw : DataSourceFramework KubernetesClusterDataSourceModel)
    (hcfg : Diagnostics.HasError fw.ConfigGet.2 = false) :
    ((Run.init none : Run KubernetesClusterDataSourceModel).Append fw.ConfigGet.2).HasError =
      false := by
  simp [Run.HasError, Run.Append, Run.init, Diagnostics.HasError_Append, hcfg,
    Diagnostics.HasError_nil]

theorem datasource_read_cluster_fails (client : Client)
    (fw : DataSourceFramework KubernetesClusterDataSourceModel)
    (hcfg : Diagnostics.HasError fw.ConfigGet.2 = false)
    (hctx : fw.ContextWithTimeout = none)
    (hfail : ∀ response, client.GetKubernetesClusterWithResponse 0
      fw.ConfigGet.1.Id.ValueString = .ok response → response.JSON200 = none) :
    ∃ d, (KubernetesClusterDataSource.Read client fw).calls =
        [Event.GetKubernetesCluster fw.ConfigGet.1.Id.ValueString
          (client.GetKubernetesClusterWithResponse 0 fw.ConfigGet.1.Id.ValueString)] ∧
      Diagnostics.Errors (KubernetesClusterDataSource.Read client fw).Diagnostics = [d] ∧
      d.summary = "Client Error" ∧
      (KubernetesClusterDataSource.Read client fw).sets = 0 ∧
      (KubernetesClusterDataSource.Read client fw).State = none := by
  have h0 := datasource_read_decoded fw hcfg
  have h0' : Diagnostics.HasError (Diagnostics.Append [] fw.ConfigGet.2) = false := h0
  cases hres : client.GetKubernetesClusterWithResponse 0 fw.ConfigGet.1.Id.ValueString with
  | err e =>
    have hget' : client.GetKubernetesClusterWithResponse
        ((Run.init none : Run KubernetesClusterDataSourceModel).Append
          fw.ConfigGet.2).reads fw.ConfigGet.1.Id.ValueString = .err e := hres
    have hR : KubernetesClusterDataSource.Read client fw =
        (((Run.init none : Run KubernetesClusterDataSourceModel).Append
          fw.ConfigGet.2).polled
          (Event.GetKubernetesCluster fw.ConfigGet.1.Id.ValueString (.err e))).AddError
          "Client Error" (Detail.generateErrorMessage "read kubernetes cluster" e) := by
      unfold KubernetesClusterDataSource.Read
      simp only [h0, hctx, hget', Bool.false_eq_true, if_false]
    rw [hR]
    refine ⟨⟨Severity.Error, "Client Error",
      Detail.generateErrorMessage "read kubernetes cluster" e⟩, rfl, ?_, rfl, rfl, rfl⟩
    exact Diagnostics.Errors_AddError _ _ _ h0'
  | ok response =>
    have hget' : client.GetKubernetesClusterWithResponse
        ((Run.init none : Run KubernetesClusterDataSourceModel).Append
          fw.ConfigGet.2).reads fw.ConfigGet.1.Id.ValueString = .ok response := hres
    have hR : KubernetesClusterDataSource.Read client fw =
        (((Run.init none : Run KubernetesClusterDataSourceModel).Append
          fw.ConfigGet.2).polled
          (Event.GetKubernetesCluster fw.ConfigGet.1.Id.ValueString (.ok response))).AddError
          "Client Error" (Detail.generateClientErrorMessage "read kubernetes cluster"
            { Body := response.Body, HTTPResponse := response.HTTPResponse,
              Error := response.JSONDefault }) := by
      unfold KubernetesClusterDataSource.Read
      simp only [h0, hctx, hget', hfail response hres, Bool.false_eq_true, if_false]
    rw [hR]
    refine ⟨⟨Severity.Error, "Client Error",
      Detail.generateClientErrorMessage "read kubernetes cluster"
        { Body := response.Body, HTTPResponse := response.HTTPResponse,
          Error := response.JSONDefault }⟩, rfl, ?_, rfl, rfl, rfl⟩
    exact Diagnostics.Errors_AddError _ _ _ h0'

theorem datasource_read_projected
    (fw : DataSourceFramework KubernetesClusterDataSourceModel)
    (response : sagadata.KubernetesClusterResponse) (body : sagadata.ClusterBody)
    (hcfg : Diagnostics.HasError fw.ConfigGet.2 = false) :
    ((((Run.init none : Run KubernetesClusterDataSourceModel).Append fw.ConfigGet.2).polled
      (Event.GetKubernetesCluster fw.ConfigGet.1.Id.ValueString (.ok response))).Append
      (fw.ConfigGet.1.PopulateFromClientResponse body.Cluster).2).HasError = false := by
  simpa [Run.HasError, Run.Append, Run.polled, datasource_populate_snd,
    Diagnostics.Append_nil] using datasource_read_decoded fw hcfg

theorem datasource_read_credentials_fail (client : Client)
    (fw : DataSourceFramework KubernetesClusterDataSourceModel)
    (response : sagadata.KubernetesClusterResponse) (body : sagadata.ClusterBody)
    (hcfg : Diagnostics.HasError fw.ConfigGet.2 = false)
    (hctx : fw.ContextWithTimeout = none)
    (hget : client.GetKubernetesClusterWithResponse 0 fw.ConfigGet.1.Id.ValueString =
      .ok response)
    (h200 : response.JSON200 = some body)
    (hfail : ∀ credsResponse, client.GetKubernetesClusterCredentialsWithResponse
      fw.ConfigGet.1.Id.ValueString = .ok credsResponse → credsResponse.JSON200 = none) :
    ∃ d, (KubernetesClusterDataSource.Read client fw).calls =
        [Event.GetKubernetesCluster fw.ConfigGet.1.Id.ValueString (.ok response),
         Event.GetKubernetesClusterCredentials fw.ConfigGet.1.Id.ValueString
          (client.GetKubernetesClusterCredentialsWithResponse
            fw.ConfigGet.1.Id.ValueString)] ∧
      Diagnostics.Errors (KubernetesClusterDataSource.Read client fw).Diagnostics = [d] ∧
      d.summary = "Client Error" ∧
      (KubernetesClusterDataSource.Read client fw).sets = 0 ∧
      (KubernetesClusterDataSource.Read client fw).State = none := by
  have h0 := datasource_read_decoded fw hcfg
  have h0' : Diagnostics.HasError (Diagnostics.Append [] fw.ConfigGet.2) = false := h0
  have h1 := datasource_read_projected fw response body hcfg
  have hget' : client.GetKubernetesClusterWithResponse
      ((Run.init none : Run KubernetesClusterDataSourceModel).Append
        fw.ConfigGet.2).reads fw.ConfigGet.1.Id.ValueString = .ok response := hget
  cases hres : client.GetKubernetesClusterCredentialsWithResponse
      fw.ConfigGet.1.Id.ValueString with
  | err e =>
    have hR : KubernetesClusterDataSource.Read client fw =
        (((((Run.init none : Run KubernetesClusterDataSourceModel).Append
          fw.ConfigGet.2).polled
          (Event.GetKubernetesCluster fw.ConfigGet.1.Id.ValueString (.ok response))).Append
          (fw.ConfigGet.1.PopulateFromClientResponse body.Cluster).2).called
          (Event.GetKubernetesClusterCredentials fw.ConfigGet.1.Id.ValueString
            (.err e))).AddError
          "Client Error"
          (Detail.generateErrorMessage "read kubernetes cluster credentials" e) := by
      unfold KubernetesClusterDataSource.Read
      simp only [h0, hctx, hget', h200, h1, hres, Bool.false_eq_true, if_false]
    rw [hR]
    refine ⟨⟨Severity.Error, "Client Error",
      Detail.generateErrorMessage "read kubernetes cluster credentials" e⟩,
      rfl, ?_, rfl, rfl, rfl⟩
    exact Diagnostics.Errors_AddError _ _ _ h0'
  | ok credsResponse =>
    have hR : KubernetesClusterDataSource.Read client fw =
        (((((Run.init none : Run KubernetesClusterDataSourceModel).Append
          fw.ConfigGet.2).polled
          (Event.GetKubernetesCluster fw.ConfigGet.1.Id.ValueString (.ok response))).Append
          (fw.ConfigGet.1.PopulateFromClientResponse body.Cluster).2).called
          (Event.GetKubernetesClusterCredentials fw.ConfigGet.1.Id.ValueString
            (.ok credsResponse))).AddError
          "Client Error"
          (Detail.generateClientErrorMessage "read kubernetes cluster credentials"
            { Body := credsResponse.Body, HTTPResponse := credsResponse.HTTPResponse,
              Error := credsResponse.JSONDefault }) := by
      unfold KubernetesClusterDataSource.Read
      simp only [h0, hctx, hget', h200, h1, hres, hfail credsResponse hres,
        Bool.false_eq_true, if_false]
    rw [hR]
    refine ⟨⟨Severity.Error, "Client Error",
      Detail.generateClientErrorMessage "read kubernetes cluster credentials"
        { Body := credsResponse.Body, HTTPResponse := credsResponse.HTTPResponse,
          Error := credsResponse.JSONDefault }⟩, rfl, ?_, rfl, rfl, rfl⟩
    exact Diagnostics.Errors_AddError _ _ _ h0'

theorem datasource_read_stores (client : Client)
    (fw : DataSourceFramework KubernetesClusterDataSourceModel)
    (response : sagadata.KubernetesClusterResponse) (body : sagadata.ClusterBody)
    (credsResponse : sagadata.CredentialsResponse)
    (creds : sagadata.K8sClusterCredentialsResponse)
    (hcfg : Diagnostics.HasError fw.ConfigGet.2 = false)
    (hctx : fw.ContextWithTimeout = none)
    (hset : ∀ k m, Diagnostics.HasError (fw.StateSet k m) = false)
    (hget : client.GetKubernetesClusterWithResponse 0 fw.ConfigGet.1.Id.ValueString =
      .ok response)
    (h200 : response.JSON200 = some body)
    (hcreds : client.GetKubernetesClusterCredentialsWithResponse
      fw.ConfigGet.1.Id.ValueString = .ok credsResponse)
    (hc200 : credsResponse.JSON200 = some creds) :
    (KubernetesClusterDataSource.Read client fw).calls =
      [Event.GetKubernetesCluster fw.ConfigGet.1.Id.ValueString (.ok response),
       Event.GetKubernetesClusterCredentials fw.ConfigGet.1.Id.ValueString
        (.ok credsResponse)] ∧
    (KubernetesClusterDataSource.Read client fw).State =
      some ((fw.ConfigGet.1.PopulateFromClientResponse
        body.Cluster).1.PopulateCredentialsFromClientResponse creds).1 ∧
    Diagnostics.HasError (KubernetesClusterDataSource.Read client fw).Diagnostics = false ∧
    (KubernetesClusterDataSource.Read client fw).sets = 1 := by
  have h0 := datasource_read_decoded fw hcfg
  have h1 := datasource_read_projected fw response body hcfg
  have hget' : client.GetKubernetesClusterWithResponse
      ((Run.init none : Run KubernetesClusterDataSourceModel).Append
        fw.ConfigGet.2).reads fw.ConfigGet.1.Id.ValueString = .ok response := hget
  have h2 : ((((((Run.init none : Run KubernetesClusterDataSourceModel).Append
      fw.ConfigGet.2).polled
      (Event.GetKubernetesCluster fw.ConfigGet.1.Id.ValueString (.ok response))).Append
      (fw.ConfigGet.1.PopulateFromClientResponse body.Cluster).2).called
      (Event.GetKubernetesClusterCredentials fw.ConfigGet.1.Id.ValueString
        (.ok credsResponse))).Append
      ((fw.ConfigGet.1.PopulateFromClientResponse
        body.Cluster).1.PopulateCredentialsFromClientResponse creds).2).HasError = false := h1
  have hR : KubernetesClusterDataSource.Read client fw =
      Run.DataSourceStateSet fw
        ((((((Run.init none : Run KubernetesClusterDataSourceModel).Append
          fw.ConfigGet.2).polled
          (Event.GetKubernetesCluster fw.ConfigGet.1.Id.ValueString (.ok response))).Append
          (fw.ConfigGet.1.PopulateFromClientResponse body.Cluster).2).called
          (Event.GetKubernetesClusterCredentials fw.ConfigGet.1.Id.ValueString
            (.ok credsResponse))).Append
          ((fw.ConfigGet.1.PopulateFromClientResponse
            body.Cluster).1.PopulateCredentialsFromClientResponse creds).2)
        ((fw.ConfigGet.1.PopulateFromClientResponse
          body.Cluster).1.PopulateCredentialsFromClientResponse creds).1 := by
    unfold KubernetesClusterDataSource.Read
    simp only [h0, hctx, hget', h200, h1, hcreds, hc200, h2, Bool.false_eq_true, if_false]
  rw [hR]
  refine ⟨rfl, ?_, ?_, rfl⟩
  · simp [Run.DataSourceStateSet, hset]
  · simp only [Run.DataSourceStateSet, Diagnostics.HasError_Append, Bool.or_eq_false_iff]
    exact ⟨h2, hset _ _⟩

theorem datasource_read_written (client : Client)
    (fw : DataSourceFramework KubernetesClusterDataSourceModel)
    (h : (KubernetesClusterDataSource.Read client fw).sets ≠ 0 ∨
      (KubernetesClusterDataSource.Read client fw).State ≠ none) :
    ∃ response body credsResponse creds,
      client.GetKubernetesClusterWithResponse 0 fw.ConfigGet.1.Id.ValueString =
        .ok response ∧
      response.JSON200 = some body ∧
      client.GetKubernetesClusterCredentialsWithResponse fw.ConfigGet.1.Id.ValueString =
        .ok credsResponse ∧
      credsResponse.JSON200 = some creds ∧
      (KubernetesClusterDataSource.Read client fw).sets = 1 ∧
      ((KubernetesClusterDataSource.Read client fw).State ≠ none →
        (KubernetesClusterDataSource.Read client fw).State =
          some ((fw.ConfigGet.1.PopulateFromClientResponse
            body.Cluster).1.PopulateCredentialsFromClientResponse creds).1) := by
  have hreads : ((Run.init none : Run KubernetesClusterDataSourceModel).Append
      fw.ConfigGet.2).reads = 0 := rfl
  cases h0 : ((Run.init none : Run KubernetesClusterDataSourceModel).Append
      fw.ConfigGet.2).HasError with
  | true =>
    exfalso
    have hR : KubernetesClusterDataSource.Read client fw =
        (Run.init none : Run KubernetesClusterDataSourceModel).Append fw.ConfigGet.2 := by
      unfold KubernetesClusterDataSource.Read
      simp only [h0, if_true]
    rw [hR] at h
    rcases h with h | h
    · exact h rfl
    · exact h rfl
  | false =>
    cases hctx : fw.ContextWithTimeout with
    | some diag =>
      exfalso
      have hR : KubernetesClusterDataSource.Read client fw =
          ((Run.init none : Run KubernetesClusterDataSourceModel).Append
            fw.ConfigGet.2).Append diag := by
        unfold KubernetesClusterDataSource.Read
        simp only [h0, hctx, Bool.false_eq_true, if_false]
      rw [hR] at h
      rcases h with h | h
      · exact h rfl
      · exact h rfl
    | none =>
      have hcfg : Diagnostics.HasError fw.ConfigGet.2 = false := by
        have h0' : Diagnostics.HasError (Diagnostics.Append [] fw.ConfigGet.2) = false := h0
        rw [Diagnostics.HasError_Append] at h0'
        simpa [Diagnostics.HasError_nil] using h0'
      cases hres : client.GetKubernetesClusterWithResponse 0
          fw.ConfigGet.1.Id.ValueString with
      | err e =>
        exfalso
        obtain ⟨d, _, _, _, hs, hst⟩ := datasource_read_cluster_fails client fw hcfg hctx
          (fun response hr => by rw [hres] at hr; cases hr)
        rcases h with h | h
        · exact h hs
        · exact h hst
      | ok response =>
        cases h200 : response.JSON200 with
        | none =>
          exfalso
          obtain ⟨d, _, _, _, hs, hst⟩ := datasource_read_cluster_fails client fw hcfg hctx
            (fun response' hr => by
              rw [hres] at hr
              cases hr
              exact h200)
          rcases h with h | h
          · exact h hs
          · exact h hst
        | some body =>
          cases hcreds : client.GetKubernetesClusterCredentialsWithResponse
              fw.ConfigGet.1.Id.ValueString with
          | err e =>
            exfalso
            obtain ⟨d, _, _, _, hs, hst⟩ := datasource_read_credentials_fail client fw
              response body hcfg hctx hres h200
              (fun cr hr => by rw [hcreds] at hr; cases hr)
            rcases h with h | h
            · exact h hs
            · exact h hst
          | ok credsResponse =>
            cases hc200 : credsResponse.JSON200 with
            | none =>
              exfalso
              obtain ⟨d, _, _, _, hs, hst⟩ := datasource_read_credentials_fail client fw
                response body hcfg hctx hres h200
                (fun cr hr => by
                  rw [hcreds] at hr
                  cases hr
                  exact hc200)
              rcases h with h | h
              · exact h hs
              · exact h hst
            | some creds =>
              refine ⟨response, body, credsResponse, creds, rfl, h200, rfl, hc200, ?_, ?_⟩
              · have h1 := datasource_read_projected fw response body hcfg
                have hget' : client.GetKubernetesClusterWithResponse
                    ((Run.init none : Run KubernetesClusterDataSourceModel).Append
                      fw.ConfigGet.2).reads fw.ConfigGet.1.Id.ValueString =
                    .ok response := hres
                have h2 : ((((((Run.init none :
                    Run KubernetesClusterDataSourceModel).Append fw.ConfigGet.2).polled
                    (Event.GetKubernetesCluster fw.ConfigGet.1.Id.ValueString
                      (.ok response))).Append
                    (fw.ConfigGet.1.PopulateFromClientResponse body.Cluster).2).called
                    (Event.GetKubernetesClusterCredentials fw.ConfigGet.1.Id.ValueString
                      (.ok credsResponse))).Append
                    ((fw.ConfigGet.1.PopulateFromClientResponse
                      body.Cluster).1.PopulateCredentialsFromClientResponse
                        creds).2).HasError = false := h1
                unfold KubernetesClusterDataSource.Read
                simp only [h0, hctx, hget', h200, h1, hcreds, hc200, h2, Bool.false_eq_true,
                  if_false]
                rfl
              · intro hne
                have h1 := datasource_read_projected fw response body hcfg
                have hget' : client.GetKubernetesClusterWithResponse
                    ((Run.init none : Run KubernetesClusterDataSourceModel).Append
                      fw.ConfigGet.2).reads fw.ConfigGet.1.Id.ValueString =
                    .ok response := hres
                have h2 : ((((((Run.init none :
                    Run KubernetesClusterDataSourceModel).Append fw.ConfigGet.2).polled
                    (Event.GetKubernetesCluster fw.ConfigGet.1.Id.ValueString
                      (.ok response))).Append
                    (fw.ConfigGet.1.PopulateFromClientResponse body.Cluster).2).called
                    (Event.GetKubernetesClusterCredentials fw.ConfigGet.1.Id.ValueString
                      (.ok credsResponse))).Append
                    ((fw.ConfigGet.1.PopulateFromClientResponse
                      body.Cluster).1.PopulateCredentialsFromClientResponse
                        creds).2).HasError = false := h1
                have hR : KubernetesClusterDataSource.Read client fw =
                    Run.DataSourceStateSet fw
                      ((((((Run.init none : Run KubernetesClusterDataSourceModel).Append
                        fw.ConfigGet.2).polled
                        (Event.GetKubernetesCluster fw.ConfigGet.1.Id.ValueString
                          (.ok response))).Append
                        (fw.ConfigGet.1.PopulateFromClientResponse body.Cluster).2).called
                        (Event.GetKubernetesClusterCredentials
                          fw.ConfigGet.1.Id.ValueString (.ok credsResponse))).Append
                        ((fw.ConfigGet.1.PopulateFromClientResponse
                          body.Cluster).1.PopulateCredentialsFromClientResponse creds).2)
                      ((fw.ConfigGet.1.PopulateFromClientResponse
                        body.Cluster).1.PopulateCredentialsFromClientResponse creds).1 := by
                  unfold KubernetesClusterDataSource.Read
                  simp only [h0, hctx, hget', h200, h1, hcreds, hc200, h2,
                    Bool.false_eq_true, if_false]
                rw [hR] at hne ⊢
                simp only [Run.DataSourceStateSet] at hne ⊢
                split
                · rename_i hE
                  simp only [hE, if_true] at hne
                  exact absurd rfl hne
                · rfl

/-! ## Configure: unknown values and the polling interval -/

theorem Diagnostics.Errors_AddAttributeError_of_ne (ds : Diagnostics)
    (path summary detail : String)
    (h : ∀ e, e ∈ Diagnostics.Errors ds → e.summary ≠ summary) :
    Diagnostics.Errors (Diagnostics.AddAttributeError ds path summary detail) =
      Diagnostics.Errors ds ++
        [{ severity := Severity.Error, summary := summary,
           detail := Detail.attribute path detail }] := by
  have hn : (⟨Severity.Error, summary, Detail.attribute path detail⟩ : Diagnostic) ∉ ds := by
    intro hm
    exact h ⟨Severity.Error, summary, Detail.attribute path detail⟩
      (by simp [Diagnostics.Errors, hm]) rfl
  simp [Diagnostics.AddAttributeError, Diagnostics.Append_cons, Diagnostics.Append_nil, hn,
    Diagnostics.Errors_append]
  simp [Diagnostics.Errors]

theorem Diagnostics.Errors_AddAttributeError_twice (ds : Diagnostics)
    (p1 s1 d1 p2 s2 d2 : String) (h : Diagnostics.HasError ds = false) (h12 : s1 ≠ s2) :
    Diagnostics.Errors (Diagnostics.AddAttributeError
      (Diagnostics.AddAttributeError ds p1 s1 d1) p2 s2 d2) =
      [{ severity := Severity.Error, summary := s1, detail := Detail.attribute p1 d1 },
       { severity := Severity.Error, summary := s2, detail := Detail.attribute p2 d2 }] := by
  rw [Diagnostics.Errors_AddAttributeError_of_ne, Diagnostics.Errors_AddAttributeError _ _ _ _ h]
  · rfl
  · intro e he
    rw [Diagnostics.Errors_AddAttributeError _ _ _ _ h, List.mem_singleton] at he
    subst he
    exact h12

theorem Diagnostics.Errors_AddAttributeError_thrice (ds : Diagnostics)
    (p1 s1 d1 p2 s2 d2 p3 s3 d3 : String) (h : Diagnostics.HasError ds = false)
    (h12 : s1 ≠ s2) (h13 : s1 ≠ s3) (h23 : s2 ≠ s3) :
    Diagnostics.Errors (Diagnostics.AddAttributeError (Diagnostics.AddAttributeError
      (Diagnostics.AddAttributeError ds p1 s1 d1) p2 s2 d2) p3 s3 d3) =
      [{ severity := Severity.Error, summary := s1, detail := Detail.attribute p1 d1 },
       { severity := Severity.Error, summary := s2, detail := Detail.attribute p2 d2 },
       { severity := Severity.Error, summary := s3, detail := Detail.attribute p3 d3 }] := by
  rw [Diagnostics.Errors_AddAttributeError_of_ne,
    Diagnostics.Errors_AddAttributeError_twice _ _ _ _ _ _ _ h h12]
  · rfl
  · intro e he
    rw [Diagnostics.Errors_AddAttributeError_twice _ _ _ _ _ _ _ h h12] at he
    simp only [List.mem_cons, List.mem_singleton, List.not_mem_nil, or_false] at he
    rcases he with he | he
    · subst he
      exact h13
    · subst he
      exact h23

theorem configure_unknown_values (host : ConfigureHost)
    (hget : Diagnostics.HasError host.ConfigGet.2 = false)
    (hany : host.ConfigGet.1.Endpoint.IsUnknown = true ∨
      host.ConfigGet.1.Token.IsUnknown = true ∨
      host.ConfigGet.1.PollingInterval.IsUnknown = true) :
    (SagaDataProvider.Configure host).newClient = none ∧
    (SagaDataProvider.Configure host).DataSourceData = none ∧
    (SagaDataProvider.Configure host).ResourceData = none ∧
    ∃ s1 s2 s3, Diagnostics.Errors (SagaDataProvider.Configure host).Diagnostics =
      (if host.ConfigGet.1.Endpoint.IsUnknown then
        [{ severity := Severity.Error, summary := "Unknown Saga Data API endpoint",
           detail := Detail.attribute "endpoint" s1 }] else []) ++
      (if host.ConfigGet.1.Token.IsUnknown then
        [{ severity := Severity.Error, summary := "Unknown Saga Data API token",
           detail := Detail.attribute "token" s2 }] else []) ++
      (if host.ConfigGet.1.PollingInterval.IsUnknown then
        [{ severity := Severity.Error, summary := "Unknown Polling Interval",
           detail := Detail.attribute "polling_interval" s3 }] else []) := by
  have h0 := configure_decoded_ok host hget
  cases hE : host.ConfigGet.1.Endpoint.IsUnknown <;>
    cases hT : host.ConfigGet.1.Token.IsUnknown <;>
    cases hP : host.ConfigGet.1.PollingInterval.IsUnknown
  all_goals first
    | (exfalso; simp [hE, hT, hP] at hany; done)
    | (unfold SagaDataProvider.Configure
       simp only [h0, hE, hT, hP, Bool.false_eq_true, if_false, if_true,
         Diagnostics.HasError_AddAttributeError]
       refine ⟨trivial, trivial, trivial, ?_⟩
       first
         | exact ⟨_, "", "", Diagnostics.Errors_AddAttributeError _ _ _ _ h0⟩
         | exact ⟨"", _, "", Diagnostics.Errors_AddAttributeError _ _ _ _ h0⟩
         | exact ⟨"", "", _, Diagnostics.Errors_AddAttributeError _ _ _ _ h0⟩
         | exact ⟨_, _, "", Diagnostics.Errors_AddAttributeError_twice _ _ _ _ _ _ _ h0
             (by decide)⟩
         | exact ⟨_, "", _, Diagnostics.Errors_AddAttributeError_twice _ _ _ _ _ _ _ h0
             (by decide)⟩
         | exact ⟨"", _, _, Diagnostics.Errors_AddAttributeError_twice _ _ _ _ _ _ _ h0
             (by decide)⟩
         | exact ⟨_, _, _, Diagnostics.Errors_AddAttributeError_thrice _ _ _ _ _ _ _ _ _ _ h0
             (by decide) (by decide) (by decide)⟩)

theorem configure_interval_unparsed (host : ConfigureHost) (err : String)
    (hget : Diagnostics.HasError host.ConfigGet.2 = false)
    (hE : host.ConfigGet.1.Endpoint.IsUnknown = false)
    (hT : host.ConfigGet.1.Token.IsUnknown = false)
    (hP : host.ConfigGet.1.PollingInterval.IsUnknown = false)
    (hnull : host.ConfigGet.1.PollingInterval.IsNull = false)
    (hparse : host.ParseDuration host.ConfigGet.1.PollingInterval.ValueString =
      Except.error err) :
    (SagaDataProvider.Configure host).newClient = none ∧
    (SagaDataProvider.Configure host).DataSourceData = none ∧
    (SagaDataProvider.Configure host).ResourceData = none ∧
    Diagnostics.Errors (SagaDataProvider.Configure host).Diagnostics =
      [{ severity := Severity.Error, summary := "Timeout Cannot Be Parsed",
         detail := Detail.attribute "polling_interval" err }] := by
  have h0 := configure_decoded_ok host hget
  unfold SagaDataProvider.Configure
  simp only [h0, hE, hT, hP, hnull, hparse, Bool.not_false, Bool.false_eq_true, if_false,
    if_true]
  exact ⟨trivial, trivial, trivial, Diagnostics.Errors_AddAttributeError _ _ _ _ h0⟩

/-! ## Kubernetes cluster: the settling loop -/

theorem cluster_create_loop_wait_fails (client : Client)
    (fw : Framework KubernetesClusterResourceModel) (clusterId : String) (fuel : Nat)
    (data : KubernetesClusterResourceModel) (resp : Run KubernetesClusterResourceModel)
    (err : GoError) (hw : client.PollingWait resp.waits = some err) :
    KubernetesClusterResource.Create.loop client fw clusterId (fuel + 1) data resp =
      some ((resp.waited (some err)).AddError "Polling Error"
        (Detail.generateErrorMessage "polling kubernetes cluster" err)) := by
  simp [KubernetesClusterResource.Create.loop, hw]

theorem cluster_create_loop_read_fails (client : Client)
    (fw : Framework KubernetesClusterResourceModel) (clusterId : String) (fuel : Nat)
    (data : KubernetesClusterResourceModel) (resp : Run KubernetesClusterResourceModel)
    (err : GoError) (hw : client.PollingWait resp.waits = none)
    (hg : client.GetKubernetesClusterWithResponse resp.reads clusterId = .err err) :
    KubernetesClusterResource.Create.loop client fw clusterId (fuel + 1) data resp =
      some (((resp.waited none).polled (Event.GetKubernetesCluster clusterId (.err err))).AddError
        "Client Error" (Detail.generateErrorMessage "polling kubernetes cluster" err)) := by
  have hg' : client.GetKubernetesClusterWithResponse (resp.waited none).reads clusterId =
      .err err := hg
  simp [KubernetesClusterResource.Create.loop, hw, hg']

theorem cluster_create_loop_read_no_body (client : Client)
    (fw : Framework KubernetesClusterResourceModel) (clusterId : String) (fuel : Nat)
    (data : KubernetesClusterResourceModel) (resp : Run KubernetesClusterResourceModel)
    (response : sagadata.KubernetesClusterResponse)
    (hw : client.PollingWait resp.waits = none)
    (hg : client.GetKubernetesClusterWithResponse resp.reads clusterId = .ok response)
    (hb : response.JSON200 = none) :
    KubernetesClusterResource.Create.loop client fw clusterId (fuel + 1) data resp =
      some (((resp.waited none).polled
        (Event.GetKubernetesCluster clusterId (.ok response))).AddError "Client Error"
        (Detail.generateClientErrorMessage "polling kubernetes cluster"
          { Body := response.Body, HTTPResponse := response.HTTPResponse,
            Error := response.JSONDefault })) := by
  have hg' : client.GetKubernetesClusterWithResponse (resp.waited none).reads clusterId =
      .ok response := hg
  simp [KubernetesClusterResource.Create.loop, hw, hg', hb]

theorem cluster_create_loop_transient (client : Client)
    (fw : Framework KubernetesClusterResourceModel) (clusterId : String) (fuel : Nat)
    (data : KubernetesClusterResourceModel) (resp : Run KubernetesClusterResourceModel)
    (response : sagadata.KubernetesClusterResponse) (body : sagadata.ClusterBody)
    (hw : client.PollingWait resp.waits = none)
    (hg : client.GetKubernetesClusterWithResponse resp.reads clusterId = .ok response)
    (hb : response.JSON200 = some body)
    (h1 : body.Cluster.Status ≠ sagadata.KubernetesClusterStatusActive)
    (h2 : body.Cluster.Status ≠ sagadata.KubernetesClusterStatusError) :
    KubernetesClusterResource.Create.loop client fw clusterId (fuel + 1) data resp =
      KubernetesClusterResource.Create.loop client fw clusterId fuel data
        ((resp.waited none).polled (Event.GetKubernetesCluster clusterId (.ok response))) := by
  have hg' : client.GetKubernetesClusterWithResponse (resp.waited none).reads clusterId =
      .ok response := hg
  simp [KubernetesClusterResource.Create.loop, hw, hg', hb, h1, h2]

theorem cluster_create_loop_terminal (client : Client)
    (fw : Framework KubernetesClusterResourceModel) (clusterId : String) (fuel : Nat)
    (data : KubernetesClusterResourceModel) (resp : Run KubernetesClusterResourceModel)
    (response : sagadata.KubernetesClusterResponse) (body : sagadata.ClusterBody)
    (hw : client.PollingWait resp.waits = none)
    (hg : client.GetKubernetesClusterWithResponse resp.reads clusterId = .ok response)
    (hb : response.JSON200 = some body)
    (hs : body.Cluster.Status = sagadata.KubernetesClusterStatusActive ∨
      body.Cluster.Status = sagadata.KubernetesClusterStatusError)
    (hd : resp.HasError = false)
    (hset : ∀ k m, Diagnostics.HasError (fw.StateSet k m) = false) :
    KubernetesClusterResource.Create.loop client fw clusterId (fuel + 1) data resp =
      some (if body.Cluster.Status = sagadata.KubernetesClusterStatusError then
        (Run.StateSet fw ((resp.waited none).polled
          (Event.GetKubernetesCluster clusterId (.ok response)))
          (data.PopulateFromClientResponse body.Cluster).1).AddError "Provisioning Error"
          (Detail.generateErrorMessage "polling kubernetes cluster"
            GoError.ErrResourceInErrorState)
      else Run.StateSet fw ((resp.waited none).polled
          (Event.GetKubernetesCluster clusterId (.ok response)))
          (data.PopulateFromClientResponse body.Cluster).1) := by
  have hg' : client.GetKubernetesClusterWithResponse (resp.waited none).reads clusterId =
      .ok response := hg
  have hd1 : (((resp.waited none).polled
      (Event.GetKubernetesCluster clusterId (.ok response))).Append
      (data.PopulateFromClientResponse body.Cluster).2).HasError = false := by
    simpa [Run.HasError, Run.Append, Run.polled, Run.waited,
      cluster_populate_snd, Diagnostics.Append_nil] using hd
  have hd2 : (Run.StateSet fw (((resp.waited none).polled
      (Event.GetKubernetesCluster clusterId (.ok response))).Append
      (data.PopulateFromClientResponse body.Cluster).2)
      (data.PopulateFromClientResponse body.Cluster).1).HasError = false := by
    have := hset
    simp only [Run.HasError, Run.StateSet, Diagnostics.HasError_Append, Bool.or_eq_false_iff]
    exact ⟨hd1, hset _ _⟩
  have hap : ((resp.waited none).polled
      (Event.GetKubernetesCluster clusterId (.ok response))).Append
      (data.PopulateFromClientResponse body.Cluster).2 = (resp.waited none).polled
      (Event.GetKubernetesCluster clusterId (.ok response)) := by
    simp [Run.Append, cluster_populate_snd, Diagnostics.Append_nil]
  rw [KubernetesClusterResource.Create.loop]
  simp only [hw, hg', hb, if_pos hs, hd1, hd2]
  rw [hap]
  by_cases he : body.Cluster.Status = sagadata.KubernetesClusterStatusError <;> simp [he]

theorem cluster_create_loop_transients (client : Client)
    (fw : Framework KubernetesClusterResourceModel) (clusterId : String) (n fuel : Nat)
    (data : KubernetesClusterResourceModel) (resp : Run KubernetesClusterResourceModel)
    (hw : ∀ i, i < n → client.PollingWait (resp.waits + i) = none)
    (hg : ∀ i, i < n → ∃ response body,
      client.GetKubernetesClusterWithResponse (resp.reads + i) clusterId = .ok response ∧
      response.JSON200 = some body ∧
      body.Cluster.Status ≠ sagadata.KubernetesClusterStatusActive ∧
      body.Cluster.Status ≠ sagadata.KubernetesClusterStatusError) :
    ∃ resp' : Run KubernetesClusterResourceModel,
      KubernetesClusterResource.Create.loop client fw clusterId (fuel + n) data resp =
        KubernetesClusterResource.Create.loop client fw clusterId fuel data resp' ∧
      resp'.Diagnostics = resp.Diagnostics ∧ resp'.State = resp.State ∧
      resp'.sets = resp.sets ∧ resp'.waits = resp.waits + n ∧ resp'.reads = resp.reads + n ∧
      ∃ tail, resp'.calls = resp.calls ++ tail := by
  induction n generalizing resp with
  | zero => exact ⟨resp, rfl, rfl, rfl, rfl, rfl, rfl, [], by simp⟩
  | succ n ih =>
    obtain ⟨response, body, hg0, hb0, h1, h2⟩ := hg 0 (Nat.succ_pos n)
    have hw0 := hw 0 (Nat.succ_pos n)
    rw [Nat.add_zero] at hg0 hw0
    have hstep := cluster_create_loop_transient client fw clusterId
      (fuel + n) data resp response body hw0 hg0 hb0 h1 h2
    obtain ⟨resp', hloop, hdiag, hstate, hsets, hwaits, hreads, tail, hcalls⟩ :=
      ih ((resp.waited none).polled (Event.GetKubernetesCluster clusterId (.ok response)))
        (fun i hi => by
          have := hw (i + 1) (Nat.succ_lt_succ hi)
          simpa [Run.polled, Run.waited, Nat.add_assoc, Nat.add_comm 1 i] using this)
        (fun i hi => by
          have := hg (i + 1) (Nat.succ_lt_succ hi)
          simpa [Run.polled, Run.waited, Nat.add_assoc, Nat.add_comm 1 i] using this)
    refine ⟨resp', ?_, ?_, ?_, ?_, ?_, ?_, ?_⟩
    · rw [← hloop, ← hstep]; rfl
    · simpa [Run.polled, Run.waited] using hdiag
    · simpa [Run.polled, Run.waited] using hstate
    · simpa [Run.polled, Run.waited] using hsets
    · rw [hwaits]; simp [Run.polled, Run.waited, Nat.add_assoc, Nat.add_comm 1 n]
    · rw [hreads]; simp [Run.polled, Run.waited, Nat.add_assoc, Nat.add_comm 1 n]
    · exact ⟨[Event.PollingWait none, Event.GetKubernetesCluster clusterId (.ok response)] ++ tail,
        by rw [hcalls]; simp [Run.polled, Run.waited, List.append_assoc]⟩

/-! ## Kubernetes cluster: Create -/

theorem cluster_create_eq_loop (client : Client)
    (fw : Framework KubernetesClusterResourceModel) (fuel : Nat)
    (response : sagadata.KubernetesClusterResponse) (created : sagadata.ClusterBody)
    (hplan : Diagnostics.HasError fw.PlanGet.2 = false)
    (hctx : fw.ContextWithTimeout = none)
    (hset : ∀ k m, Diagnostics.HasError (fw.StateSet k m) = false)
    (hcreate : client.CreateKubernetesClusterWithResponse
      (KubernetesClusterResource.Create.body fw.PlanGet.1) = .ok response)
    (h201 : response.JSON201 = some created) :
    KubernetesClusterResource.Create client fw fuel =
      KubernetesClusterResource.Create.loop client fw created.Cluster.Id fuel
        (fw.PlanGet.1.PopulateFromClientResponse created.Cluster).1
        (KubernetesClusterResource.Create.entry client fw
          (fw.PlanGet.1.PopulateFromClientResponse created.Cluster).1) := by
  have h0 : ((Run.init none : Run KubernetesClusterResourceModel).Append fw.PlanGet.2).HasError
      = false := by
    simp [Run.HasError, Run.Append, Run.init, Diagnostics.HasError_Append, hplan,
      Diagnostics.HasError_nil]
  have h1 : ((((Run.init none : Run KubernetesClusterResourceModel).Append fw.PlanGet.2).called
      (Event.CreateKubernetesCluster (KubernetesClusterResource.Create.body fw.PlanGet.1)
        (.ok response))).Append
      (fw.PlanGet.1.PopulateFromClientResponse created.Cluster).2).HasError = false := by
    simpa [Run.HasError, Run.Append, Run.called, cluster_populate_snd,
      Diagnostics.Append_nil] using h0
  have h2 : (Run.StateSet fw ((((Run.init none : Run KubernetesClusterResourceModel).Append
      fw.PlanGet.2).called
      (Event.CreateKubernetesCluster (KubernetesClusterResource.Create.body fw.PlanGet.1)
        (.ok response))).Append
      (fw.PlanGet.1.PopulateFromClientResponse created.Cluster).2)
      (fw.PlanGet.1.PopulateFromClientResponse created.Cluster).1).HasError = false := by
    simp only [Run.HasError, Run.StateSet, Diagnostics.HasError_Append, Bool.or_eq_false_iff]
    exact ⟨h1, hset _ _⟩
  have hap : ((((Run.init none : Run KubernetesClusterResourceModel).Append fw.PlanGet.2).called
      (Event.CreateKubernetesCluster (KubernetesClusterResource.Create.body fw.PlanGet.1)
        (.ok response))).Append
      (fw.PlanGet.1.PopulateFromClientResponse created.Cluster).2) =
      (((Run.init none : Run KubernetesClusterResourceModel).Append fw.PlanGet.2).called
      (Event.CreateKubernetesCluster (KubernetesClusterResource.Create.body fw.PlanGet.1)
        (.ok response))) := by
    simp [Run.Append, cluster_populate_snd, Diagnostics.Append_nil]
  unfold KubernetesClusterResource.Create KubernetesClusterResource.Create.entry
  simp only [h0, hctx, hcreate, h201, h1, h2]
  rw [hap]
  rfl

theorem cluster_create_entry_facts (client : Client)
    (fw : Framework KubernetesClusterResourceModel) (data : KubernetesClusterResourceModel)
    (hplan : Diagnostics.HasError fw.PlanGet.2 = false)
    (hset : ∀ k m, Diagnostics.HasError (fw.StateSet k m) = false) :
    (KubernetesClusterResource.Create.entry client fw data).HasError = false ∧
    (KubernetesClusterResource.Create.entry client fw data).State = some data ∧
    (KubernetesClusterResource.Create.entry client fw data).sets = 1 ∧
    (KubernetesClusterResource.Create.entry client fw data).waits = 0 ∧
    (KubernetesClusterResource.Create.entry client fw data).reads = 0 ∧
    (KubernetesClusterResource.Create.entry client fw data).calls =
      [Event.CreateKubernetesCluster (KubernetesClusterResource.Create.body fw.PlanGet.1)
        (client.CreateKubernetesClusterWithResponse
          (KubernetesClusterResource.Create.body fw.PlanGet.1))] := by
  refine ⟨?_, ?_, ?_, ?_, ?_, ?_⟩
  · simp only [KubernetesClusterResource.Create.entry, Run.HasError, Run.StateSet,
      Run.called, Run.Append, Run.init, Diagnostics.HasError_Append, Bool.or_eq_false_iff]
    exact ⟨⟨Diagnostics.HasError_nil, hplan⟩, hset _ _⟩
  · simp [KubernetesClusterResource.Create.entry, Run.StateSet, hset]
  · simp [KubernetesClusterResource.Create.entry, Run.StateSet, Run.called, Run.Append, Run.init]
  · simp [KubernetesClusterResource.Create.entry, Run.StateSet, Run.called, Run.Append, Run.init]
  · simp [KubernetesClusterResource.Create.entry, Run.StateSet, Run.called, Run.Append, Run.init]
  · simp [KubernetesClusterResource.Create.entry, Run.StateSet, Run.called, Run.Append, Run.init]

theorem cluster_create_settles (client : Client)
    (fw : Framework KubernetesClusterResourceModel) (n fuel : Nat)
    (createResponse : sagadata.KubernetesClusterResponse) (created : sagadata.ClusterBody)
    (response : sagadata.KubernetesClusterResponse) (body : sagadata.ClusterBody)
    (hplan : Diagnostics.HasError fw.PlanGet.2 = false)
    (hctx : fw.ContextWithTimeout = none)
    (hset : ∀ k m, Diagnostics.HasError (fw.StateSet k m) = false)
    (hcreate : client.CreateKubernetesClusterWithResponse
      (KubernetesClusterResource.Create.body fw.PlanGet.1) = .ok createResponse)
    (h201 : createResponse.JSON201 = some created)
    (hwait : ∀ i, client.PollingWait i = none)
    (htrans : ∀ i, i < n → ∃ response body,
      client.GetKubernetesClusterWithResponse i created.Cluster.Id = .ok response ∧
      response.JSON200 = some body ∧
      body.Cluster.Status ≠ sagadata.KubernetesClusterStatusActive ∧
      body.Cluster.Status ≠ sagadata.KubernetesClusterStatusError)
    (hterm : client.GetKubernetesClusterWithResponse n created.Cluster.Id = .ok response)
    (h200 : response.JSON200 = some body)
    (hstatus : body.Cluster.Status = sagadata.KubernetesClusterStatusActive)
    (hfuel : n + 1 ≤ fuel) :
    ∃ r, KubernetesClusterResource.Create client fw fuel = some r ∧
      Diagnostics.HasError r.Diagnostics = false ∧ r.reads = n + 1 ∧ r.waits = n + 1 ∧
      r.State = some (fw.PlanGet.1.PopulateFromClientResponse body.Cluster).1 := by
  obtain ⟨extra, rfl⟩ : ∃ extra, fuel = (extra + 1) + n := ⟨fuel - (n + 1), by omega⟩
  obtain ⟨he, hst, hsets, hwaits, hreads, hcalls⟩ :=
    cluster_create_entry_facts client fw
      (fw.PlanGet.1.PopulateFromClientResponse created.Cluster).1 hplan hset
  rw [cluster_create_eq_loop client fw _ createResponse created hplan hctx hset
    hcreate h201]
  obtain ⟨resp', hloop, hdiag, hstate, hsets', hwaits', hreads', -⟩ :=
    cluster_create_loop_transients client fw created.Cluster.Id n (extra + 1)
      (fw.PlanGet.1.PopulateFromClientResponse created.Cluster).1
      (KubernetesClusterResource.Create.entry client fw
        (fw.PlanGet.1.PopulateFromClientResponse created.Cluster).1)
      (fun i _ => hwait _) (fun i hi => by rw [hreads, Nat.zero_add]; exact htrans i hi)
  rw [hloop]
  have hne : body.Cluster.Status ≠ sagadata.KubernetesClusterStatusError := by
    rw [hstatus]; exact cluster_status_ne
  have herr' : resp'.HasError = false := by
    rw [Run.HasError, hdiag]; exact he
  rw [cluster_create_loop_terminal client fw created.Cluster.Id extra _ resp'
    response body (hwait _) (by rw [hreads', hreads, Nat.zero_add]; exact hterm) h200
    (Or.inl hstatus) herr' hset, if_neg hne]
  refine ⟨_, rfl, ?_, ?_, ?_, ?_⟩
  · simp only [Run.StateSet, Run.polled, Run.waited, Diagnostics.HasError_Append,
      Bool.or_eq_false_iff]
    exact ⟨herr', hset _ _⟩
  · simp [Run.StateSet, Run.polled, Run.waited, hreads', hreads]
  · simp [Run.StateSet, Run.polled, Run.waited, hwaits', hwaits]
  · simp [Run.StateSet, hset, cluster_populate_twice]

theorem cluster_create_surfaces_failure (client : Client)
    (fw : Framework KubernetesClusterResourceModel) (fuel : Nat)
    (createResponse : sagadata.KubernetesClusterResponse) (created : sagadata.ClusterBody)
    (response : sagadata.KubernetesClusterResponse) (body : sagadata.ClusterBody)
    (hplan : Diagnostics.HasError fw.PlanGet.2 = false)
    (hctx : fw.ContextWithTimeout = none)
    (hset : ∀ k m, Diagnostics.HasError (fw.StateSet k m) = false)
    (hcreate : client.CreateKubernetesClusterWithResponse
      (KubernetesClusterResource.Create.body fw.PlanGet.1) = .ok createResponse)
    (h201 : createResponse.JSON201 = some created)
    (hwait : client.PollingWait 0 = none)
    (hread : client.GetKubernetesClusterWithResponse 0 created.Cluster.Id = .ok response)
    (h200 : response.JSON200 = some body)
    (hstatus : body.Cluster.Status = sagadata.KubernetesClusterStatusError)
    (hfuel : 1 ≤ fuel) :
    ∃ r m, KubernetesClusterResource.Create client fw fuel = some r ∧ r.reads = 1 ∧
      Diagnostics.Errors r.Diagnostics =
        [{ severity := Severity.Error, summary := "Provisioning Error",
           detail := Detail.generateErrorMessage "polling kubernetes cluster"
             GoError.ErrResourceInErrorState }] ∧
      r.State = some m ∧ m = (fw.PlanGet.1.PopulateFromClientResponse body.Cluster).1 ∧
      m.Status = TfString.value sagadata.KubernetesClusterStatusError := by
  obtain ⟨extra, rfl⟩ : ∃ extra, fuel = extra + 1 := ⟨fuel - 1, by omega⟩
  obtain ⟨he, hst, hsets, hwaits, hreads, hcalls⟩ :=
    cluster_create_entry_facts client fw
      (fw.PlanGet.1.PopulateFromClientResponse created.Cluster).1 hplan hset
  rw [cluster_create_eq_loop client fw _ createResponse created hplan hctx hset
    hcreate h201]
  rw [cluster_create_loop_terminal client fw created.Cluster.Id extra _ _
    response body (by rw [hwaits]; exact hwait) (by rw [hreads]; exact hread) h200
    (Or.inr hstatus) he hset, if_pos hstatus]
  refine ⟨_, (fw.PlanGet.1.PopulateFromClientResponse body.Cluster).1, rfl, ?_, ?_, ?_, rfl, ?_⟩
  · simp [Run.AddError, Run.StateSet, Run.polled, Run.waited, hreads]
  · simp only [Run.AddError]
    apply Diagnostics.Errors_AddError
    simp only [Run.StateSet, Run.polled, Run.waited, Diagnostics.HasError_Append,
      Bool.or_eq_false_iff]
    exact ⟨he, hset _ _⟩
  · simp [Run.AddError, Run.StateSet, hset, cluster_populate_twice]
  · rw [cluster_populate_status, hstatus]

theorem cluster_create_call_fails (client : Client)
    (fw : Framework KubernetesClusterResourceModel) (fuel : Nat)
    (hplan : Diagnostics.HasError fw.PlanGet.2 = false)
    (hctx : fw.ContextWithTimeout = none)
    (hfail : ∀ response, client.CreateKubernetesClusterWithResponse
      (KubernetesClusterResource.Create.body fw.PlanGet.1) = .ok response →
      response.JSON201 = none) :
    ∃ r d, KubernetesClusterResource.Create client fw fuel = some r ∧
      Diagnostics.Errors r.Diagnostics = [d] ∧ d.summary = "Client Error" ∧
      r.waits = 0 ∧ r.reads = 0 ∧ r.sets = 0 ∧ r.State = none ∧
      r.calls = [Event.CreateKubernetesCluster
        (KubernetesClusterResource.Create.body fw.PlanGet.1)
        (client.CreateKubernetesClusterWithResponse
          (KubernetesClusterResource.Create.body fw.PlanGet.1))] := by
  have h0 : ((Run.init none : Run KubernetesClusterResourceModel).Append fw.PlanGet.2).HasError
      = false := by
    simp [Run.HasError, Run.Append, Run.init, Diagnostics.HasError_Append, hplan,
      Diagnostics.HasError_nil]
  have h0' : Diagnostics.HasError (Diagnostics.Append [] fw.PlanGet.2) = false := h0
  cases hres : client.CreateKubernetesClusterWithResponse
      (KubernetesClusterResource.Create.body fw.PlanGet.1) with
  | err e =>
    have hC : KubernetesClusterResource.Create client fw fuel =
        some ((((Run.init none).Append fw.PlanGet.2).called
          (Event.CreateKubernetesCluster (KubernetesClusterResource.Create.body fw.PlanGet.1)
            (.err e))).AddError "Client Error"
          (Detail.generateErrorMessage "create kubernetes cluster" e)) := by
      simp [KubernetesClusterResource.Create, h0, hctx, hres]
    rw [hC]
    refine ⟨_, ⟨Severity.Error, "Client Error",
      Detail.generateErrorMessage "create kubernetes cluster" e⟩, rfl, ?_, rfl, rfl, rfl, rfl, rfl, rfl⟩
    exact Diagnostics.Errors_AddError _ _ _ h0'
  | ok response =>
    have hC : KubernetesClusterResource.Create client fw fuel =
        some ((((Run.init none).Append fw.PlanGet.2).called
          (Event.CreateKubernetesCluster (KubernetesClusterResource.Create.body fw.PlanGet.1)
            (.ok response))).AddError "Client Error"
          (Detail.generateClientErrorMessage "create kubernetes cluster"
            { Body := response.Body, HTTPResponse := response.HTTPResponse,
              Error := response.JSONDefault })) := by
      simp [KubernetesClusterResource.Create, h0, hctx, hres, hfail response hres]
    rw [hC]
    refine ⟨_, ⟨Severity.Error, "Client Error",
      Detail.generateClientErrorMessage "create kubernetes cluster"
        { Body := response.Body, HTTPResponse := response.HTTPResponse,
          Error := response.JSONDefault }⟩, rfl, ?_, rfl, rfl, rfl, rfl, rfl, rfl⟩
    exact Diagnostics.Errors_AddError _ _ _ h0'

theorem cluster_create_loop_read_aborts (client : Client)
    (fw : Framework KubernetesClusterResourceModel) (clusterId : String) (fuel : Nat)
    (data : KubernetesClusterResourceModel) (resp : Run KubernetesClusterResourceModel)
    (hd : resp.HasError = false)
    (hw : client.PollingWait resp.waits = none)
    (hfail : ∀ response, client.GetKubernetesClusterWithResponse resp.reads clusterId =
      .ok response → response.JSON200 = none) :
    ∃ r d, KubernetesClusterResource.Create.loop client fw clusterId (fuel + 1) data resp =
        some r ∧
      r.Diagnostics = resp.Diagnostics ++ [d] ∧ d.severity = Severity.Error ∧
      d.summary = "Client Error" ∧ r.State = resp.State ∧ r.sets = resp.sets ∧
      r.waits = resp.waits + 1 ∧ r.reads = resp.reads + 1 ∧
      r.calls = resp.calls ++ [Event.PollingWait none, Event.GetKubernetesCluster clusterId
        (client.GetKubernetesClusterWithResponse resp.reads clusterId)] := by
  cases hres : client.GetKubernetesClusterWithResponse resp.reads clusterId with
  | err e =>
    rw [cluster_create_loop_read_fails client fw clusterId fuel data resp e
      hw hres]
    refine ⟨_, ⟨Severity.Error, "Client Error",
      Detail.generateErrorMessage "polling kubernetes cluster" e⟩, rfl, ?_, rfl, rfl, rfl, rfl, rfl, rfl, ?_⟩
    · exact Diagnostics.AddError_eq _ _ _ hd
    · simp [Run.AddError, Run.polled, Run.waited]
  | ok response =>
    rw [cluster_create_loop_read_no_body client fw clusterId fuel data resp
      response hw hres (hfail response hres)]
    refine ⟨_, ⟨Severity.Error, "Client Error",
      Detail.generateClientErrorMessage "polling kubernetes cluster"
        { Body := response.Body, HTTPResponse := response.HTTPResponse,
          Error := response.JSONDefault }⟩, rfl, ?_, rfl, rfl, rfl, rfl, rfl, rfl, ?_⟩
    · exact Diagnostics.AddError_eq _ _ _ hd
    · simp [Run.AddError, Run.polled, Run.waited]

theorem cluster_create_deadline (client : Client)
    (fw : Framework KubernetesClusterResourceModel) (k fuel : Nat)
    (createResponse : sagadata.KubernetesClusterResponse) (created : sagadata.ClusterBody)
    (err : GoError)
    (hplan : Diagnostics.HasError fw.PlanGet.2 = false)
    (hctx : fw.ContextWithTimeout = none)
    (hset : ∀ k m, Diagnostics.HasError (fw.StateSet k m) = false)
    (hcreate : client.CreateKubernetesClusterWithResponse
      (KubernetesClusterResource.Create.body fw.PlanGet.1) = .ok createResponse)
    (h201 : createResponse.JSON201 = some created)
    (hk : 1 ≤ k)
    (hwait : ∀ i, i < k - 1 → client.PollingWait i = none)
    (hcancel : client.PollingWait (k - 1) = some err)
    (htrans : ∀ i, i < k - 1 → ∃ response body,
      client.GetKubernetesClusterWithResponse i created.Cluster.Id = .ok response ∧
      response.JSON200 = some body ∧
      body.Cluster.Status ≠ sagadata.KubernetesClusterStatusActive ∧
      body.Cluster.Status ≠ sagadata.KubernetesClusterStatusError)
    (hfuel : k ≤ fuel) :
    ∃ r m, KubernetesClusterResource.Create client fw fuel = some r ∧ r.reads = k - 1 ∧
      r.waits = k ∧
      Diagnostics.Errors r.Diagnostics =
        [{ severity := Severity.Error, summary := "Polling Error",
           detail := Detail.generateErrorMessage "polling kubernetes cluster" err }] ∧
      r.calls.getLast? = some (Event.PollingWait (some err)) ∧
      r.State = some m ∧ m = (fw.PlanGet.1.PopulateFromClientResponse created.Cluster).1 ∧
      m.Id = TfString.value created.Cluster.Id := by
  obtain ⟨n, rfl⟩ : ∃ n, k = n + 1 := ⟨k - 1, by omega⟩
  obtain ⟨extra, rfl⟩ : ∃ extra, fuel = (extra + 1) + n := ⟨fuel - (n + 1), by omega⟩
  simp only [Nat.add_sub_cancel] at hwait hcancel htrans ⊢
  obtain ⟨he, hst, hsets, hwaits, hreads, hcalls⟩ :=
    cluster_create_entry_facts client fw
      (fw.PlanGet.1.PopulateFromClientResponse created.Cluster).1 hplan hset
  rw [cluster_create_eq_loop client fw _ createResponse created hplan hctx hset
    hcreate h201]
  obtain ⟨resp', hloop, hdiag, hstate, hsets', hwaits', hreads', -⟩ :=
    cluster_create_loop_transients client fw created.Cluster.Id n (extra + 1)
      (fw.PlanGet.1.PopulateFromClientResponse created.Cluster).1
      (KubernetesClusterResource.Create.entry client fw
        (fw.PlanGet.1.PopulateFromClientResponse created.Cluster).1)
      (fun i hi => by rw [hwaits, Nat.zero_add]; exact hwait i hi)
      (fun i hi => by rw [hreads, Nat.zero_add]; exact htrans i hi)
  rw [hloop]
  have herr' : resp'.HasError = false := by
    rw [Run.HasError, hdiag]; exact he
  rw [cluster_create_loop_wait_fails client fw created.Cluster.Id extra _ resp'
    err (by rw [hwaits', hwaits, Nat.zero_add]; exact hcancel)]
  refine ⟨_, (fw.PlanGet.1.PopulateFromClientResponse created.Cluster).1, rfl, ?_, ?_, ?_, ?_,
    ?_, rfl, ?_⟩
  · simp [Run.AddError, Run.waited, hreads', hreads]
  · simp [Run.AddError, Run.waited, hwaits', hwaits]
  · simp only [Run.AddError, Run.waited]
    exact Diagnostics.Errors_AddError _ _ _ herr'
  · simp [Run.AddError, Run.waited]
  · simp only [Run.AddError, Run.waited]
    rw [hstate, hst]
  · exact cluster_populate_id _ _

/-! ## Kubernetes cluster: what a finished Create has stored -/

theorem cluster_create_loop_state (client : Client)
    (fw : Framework KubernetesClusterResourceModel) (clusterId : String)
    (hset : ∀ k m, Diagnostics.HasError (fw.StateSet k m) = false) :
    ∀ (fuel : Nat) (data : KubernetesClusterResourceModel)
      (resp r : Run KubernetesClusterResourceModel), resp.HasError = false →
      KubernetesClusterResource.Create.loop client fw clusterId fuel data resp = some r →
      (∃ tail, r.calls = resp.calls ++ tail) ∧
      (∀ c, KubernetesClusterResource.lastRead r.calls = some c →
        (c.Status = sagadata.KubernetesClusterStatusActive ∨
          c.Status = sagadata.KubernetesClusterStatusError) ∧
        r.State = some (data.PopulateFromClientResponse c).1) ∧
      (KubernetesClusterResource.lastRead r.calls = none → r.State = resp.State) := by
  intro fuel
  induction fuel with
  | zero => intro data resp r _ h; simp [KubernetesClusterResource.Create.loop] at h
  | succ fuel ih =>
    intro data resp r hd h
    cases hw : client.PollingWait resp.waits with
    | some err =>
      rw [cluster_create_loop_wait_fails client fw clusterId fuel data resp err
        hw] at h
      cases h
      simp [KubernetesClusterResource.lastRead, Run.AddError, Run.waited]
    | none =>
      cases hg : client.GetKubernetesClusterWithResponse resp.reads clusterId with
      | err e =>
        rw [cluster_create_loop_read_fails client fw clusterId fuel data resp e
          hw hg] at h
        cases h
        simp [KubernetesClusterResource.lastRead, Run.AddError, Run.waited, Run.polled]
      | ok response =>
        cases hb : response.JSON200 with
        | none =>
          rw [cluster_create_loop_read_no_body client fw clusterId fuel data
            resp response hw hg hb] at h
          cases h
          simp [KubernetesClusterResource.lastRead, Run.AddError, Run.waited, Run.polled, hb]
        | some body =>
          by_cases hs : body.Cluster.Status = sagadata.KubernetesClusterStatusActive ∨
              body.Cluster.Status = sagadata.KubernetesClusterStatusError
          · rw [cluster_create_loop_terminal client fw clusterId fuel data
              resp response body hw hg hb hs hd hset] at h
            cases h
            by_cases he : body.Cluster.Status = sagadata.KubernetesClusterStatusError
            · simp [KubernetesClusterResource.lastRead, Run.AddError, Run.StateSet, Run.waited,
                Run.polled, hb, he, hset]
            · simp [KubernetesClusterResource.lastRead, Run.AddError, Run.StateSet, Run.waited,
                Run.polled, hb, he, hset]
              exact hs.resolve_right he
          · have h1 : body.Cluster.Status ≠ sagadata.KubernetesClusterStatusActive :=
              fun hh => hs (Or.inl hh)
            have h2 : body.Cluster.Status ≠ sagadata.KubernetesClusterStatusError :=
              fun hh => hs (Or.inr hh)
            rw [cluster_create_loop_transient client fw clusterId fuel data
              resp response body hw hg hb h1 h2] at h
            obtain ⟨⟨tail, htail⟩, hlast, hnone⟩ := ih data _ r
              (by simpa [Run.HasError, Run.polled, Run.waited] using hd) h
            refine ⟨⟨[Event.PollingWait none,
              Event.GetKubernetesCluster clusterId (.ok response)] ++ tail, ?_⟩, hlast, ?_⟩
            · rw [htail]; simp [Run.polled, Run.waited]
            · intro hn; rw [hnone hn]; simp [Run.polled, Run.waited]

theorem cluster_create_state (client : Client)
    (fw : Framework KubernetesClusterResourceModel) (fuel : Nat)
    (r : Run KubernetesClusterResourceModel)
    (hset : ∀ k m, Diagnostics.HasError (fw.StateSet k m) = false)
    (h : KubernetesClusterResource.Create client fw fuel = some r) :
    (∀ c, KubernetesClusterResource.lastRead r.calls = some c →
      (c.Status = sagadata.KubernetesClusterStatusActive ∨
        c.Status = sagadata.KubernetesClusterStatusError) ∧
      r.State = some (fw.PlanGet.1.PopulateFromClientResponse c).1) ∧
    (KubernetesClusterResource.lastRead r.calls = none →
      r.State = (KubernetesClusterResource.created r.calls).map
        (fun c => (fw.PlanGet.1.PopulateFromClientResponse c).1)) := by
  by_cases hplan : Diagnostics.HasError fw.PlanGet.2 = false
  swap
  · have h0 : ((Run.init none : Run KubernetesClusterResourceModel).Append
        fw.PlanGet.2).HasError = true := by
      simpa [Run.HasError, Run.Append, Run.init, Diagnostics.HasError_Append,
        Diagnostics.HasError_nil] using hplan
    simp only [KubernetesClusterResource.Create, h0, if_true, Option.some.injEq] at h
    subst h
    simp [KubernetesClusterResource.lastRead, KubernetesClusterResource.created, Run.Append,
      Run.init]
  have h0 : ((Run.init none : Run KubernetesClusterResourceModel).Append fw.PlanGet.2).HasError
      = false := by
    simp [Run.HasError, Run.Append, Run.init, Diagnostics.HasError_Append, hplan,
      Diagnostics.HasError_nil]
  cases hctx : fw.ContextWithTimeout with
  | some ds =>
    simp [KubernetesClusterResource.Create, h0, hctx] at h
    subst h
    simp [KubernetesClusterResource.lastRead, KubernetesClusterResource.created, Run.Append,
      Run.init]
  | none =>
    cases hres : client.CreateKubernetesClusterWithResponse
        (KubernetesClusterResource.Create.body fw.PlanGet.1) with
    | err e =>
      simp [KubernetesClusterResource.Create, h0, hctx, hres] at h
      subst h
      simp [KubernetesClusterResource.lastRead, KubernetesClusterResource.created, Run.Append,
        Run.init, Run.called, Run.AddError]
    | ok response =>
      cases h201 : response.JSON201 with
      | none =>
        simp [KubernetesClusterResource.Create, h0, hctx, hres, h201] at h
        subst h
        simp [KubernetesClusterResource.lastRead, KubernetesClusterResource.created, Run.Append,
          Run.init, Run.called, Run.AddError, h201]
      | some created =>
        rw [cluster_create_eq_loop client fw fuel response created hplan hctx
          hset hres h201] at h
        obtain ⟨he, hst, -, -, -, hcalls⟩ :=
          cluster_create_entry_facts client fw
            (fw.PlanGet.1.PopulateFromClientResponse created.Cluster).1 hplan hset
        obtain ⟨⟨tail, htail⟩, hlast, hnone⟩ :=
          cluster_create_loop_state client fw created.Cluster.Id hset fuel _ _
            r he h
        refine ⟨fun c hc => ?_, fun hn => ?_⟩
        · obtain ⟨hterm, hstate⟩ := hlast c hc
          exact ⟨hterm, by
            rw [hstate, cluster_populate_twice]⟩
        · rw [hnone hn, hst, htail, hcalls, hres]
          simp [KubernetesClusterResource.created, h201]

/-! ## Kubernetes cluster: the outcome of a finished Create -/

theorem cluster_create_loop_outcome (client : Client)
    (fw : Framework KubernetesClusterResourceModel) (clusterId : String)
    (hset : ∀ k m, Diagnostics.HasError (fw.StateSet k m) = false) :
    ∀ (fuel : Nat) (data : KubernetesClusterResourceModel)
      (resp r : Run KubernetesClusterResourceModel), resp.HasError = false →
      (∀ c, KubernetesClusterResource.lastRemoteRead resp.calls = some c →
        c.Status ≠ sagadata.KubernetesClusterStatusActive) →
      KubernetesClusterResource.Create.loop client fw clusterId fuel data resp = some r →
      (Diagnostics.HasError r.Diagnostics = false ↔
        ∃ c, KubernetesClusterResource.lastRemoteRead r.calls = some c ∧
          c.Status = sagadata.KubernetesClusterStatusActive) := by
  intro fuel
  induction fuel with
  | zero => intro data resp r _ _ h; simp [KubernetesClusterResource.Create.loop] at h
  | succ fuel ih =>
    intro data resp r hd hpre h
    cases hw : client.PollingWait resp.waits with
    | some err =>
      rw [cluster_create_loop_wait_fails client fw clusterId fuel data resp err
        hw] at h
      cases h
      have hE : Diagnostics.HasError ((resp.waited (some err)).AddError "Polling Error"
          (Detail.generateErrorMessage "polling kubernetes cluster" err)).Diagnostics = true :=
        Diagnostics.HasError_AddError _ _ _
      have hL : KubernetesClusterResource.lastRemoteRead ((resp.waited (some err)).AddError
          "Polling Error" (Detail.generateErrorMessage "polling kubernetes cluster"
            err)).calls = KubernetesClusterResource.lastRemoteRead resp.calls := by
        simp [KubernetesClusterResource.lastRemoteRead, Run.AddError, Run.waited,
          lastRemote_append_wait]
      rw [hE, hL]
      constructor
      · intro hh; cases hh
      · rintro ⟨c, hc, hs⟩; exact absurd hs (hpre c hc)
    | none =>
      cases hg : client.GetKubernetesClusterWithResponse resp.reads clusterId with
      | err e =>
        rw [cluster_create_loop_read_fails client fw clusterId fuel data resp e
          hw hg] at h
        cases h
        have hE : Diagnostics.HasError (((resp.waited none).polled
            (Event.GetKubernetesCluster clusterId (.err e))).AddError "Client Error"
            (Detail.generateErrorMessage "polling kubernetes cluster" e)).Diagnostics = true :=
          Diagnostics.HasError_AddError _ _ _
        rw [hE]
        simp [KubernetesClusterResource.lastRemoteRead, Run.AddError, Run.waited, Run.polled,
          ← List.append_assoc, lastRemote_append_remote, Event.isRemote]
      | ok response =>
        cases hb : response.JSON200 with
        | none =>
          rw [cluster_create_loop_read_no_body client fw clusterId fuel data
            resp response hw hg hb] at h
          cases h
          have hE : Diagnostics.HasError (((resp.waited none).polled
              (Event.GetKubernetesCluster clusterId (.ok response))).AddError "Client Error"
              (Detail.generateClientErrorMessage "polling kubernetes cluster"
                { Body := response.Body, HTTPResponse := response.HTTPResponse,
                  Error := response.JSONDefault })).Diagnostics = true :=
            Diagnostics.HasError_AddError _ _ _
          rw [hE]
          simp [KubernetesClusterResource.lastRemoteRead, Run.AddError, Run.waited, Run.polled,
            ← List.append_assoc, lastRemote_append_remote, Event.isRemote, hb]
        | some body =>
          have hlast : ∀ calls : List Event, KubernetesClusterResource.lastRemoteRead
              (calls ++ [Event.PollingWait none,
                Event.GetKubernetesCluster clusterId (.ok response)]) = some body.Cluster := by
            intro calls
            have : calls ++ [Event.PollingWait none,
                Event.GetKubernetesCluster clusterId (.ok response)] =
                (calls ++ [Event.PollingWait none]) ++
                  [Event.GetKubernetesCluster clusterId (.ok response)] := by simp
            rw [KubernetesClusterResource.lastRemoteRead, this,
              lastRemote_append_remote (calls ++ [Event.PollingWait none])
                (Event.GetKubernetesCluster clusterId (.ok response)) rfl]
            simp [hb]
          by_cases hs : body.Cluster.Status = sagadata.KubernetesClusterStatusActive ∨
              body.Cluster.Status = sagadata.KubernetesClusterStatusError
          · rw [cluster_create_loop_terminal client fw clusterId fuel data
              resp response body hw hg hb hs hd hset] at h
            cases h
            by_cases he : body.Cluster.Status = sagadata.KubernetesClusterStatusError
            · rw [if_pos he]
              have hE : Diagnostics.HasError ((Run.StateSet fw ((resp.waited none).polled
                  (Event.GetKubernetesCluster clusterId (.ok response)))
                  (data.PopulateFromClientResponse body.Cluster).1).AddError
                  "Provisioning Error" (Detail.generateErrorMessage "polling kubernetes cluster"
                    GoError.ErrResourceInErrorState)).Diagnostics = true :=
                Diagnostics.HasError_AddError _ _ _
              have hc : ((Run.StateSet fw ((resp.waited none).polled
                  (Event.GetKubernetesCluster clusterId (.ok response)))
                  (data.PopulateFromClientResponse body.Cluster).1).AddError
                  "Provisioning Error" (Detail.generateErrorMessage "polling kubernetes cluster"
                    GoError.ErrResourceInErrorState)).calls = resp.calls ++
                  [Event.PollingWait none,
                    Event.GetKubernetesCluster clusterId (.ok response)] := by
                simp [Run.AddError, Run.StateSet, Run.polled, Run.waited]
              rw [hE, hc, hlast]
              constructor
              · intro hh; cases hh
              · rintro ⟨c, hc', hs'⟩
                cases hc'
                rw [he] at hs'
                exact absurd hs'.symm cluster_status_ne
            · rw [if_neg he]
              have hE : Diagnostics.HasError (Run.StateSet fw ((resp.waited none).polled
                  (Event.GetKubernetesCluster clusterId (.ok response)))
                  (data.PopulateFromClientResponse body.Cluster).1).Diagnostics = false := by
                simp only [Run.StateSet, Run.polled, Run.waited, Diagnostics.HasError_Append,
                  Bool.or_eq_false_iff]
                exact ⟨hd, hset _ _⟩
              have hc : (Run.StateSet fw ((resp.waited none).polled
                  (Event.GetKubernetesCluster clusterId (.ok response)))
                  (data.PopulateFromClientResponse body.Cluster).1).calls = resp.calls ++
                  [Event.PollingWait none,
                    Event.GetKubernetesCluster clusterId (.ok response)] := by
                simp [Run.StateSet, Run.polled, Run.waited]
              rw [hE, hc, hlast]
              exact ⟨fun _ => ⟨_, rfl, hs.resolve_right he⟩, fun _ => rfl⟩
          · have h1 : body.Cluster.Status ≠ sagadata.KubernetesClusterStatusActive :=
              fun hh => hs (Or.inl hh)
            have h2 : body.Cluster.Status ≠ sagadata.KubernetesClusterStatusError :=
              fun hh => hs (Or.inr hh)
            rw [cluster_create_loop_transient client fw clusterId fuel data
              resp response body hw hg hb h1 h2] at h
            refine ih data _ r (by simpa [Run.HasError, Run.polled, Run.waited] using hd) ?_ h
            intro c hc
            have hcalls : ((resp.waited none).polled
                (Event.GetKubernetesCluster clusterId (.ok response))).calls = resp.calls ++
                [Event.PollingWait none,
                  Event.GetKubernetesCluster clusterId (.ok response)] := by
              simp [Run.polled, Run.waited]
            rw [hcalls, hlast] at hc
            cases hc
            exact h1

theorem cluster_create_outcome (client : Client)
    (fw : Framework KubernetesClusterResourceModel) (fuel : Nat)
    (r : Run KubernetesClusterResourceModel)
    (hplan : fw.PlanGet.2 = [])
    (hctx : ∀ ds, fw.ContextWithTimeout = some ds → Diagnostics.HasError ds = true)
    (hset : ∀ k m, fw.StateSet k m = [])
    (h : KubernetesClusterResource.Create client fw fuel = some r) :
    (Diagnostics.HasError r.Diagnostics = false ↔
      ∃ c, KubernetesClusterResource.lastRemoteRead r.calls = some c ∧
        c.Status = sagadata.KubernetesClusterStatusActive) ∧
    (∀ c, KubernetesClusterResource.lastRemoteRead r.calls = some c →
      c.Status = sagadata.KubernetesClusterStatusError →
      Diagnostics.HasError r.Diagnostics = true) ∧
    (∀ c, KubernetesClusterResource.lastRead r.calls = some c →
      c.Status = sagadata.KubernetesClusterStatusActive ∨
        c.Status = sagadata.KubernetesClusterStatusError) := by
  have hset' : ∀ k m, Diagnostics.HasError (fw.StateSet k m) = false := by
    intro k m; rw [hset]; rfl
  have hplan' : Diagnostics.HasError fw.PlanGet.2 = false := by rw [hplan]; rfl
  have hiff : Diagnostics.HasError r.Diagnostics = false ↔
      ∃ c, KubernetesClusterResource.lastRemoteRead r.calls = some c ∧
        c.Status = sagadata.KubernetesClusterStatusActive := by
    have h0 : ((Run.init none : Run KubernetesClusterResourceModel).Append
        fw.PlanGet.2).HasError = false := by
      simp [Run.HasError, Run.Append, Run.init, Diagnostics.HasError_Append, hplan',
        Diagnostics.HasError_nil]
    cases hc : fw.ContextWithTimeout with
    | some ds =>
      simp [KubernetesClusterResource.Create, h0, hc] at h
      subst h
      have hE : Diagnostics.HasError (((Run.init none :
          Run KubernetesClusterResourceModel).Append fw.PlanGet.2).Append ds).Diagnostics
          = true := by
        simp [Run.Append, Diagnostics.HasError_Append, hctx ds hc]
      rw [hE]
      simp [KubernetesClusterResource.lastRemoteRead, lastRemote, Run.Append, Run.init]
    | none =>
      cases hres : client.CreateKubernetesClusterWithResponse
          (KubernetesClusterResource.Create.body fw.PlanGet.1) with
      | err e =>
        simp [KubernetesClusterResource.Create, h0, hc, hres] at h
        subst h
        have hE : Diagnostics.HasError ((((Run.init none :
            Run KubernetesClusterResourceModel).Append fw.PlanGet.2).called
            (Event.CreateKubernetesCluster (KubernetesClusterResource.Create.body fw.PlanGet.1)
              (.err e))).AddError "Client Error"
            (Detail.generateErrorMessage "create kubernetes cluster" e)).Diagnostics = true :=
          Diagnostics.HasError_AddError _ _ _
        rw [hE]
        simp [KubernetesClusterResource.lastRemoteRead, lastRemote, Run.Append, Run.init,
          Run.called, Run.AddError, Event.isRemote]
      | ok response =>
        cases h201 : response.JSON201 with
        | none =>
          simp [KubernetesClusterResource.Create, h0, hc, hres, h201] at h
          subst h
          have hE : Diagnostics.HasError ((((Run.init none :
              Run KubernetesClusterResourceModel).Append fw.PlanGet.2).called
              (Event.CreateKubernetesCluster
                (KubernetesClusterResource.Create.body fw.PlanGet.1)
                (.ok response))).AddError "Client Error"
              (Detail.generateClientErrorMessage "create kubernetes cluster"
                { Body := response.Body, HTTPResponse := response.HTTPResponse,
                  Error := response.JSONDefault })).Diagnostics = true :=
            Diagnostics.HasError_AddError _ _ _
          rw [hE]
          simp [KubernetesClusterResource.lastRemoteRead, lastRemote, Run.Append, Run.init,
            Run.called, Run.AddError, Event.isRemote]
        | some created =>
          rw [cluster_create_eq_loop client fw fuel response created hplan' hc
            hset' hres h201] at h
          obtain ⟨he, -, -, -, -, hcalls⟩ :=
            cluster_create_entry_facts client fw
              (fw.PlanGet.1.PopulateFromClientResponse created.Cluster).1 hplan' hset'
          refine cluster_create_loop_outcome client fw created.Cluster.Id
            hset' fuel _ _ r he ?_ h
          intro c hcc
          rw [hcalls] at hcc
          simp [KubernetesClusterResource.lastRemoteRead, lastRemote, Event.isRemote] at hcc
  refine ⟨hiff, ?_, ?_⟩
  · intro c hc hs
    cases hE : Diagnostics.HasError r.Diagnostics with
    | true => rfl
    | false =>
      obtain ⟨c', hc', hs'⟩ := hiff.mp hE
      rw [hc] at hc'
      cases hc'
      rw [hs] at hs'
      exact absurd hs'.symm cluster_status_ne
  · intro c hc
    exact ((cluster_create_state client fw fuel r hset' h).1 c hc).1

/-! ## Kubernetes cluster: the disappearance loop and Delete -/

theorem cluster_delete_loop_wait_fails (client : Client) (clusterId : String)
    (fuel : Nat) (resp : Run KubernetesClusterResourceModel) (err : GoError)
    (hw : client.PollingWait resp.waits = some err) :
    KubernetesClusterResource.Delete.loop client clusterId (fuel + 1) resp =
      some ((resp.waited (some err)).AddError "Polling Error"
        (Detail.generateErrorMessage "polling kubernetes cluster" err)) := by
  simp [KubernetesClusterResource.Delete.loop, hw]

theorem cluster_delete_loop_read_fails (client : Client) (clusterId : String)
    (fuel : Nat) (resp : Run KubernetesClusterResourceModel) (err : GoError)
    (hw : client.PollingWait resp.waits = none)
    (hg : client.GetKubernetesClusterWithResponse resp.reads clusterId = .err err) :
    KubernetesClusterResource.Delete.loop client clusterId (fuel + 1) resp =
      some (((resp.waited none).polled (Event.GetKubernetesCluster clusterId (.err err))).AddError
        "Client Error" (Detail.generateErrorMessage "polling kubernetes cluster" err)) := by
  have hg' : client.GetKubernetesClusterWithResponse (resp.waited none).reads clusterId =
      .err err := hg
  simp [KubernetesClusterResource.Delete.loop, hw, hg']

theorem cluster_delete_loop_gone (client : Client) (clusterId : String)
    (fuel : Nat) (resp : Run KubernetesClusterResourceModel)
    (response : sagadata.KubernetesClusterResponse)
    (hw : client.PollingWait resp.waits = none)
    (hg : client.GetKubernetesClusterWithResponse resp.reads clusterId = .ok response)
    (h404 : response.StatusCode = 404) :
    KubernetesClusterResource.Delete.loop client clusterId (fuel + 1) resp =
      some ((resp.waited none).polled (Event.GetKubernetesCluster clusterId (.ok response))) := by
  have hg' : client.GetKubernetesClusterWithResponse (resp.waited none).reads clusterId =
      .ok response := hg
  simp [KubernetesClusterResource.Delete.loop, hw, hg', h404]

theorem cluster_delete_loop_continues (client : Client) (clusterId : String)
    (fuel : Nat) (resp : Run KubernetesClusterResourceModel)
    (response : sagadata.KubernetesClusterResponse)
    (hw : client.PollingWait resp.waits = none)
    (hg : client.GetKubernetesClusterWithResponse resp.reads clusterId = .ok response)
    (hne : response.StatusCode ≠ 404) :
    KubernetesClusterResource.Delete.loop client clusterId (fuel + 1) resp =
      KubernetesClusterResource.Delete.loop client clusterId fuel
        ((resp.waited none).polled (Event.GetKubernetesCluster clusterId (.ok response))) := by
  have hg' : client.GetKubernetesClusterWithResponse (resp.waited none).reads clusterId =
      .ok response := hg
  simp [KubernetesClusterResource.Delete.loop, hw, hg', hne]

theorem cluster_delete_loop_lives (client : Client) (clusterId : String)
    (n fuel : Nat) (resp : Run KubernetesClusterResourceModel)
    (hw : ∀ i, i < n → client.PollingWait (resp.waits + i) = none)
    (hg : ∀ i, i < n → ∃ response,
      client.GetKubernetesClusterWithResponse (resp.reads + i) clusterId = .ok response ∧
      response.StatusCode ≠ 404) :
    ∃ resp' : Run KubernetesClusterResourceModel,
      KubernetesClusterResource.Delete.loop client clusterId (fuel + n) resp =
        KubernetesClusterResource.Delete.loop client clusterId fuel resp' ∧
      resp'.Diagnostics = resp.Diagnostics ∧ resp'.State = resp.State ∧
      resp'.sets = resp.sets ∧ resp'.waits = resp.waits + n ∧ resp'.reads = resp.reads + n := by
  induction n generalizing resp with
  | zero => exact ⟨resp, rfl, rfl, rfl, rfl, rfl, rfl⟩
  | succ n ih =>
    obtain ⟨response, hg0, hne⟩ := hg 0 (Nat.succ_pos n)
    have hw0 := hw 0 (Nat.succ_pos n)
    rw [Nat.add_zero] at hg0 hw0
    have hstep := cluster_delete_loop_continues client clusterId
      (fuel + n) resp response hw0 hg0 hne
    obtain ⟨resp', hloop, hdiag, hstate, hsets, hwaits, hreads⟩ :=
      ih ((resp.waited none).polled (Event.GetKubernetesCluster clusterId (.ok response)))
        (fun i hi => by
          have := hw (i + 1) (Nat.succ_lt_succ hi)
          simpa [Run.polled, Run.waited, Nat.add_assoc, Nat.add_comm 1 i] using this)
        (fun i hi => by
          have := hg (i + 1) (Nat.succ_lt_succ hi)
          simpa [Run.polled, Run.waited, Nat.add_assoc, Nat.add_comm 1 i] using this)
    refine ⟨resp', ?_, ?_, ?_, ?_, ?_, ?_⟩
    · rw [← hloop, ← hstep]; rfl
    · simpa [Run.polled, Run.waited] using hdiag
    · simpa [Run.polled, Run.waited] using hstate
    · simpa [Run.polled, Run.waited] using hsets
    · rw [hwaits]; simp [Run.polled, Run.waited, Nat.add_assoc, Nat.add_comm 1 n]
    · rw [hreads]; simp [Run.polled, Run.waited, Nat.add_assoc, Nat.add_comm 1 n]

theorem cluster_delete_eq_loop (client : Client)
    (fw : Framework KubernetesClusterResourceModel) (fuel : Nat)
    (response : sagadata.KubernetesClusterResponse)
    (hstate : Diagnostics.HasError fw.StateGet.2 = false)
    (hctx : fw.ContextWithTimeout = none)
    (hdel : client.DeleteKubernetesClusterWithResponse fw.StateGet.1.Id.ValueString =
      .ok response)
    (h204 : response.StatusCode = 204) :
    KubernetesClusterResource.Delete client fw fuel =
      KubernetesClusterResource.Delete.loop client fw.StateGet.1.Id.ValueString fuel
        (KubernetesClusterResource.Delete.entry client fw) := by
  have h0 : ((Run.init (some fw.StateGet.1) : Run KubernetesClusterResourceModel).Append
      fw.StateGet.2).HasError = false := by
    simp [Run.HasError, Run.Append, Run.init, Diagnostics.HasError_Append, hstate,
      Diagnostics.HasError_nil]
  simp [KubernetesClusterResource.Delete, KubernetesClusterResource.Delete.entry, h0, hctx,
    hdel, h204]

theorem cluster_delete_entry_facts (client : Client)
    (fw : Framework KubernetesClusterResourceModel)
    (hstate : Diagnostics.HasError fw.StateGet.2 = false) :
    (KubernetesClusterResource.Delete.entry client fw).HasError = false ∧
    (KubernetesClusterResource.Delete.entry client fw).State = some fw.StateGet.1 ∧
    (KubernetesClusterResource.Delete.entry client fw).sets = 0 ∧
    (KubernetesClusterResource.Delete.entry client fw).waits = 0 ∧
    (KubernetesClusterResource.Delete.entry client fw).reads = 0 := by
  refine ⟨?_, rfl, rfl, rfl, rfl⟩
  simp [KubernetesClusterResource.Delete.entry, Run.HasError, Run.called, Run.Append, Run.init,
    Diagnostics.HasError_Append, hstate, Diagnostics.HasError_nil]

theorem cluster_delete_confirms (client : Client)
    (fw : Framework KubernetesClusterResourceModel) (n fuel : Nat)
    (deleted gone : sagadata.KubernetesClusterResponse)
    (hstate : Diagnostics.HasError fw.StateGet.2 = false)
    (hctx : fw.ContextWithTimeout = none)
    (hdel : client.DeleteKubernetesClusterWithResponse fw.StateGet.1.Id.ValueString =
      .ok deleted)
    (h204 : deleted.StatusCode = 204)
    (hwait : ∀ i, client.PollingWait i = none)
    (hlive : ∀ i, i < n → ∃ response,
      client.GetKubernetesClusterWithResponse i fw.StateGet.1.Id.ValueString = .ok response ∧
      response.StatusCode = 200)
    (hgone : client.GetKubernetesClusterWithResponse n fw.StateGet.1.Id.ValueString = .ok gone)
    (h404 : gone.StatusCode = 404)
    (hfuel : n + 1 ≤ fuel) :
    ∃ r, KubernetesClusterResource.Delete client fw fuel = some r ∧
      Diagnostics.HasError r.Diagnostics = false ∧ r.reads = n + 1 ∧ r.waits = n + 1 ∧
      r.sets = 0 ∧ r.State = some fw.StateGet.1 := by
  obtain ⟨extra, rfl⟩ : ∃ extra, fuel = (extra + 1) + n := ⟨fuel - (n + 1), by omega⟩
  obtain ⟨he, hst, hsets, hwaits, hreads⟩ :=
    cluster_delete_entry_facts client fw hstate
  rw [cluster_delete_eq_loop client fw _ deleted hstate hctx hdel h204]
  obtain ⟨resp', hloop, hdiag, hstate', hsets', hwaits', hreads'⟩ :=
    cluster_delete_loop_lives client fw.StateGet.1.Id.ValueString n (extra + 1)
      (KubernetesClusterResource.Delete.entry client fw)
      (fun i _ => hwait _)
      (fun i hi => by
        rw [hreads, Nat.zero_add]
        obtain ⟨response, hr, h200⟩ := hlive i hi
        exact ⟨response, hr, by rw [h200]; decide⟩)
  rw [hloop, cluster_delete_loop_gone client _ extra resp' gone (hwait _)
    (by rw [hreads', hreads, Nat.zero_add]; exact hgone) h404]
  refine ⟨_, rfl, ?_, ?_, ?_, ?_, ?_⟩
  · simp only [Run.polled, Run.waited]; rw [hdiag]; exact he
  · simp [Run.polled, Run.waited, hreads', hreads]
  · simp [Run.polled, Run.waited, hwaits', hwaits]
  · simp [Run.polled, Run.waited, hsets', hsets]
  · simp [Run.polled, Run.waited, hstate', hst]

theorem cluster_delete_loop_status (client : Client) (clusterId : String)
    (fuel : Nat) (resp : Run KubernetesClusterResourceModel)
    (response : sagadata.KubernetesClusterResponse)
    (hw : client.PollingWait resp.waits = none)
    (hg : client.GetKubernetesClusterWithResponse resp.reads clusterId = .ok response) :
    (response.StatusCode ≠ 404 →
      ∃ resp' : Run KubernetesClusterResourceModel,
        KubernetesClusterResource.Delete.loop client clusterId (fuel + 1) resp =
          KubernetesClusterResource.Delete.loop client clusterId fuel resp' ∧
        resp'.Diagnostics = resp.Diagnostics ∧ resp'.State = resp.State ∧
        resp'.waits = resp.waits + 1 ∧ resp'.reads = resp.reads + 1 ∧
        resp'.calls = resp.calls ++
          [Event.PollingWait none, Event.GetKubernetesCluster clusterId (.ok response)]) ∧
    (response.StatusCode = 404 →
      ∃ r, KubernetesClusterResource.Delete.loop client clusterId (fuel + 1) resp = some r ∧
        r.Diagnostics = resp.Diagnostics ∧ r.State = resp.State ∧
        r.waits = resp.waits + 1 ∧ r.reads = resp.reads + 1 ∧
        r.calls = resp.calls ++
          [Event.PollingWait none, Event.GetKubernetesCluster clusterId (.ok response)]) := by
  constructor
  · intro hne
    refine ⟨_, cluster_delete_loop_continues client clusterId fuel resp
      response hw hg hne, rfl, rfl, rfl, rfl, ?_⟩
    simp [Run.polled, Run.waited]
  · intro h404
    refine ⟨_, cluster_delete_loop_gone client clusterId fuel resp
      response hw hg h404, rfl, rfl, rfl, rfl, ?_⟩
    simp [Run.polled, Run.waited]

theorem cluster_delete_call_fails (client : Client)
    (fw : Framework KubernetesClusterResourceModel) (fuel : Nat)
    (hstate : Diagnostics.HasError fw.StateGet.2 = false)
    (hctx : fw.ContextWithTimeout = none)
    (hfail : ∀ response, client.DeleteKubernetesClusterWithResponse
      fw.StateGet.1.Id.ValueString = .ok response → response.StatusCode ≠ 204) :
    ∃ r d, KubernetesClusterResource.Delete client fw fuel = some r ∧
      Diagnostics.Errors r.Diagnostics = [d] ∧ d.summary = "Client Error" ∧
      r.waits = 0 ∧ r.reads = 0 ∧
      r.calls = [Event.DeleteKubernetesCluster fw.StateGet.1.Id.ValueString
        (client.DeleteKubernetesClusterWithResponse fw.StateGet.1.Id.ValueString)] := by
  have h0 : ((Run.init (some fw.StateGet.1) : Run KubernetesClusterResourceModel).Append
      fw.StateGet.2).HasError = false := by
    simp [Run.HasError, Run.Append, Run.init, Diagnostics.HasError_Append, hstate,
      Diagnostics.HasError_nil]
  have h0' : Diagnostics.HasError (Diagnostics.Append [] fw.StateGet.2) = false := h0
  cases hres : client.DeleteKubernetesClusterWithResponse fw.StateGet.1.Id.ValueString with
  | err e =>
    have hC : KubernetesClusterResource.Delete client fw fuel =
        some ((((Run.init (some fw.StateGet.1)).Append fw.StateGet.2).called
          (Event.DeleteKubernetesCluster fw.StateGet.1.Id.ValueString (.err e))).AddError
          "Client Error" (Detail.generateErrorMessage "delete kubernetes cluster" e)) := by
      simp [KubernetesClusterResource.Delete, h0, hctx, hres]
    rw [hC]
    refine ⟨_, ⟨Severity.Error, "Client Error",
      Detail.generateErrorMessage "delete kubernetes cluster" e⟩, rfl, ?_, rfl, rfl, rfl, rfl⟩
    exact Diagnostics.Errors_AddError _ _ _ h0'
  | ok response =>
    have hC : KubernetesClusterResource.Delete client fw fuel =
        some ((((Run.init (some fw.StateGet.1)).Append fw.StateGet.2).called
          (Event.DeleteKubernetesCluster fw.StateGet.1.Id.ValueString (.ok response))).AddError
          "Client Error" (Detail.generateClientErrorMessage "delete kubernetes cluster"
            { Body := response.Body, HTTPResponse := response.HTTPResponse,
              Error := response.JSONDefault })) := by
      simp [KubernetesClusterResource.Delete, h0, hctx, hres, hfail response hres]
    rw [hC]
    refine ⟨_, ⟨Severity.Error, "Client Error",
      Detail.generateClientErrorMessage "delete kubernetes cluster"
        { Body := response.Body, HTTPResponse := response.HTTPResponse,
          Error := response.JSONDefault }⟩, rfl, ?_, rfl, rfl, rfl, rfl⟩
    exact Diagnostics.Errors_AddError _ _ _ h0'

theorem cluster_delete_loop_entered (client : Client)
    (fw : Framework KubernetesClusterResourceModel) (fuel : Nat)
    (r : Run KubernetesClusterResourceModel)
    (h : KubernetesClusterResource.Delete client fw fuel = some r) (hw : r.waits ≠ 0) :
    ∃ response, client.DeleteKubernetesClusterWithResponse fw.StateGet.1.Id.ValueString =
      .ok response ∧ response.StatusCode = 204 := by
  by_cases h0 : ((Run.init (some fw.StateGet.1) : Run KubernetesClusterResourceModel).Append
      fw.StateGet.2).HasError = true
  · simp [KubernetesClusterResource.Delete, h0] at h
    subst h
    exact absurd rfl hw
  cases hctx : fw.ContextWithTimeout with
  | some ds =>
    simp [KubernetesClusterResource.Delete, h0, hctx] at h
    subst h
    exact absurd rfl hw
  | none =>
    cases hres : client.DeleteKubernetesClusterWithResponse fw.StateGet.1.Id.ValueString with
    | err e =>
      simp [KubernetesClusterResource.Delete, h0, hctx, hres] at h
      subst h
      exact absurd rfl hw
    | ok response =>
      by_cases h204 : response.StatusCode = 204
      · exact ⟨response, rfl, h204⟩
      · simp [KubernetesClusterResource.Delete, h0, hctx, hres, h204] at h
        subst h
        exact absurd rfl hw

/-! ## Kubernetes cluster: the remote calls of Create and Delete -/

theorem cluster_create_loop_calls (client : Client)
    (fw : Framework KubernetesClusterResourceModel) (clusterId : String) :
    ∀ (fuel : Nat) (data : KubernetesClusterResourceModel)
      (resp r : Run KubernetesClusterResourceModel),
      KubernetesClusterResource.Create.loop client fw clusterId fuel data resp = some r →
      ∃ reads, remoteCalls r.calls = remoteCalls resp.calls ++ reads ∧
        ∀ e, e ∈ reads → ∃ res, e = Event.GetKubernetesCluster clusterId res := by
  intro fuel
  induction fuel with
  | zero => intro data resp r h; simp [KubernetesClusterResource.Create.loop] at h
  | succ fuel ih =>
    intro data resp r h
    have hone : ∀ (res : CallResult sagadata.KubernetesClusterResponse)
        (r' : Run KubernetesClusterResourceModel),
        r'.calls = resp.calls ++ [Event.PollingWait none,
          Event.GetKubernetesCluster clusterId res] →
        ∃ reads, remoteCalls r'.calls = remoteCalls resp.calls ++ reads ∧
          ∀ e, e ∈ reads → ∃ res, e = Event.GetKubernetesCluster clusterId res := by
      intro res r' hc
      refine ⟨[Event.GetKubernetesCluster clusterId res], ?_, ?_⟩
      · rw [hc, remoteCalls_append]; rfl
      · intro e he
        simp only [List.mem_singleton] at he
        exact ⟨res, he⟩
    cases hw : client.PollingWait resp.waits with
    | some err =>
      rw [cluster_create_loop_wait_fails client fw clusterId fuel data resp err hw] at h
      cases h
      refine ⟨[], ?_, by simp⟩
      simp [Run.AddError, Run.waited, remoteCalls_append, remoteCalls, Event.isRemote]
    | none =>
      cases hg : client.GetKubernetesClusterWithResponse resp.reads clusterId with
      | err e =>
        rw [cluster_create_loop_read_fails client fw clusterId fuel data resp e hw hg] at h
        cases h
        exact hone (.err e) _ (by simp [Run.AddError, Run.waited, Run.polled])
      | ok response =>
        have hg' : client.GetKubernetesClusterWithResponse (resp.waited none).reads clusterId =
            .ok response := hg
        cases hb : response.JSON200 with
        | none =>
          rw [cluster_create_loop_read_no_body client fw clusterId fuel data resp response hw hg
            hb] at h
          cases h
          exact hone (.ok response) _ (by simp [Run.AddError, Run.waited, Run.polled])
        | some body =>
          by_cases hs : body.Cluster.Status = sagadata.KubernetesClusterStatusActive ∨
              body.Cluster.Status = sagadata.KubernetesClusterStatusError
          · rw [KubernetesClusterResource.Create.loop] at h
            simp only [hw, hg', hb, if_pos hs] at h
            split at h
            · cases h
              exact hone (.ok response) _ (by simp [Run.Append, Run.waited, Run.polled])
            · split at h
              · cases h
                exact hone (.ok response) _ (by simp [Run.StateSet, Run.Append, Run.waited, Run.polled])
              · split at h
                · cases h
                  exact hone (.ok response) _ (by
                    simp [Run.AddError, Run.StateSet, Run.Append, Run.waited, Run.polled])
                · cases h
                  exact hone (.ok response) _ (by simp [Run.StateSet, Run.Append, Run.waited, Run.polled])
          · have h1 : body.Cluster.Status ≠ sagadata.KubernetesClusterStatusActive :=
              fun hh => hs (Or.inl hh)
            have h2 : body.Cluster.Status ≠ sagadata.KubernetesClusterStatusError :=
              fun hh => hs (Or.inr hh)
            rw [cluster_create_loop_transient client fw clusterId fuel data resp response body
              hw hg hb h1 h2] at h
            obtain ⟨reads, hreads, hall⟩ := ih data _ r h
            refine ⟨Event.GetKubernetesCluster clusterId (.ok response) :: reads, ?_, ?_⟩
            · rw [hreads]
              simp [Run.polled, Run.waited, remoteCalls_append, remoteCalls, Event.isRemote]
            · intro e he
              rcases List.mem_cons.mp he with rfl | he
              · exact ⟨_, rfl⟩
              · exact hall e he

theorem cluster_create_calls (client : Client)
    (fw : Framework KubernetesClusterResourceModel) (fuel : Nat)
    (r : Run KubernetesClusterResourceModel)
    (h : KubernetesClusterResource.Create client fw fuel = some r) :
    (remoteCalls r.calls = [] ∧
      (Diagnostics.HasError fw.PlanGet.2 = true ∨ fw.ContextWithTimeout ≠ none)) ∨
    (∃ reads, remoteCalls r.calls =
        Event.CreateKubernetesCluster (KubernetesClusterResource.Create.body fw.PlanGet.1)
          (client.CreateKubernetesClusterWithResponse
            (KubernetesClusterResource.Create.body fw.PlanGet.1)) :: reads ∧
      ∀ e, e ∈ reads → ∃ response created res,
        client.CreateKubernetesClusterWithResponse
          (KubernetesClusterResource.Create.body fw.PlanGet.1) = .ok response ∧
        response.JSON201 = some created ∧
        e = Event.GetKubernetesCluster created.Cluster.Id res) := by
  by_cases hplan : Diagnostics.HasError fw.PlanGet.2 = false
  swap
  · have h0 : ((Run.init none : Run KubernetesClusterResourceModel).Append
        fw.PlanGet.2).HasError = true := by
      simpa [Run.HasError, Run.Append, Run.init, Diagnostics.HasError_Append,
        Diagnostics.HasError_nil] using hplan
    simp only [KubernetesClusterResource.Create, h0, if_true, Option.some.injEq] at h
    subst h
    exact Or.inl ⟨rfl, Or.inl (by simpa using hplan)⟩
  have h0 : ((Run.init none : Run KubernetesClusterResourceModel).Append fw.PlanGet.2).HasError
      = false := by
    simp [Run.HasError, Run.Append, Run.init, Diagnostics.HasError_Append, hplan,
      Diagnostics.HasError_nil]
  have hsingle : ∀ r' : Run KubernetesClusterResourceModel,
      r'.calls = [Event.CreateKubernetesCluster
        (KubernetesClusterResource.Create.body fw.PlanGet.1)
        (client.CreateKubernetesClusterWithResponse
          (KubernetesClusterResource.Create.body fw.PlanGet.1))] →
      ∃ reads, remoteCalls r'.calls =
          Event.CreateKubernetesCluster (KubernetesClusterResource.Create.body fw.PlanGet.1)
            (client.CreateKubernetesClusterWithResponse
              (KubernetesClusterResource.Create.body fw.PlanGet.1)) :: reads ∧
        ∀ e, e ∈ reads → ∃ response created res,
          client.CreateKubernetesClusterWithResponse
            (KubernetesClusterResource.Create.body fw.PlanGet.1) = .ok response ∧
          response.JSON201 = some created ∧
          e = Event.GetKubernetesCluster created.Cluster.Id res := by
    intro r' hc
    refine ⟨[], ?_, by simp⟩
    rw [hc]; rfl
  cases hctx : fw.ContextWithTimeout with
  | some ds =>
    simp [KubernetesClusterResource.Create, h0, hctx] at h
    subst h
    exact Or.inl ⟨rfl, Or.inr (by simp)⟩
  | none =>
    right
    cases hres : client.CreateKubernetesClusterWithResponse
        (KubernetesClusterResource.Create.body fw.PlanGet.1) with
    | err e =>
      simp [KubernetesClusterResource.Create, h0, hctx, hres] at h
      subst h
      rw [← hres]
      refine hsingle _ ?_
      simp [Run.AddError, Run.called, Run.Append, Run.init, hres]
    | ok response =>
      cases h201 : response.JSON201 with
      | none =>
        simp [KubernetesClusterResource.Create, h0, hctx, hres, h201] at h
        subst h
        rw [← hres]
        refine hsingle _ ?_
        simp [Run.AddError, Run.called, Run.Append, Run.init, hres]
      | some created =>
        unfold KubernetesClusterResource.Create at h
        simp only [h0, hctx, hres, h201, Bool.false_eq_true, if_false] at h
        split at h
        · cases h
          rw [← hres]
          refine hsingle _ ?_
          simp [Run.called, Run.Append, Run.init, hres]
        · split at h
          · cases h
            rw [← hres]
            refine hsingle _ ?_
            simp [Run.StateSet, Run.called, Run.Append, Run.init, hres]
          · obtain ⟨reads, hreads, hall⟩ :=
              cluster_create_loop_calls client fw created.Cluster.Id fuel _ _ r h
            have hrc : remoteCalls r.calls =
                Event.CreateKubernetesCluster
                  (KubernetesClusterResource.Create.body fw.PlanGet.1) (.ok response) ::
                  reads := by
              rw [hreads]
              simp [Run.StateSet, Run.called, Run.Append, Run.init, remoteCalls,
                Event.isRemote]
            refine ⟨reads, hrc, fun e he => ?_⟩
            obtain ⟨res, hres'⟩ := hall e he
            exact ⟨response, created, res, rfl, h201, hres'⟩

theorem cluster_delete_loop_calls (client : Client) (clusterId : String) :
    ∀ (fuel : Nat) (resp r : Run KubernetesClusterResourceModel),
      KubernetesClusterResource.Delete.loop client clusterId fuel resp = some r →
      ∃ reads, remoteCalls r.calls = remoteCalls resp.calls ++ reads ∧
        ∀ e, e ∈ reads → ∃ res, e = Event.GetKubernetesCluster clusterId res := by
  intro fuel
  induction fuel with
  | zero => intro resp r h; simp [KubernetesClusterResource.Delete.loop] at h
  | succ fuel ih =>
    intro resp r h
    have hone : ∀ (res : CallResult sagadata.KubernetesClusterResponse)
        (r' : Run KubernetesClusterResourceModel),
        r'.calls = resp.calls ++ [Event.PollingWait none,
          Event.GetKubernetesCluster clusterId res] →
        ∃ reads, remoteCalls r'.calls = remoteCalls resp.calls ++ reads ∧
          ∀ e, e ∈ reads → ∃ res, e = Event.GetKubernetesCluster clusterId res := by
      intro res r' hc
      refine ⟨[Event.GetKubernetesCluster clusterId res], ?_, ?_⟩
      · rw [hc, remoteCalls_append]; rfl
      · intro e he
        simp only [List.mem_singleton] at he
        exact ⟨res, he⟩
    cases hw : client.PollingWait resp.waits with
    | some err =>
      rw [cluster_delete_loop_wait_fails client clusterId fuel resp err hw] at h
      cases h
      refine ⟨[], ?_, by simp⟩
      simp [Run.AddError, Run.waited, remoteCalls_append, remoteCalls, Event.isRemote]
    | none =>
      cases hg : client.GetKubernetesClusterWithResponse resp.reads clusterId with
      | err e =>
        rw [cluster_delete_loop_read_fails client clusterId fuel resp e hw hg] at h
        cases h
        exact hone (.err e) _ (by simp [Run.AddError, Run.waited, Run.polled])
      | ok response =>
        by_cases h404 : response.StatusCode = 404
        · rw [cluster_delete_loop_gone client clusterId fuel resp response hw hg h404] at h
          cases h
          exact hone (.ok response) _ (by simp [Run.waited, Run.polled])
        · rw [cluster_delete_loop_continues client clusterId fuel resp response hw hg h404] at h
          obtain ⟨reads, hreads, hall⟩ := ih _ r h
          refine ⟨Event.GetKubernetesCluster clusterId (.ok response) :: reads, ?_, ?_⟩
          · rw [hreads]
            simp [Run.polled, Run.waited, remoteCalls_append, remoteCalls, Event.isRemote]
          · intro e he
            rcases List.mem_cons.mp he with rfl | he
            · exact ⟨_, rfl⟩
            · exact hall e he

theorem cluster_delete_calls (client : Client)
    (fw : Framework KubernetesClusterResourceModel) (fuel : Nat)
    (r : Run KubernetesClusterResourceModel)
    (h : KubernetesClusterResource.Delete client fw fuel = some r) :
    (remoteCalls r.calls = [] ∧
      (Diagnostics.HasError fw.StateGet.2 = true ∨ fw.ContextWithTimeout ≠ none)) ∨
    (∃ reads, remoteCalls r.calls =
        Event.DeleteKubernetesCluster fw.StateGet.1.Id.ValueString
          (client.DeleteKubernetesClusterWithResponse fw.StateGet.1.Id.ValueString) :: reads ∧
      ∀ e, e ∈ reads →
        ∃ res, e = Event.GetKubernetesCluster fw.StateGet.1.Id.ValueString res) := by
  by_cases hstate : Diagnostics.HasError fw.StateGet.2 = false
  swap
  · have h0 : ((Run.init (some fw.StateGet.1) : Run KubernetesClusterResourceModel).Append
        fw.StateGet.2).HasError = true := by
      simpa [Run.HasError, Run.Append, Run.init, Diagnostics.HasError_Append,
        Diagnostics.HasError_nil] using hstate
    simp only [KubernetesClusterResource.Delete, h0, if_true, Option.some.injEq] at h
    subst h
    exact Or.inl ⟨rfl, Or.inl (by simpa using hstate)⟩
  have h0 : ((Run.init (some fw.StateGet.1) : Run KubernetesClusterResourceModel).Append
      fw.StateGet.2).HasError = false := by
    simp [Run.HasError, Run.Append, Run.init, Diagnostics.HasError_Append, hstate,
      Diagnostics.HasError_nil]
  have hsingle : ∀ r' : Run KubernetesClusterResourceModel,
      r'.calls = [Event.DeleteKubernetesCluster fw.StateGet.1.Id.ValueString
        (client.DeleteKubernetesClusterWithResponse fw.StateGet.1.Id.ValueString)] →
      ∃ reads, remoteCalls r'.calls =
          Event.DeleteKubernetesCluster fw.StateGet.1.Id.ValueString
            (client.DeleteKubernetesClusterWithResponse fw.StateGet.1.Id.ValueString) ::
            reads ∧
        ∀ e, e ∈ reads →
          ∃ res, e = Event.GetKubernetesCluster fw.StateGet.1.Id.ValueString res := by
    intro r' hc
    refine ⟨[], ?_, by simp⟩
    rw [hc]; rfl
  cases hctx : fw.ContextWithTimeout with
  | some ds =>
    simp [KubernetesClusterResource.Delete, h0, hctx] at h
    subst h
    exact Or.inl ⟨rfl, Or.inr (by simp)⟩
  | none =>
    right
    cases hres : client.DeleteKubernetesClusterWithResponse fw.StateGet.1.Id.ValueString with
    | err e =>
      simp [KubernetesClusterResource.Delete, h0, hctx, hres] at h
      subst h
      rw [← hres]
      refine hsingle _ ?_
      simp [Run.AddError, Run.called, Run.Append, Run.init, hres]
    | ok response =>
      by_cases h204 : response.StatusCode = 204
      · rw [cluster_delete_eq_loop client fw fuel response hstate hctx hres h204] at h
        obtain ⟨reads, hreads, hall⟩ :=
          cluster_delete_loop_calls client fw.StateGet.1.Id.ValueString fuel _ r h
        have hrc : remoteCalls r.calls =
            Event.DeleteKubernetesCluster fw.StateGet.1.Id.ValueString (.ok response) ::
              reads := by
          rw [hreads]
          simp [KubernetesClusterResource.Delete.entry, Run.called, Run.Append, Run.init,
            remoteCalls, Event.isRemote, hres]
        exact ⟨reads, hrc, hall⟩
      · simp [KubernetesClusterResource.Delete, h0, hctx, hres, h204] at h
        subst h
        rw [← hres]
        refine hsingle _ ?_
        simp [Run.AddError, Run.called, Run.Append, Run.init, hres]

/-! ## Kubernetes cluster: Read and Update -/

theorem cluster_read_no_wait (client : Client) (fw : Framework KubernetesClusterResourceModel) :
    (KubernetesClusterResource.Read client fw).waits = 0 ∧
    (∀ e, e ∈ (KubernetesClusterResource.Read client fw).calls → e.isRemote = true) ∧
    (KubernetesClusterResource.Read client fw).calls.length ≤ 1 := by
  unfold KubernetesClusterResource.Read
  simp only []
  split
  · simp [Run.Append, Run.init]
  · split
    · simp [Run.Append, Run.init]
    · split
      · simp [Run.AddError, Run.polled, Run.Append, Run.init, Event.isRemote]
      · split
        · simp [Run.AddError, Run.polled, Run.Append, Run.init, Event.isRemote]
        · split
          · simp [Run.polled, Run.Append, Run.init, Event.isRemote]
          · simp [Run.StateSet, Run.polled, Run.Append, Run.init, Event.isRemote]

theorem cluster_read_stores (client : Client) (fw : Framework KubernetesClusterResourceModel)
    (response : sagadata.KubernetesClusterResponse) (body : sagadata.ClusterBody)
    (hstate : Diagnostics.HasError fw.StateGet.2 = false)
    (hctx : fw.ContextWithTimeout = none)
    (hset : ∀ k m, Diagnostics.HasError (fw.StateSet k m) = false)
    (hget : client.GetKubernetesClusterWithResponse 0 fw.StateGet.1.Id.ValueString =
      .ok response)
    (h200 : response.JSON200 = some body) :
    (KubernetesClusterResource.Read client fw).calls =
      [Event.GetKubernetesCluster fw.StateGet.1.Id.ValueString (.ok response)] ∧
    (KubernetesClusterResource.Read client fw).State =
      some (fw.StateGet.1.PopulateFromClientResponse body.Cluster).1 ∧
    Diagnostics.HasError (KubernetesClusterResource.Read client fw).Diagnostics = false ∧
    (KubernetesClusterResource.Read client fw).sets = 1 := by
  have h0 : ((Run.init (some fw.StateGet.1) : Run KubernetesClusterResourceModel).Append
      fw.StateGet.2).HasError = false := by
    simp [Run.HasError, Run.Append, Run.init, Diagnostics.HasError_Append, hstate,
      Diagnostics.HasError_nil]
  have hget' : client.GetKubernetesClusterWithResponse
      ((Run.init (some fw.StateGet.1) : Run KubernetesClusterResourceModel).Append
        fw.StateGet.2).reads fw.StateGet.1.Id.ValueString = .ok response := hget
  have h1 : ((((Run.init (some fw.StateGet.1) : Run KubernetesClusterResourceModel).Append
      fw.StateGet.2).polled
      (Event.GetKubernetesCluster fw.StateGet.1.Id.ValueString (.ok response))).Append
      (fw.StateGet.1.PopulateFromClientResponse body.Cluster).2).HasError = false := by
    simpa [Run.HasError, Run.Append, Run.polled, cluster_populate_snd,
      Diagnostics.Append_nil] using h0
  have hR : KubernetesClusterResource.Read client fw =
      Run.StateSet fw ((((Run.init (some fw.StateGet.1) :
        Run KubernetesClusterResourceModel).Append fw.StateGet.2).polled
        (Event.GetKubernetesCluster fw.StateGet.1.Id.ValueString (.ok response))).Append
        (fw.StateGet.1.PopulateFromClientResponse body.Cluster).2)
        (fw.StateGet.1.PopulateFromClientResponse body.Cluster).1 := by
    unfold KubernetesClusterResource.Read
    simp only [h0, hctx, hget', h200, h1, Bool.false_eq_true, if_false]
  rw [hR]
  refine ⟨?_, ?_, ?_, ?_⟩
  · simp [Run.StateSet, Run.Append, Run.polled, Run.init]
  · simp [Run.StateSet, hset]
  · simp only [Run.StateSet, Diagnostics.HasError_Append, Bool.or_eq_false_iff]
    exact ⟨h1, hset _ _⟩
  · simp [Run.StateSet, Run.Append, Run.polled, Run.init]

theorem cluster_read_fails (client : Client) (fw : Framework KubernetesClusterResourceModel)
    (hstate : Diagnostics.HasError fw.StateGet.2 = false)
    (hctx : fw.ContextWithTimeout = none)
    (hfail : ∀ response, client.GetKubernetesClusterWithResponse 0
      fw.StateGet.1.Id.ValueString = .ok response → response.JSON200 = none) :
    ∃ d, (KubernetesClusterResource.Read client fw).calls =
        [Event.GetKubernetesCluster fw.StateGet.1.Id.ValueString
          (client.GetKubernetesClusterWithResponse 0 fw.StateGet.1.Id.ValueString)] ∧
      Diagnostics.Errors (KubernetesClusterResource.Read client fw).Diagnostics = [d] ∧
      d.summary = "Client Error" ∧
      (KubernetesClusterResource.Read client fw).sets = 0 ∧
      (KubernetesClusterResource.Read client fw).State = some fw.StateGet.1 := by
  have h0 : ((Run.init (some fw.StateGet.1) : Run KubernetesClusterResourceModel).Append
      fw.StateGet.2).HasError = false := by
    simp [Run.HasError, Run.Append, Run.init, Diagnostics.HasError_Append, hstate,
      Diagnostics.HasError_nil]
  have h0' : Diagnostics.HasError (Diagnostics.Append [] fw.StateGet.2) = false := h0
  cases hres : client.GetKubernetesClusterWithResponse 0 fw.StateGet.1.Id.ValueString with
  | err e =>
    have hget' : client.GetKubernetesClusterWithResponse
        ((Run.init (some fw.StateGet.1) : Run KubernetesClusterResourceModel).Append
          fw.StateGet.2).reads fw.StateGet.1.Id.ValueString = .err e := hres
    have hR : KubernetesClusterResource.Read client fw =
        (((Run.init (some fw.StateGet.1) : Run KubernetesClusterResourceModel).Append
          fw.StateGet.2).polled
          (Event.GetKubernetesCluster fw.StateGet.1.Id.ValueString (.err e))).AddError
          "Client Error" (Detail.generateErrorMessage "read kubernetes cluster" e) := by
      unfold KubernetesClusterResource.Read
      simp only [h0, hctx, hget', Bool.false_eq_true, if_false]
    rw [hR]
    refine ⟨⟨Severity.Error, "Client Error",
      Detail.generateErrorMessage "read kubernetes cluster" e⟩, rfl, ?_, rfl, rfl, rfl⟩
    exact Diagnostics.Errors_AddError _ _ _ h0'
  | ok response =>
    have hget' : client.GetKubernetesClusterWithResponse
        ((Run.init (some fw.StateGet.1) : Run KubernetesClusterResourceModel).Append
          fw.StateGet.2).reads fw.StateGet.1.Id.ValueString = .ok response := hres
    have hR : KubernetesClusterResource.Read client fw =
        (((Run.init (some fw.StateGet.1) : Run KubernetesClusterResourceModel).Append
          fw.StateGet.2).polled
          (Event.GetKubernetesCluster fw.StateGet.1.Id.ValueString (.ok response))).AddError
          "Client Error" (Detail.generateClientErrorMessage "read kubernetes cluster"
            { Body := response.Body, HTTPResponse := response.HTTPResponse,
              Error := response.JSONDefault }) := by
      unfold KubernetesClusterResource.Read
      simp only [h0, hctx, hget', hfail response hres, Bool.false_eq_true, if_false]
    rw [hR]
    refine ⟨⟨Severity.Error, "Client Error",
      Detail.generateClientErrorMessage "read kubernetes cluster"
        { Body := response.Body, HTTPResponse := response.HTTPResponse,
          Error := response.JSONDefault }⟩, rfl, ?_, rfl, rfl, rfl⟩
    exact Diagnostics.Errors_AddError _ _ _ h0'

theorem cluster_update_no_wait (client : Client)
    (fw : Framework KubernetesClusterResourceModel) :
    (KubernetesClusterResource.Update client fw).waits = 0 ∧
    (∀ e, e ∈ (KubernetesClusterResource.Update client fw).calls → e.isRemote = true) ∧
    (KubernetesClusterResource.Update client fw).calls.length ≤ 1 := by
  unfold KubernetesClusterResource.Update
  simp only []
  split
  · simp [Run.Append, Run.init]
  · split
    · simp [Run.Append, Run.init]
    · split
      · simp [Run.AddError, Run.called, Run.Append, Run.init, Event.isRemote]
      · split
        · simp [Run.AddError, Run.called, Run.Append, Run.init, Event.isRemote]
        · split
          · simp [Run.called, Run.Append, Run.init, Event.isRemote]
          · simp [Run.StateSet, Run.called, Run.Append, Run.init, Event.isRemote]

theorem cluster_update_stores (client : Client) (fw : Framework KubernetesClusterResourceModel)
    (response : sagadata.KubernetesClusterResponse) (body : sagadata.ClusterBody)
    (hplan : Diagnostics.HasError fw.PlanGet.2 = false)
    (hctx : fw.ContextWithTimeout = none)
    (hset : ∀ k m, Diagnostics.HasError (fw.StateSet k m) = false)
    (hcall : client.UpdateKubernetesClusterWithResponse fw.PlanGet.1.Id.ValueString
      (KubernetesClusterResource.Update.body fw.PlanGet.1) = .ok response)
    (h200 : response.JSON200 = some body) :
    (KubernetesClusterResource.Update client fw).calls =
      [Event.UpdateKubernetesCluster fw.PlanGet.1.Id.ValueString
        (KubernetesClusterResource.Update.body fw.PlanGet.1) (.ok response)] ∧
    (KubernetesClusterResource.Update client fw).State =
      some (fw.PlanGet.1.PopulateFromClientResponse body.Cluster).1 ∧
    Diagnostics.HasError (KubernetesClusterResource.Update client fw).Diagnostics = false ∧
    (KubernetesClusterResource.Update client fw).sets = 1 := by
  have h0 : ((Run.init (some fw.StateGet.1) : Run KubernetesClusterResourceModel).Append
      fw.PlanGet.2).HasError = false := by
    simp [Run.HasError, Run.Append, Run.init, Diagnostics.HasError_Append, hplan,
      Diagnostics.HasError_nil]
  have h1 : ((((Run.init (some fw.StateGet.1) : Run KubernetesClusterResourceModel).Append
      fw.PlanGet.2).called
      (Event.UpdateKubernetesCluster fw.PlanGet.1.Id.ValueString
        (KubernetesClusterResource.Update.body fw.PlanGet.1) (.ok response))).Append
      (fw.PlanGet.1.PopulateFromClientResponse body.Cluster).2).HasError = false := by
    simpa [Run.HasError, Run.Append, Run.called, cluster_populate_snd,
      Diagnostics.Append_nil] using h0
  have hR : KubernetesClusterResource.Update client fw =
      Run.StateSet fw ((((Run.init (some fw.StateGet.1) :
        Run KubernetesClusterResourceModel).Append fw.PlanGet.2).called
        (Event.UpdateKubernetesCluster fw.PlanGet.1.Id.ValueString
          (KubernetesClusterResource.Update.body fw.PlanGet.1) (.ok response))).Append
        (fw.PlanGet.1.PopulateFromClientResponse body.Cluster).2)
        (fw.PlanGet.1.PopulateFromClientResponse body.Cluster).1 := by
    unfold KubernetesClusterResource.Update
    simp only [h0, hctx, hcall, h200, h1, Bool.false_eq_true, if_false]
  rw [hR]
  refine ⟨?_, ?_, ?_, ?_⟩
  · simp [Run.StateSet, Run.Append, Run.called, Run.init]
  · simp [Run.StateSet, hset]
  · simp only [Run.StateSet, Diagnostics.HasError_Append, Bool.or_eq_false_iff]
    exact ⟨h1, hset _ _⟩
  · simp [Run.StateSet, Run.Append, Run.called, Run.init]

theorem cluster_update_fails (client : Client) (fw : Framework KubernetesClusterResourceModel)
    (hplan : Diagnostics.HasError fw.PlanGet.2 = false)
    (hctx : fw.ContextWithTimeout = none)
    (hfail : ∀ response, client.UpdateKubernetesClusterWithResponse
      fw.PlanGet.1.Id.ValueString (KubernetesClusterResource.Update.body fw.PlanGet.1) =
      .ok response → response.JSON200 = none) :
    ∃ d, (KubernetesClusterResource.Update client fw).calls =
        [Event.UpdateKubernetesCluster fw.PlanGet.1.Id.ValueString
          (KubernetesClusterResource.Update.body fw.PlanGet.1)
          (client.UpdateKubernetesClusterWithResponse fw.PlanGet.1.Id.ValueString
            (KubernetesClusterResource.Update.body fw.PlanGet.1))] ∧
      Diagnostics.Errors (KubernetesClusterResource.Update client fw).Diagnostics = [d] ∧
      d.summary = "Client Error" ∧
      (KubernetesClusterResource.Update client fw).sets = 0 ∧
      (KubernetesClusterResource.Update client fw).State = some fw.StateGet.1 := by
  have h0 : ((Run.init (some fw.StateGet.1) : Run KubernetesClusterResourceModel).Append
      fw.PlanGet.2).HasError = false := by
    simp [Run.HasError, Run.Append, Run.init, Diagnostics.HasError_Append, hplan,
      Diagnostics.HasError_nil]
  have h0' : Diagnostics.HasError (Diagnostics.Append [] fw.PlanGet.2) = false := h0
  cases hres : client.UpdateKubernetesClusterWithResponse fw.PlanGet.1.Id.ValueString
      (KubernetesClusterResource.Update.body fw.PlanGet.1) with
  | err e =>
    have hR : KubernetesClusterResource.Update client fw =
        (((Run.init (some fw.StateGet.1) : Run KubernetesClusterResourceModel).Append
          fw.PlanGet.2).called
          (Event.UpdateKubernetesCluster fw.PlanGet.1.Id.ValueString
            (KubernetesClusterResource.Update.body fw.PlanGet.1) (.err e))).AddError
          "Client Error" (Detail.generateErrorMessage "update kubernetes cluster" e) := by
      unfold KubernetesClusterResource.Update
      simp only [h0, hctx, hres, Bool.false_eq_true, if_false]
    rw [hR]
    refine ⟨⟨Severity.Error, "Client Error",
      Detail.generateErrorMessage "update kubernetes cluster" e⟩, rfl, ?_, rfl, rfl, rfl⟩
    exact Diagnostics.Errors_AddError _ _ _ h0'
  | ok response =>
    have hR : KubernetesClusterResource.Update client fw =
        (((Run.init (some fw.StateGet.1) : Run KubernetesClusterResourceModel).Append
          fw.PlanGet.2).called
          (Event.UpdateKubernetesCluster fw.PlanGet.1.Id.ValueString
            (KubernetesClusterResource.Update.body fw.PlanGet.1) (.ok response))).AddError
          "Client Error" (Detail.generateClientErrorMessage "update kubernetes cluster"
            { Body := response.Body, HTTPResponse := response.HTTPResponse,
              Error := response.JSONDefault }) := by
      unfold KubernetesClusterResource.Update
      simp only [h0, hctx, hres, hfail response hres, Bool.false_eq_true, if_false]
    rw [hR]
    refine ⟨⟨Severity.Error, "Client Error",
      Detail.generateClientErrorMessage "update kubernetes cluster"
        { Body := response.Body, HTTPResponse := response.HTTPResponse,
          Error := response.JSONDefault }⟩, rfl, ?_, rfl, rfl, rfl⟩
    exact Diagnostics.Errors_AddError _ _ _ h0'

theorem cluster_read_call (client : Client) (fw : Framework KubernetesClusterResourceModel)
    (hstate : Diagnostics.HasError fw.StateGet.2 = false)
    (hctx : fw.ContextWithTimeout = none) :
    (KubernetesClusterResource.Read client fw).calls =
      [Event.GetKubernetesCluster fw.StateGet.1.Id.ValueString
        (client.GetKubernetesClusterWithResponse 0 fw.StateGet.1.Id.ValueString)] := by
  have h0 : ((Run.init (some fw.StateGet.1) : Run KubernetesClusterResourceModel).Append
      fw.StateGet.2).HasError = false := by
    simp [Run.HasError, Run.Append, Run.init, Diagnostics.HasError_Append, hstate,
      Diagnostics.HasError_nil]
  have hreads : ((Run.init (some fw.StateGet.1) : Run KubernetesClusterResourceModel).Append
      fw.StateGet.2).reads = 0 := rfl
  unfold KubernetesClusterResource.Read
  simp only [h0, hctx, hreads, Bool.false_eq_true, if_false]
  split
  · simp [Run.AddError, Run.polled, Run.Append, Run.init, *]
  · split
    · simp [Run.AddError, Run.polled, Run.Append, Run.init, *]
    · split
      · simp [Run.polled, Run.Append, Run.init, *]
      · simp [Run.StateSet, Run.polled, Run.Append, Run.init, *]

theorem cluster_update_call (client : Client) (fw : Framework KubernetesClusterResourceModel)
    (hplan : Diagnostics.HasError fw.PlanGet.2 = false)
    (hctx : fw.ContextWithTimeout = none) :
    (KubernetesClusterResource.Update client fw).calls =
      [Event.UpdateKubernetesCluster fw.PlanGet.1.Id.ValueString
        (KubernetesClusterResource.Update.body fw.PlanGet.1)
        (client.UpdateKubernetesClusterWithResponse fw.PlanGet.1.Id.ValueString
          (KubernetesClusterResource.Update.body fw.PlanGet.1))] := by
  have h0 : ((Run.init (some fw.StateGet.1) : Run KubernetesClusterResourceModel).Append
      fw.PlanGet.2).HasError = false := by
    simp [Run.HasError, Run.Append, Run.init, Diagnostics.HasError_Append, hplan,
      Diagnostics.HasError_nil]
  unfold KubernetesClusterResource.Update
  simp only [h0, hctx, Bool.false_eq_true, if_false]
  split
  · simp [Run.AddError, Run.called, Run.Append, Run.init, *]
  · split
    · simp [Run.AddError, Run.called, Run.Append, Run.init, *]
    · split
      · simp [Run.called, Run.Append, Run.init, *]
      · simp [Run.StateSet, Run.called, Run.Append, Run.init, *]

theorem cluster_read_twice (client : Client)
    (fw fw' : Framework KubernetesClusterResourceModel) (record : sagadata.KubernetesCluster)
    (hget : ∀ i id, ∃ response, client.GetKubernetesClusterWithResponse i id = .ok response ∧
      response.JSON200 = some ⟨record⟩)
    (hstate : Diagnostics.HasError fw.StateGet.2 = false)
    (hctx : fw.ContextWithTimeout = none)
    (hset : ∀ k m, Diagnostics.HasError (fw.StateSet k m) = false)
    (hstate' : Diagnostics.HasError fw'.StateGet.2 = false)
    (hctx' : fw'.ContextWithTimeout = none)
    (hset' : ∀ k m, Diagnostics.HasError (fw'.StateSet k m) = false)
    (hnext : some fw'.StateGet.1 = (KubernetesClusterResource.Read client fw).State) :
    (KubernetesClusterResource.Read client fw).State =
      some (fw.StateGet.1.PopulateFromClientResponse record).1 ∧
    (KubernetesClusterResource.Read client fw').State =
      (KubernetesClusterResource.Read client fw).State := by
  obtain ⟨response, hr, h200⟩ := hget 0 fw.StateGet.1.Id.ValueString
  obtain ⟨response', hr', h200'⟩ := hget 0 fw'.StateGet.1.Id.ValueString
  have h1 := (cluster_read_stores client fw response ⟨record⟩ hstate hctx hset hr h200).2.1
  have h2 := (cluster_read_stores client fw' response' ⟨record⟩ hstate' hctx' hset' hr'
    h200').2.1
  refine ⟨h1, ?_⟩
  rw [h1] at hnext
  have hs : fw'.StateGet.1 = (fw.StateGet.1.PopulateFromClientResponse record).1 :=
    Option.some.inj hnext
  rw [h2, h1, hs, cluster_populate_twice]

/-! ## Private network: the settling loop -/

theorem network_create_loop_wait_fails (client : Client)
    (fw : Framework PrivateNetworkResourceModel) (networkId : String) (fuel : Nat)
    (data : PrivateNetworkResourceModel) (resp : Run PrivateNetworkResourceModel)
    (err : GoError) (hw : client.PollingWait resp.waits = some err) :
    PrivateNetworkResource.Create.loop client fw networkId (fuel + 1) data resp =
      some ((resp.waited (some err)).AddError "Polling Error"
        (Detail.generateErrorMessage "polling private network" err)) := by
  simp [PrivateNetworkResource.Create.loop, hw]

theorem network_create_loop_read_fails (client : Client)
    (fw : Framework PrivateNetworkResourceModel) (networkId : String) (fuel : Nat)
    (data : PrivateNetworkResourceModel) (resp : Run PrivateNetworkResourceModel)
    (err : GoError) (hw : client.PollingWait resp.waits = none)
    (hg : client.GetPrivateNetworkWithResponse resp.reads networkId = .err err) :
    PrivateNetworkResource.Create.loop client fw networkId (fuel + 1) data resp =
      some (((resp.waited none).polled (Event.GetPrivateNetwork networkId (.err err))).AddError
        "Client Error" (Detail.generateErrorMessage "polling private network" err)) := by
  have hg' : client.GetPrivateNetworkWithResponse (resp.waited none).reads networkId =
      .err err := hg
  simp [PrivateNetworkResource.Create.loop, hw, hg']

theorem network_create_loop_read_no_body (client : Client)
    (fw : Framework PrivateNetworkResourceModel) (networkId : String) (fuel : Nat)
    (data : PrivateNetworkResourceModel) (resp : Run PrivateNetworkResourceModel)
    (response : sagadata.PrivateNetworkResponse)
    (hw : client.PollingWait resp.waits = none)
    (hg : client.GetPrivateNetworkWithResponse resp.reads networkId = .ok response)
    (hb : response.JSON200 = none) :
    PrivateNetworkResource.Create.loop client fw networkId (fuel + 1) data resp =
      some (((resp.waited none).polled
        (Event.GetPrivateNetwork networkId (.ok response))).AddError "Client Error"
        (Detail.generateClientErrorMessage "polling private network"
          { Body := response.Body, HTTPResponse := response.HTTPResponse,
            Error := response.JSONDefault })) := by
  have hg' : client.GetPrivateNetworkWithResponse (resp.waited none).reads networkId =
      .ok response := hg
  simp [PrivateNetworkResource.Create.loop, hw, hg', hb]

theorem network_create_loop_transient (client : Client)
    (fw : Framework PrivateNetworkResourceModel) (networkId : String) (fuel : Nat)
    (data : PrivateNetworkResourceModel) (resp : Run PrivateNetworkResourceModel)
    (response : sagadata.PrivateNetworkResponse) (body : sagadata.PrivateNetworkBody)
    (hw : client.PollingWait resp.waits = none)
    (hg : client.GetPrivateNetworkWithResponse resp.reads networkId = .ok response)
    (hb : response.JSON200 = some body)
    (h1 : body.PrivateNetwork.Status ≠ sagadata.PrivateNetworkStatusCreated)
    (h2 : body.PrivateNetwork.Status ≠ sagadata.PrivateNetworkStatusError) :
    PrivateNetworkResource.Create.loop client fw networkId (fuel + 1) data resp =
      PrivateNetworkResource.Create.loop client fw networkId fuel data
        ((resp.waited none).polled (Event.GetPrivateNetwork networkId (.ok response))) := by
  have hg' : client.GetPrivateNetworkWithResponse (resp.waited none).reads networkId =
      .ok response := hg
  simp [PrivateNetworkResource.Create.loop, hw, hg', hb, h1, h2]

theorem network_create_loop_terminal (client : Client)
    (fw : Framework PrivateNetworkResourceModel) (networkId : String) (fuel : Nat)
    (data : PrivateNetworkResourceModel) (resp : Run PrivateNetworkResourceModel)
    (response : sagadata.PrivateNetworkResponse) (body : sagadata.PrivateNetworkBody)
    (hw : client.PollingWait resp.waits = none)
    (hg : client.GetPrivateNetworkWithResponse resp.reads networkId = .ok response)
    (hb : response.JSON200 = some body)
    (hs : body.PrivateNetwork.Status = sagadata.PrivateNetworkStatusCreated ∨
      body.PrivateNetwork.Status = sagadata.PrivateNetworkStatusError)
    (hd : resp.HasError = false)
    (hset : ∀ k m, Diagnostics.HasError (fw.StateSet k m) = false) :
    PrivateNetworkResource.Create.loop client fw networkId (fuel + 1) data resp =
      some (if body.PrivateNetwork.Status = sagadata.PrivateNetworkStatusError then
        (Run.StateSet fw ((resp.waited none).polled
          (Event.GetPrivateNetwork networkId (.ok response)))
          (data.PopulateFromClientResponse body.PrivateNetwork).1).AddError "Provisioning Error"
          (Detail.generateErrorMessage "polling private network"
            GoError.ErrResourceInErrorState)
      else Run.StateSet fw ((resp.waited none).polled
          (Event.GetPrivateNetwork networkId (.ok response)))
          (data.PopulateFromClientResponse body.PrivateNetwork).1) := by
  have hg' : client.GetPrivateNetworkWithResponse (resp.waited none).reads networkId =
      .ok response := hg
  have hd1 : (((resp.waited none).polled
      (Event.GetPrivateNetwork networkId (.ok response))).Append
      (data.PopulateFromClientResponse body.PrivateNetwork).2).HasError = false := by
    simpa [Run.HasError, Run.Append, Run.polled, Run.waited,
      network_populate_snd, Diagnostics.Append_nil] using hd
  have hd2 : (Run.StateSet fw (((resp.waited none).polled
      (Event.GetPrivateNetwork networkId (.ok response))).Append
      (data.PopulateFromClientResponse body.PrivateNetwork).2)
      (data.PopulateFromClientResponse body.PrivateNetwork).1).HasError = false := by
    have := hset
    simp only [Run.HasError, Run.StateSet, Diagnostics.HasError_Append, Bool.or_eq_false_iff]
    exact ⟨hd1, hset _ _⟩
  have hap : ((resp.waited none).polled
      (Event.GetPrivateNetwork networkId (.ok response))).Append
      (data.PopulateFromClientResponse body.PrivateNetwork).2 = (resp.waited none).polled
      (Event.GetPrivateNetwork networkId (.ok response)) := by
    simp [Run.Append, network_populate_snd, Diagnostics.Append_nil]
  rw [PrivateNetworkResource.Create.loop]
  simp only [hw, hg', hb, if_pos hs, hd1, hd2]
  rw [hap]
  by_cases he : body.PrivateNetwork.Status = sagadata.PrivateNetworkStatusError <;> simp [he]

theorem network_create_loop_transients (client : Client)
    (fw : Framework PrivateNetworkResourceModel) (networkId : String) (n fuel : Nat)
    (data : PrivateNetworkResourceModel) (resp : Run PrivateNetworkResourceModel)
    (hw : ∀ i, i < n → client.PollingWait (resp.waits + i) = none)
    (hg : ∀ i, i < n → ∃ response body,
      client.GetPrivateNetworkWithResponse (resp.reads + i) networkId = .ok response ∧
      response.JSON200 = some body ∧
      body.PrivateNetwork.Status ≠ sagadata.PrivateNetworkStatusCreated ∧
      body.PrivateNetwork.Status ≠ sagadata.PrivateNetworkStatusError) :
    ∃ resp' : Run PrivateNetworkResourceModel,
      PrivateNetworkResource.Create.loop client fw networkId (fuel + n) data resp =
        PrivateNetworkResource.Create.loop client fw networkId fuel data resp' ∧
      resp'.Diagnostics = resp.Diagnostics ∧ resp'.State = resp.State ∧
      resp'.sets = resp.sets ∧ resp'.waits = resp.waits + n ∧ resp'.reads = resp.reads + n ∧
      ∃ tail, resp'.calls = resp.calls ++ tail := by
  induction n generalizing resp with
  | zero => exact ⟨resp, rfl, rfl, rfl, rfl, rfl, rfl, [], by simp⟩
  | succ n ih =>
    obtain ⟨response, body, hg0, hb0, h1, h2⟩ := hg 0 (Nat.succ_pos n)
    have hw0 := hw 0 (Nat.succ_pos n)
    rw [Nat.add_zero] at hg0 hw0
    have hstep := network_create_loop_transient client fw networkId
      (fuel + n) data resp response body hw0 hg0 hb0 h1 h2
    obtain ⟨resp', hloop, hdiag, hstate, hsets, hwaits, hreads, tail, hcalls⟩ :=
      ih ((resp.waited none).polled (Event.GetPrivateNetwork networkId (.ok response)))
        (fun i hi => by
          have := hw (i + 1) (Nat.succ_lt_succ hi)
          simpa [Run.polled, Run.waited, Nat.add_assoc, Nat.add_comm 1 i] using this)
        (fun i hi => by
          have := hg (i + 1) (Nat.succ_lt_succ hi)
          simpa [Run.polled, Run.waited, Nat.add_assoc, Nat.add_comm 1 i] using this)
    refine ⟨resp', ?_, ?_, ?_, ?_, ?_, ?_, ?_⟩
    · rw [← hloop, ← hstep]; rfl
    · simpa [Run.polled, Run.waited] using hdiag
    · simpa [Run.polled, Run.waited] using hstate
    · simpa [Run.polled, Run.waited] using hsets
    · rw [hwaits]; simp [Run.polled, Run.waited, Nat.add_assoc, Nat.add_comm 1 n]
    · rw [hreads]; simp [Run.polled, Run.waited, Nat.add_assoc, Nat.add_comm 1 n]
    · exact ⟨[Event.PollingWait none, Event.GetPrivateNetwork networkId (.ok response)] ++ tail,
        by rw [hcalls]; simp [Run.polled, Run.waited, List.append_assoc]⟩

/-! ## Private network: Create -/

theorem network_create_eq_loop (client : Client)
    (fw : Framework PrivateNetworkResourceModel) (fuel : Nat)
    (response : sagadata.PrivateNetworkResponse) (created : sagadata.PrivateNetworkBody)
    (hplan : Diagnostics.HasError fw.PlanGet.2 = false)
    (hctx : fw.ContextWithTimeout = none)
    (hset : ∀ k m, Diagnostics.HasError (fw.StateSet k m) = false)
    (hcreate : client.CreatePrivateNetworkWithResponse
      (PrivateNetworkResource.Create.body fw.PlanGet.1) = .ok response)
    (h201 : response.JSON201 = some created) :
    PrivateNetworkResource.Create client fw fuel =
      PrivateNetworkResource.Create.loop client fw created.PrivateNetwork.Id fuel
        (fw.PlanGet.1.PopulateFromClientResponse created.PrivateNetwork).1
        (PrivateNetworkResource.Create.entry client fw
          (fw.PlanGet.1.PopulateFromClientResponse created.PrivateNetwork).1) := by
  have h0 : ((Run.init none : Run PrivateNetworkResourceModel).Append fw.PlanGet.2).HasError
      = false := by
    simp [Run.HasError, Run.Append, Run.init, Diagnostics.HasError_Append, hplan,
      Diagnostics.HasError_nil]
  have h1 : ((((Run.init none : Run PrivateNetworkResourceModel).Append fw.PlanGet.2).called
      (Event.CreatePrivateNetwork (PrivateNetworkResource.Create.body fw.PlanGet.1)
        (.ok response))).Append
      (fw.PlanGet.1.PopulateFromClientResponse created.PrivateNetwork).2).HasError = false := by
    simpa [Run.HasError, Run.Append, Run.called, network_populate_snd,
      Diagnostics.Append_nil] using h0
  have h2 : (Run.StateSet fw ((((Run.init none : Run PrivateNetworkResourceModel).Append
      fw.PlanGet.2).called
      (Event.CreatePrivateNetwork (PrivateNetworkResource.Create.body fw.PlanGet.1)
        (.ok response))).Append
      (fw.PlanGet.1.PopulateFromClientResponse created.PrivateNetwork).2)
      (fw.PlanGet.1.PopulateFromClientResponse created.PrivateNetwork).1).HasError = false := by
    simp only [Run.HasError, Run.StateSet, Diagnostics.HasError_Append, Bool.or_eq_false_iff]
    exact ⟨h1, hset _ _⟩
  have hap : ((((Run.init none : Run PrivateNetworkResourceModel).Append fw.PlanGet.2).called
      (Event.CreatePrivateNetwork (PrivateNetworkResource.Create.body fw.PlanGet.1)
        (.ok response))).Append
      (fw.PlanGet.1.PopulateFromClientResponse created.PrivateNetwork).2) =
      (((Run.init none : Run PrivateNetworkResourceModel).Append fw.PlanGet.2).called
      (Event.CreatePrivateNetwork (PrivateNetworkResource.Create.body fw.PlanGet.1)
        (.ok response))) := by
    simp [Run.Append, network_populate_snd, Diagnostics.Append_nil]
  unfold PrivateNetworkResource.Create PrivateNetworkResource.Create.entry
  simp only [h0, hctx, hcreate, h201, h1, h2]
  rw [hap]
  rfl

theorem network_create_entry_facts (client : Client)
    (fw : Framework PrivateNetworkResourceModel) (data : PrivateNetworkResourceModel)
    (hplan : Diagnostics.HasError fw.PlanGet.2 = false)
    (hset : ∀ k m, Diagnostics.HasError (fw.StateSet k m) = false) :
    (PrivateNetworkResource.Create.entry client fw data).HasError = false ∧
    (PrivateNetworkResource.Create.entry client fw data).State = some data ∧
    (PrivateNetworkResource.Create.entry client fw data).sets = 1 ∧
    (PrivateNetworkResource.Create.entry client fw data).waits = 0 ∧
    (PrivateNetworkResource.Create.entry client fw data).reads = 0 ∧
    (PrivateNetworkResource.Create.entry client fw data).calls =
      [Event.CreatePrivateNetwork (PrivateNetworkResource.Create.body fw.PlanGet.1)
        (client.CreatePrivateNetworkWithResponse
          (PrivateNetworkResource.Create.body fw.PlanGet.1))] := by
  refine ⟨?_, ?_, ?_, ?_, ?_, ?_⟩
  · simp only [PrivateNetworkResource.Create.entry, Run.HasError, Run.StateSet,
      Run.called, Run.Append, Run.init, Diagnostics.HasError_Append, Bool.or_eq_false_iff]
    exact ⟨⟨Diagnostics.HasError_nil, hplan⟩, hset _ _⟩
  · simp [PrivateNetworkResource.Create.entry, Run.StateSet, hset]
  · simp [PrivateNetworkResource.Create.entry, Run.StateSet, Run.called, Run.Append, Run.init]
  · simp [PrivateNetworkResource.Create.entry, Run.StateSet, Run.called, Run.Append, Run.init]
  · simp [PrivateNetworkResource.Create.entry, Run.StateSet, Run.called, Run.Append, Run.init]
  · simp [PrivateNetworkResource.Create.entry, Run.StateSet, Run.called, Run.Append, Run.init]

theorem network_create_settles (client : Client)
    (fw : Framework PrivateNetworkResourceModel) (n fuel : Nat)
    (createResponse : sagadata.PrivateNetworkResponse) (created : sagadata.PrivateNetworkBody)
    (response : sagadata.PrivateNetworkResponse) (body : sagadata.PrivateNetworkBody)
    (hplan : Diagnostics.HasError fw.PlanGet.2 = false)
    (hctx : fw.ContextWithTimeout = none)
    (hset : ∀ k m, Diagnostics.HasError (fw.StateSet k m) = false)
    (hcreate : client.CreatePrivateNetworkWithResponse
      (PrivateNetworkResource.Create.body fw.PlanGet.1) = .ok createResponse)
    (h201 : createResponse.JSON201 = some created)
    (hwait : ∀ i, client.PollingWait i = none)
    (htrans : ∀ i, i < n → ∃ response body,
      client.GetPrivateNetworkWithResponse i created.PrivateNetwork.Id = .ok response ∧
      response.JSON200 = some body ∧
      body.PrivateNetwork.Status ≠ sagadata.PrivateNetworkStatusCreated ∧
      body.PrivateNetwork.Status ≠ sagadata.PrivateNetworkStatusError)
    (hterm : client.GetPrivateNetworkWithResponse n created.PrivateNetwork.Id = .ok response)
    (h200 : response.JSON200 = some body)
    (hstatus : body.PrivateNetwork.Status = sagadata.PrivateNetworkStatusCreated)
    (hfuel : n + 1 ≤ fuel) :
    ∃ r, PrivateNetworkResource.Create client fw fuel = some r ∧
      Diagnostics.HasError r.Diagnostics = false ∧ r.reads = n + 1 ∧ r.waits = n + 1 ∧
      r.State = some (fw.PlanGet.1.PopulateFromClientResponse body.PrivateNetwork).1 := by
  obtain ⟨extra, rfl⟩ : ∃ extra, fuel = (extra + 1) + n := ⟨fuel - (n + 1), by omega⟩
  obtain ⟨he, hst, hsets, hwaits, hreads, hcalls⟩ :=
    network_create_entry_facts client fw
      (fw.PlanGet.1.PopulateFromClientResponse created.PrivateNetwork).1 hplan hset
  rw [network_create_eq_loop client fw _ createResponse created hplan hctx hset
    hcreate h201]
  obtain ⟨resp', hloop, hdiag, hstate, hsets', hwaits', hreads', -⟩ :=
    network_create_loop_transients client fw created.PrivateNetwork.Id n (extra + 1)
      (fw.PlanGet.1.PopulateFromClientResponse created.PrivateNetwork).1
      (PrivateNetworkResource.Create.entry client fw
        (fw.PlanGet.1.PopulateFromClientResponse created.PrivateNetwork).1)
      (fun i _ => hwait _) (fun i hi => by rw [hreads, Nat.zero_add]; exact htrans i hi)
  rw [hloop]
  have hne : body.PrivateNetwork.Status ≠ sagadata.PrivateNetworkStatusError := by
    rw [hstatus]; exact network_status_ne
  have herr' : resp'.HasError = false := by
    rw [Run.HasError, hdiag]; exact he
  rw [network_create_loop_terminal client fw created.PrivateNetwork.Id extra _ resp'
    response body (hwait _) (by rw [hreads', hreads, Nat.zero_add]; exact hterm) h200
    (Or.inl hstatus) herr' hset, if_neg hne]
  refine ⟨_, rfl, ?_, ?_, ?_, ?_⟩
  · simp only [Run.StateSet, Run.polled, Run.waited, Diagnostics.HasError_Append,
      Bool.or_eq_false_iff]
    exact ⟨herr', hset _ _⟩
  · simp [Run.StateSet, Run.polled, Run.waited, hreads', hreads]
  · simp [Run.StateSet, Run.polled, Run.waited, hwaits', hwaits]
  · simp [Run.StateSet, hset, network_populate_twice]

theorem network_create_surfaces_failure (client : Client)
    (fw : Framework PrivateNetworkResourceModel) (fuel : Nat)
    (createResponse : sagadata.PrivateNetworkResponse) (created : sagadata.PrivateNetworkBody)
    (response : sagadata.PrivateNetworkResponse) (body : sagadata.PrivateNetworkBody)
    (hplan : Diagnostics.HasError fw.PlanGet.2 = false)
    (hctx : fw.ContextWithTimeout = none)
    (hset : ∀ k m, Diagnostics.HasError (fw.StateSet k m) = false)
    (hcreate : client.CreatePrivateNetworkWithResponse
      (PrivateNetworkResource.Create.body fw.PlanGet.1) = .ok createResponse)
    (h201 : createResponse.JSON201 = some created)
    (hwait : client.PollingWait 0 = none)
    (hread : client.GetPrivateNetworkWithResponse 0 created.PrivateNetwork.Id = .ok response)
    (h200 : response.JSON200 = some body)
    (hstatus : body.PrivateNetwork.Status = sagadata.PrivateNetworkStatusError)
    (hfuel : 1 ≤ fuel) :
    ∃ r m, PrivateNetworkResource.Create client fw fuel = some r ∧ r.reads = 1 ∧
      Diagnostics.Errors r.Diagnostics =
        [{ severity := Severity.Error, summary := "Provisioning Error",
           detail := Detail.generateErrorMessage "polling private network"
             GoError.ErrResourceInErrorState }] ∧
      r.State = some m ∧ m = (fw.PlanGet.1.PopulateFromClientResponse body.PrivateNetwork).1 ∧
      m.Status = TfString.value sagadata.PrivateNetworkStatusError := by
  obtain ⟨extra, rfl⟩ : ∃ extra, fuel = extra + 1 := ⟨fuel - 1, by omega⟩
  obtain ⟨he, hst, hsets, hwaits, hreads, hcalls⟩ :=
    network_create_entry_facts client fw
      (fw.PlanGet.1.PopulateFromClientResponse created.PrivateNetwork).1 hplan hset
  rw [network_create_eq_loop client fw _ createResponse created hplan hctx hset
    hcreate h201]
  rw [network_create_loop_terminal client fw created.PrivateNetwork.Id extra _ _
    response body (by rw [hwaits]; exact hwait) (by rw [hreads]; exact hread) h200
    (Or.inr hstatus) he hset, if_pos hstatus]
  refine ⟨_, (fw.PlanGet.1.PopulateFromClientResponse body.PrivateNetwork).1, rfl, ?_, ?_, ?_, rfl, ?_⟩
  · simp [Run.AddError, Run.StateSet, Run.polled, Run.waited, hreads]
  · simp only [Run.AddError]
    apply Diagnostics.Errors_AddError
    simp only [Run.StateSet, Run.polled, Run.waited, Diagnostics.HasError_Append,
      Bool.or_eq_false_iff]
    exact ⟨he, hset _ _⟩
  · simp [Run.AddError, Run.StateSet, hset, network_populate_twice]
  · rw [network_populate_status, hstatus]

theorem network_create_call_fails (client : Client)
    (fw : Framework PrivateNetworkResourceModel) (fuel : Nat)
    (hplan : Diagnostics.HasError fw.PlanGet.2 = false)
    (hctx : fw.ContextWithTimeout = none)
    (hfail : ∀ response, client.CreatePrivateNetworkWithResponse
      (PrivateNetworkResource.Create.body fw.PlanGet.1) = .ok response →
      response.JSON201 = none) :
    ∃ r d, PrivateNetworkResource.Create client fw fuel = some r ∧
      Diagnostics.Errors r.Diagnostics = [d] ∧ d.summary = "Client Error" ∧
      r.waits = 0 ∧ r.reads = 0 ∧ r.sets = 0 ∧ r.State = none ∧
      r.calls = [Event.CreatePrivateNetwork
        (PrivateNetworkResource.Create.body fw.PlanGet.1)
        (client.CreatePrivateNetworkWithResponse
          (PrivateNetworkResource.Create.body fw.PlanGet.1))] := by
  have h0 : ((Run.init none : Run PrivateNetworkResourceModel).Append fw.PlanGet.2).HasError
      = false := by
    simp [Run.HasError, Run.Append, Run.init, Diagnostics.HasError_Append, hplan,
      Diagnostics.HasError_nil]
  have h0' : Diagnostics.HasError (Diagnostics.Append [] fw.PlanGet.2) = false := h0
  cases hres : client.CreatePrivateNetworkWithResponse
      (PrivateNetworkResource.Create.body fw.PlanGet.1) with
  | err e =>
    have hC : PrivateNetworkResource.Create client fw fuel =
        some ((((Run.init none).Append fw.PlanGet.2).called
          (Event.CreatePrivateNetwork (PrivateNetworkResource.Create.body fw.PlanGet.1)
            (.err e))).AddError "Client Error"
          (Detail.generateErrorMessage "create private network" e)) := by
      simp [PrivateNetworkResource.Create, h0, hctx, hres]
    rw [hC]
    refine ⟨_, ⟨Severity.Error, "Client Error",
      Detail.generateErrorMessage "create private network" e⟩, rfl, ?_, rfl, rfl, rfl, rfl, rfl, rfl⟩
    exact Diagnostics.Errors_AddError _ _ _ h0'
  | ok response =>
    have hC : PrivateNetworkResource.Create client fw fuel =
        some ((((Run.init none).Append fw.PlanGet.2).called
          (Event.CreatePrivateNetwork (PrivateNetworkResource.Create.body fw.PlanGet.1)
            (.ok response))).AddError "Client Error"
          (Detail.generateClientErrorMessage "create private network"
            { Body := response.Body, HTTPResponse := response.HTTPResponse,
              Error := response.JSONDefault })) := by
      simp [PrivateNetworkResource.Create, h0, hctx, hres, hfail response hres]
    rw [hC]
    refine ⟨_, ⟨Severity.Error, "Client Error",
      Detail.generateClientErrorMessage "create private network"
        { Body := response.Body, HTTPResponse := response.HTTPResponse,
          Error := response.JSONDefault }⟩, rfl, ?_, rfl, rfl, rfl, rfl, rfl, rfl⟩
    exact Diagnostics.Errors_AddError _ _ _ h0'

theorem network_create_loop_read_aborts (client : Client)
    (fw : Framework PrivateNetworkResourceModel) (networkId : String) (fuel : Nat)
    (data : PrivateNetworkResourceModel) (resp : Run PrivateNetworkResourceModel)
    (hd : resp.HasError = false)
    (hw : client.PollingWait resp.waits = none)
    (hfail : ∀ response, client.GetPrivateNetworkWithResponse resp.reads networkId =
      .ok response → response.JSON200 = none) :
    ∃ r d, PrivateNetworkResource.Create.loop client fw networkId (fuel + 1) data resp =
        some r ∧
      r.Diagnostics = resp.Diagnostics ++ [d] ∧ d.severity = Severity.Error ∧
      d.summary = "Client Error" ∧ r.State = resp.State ∧ r.sets = resp.sets ∧
      r.waits = resp.waits + 1 ∧ r.reads = resp.reads + 1 ∧
      r.calls = resp.calls ++ [Event.PollingWait none, Event.GetPrivateNetwork networkId
        (client.GetPrivateNetworkWithResponse resp.reads networkId)] := by
  cases hres : client.GetPrivateNetworkWithResponse resp.reads networkId with
  | err e =>
    rw [network_create_loop_read_fails client fw networkId fuel data resp e
      hw hres]
    refine ⟨_, ⟨Severity.Error, "Client Error",
      Detail.generateErrorMessage "polling private network" e⟩, rfl, ?_, rfl, rfl, rfl, rfl, rfl, rfl, ?_⟩
    · exact Diagnostics.AddError_eq _ _ _ hd
    · simp [Run.AddError, Run.polled, Run.waited]
  | ok response =>
    rw [network_create_loop_read_no_body client fw networkId fuel data resp
      response hw hres (hfail response hres)]
    refine ⟨_, ⟨Severity.Error, "Client Error",
      Detail.generateClientErrorMessage "polling private network"
        { Body := response.Body, HTTPResponse := response.HTTPResponse,
          Error := response.JSONDefault }⟩, rfl, ?_, rfl, rfl, rfl, rfl, rfl, rfl, ?_⟩
    · exact Diagnostics.AddError_eq _ _ _ hd
    · simp [Run.AddError, Run.polled, Run.waited]

theorem network_create_deadline (client : Client)
    (fw : Framework PrivateNetworkResourceModel) (k fuel : Nat)
    (createResponse : sagadata.PrivateNetworkResponse) (created : sagadata.PrivateNetworkBody)
    (err : GoError)
    (hplan : Diagnostics.HasError fw.PlanGet.2 = false)
    (hctx : fw.ContextWithTimeout = none)
    (hset : ∀ k m, Diagnostics.HasError (fw.StateSet k m) = false)
    (hcreate : client.CreatePrivateNetworkWithResponse
      (PrivateNetworkResource.Create.body fw.PlanGet.1) = .ok createResponse)
    (h201 : createResponse.JSON201 = some created)
    (hk : 1 ≤ k)
    (hwait : ∀ i, i < k - 1 → client.PollingWait i = none)
    (hcancel : client.PollingWait (k - 1) = some err)
    (htrans : ∀ i, i < k - 1 → ∃ response body,
      client.GetPrivateNetworkWithResponse i created.PrivateNetwork.Id = .ok response ∧
      response.JSON200 = some body ∧
      body.PrivateNetwork.Status ≠ sagadata.PrivateNetworkStatusCreated ∧
      body.PrivateNetwork.Status ≠ sagadata.PrivateNetworkStatusError)
    (hfuel : k ≤ fuel) :
    ∃ r m, PrivateNetworkResource.Create client fw fuel = some r ∧ r.reads = k - 1 ∧
      r.waits = k ∧
      Diagnostics.Errors r.Diagnostics =
        [{ severity := Severity.Error, summary := "Polling Error",
           detail := Detail.generateErrorMessage "polling private network" err }] ∧
      r.calls.getLast? = some (Event.PollingWait (some err)) ∧
      r.State = some m ∧ m = (fw.PlanGet.1.PopulateFromClientResponse created.PrivateNetwork).1 ∧
      m.Id = TfString.value created.PrivateNetwork.Id := by
  obtain ⟨n, rfl⟩ : ∃ n, k = n + 1 := ⟨k - 1, by omega⟩
  obtain ⟨extra, rfl⟩ : ∃ extra, fuel = (extra + 1) + n := ⟨fuel - (n + 1), by omega⟩
  simp only [Nat.add_sub_cancel] at hwait hcancel htrans ⊢
  obtain ⟨he, hst, hsets, hwaits, hreads, hcalls⟩ :=
    network_create_entry_facts client fw
      (fw.PlanGet.1.PopulateFromClientResponse created.PrivateNetwork).1 hplan hset
  rw [network_create_eq_loop client fw _ createResponse created hplan hctx hset
    hcreate h201]
  obtain ⟨resp', hloop, hdiag, hstate, hsets', hwaits', hreads', -⟩ :=
    network_create_loop_transients client fw created.PrivateNetwork.Id n (extra + 1)
      (fw.PlanGet.1.PopulateFromClientResponse created.PrivateNetwork).1
      (PrivateNetworkResource.Create.entry client fw
        (fw.PlanGet.1.PopulateFromClientResponse created.PrivateNetwork).1)
      (fun i hi => by rw [hwaits, Nat.zero_add]; exact hwait i hi)
      (fun i hi => by rw [hreads, Nat.zero_add]; exact htrans i hi)
  rw [hloop]
  have herr' : resp'.HasError = false := by
    rw [Run.HasError, hdiag]; exact he
  rw [network_create_loop_wait_fails client fw created.PrivateNetwork.Id extra _ resp'
    err (by rw [hwaits', hwaits, Nat.zero_add]; exact hcancel)]
  refine ⟨_, (fw.PlanGet.1.PopulateFromClientResponse created.PrivateNetwork).1, rfl, ?_, ?_, ?_, ?_,
    ?_, rfl, ?_⟩
  · simp [Run.AddError, Run.waited, hreads', hreads]
  · simp [Run.AddError, Run.waited, hwaits', hwaits]
  · simp only [Run.AddError, Run.waited]
    exact Diagnostics.Errors_AddError _ _ _ herr'
  · simp [Run.AddError, Run.waited]
  · simp only [Run.AddError, Run.waited]
    rw [hstate, hst]
  · exact network_populate_id _ _

/-! ## Private network: what a finished Create has stored -/

theorem network_create_loop_state (client : Client)
    (fw : Framework PrivateNetworkResourceModel) (networkId : String)
    (hset : ∀ k m, Diagnostics.HasError (fw.StateSet k m) = false) :
    ∀ (fuel : Nat) (data : PrivateNetworkResourceModel)
      (resp r : Run PrivateNetworkResourceModel), resp.HasError = false →
      PrivateNetworkResource.Create.loop client fw networkId fuel data resp = some r →
      (∃ tail, r.calls = resp.calls ++ tail) ∧
      (∀ c, PrivateNetworkResource.lastRead r.calls = some c →
        (c.Status = sagadata.PrivateNetworkStatusCreated ∨
          c.Status = sagadata.PrivateNetworkStatusError) ∧
        r.State = some (data.PopulateFromClientResponse c).1) ∧
      (PrivateNetworkResource.lastRead r.calls = none → r.State = resp.State) := by
  intro fuel
  induction fuel with
  | zero => intro data resp r _ h; simp [PrivateNetworkResource.Create.loop] at h
  | succ fuel ih =>
    intro data resp r hd h
    cases hw : client.PollingWait resp.waits with
    | some err =>
      rw [network_create_loop_wait_fails client fw networkId fuel data resp err
        hw] at h
      cases h
      simp [PrivateNetworkResource.lastRead, Run.AddError, Run.waited]
    | none =>
      cases hg : client.GetPrivateNetworkWithResponse resp.reads networkId with
      | err e =>
        rw [network_create_loop_read_fails client fw networkId fuel data resp e
          hw hg] at h
        cases h
        simp [PrivateNetworkResource.lastRead, Run.AddError, Run.waited, Run.polled]
      | ok response =>
        cases hb : response.JSON200 with
        | none =>
          rw [network_create_loop_read_no_body client fw networkId fuel data
            resp response hw hg hb] at h
          cases h
          simp [PrivateNetworkResource.lastRead, Run.AddError, Run.waited, Run.polled, hb]
        | some body =>
          by_cases hs : body.PrivateNetwork.Status = sagadata.PrivateNetworkStatusCreated ∨
              body.PrivateNetwork.Status = sagadata.PrivateNetworkStatusError
          · rw [network_create_loop_terminal client fw networkId fuel data
              resp response body hw hg hb hs hd hset] at h
            cases h
            by_cases he : body.PrivateNetwork.Status = sagadata.PrivateNetworkStatusError
            · simp [PrivateNetworkResource.lastRead, Run.AddError, Run.StateSet, Run.waited,
                Run.polled, hb, he, hset]
            · simp [PrivateNetworkResource.lastRead, Run.AddError, Run.StateSet, Run.waited,
                Run.polled, hb, he, hset]
              exact hs.resolve_right he
          · have h1 : body.PrivateNetwork.Status ≠ sagadata.PrivateNetworkStatusCreated :=
              fun hh => hs (Or.inl hh)
            have h2 : body.PrivateNetwork.Status ≠ sagadata.PrivateNetworkStatusError :=
              fun hh => hs (Or.inr hh)
            rw [network_create_loop_transient client fw networkId fuel data
              resp response body hw hg hb h1 h2] at h
            obtain ⟨⟨tail, htail⟩, hlast, hnone⟩ := ih data _ r
              (by simpa [Run.HasError, Run.polled, Run.waited] using hd) h
            refine ⟨⟨[Event.PollingWait none,
              Event.GetPrivateNetwork networkId (.ok response)] ++ tail, ?_⟩, hlast, ?_⟩
            · rw [htail]; simp [Run.polled, Run.waited]
            · intro hn; rw [hnone hn]; simp [Run.polled, Run.waited]

theorem network_create_state (client : Client)
    (fw : Framework PrivateNetworkResourceModel) (fuel : Nat)
    (r : Run PrivateNetworkResourceModel)
    (hset : ∀ k m, Diagnostics.HasError (fw.StateSet k m) = false)
    (h : PrivateNetworkResource.Create client fw fuel = some r) :
    (∀ c, PrivateNetworkResource.lastRead r.calls = some c →
      (c.Status = sagadata.PrivateNetworkStatusCreated ∨
        c.Status = sagadata.PrivateNetworkStatusError) ∧
      r.State = some (fw.PlanGet.1.PopulateFromClientResponse c).1) ∧
    (PrivateNetworkResource.lastRead r.calls = none →
      r.State = (PrivateNetworkResource.created r.calls).map
        (fun c => (fw.PlanGet.1.PopulateFromClientResponse c).1)) := by
  by_cases hplan : Diagnostics.HasError fw.PlanGet.2 = false
  swap
  · have h0 : ((Run.init none : Run PrivateNetworkResourceModel).Append
        fw.PlanGet.2).HasError = true := by
      simpa [Run.HasError, Run.Append, Run.init, Diagnostics.HasError_Append,
        Diagnostics.HasError_nil] using hplan
    simp only [PrivateNetworkResource.Create, h0, if_true, Option.some.injEq] at h
    subst h
    simp [PrivateNetworkResource.lastRead, PrivateNetworkResource.created, Run.Append,
      Run.init]
  have h0 : ((Run.init none : Run PrivateNetworkResourceModel).Append fw.PlanGet.2).HasError
      = false := by
    simp [Run.HasError, Run.Append, Run.init, Diagnostics.HasError_Append, hplan,
      Diagnostics.HasError_nil]
  cases hctx : fw.ContextWithTimeout with
  | some ds =>
    simp [PrivateNetworkResource.Create, h0, hctx] at h
    subst h
    simp [PrivateNetworkResource.lastRead, PrivateNetworkResource.created, Run.Append,
      Run.init]
  | none =>
    cases hres : client.CreatePrivateNetworkWithResponse
        (PrivateNetworkResource.Create.body fw.PlanGet.1) with
    | err e =>
      simp [PrivateNetworkResource.Create, h0, hctx, hres] at h
      subst h
      simp [PrivateNetworkResource.lastRead, PrivateNetworkResource.created, Run.Append,
        Run.init, Run.called, Run.AddError]
    | ok response =>
      cases h201 : response.JSON201 with
      | none =>
        simp [PrivateNetworkResource.Create, h0, hctx, hres, h201] at h
        subst h
        simp [PrivateNetworkResource.lastRead, PrivateNetworkResource.created, Run.Append,
          Run.init, Run.called, Run.AddError, h201]
      | some created =>
        rw [network_create_eq_loop client fw fuel response created hplan hctx
          hset hres h201] at h
        obtain ⟨he, hst, -, -, -, hcalls⟩ :=
          network_create_entry_facts client fw
            (fw.PlanGet.1.PopulateFromClientResponse created.PrivateNetwork).1 hplan hset
        obtain ⟨⟨tail, htail⟩, hlast, hnone⟩ :=
          network_create_loop_state client fw created.PrivateNetwork.Id hset fuel _ _
            r he h
        refine ⟨fun c hc => ?_, fun hn => ?_⟩
        · obtain ⟨hterm, hstate⟩ := hlast c hc
          exact ⟨hterm, by
            rw [hstate, network_populate_twice]⟩
        · rw [hnone hn, hst, htail, hcalls, hres]
          simp [PrivateNetworkResource.created, h201]

/-! ## Private network: the outcome of a finished Create -/

theorem network_create_loop_outcome (client : Client)
    (fw : Framework PrivateNetworkResourceModel) (networkId : String)
    (hset : ∀ k m, Diagnostics.HasError (fw.StateSet k m) = false) :
    ∀ (fuel : Nat) (data : PrivateNetworkResourceModel)
      (resp r : Run PrivateNetworkResourceModel), resp.HasError = false →
      (∀ c, PrivateNetworkResource.lastRemoteRead resp.calls = some c →
        c.Status ≠ sagadata.PrivateNetworkStatusCreated) →
      PrivateNetworkResource.Create.loop client fw networkId fuel data resp = some r →
      (Diagnostics.HasError r.Diagnostics = false ↔
        ∃ c, PrivateNetworkResource.lastRemoteRead r.calls = some c ∧
          c.Status = sagadata.PrivateNetworkStatusCreated) := by
  intro fuel
  induction fuel with
  | zero => intro data resp r _ _ h; simp [PrivateNetworkResource.Create.loop] at h
  | succ fuel ih =>
    intro data resp r hd hpre h
    cases hw : client.PollingWait resp.waits with
    | some err =>
      rw [network_create_loop_wait_fails client fw networkId fuel data resp err
        hw] at h
      cases h
      have hE : Diagnostics.HasError ((resp.waited (some err)).AddError "Polling Error"
          (Detail.generateErrorMessage "polling private network" err)).Diagnostics = true :=
        Diagnostics.HasError_AddError _ _ _
      have hL : PrivateNetworkResource.lastRemoteRead ((resp.waited (some err)).AddError
          "Polling Error" (Detail.generateErrorMessage "polling private network"
            err)).calls = PrivateNetworkResource.lastRemoteRead resp.calls := by
        simp [PrivateNetworkResource.lastRemoteRead, Run.AddError, Run.waited,
          lastRemote_append_wait]
      rw [hE, hL]
      constructor
      · intro hh; cases hh
      · rintro ⟨c, hc, hs⟩; exact absurd hs (hpre c hc)
    | none =>
      cases hg : client.GetPrivateNetworkWithResponse resp.reads networkId with
      | err e =>
        rw [network_create_loop_read_fails client fw networkId fuel data resp e
          hw hg] at h
        cases h
        have hE : Diagnostics.HasError (((resp.waited none).polled
            (Event.GetPrivateNetwork networkId (.err e))).AddError "Client Error"
            (Detail.generateErrorMessage "polling private network" e)).Diagnostics = true :=
          Diagnostics.HasError_AddError _ _ _
        rw [hE]
        simp [PrivateNetworkResource.lastRemoteRead, Run.AddError, Run.waited, Run.polled,
          ← List.append_assoc, lastRemote_append_remote, Event.isRemote]
      | ok response =>
        cases hb : response.JSON200 with
        | none =>
          rw [network_create_loop_read_no_body client fw networkId fuel data
            resp response hw hg hb] at h
          cases h
          have hE : Diagnostics.HasError (((resp.waited none).polled
              (Event.GetPrivateNetwork networkId (.ok response))).AddError "Client Error"
              (Detail.generateClientErrorMessage "polling private network"
                { Body := response.Body, HTTPResponse := response.HTTPResponse,
                  Error := response.JSONDefault })).Diagnostics = true :=
            Diagnostics.HasError_AddError _ _ _
          rw [hE]
          simp [PrivateNetworkResource.lastRemoteRead, Run.AddError, Run.waited, Run.polled,
            ← List.append_assoc, lastRemote_append_remote, Event.isRemote, hb]
        | some body =>
          have hlast : ∀ calls : List Event, PrivateNetworkResource.lastRemoteRead
              (calls ++ [Event.PollingWait none,
                Event.GetPrivateNetwork networkId (.ok response)]) = some body.PrivateNetwork := by
            intro calls
            have : calls ++ [Event.PollingWait none,
                Event.GetPrivateNetwork networkId (.ok response)] =
                (calls ++ [Event.PollingWait none]) ++
                  [Event.GetPrivateNetwork networkId (.ok response)] := by simp
            rw [PrivateNetworkResource.lastRemoteRead, this,
              lastRemote_append_remote (calls ++ [Event.PollingWait none])
                (Event.GetPrivateNetwork networkId (.ok response)) rfl]
            simp [hb]
          by_cases hs : body.PrivateNetwork.Status = sagadata.PrivateNetworkStatusCreated ∨
              body.PrivateNetwork.Status = sagadata.PrivateNetworkStatusError
          · rw [network_create_loop_terminal client fw networkId fuel data
              resp response body hw hg hb hs hd hset] at h
            cases h
            by_cases he : body.PrivateNetwork.Status = sagadata.PrivateNetworkStatusError
            · rw [if_pos he]
              have hE : Diagnostics.HasError ((Run.StateSet fw ((resp.waited none).polled
                  (Event.GetPrivateNetwork networkId (.ok response)))
                  (data.PopulateFromClientResponse body.PrivateNetwork).1).AddError
                  "Provisioning Error" (Detail.generateErrorMessage "polling private network"
                    GoError.ErrResourceInErrorState)).Diagnostics = true :=
                Diagnostics.HasError_AddError _ _ _
              have hc : ((Run.StateSet fw ((resp.waited none).polled
                  (Event.GetPrivateNetwork networkId (.ok response)))
                  (data.PopulateFromClientResponse body.PrivateNetwork).1).AddError
                  "Provisioning Error" (Detail.generateErrorMessage "polling private network"
                    GoError.ErrResourceInErrorState)).calls = resp.calls ++
                  [Event.PollingWait none,
                    Event.GetPrivateNetwork networkId (.ok response)] := by
                simp [Run.AddError, Run.StateSet, Run.polled, Run.waited]
              rw [hE, hc, hlast]
              constructor
              · intro hh; cases hh
              · rintro ⟨c, hc', hs'⟩
                cases hc'
                rw [he] at hs'
                exact absurd hs'.symm network_status_ne
            · rw [if_neg he]
              have hE : Diagnostics.HasError (Run.StateSet fw ((resp.waited none).polled
                  (Event.GetPrivateNetwork networkId (.ok response)))
                  (data.PopulateFromClientResponse body.PrivateNetwork).1).Diagnostics = false := by
                simp only [Run.StateSet, Run.polled, Run.waited, Diagnostics.HasError_Append,
                  Bool.or_eq_false_iff]
                exact ⟨hd, hset _ _⟩
              have hc : (Run.StateSet fw ((resp.waited none).polled
                  (Event.GetPrivateNetwork networkId (.ok response)))
                  (data.PopulateFromClientResponse body.PrivateNetwork).1).calls = resp.calls ++
                  [Event.PollingWait none,
                    Event.GetPrivateNetwork networkId (.ok response)] := by
                simp [Run.StateSet, Run.polled, Run.waited]
              rw [hE, hc, hlast]
              exact ⟨fun _ => ⟨_, rfl, hs.resolve_right he⟩, fun _ => rfl⟩
          · have h1 : body.PrivateNetwork.Status ≠ sagadata.PrivateNetworkStatusCreated :=
              fun hh => hs (Or.inl hh)
            have h2 : body.PrivateNetwork.Status ≠ sagadata.PrivateNetworkStatusError :=
              fun hh => hs (Or.inr hh)
            rw [network_create_loop_transient client fw networkId fuel data
              resp response body hw hg hb h1 h2] at h
            refine ih data _ r (by simpa [Run.HasError, Run.polled, Run.waited] using hd) ?_ h
            intro c hc
            have hcalls : ((resp.waited none).polled
                (Event.GetPrivateNetwork networkId (.ok response))).calls = resp.calls ++
                [Event.PollingWait none,
                  Event.GetPrivateNetwork networkId (.ok response)] := by
              simp [Run.polled, Run.waited]
            rw [hcalls, hlast] at hc
            cases hc
            exact h1

theorem network_create_outcome (client : Client)
    (fw : Framework PrivateNetworkResourceModel) (fuel : Nat)
    (r : Run PrivateNetworkResourceModel)
    (hplan : fw.PlanGet.2 = [])
    (hctx : ∀ ds, fw.ContextWithTimeout = some ds → Diagnostics.HasError ds = true)
    (hset : ∀ k m, fw.StateSet k m = [])
    (h : PrivateNetworkResource.Create client fw fuel = some r) :
    (Diagnostics.HasError r.Diagnostics = false ↔
      ∃ c, PrivateNetworkResource.lastRemoteRead r.calls = some c ∧
        c.Status = sagadata.PrivateNetworkStatusCreated) ∧
    (∀ c, PrivateNetworkResource.lastRemoteRead r.calls = some c →
      c.Status = sagadata.PrivateNetworkStatusError →
      Diagnostics.HasError r.Diagnostics = true) ∧
    (∀ c, PrivateNetworkResource.lastRead r.calls = some c →
      c.Status = sagadata.PrivateNetworkStatusCreated ∨
        c.Status = sagadata.PrivateNetworkStatusError) := by
  have hset' : ∀ k m, Diagnostics.HasError (fw.StateSet k m) = false := by
    intro k m; rw [hset]; rfl
  have hplan' : Diagnostics.HasError fw.PlanGet.2 = false := by rw [hplan]; rfl
  have hiff : Diagnostics.HasError r.Diagnostics = false ↔
      ∃ c, PrivateNetworkResource.lastRemoteRead r.calls = some c ∧
        c.Status = sagadata.PrivateNetworkStatusCreated := by
    have h0 : ((Run.init none : Run PrivateNetworkResourceModel).Append
        fw.PlanGet.2).HasError = false := by
      simp [Run.HasError, Run.Append, Run.init, Diagnostics.HasError_Append, hplan',
        Diagnostics.HasError_nil]
    cases hc : fw.ContextWithTimeout with
    | some ds =>
      simp [PrivateNetworkResource.Create, h0, hc] at h
      subst h
      have hE : Diagnostics.HasError (((Run.init none :
          Run PrivateNetworkResourceModel).Append fw.PlanGet.2).Append ds).Diagnostics
          = true := by
        simp [Run.Append, Diagnostics.HasError_Append, hctx ds hc]
      rw [hE]
      simp [PrivateNetworkResource.lastRemoteRead, lastRemote, Run.Append, Run.init]
    | none =>
      cases hres : client.CreatePrivateNetworkWithResponse
          (PrivateNetworkResource.Create.body fw.PlanGet.1) with
      | err e =>
        simp [PrivateNetworkResource.Create, h0, hc, hres] at h
        subst h
        have hE : Diagnostics.HasError ((((Run.init none :
            Run PrivateNetworkResourceModel).Append fw.PlanGet.2).called
            (Event.CreatePrivateNetwork (PrivateNetworkResource.Create.body fw.PlanGet.1)
              (.err e))).AddError "Client Error"
            (Detail.generateErrorMessage "create private network" e)).Diagnostics = true :=
          Diagnostics.HasError_AddError _ _ _
        rw [hE]
        simp [PrivateNetworkResource.lastRemoteRead, lastRemote, Run.Append, Run.init,
          Run.called, Run.AddError, Event.isRemote]
      | ok response =>
        cases h201 : response.JSON201 with
        | none =>
          simp [PrivateNetworkResource.Create, h0, hc, hres, h201] at h
          subst h
          have hE : Diagnostics.HasError ((((Run.init none :
              Run PrivateNetworkResourceModel).Append fw.PlanGet.2).called
              (Event.CreatePrivateNetwork
                (PrivateNetworkResource.Create.body fw.PlanGet.1)
                (.ok response))).AddError "Client Error"
              (Detail.generateClientErrorMessage "create private network"
                { Body := response.Body, HTTPResponse := response.HTTPResponse,
                  Error := response.JSONDefault })).Diagnostics = true :=
            Diagnostics.HasError_AddError _ _ _
          rw [hE]
          simp [PrivateNetworkResource.lastRemoteRead, lastRemote, Run.Append, Run.init,
            Run.called, Run.AddError, Event.isRemote]
        | some created =>
          rw [network_create_eq_loop client fw fuel response created hplan' hc
            hset' hres h201] at h
          obtain ⟨he, -, -, -, -, hcalls⟩ :=
            network_create_entry_facts client fw
              (fw.PlanGet.1.PopulateFromClientResponse created.PrivateNetwork).1 hplan' hset'
          refine network_create_loop_outcome client fw created.PrivateNetwork.Id
            hset' fuel _ _ r he ?_ h
          intro c hcc
          rw [hcalls] at hcc
          simp [PrivateNetworkResource.lastRemoteRead, lastRemote, Event.isRemote] at hcc
  refine ⟨hiff, ?_, ?_⟩
  · intro c hc hs
    cases hE : Diagnostics.HasError r.Diagnostics with
    | true => rfl
    | false =>
      obtain ⟨c', hc', hs'⟩ := hiff.mp hE
      rw [hc] at hc'
      cases hc'
      rw [hs] at hs'
      exact absurd hs'.symm network_status_ne
  · intro c hc
    exact ((network_create_state client fw fuel r hset' h).1 c hc).1

/-! ## Private network: the disappearance loop and Delete -/

theorem network_delete_loop_wait_fails (client : Client) (networkId : String)
    (fuel : Nat) (resp : Run PrivateNetworkResourceModel) (err : GoError)
    (hw : client.PollingWait resp.waits = some err) :
    PrivateNetworkResource.Delete.loop client networkId (fuel + 1) resp =
      some ((resp.waited (some err)).AddError "Polling Error"
        (Detail.generateErrorMessage "polling private network" err)) := by
  simp [PrivateNetworkResource.Delete.loop, hw]

theorem network_delete_loop_read_fails (client : Client) (networkId : String)
    (fuel : Nat) (resp : Run PrivateNetworkResourceModel) (err : GoError)
    (hw : client.PollingWait resp.waits = none)
    (hg : client.GetPrivateNetworkWithResponse resp.reads networkId = .err err) :
    PrivateNetworkResource.Delete.loop client networkId (fuel + 1) resp =
      some (((resp.waited none).polled (Event.GetPrivateNetwork networkId (.err err))).AddError
        "Client Error" (Detail.generateErrorMessage "polling private network" err)) := by
  have hg' : client.GetPrivateNetworkWithResponse (resp.waited none).reads networkId =
      .err err := hg
  simp [PrivateNetworkResource.Delete.loop, hw, hg']

theorem network_delete_loop_gone (client : Client) (networkId : String)
    (fuel : Nat) (resp : Run PrivateNetworkResourceModel)
    (response : sagadata.PrivateNetworkResponse)
    (hw : client.PollingWait resp.waits = none)
    (hg : client.GetPrivateNetworkWithResponse resp.reads networkId = .ok response)
    (h404 : response.StatusCode = 404) :
    PrivateNetworkResource.Delete.loop client networkId (fuel + 1) resp =
      some ((resp.waited none).polled (Event.GetPrivateNetwork networkId (.ok response))) := by
  have hg' : client.GetPrivateNetworkWithResponse (resp.waited none).reads networkId =
      .ok response := hg
  simp [PrivateNetworkResource.Delete.loop, hw, hg', h404]

theorem network_delete_loop_continues (client : Client) (networkId : String)
    (fuel : Nat) (resp : Run PrivateNetworkResourceModel)
    (response : sagadata.PrivateNetworkResponse)
    (hw : client.PollingWait resp.waits = none)
    (hg : client.GetPrivateNetworkWithResponse resp.reads networkId = .ok response)
    (hne : response.StatusCode ≠ 404) :
    PrivateNetworkResource.Delete.loop client networkId (fuel + 1) resp =
      PrivateNetworkResource.Delete.loop client networkId fuel
        ((resp.waited none).polled (Event.GetPrivateNetwork networkId (.ok response))) := by
  have hg' : client.GetPrivateNetworkWithResponse (resp.waited none).reads networkId =
      .ok response := hg
  simp [PrivateNetworkResource.Delete.loop, hw, hg', hne]

theorem network_delete_loop_lives (client : Client) (networkId : String)
    (n fuel : Nat) (resp : Run PrivateNetworkResourceModel)
    (hw : ∀ i, i < n → client.PollingWait (resp.waits + i) = none)
    (hg : ∀ i, i < n → ∃ response,
      client.GetPrivateNetworkWithResponse (resp.reads + i) networkId = .ok response ∧
      response.StatusCode ≠ 404) :
    ∃ resp' : Run PrivateNetworkResourceModel,
      PrivateNetworkResource.Delete.loop client networkId (fuel + n) resp =
        PrivateNetworkResource.Delete.loop client networkId fuel resp' ∧
      resp'.Diagnostics = resp.Diagnostics ∧ resp'.State = resp.State ∧
      resp'.sets = resp.sets ∧ resp'.waits = resp.waits + n ∧ resp'.reads = resp.reads + n := by
  induction n generalizing resp with
  | zero => exact ⟨resp, rfl, rfl, rfl, rfl, rfl, rfl⟩
  | succ n ih =>
    obtain ⟨response, hg0, hne⟩ := hg 0 (Nat.succ_pos n)
    have hw0 := hw 0 (Nat.succ_pos n)
    rw [Nat.add_zero] at hg0 hw0
    have hstep := network_delete_loop_continues client networkId
      (fuel + n) resp response hw0 hg0 hne
    obtain ⟨resp', hloop, hdiag, hstate, hsets, hwaits, hreads⟩ :=
      ih ((resp.waited none).polled (Event.GetPrivateNetwork networkId (.ok response)))
        (fun i hi => by
          have := hw (i + 1) (Nat.succ_lt_succ hi)
          simpa [Run.polled, Run.waited, Nat.add_assoc, Nat.add_comm 1 i] using this)
        (fun i hi => by
          have := hg (i + 1) (Nat.succ_lt_succ hi)
          simpa [Run.polled, Run.waited, Nat.add_assoc, Nat.add_comm 1 i] using this)
    refine ⟨resp', ?_, ?_, ?_, ?_, ?_, ?_⟩
    · rw [← hloop, ← hstep]; rfl
    · simpa [Run.polled, Run.waited] using hdiag
    · simpa [Run.polled, Run.waited] using hstate
    · simpa [Run.polled, Run.waited] using hsets
    · rw [hwaits]; simp [Run.polled, Run.waited, Nat.add_assoc, Nat.add_comm 1 n]
    · rw [hreads]; simp [Run.polled, Run.waited, Nat.add_assoc, Nat.add_comm 1 n]

theorem network_delete_eq_loop (client : Client)
    (fw : Framework PrivateNetworkResourceModel) (fuel : Nat)
    (response : sagadata.PrivateNetworkResponse)
    (hstate : Diagnostics.HasError fw.StateGet.2 = false)
    (hctx : fw.ContextWithTimeout = none)
    (hdel : client.DeletePrivateNetworkWithResponse fw.StateGet.1.Id.ValueString =
      .ok response)
    (h204 : response.StatusCode = 204) :
    PrivateNetworkResource.Delete client fw fuel =
      PrivateNetworkResource.Delete.loop client fw.StateGet.1.Id.ValueString fuel
        (PrivateNetworkResource.Delete.entry client fw) := by
  have h0 : ((Run.init (some fw.StateGet.1) : Run PrivateNetworkResourceModel).Append
      fw.StateGet.2).HasError = false := by
    simp [Run.HasError, Run.Append, Run.init, Diagnostics.HasError_Append, hstate,
      Diagnostics.HasError_nil]
  simp [PrivateNetworkResource.Delete, PrivateNetworkResource.Delete.entry, h0, hctx,
    hdel, h204]

theorem network_delete_entry_facts (client : Client)
    (fw : Framework PrivateNetworkResourceModel)
    (hstate : Diagnostics.HasError fw.StateGet.2 = false) :
    (PrivateNetworkResource.Delete.entry client fw).HasError = false ∧
    (PrivateNetworkResource.Delete.entry client fw).State = some fw.StateGet.1 ∧
    (PrivateNetworkResource.Delete.entry client fw).sets = 0 ∧
    (PrivateNetworkResource.Delete.entry client fw).waits = 0 ∧
    (PrivateNetworkResource.Delete.entry client fw).reads = 0 := by
  refine ⟨?_, rfl, rfl, rfl, rfl⟩
  simp [PrivateNetworkResource.Delete.entry, Run.HasError, Run.called, Run.Append, Run.init,
    Diagnostics.HasError_Append, hstate, Diagnostics.HasError_nil]

theorem network_delete_confirms (client : Client)
    (fw : Framework PrivateNetworkResourceModel) (n fuel : Nat)
    (deleted gone : sagadata.PrivateNetworkResponse)
    (hstate : Diagnostics.HasError fw.StateGet.2 = false)
    (hctx : fw.ContextWithTimeout = none)
    (hdel : client.DeletePrivateNetworkWithResponse fw.StateGet.1.Id.ValueString =
      .ok deleted)
    (h204 : deleted.StatusCode = 204)
    (hwait : ∀ i, client.PollingWait i = none)
    (hlive : ∀ i, i < n → ∃ response,
      client.GetPrivateNetworkWithResponse i fw.StateGet.1.Id.ValueString = .ok response ∧
      response.StatusCode = 200)
    (hgone : client.GetPrivateNetworkWithResponse n fw.StateGet.1.Id.ValueString = .ok gone)
    (h404 : gone.StatusCode = 404)
    (hfuel : n + 1 ≤ fuel) :
    ∃ r, PrivateNetworkResource.Delete client fw fuel = some r ∧
      Diagnostics.HasError r.Diagnostics = false ∧ r.reads = n + 1 ∧ r.waits = n + 1 ∧
      r.sets = 0 ∧ r.State = some fw.StateGet.1 := by
  obtain ⟨extra, rfl⟩ : ∃ extra, fuel = (extra + 1) + n := ⟨fuel - (n + 1), by omega⟩
  obtain ⟨he, hst, hsets, hwaits, hreads⟩ :=
    network_delete_entry_facts client fw hstate
  rw [network_delete_eq_loop client fw _ deleted hstate hctx hdel h204]
  obtain ⟨resp', hloop, hdiag, hstate', hsets', hwaits', hreads'⟩ :=
    network_delete_loop_lives client fw.StateGet.1.Id.ValueString n (extra + 1)
      (PrivateNetworkResource.Delete.entry client fw)
      (fun i _ => hwait _)
      (fun i hi => by
        rw [hreads, Nat.zero_add]
        obtain ⟨response, hr, h200⟩ := hlive i hi
        exact ⟨response, hr, by rw [h200]; decide⟩)
  rw [hloop, network_delete_loop_gone client _ extra resp' gone (hwait _)
    (by rw [hreads', hreads, Nat.zero_add]; exact hgone) h404]
  refine ⟨_, rfl, ?_, ?_, ?_, ?_, ?_⟩
  · simp only [Run.polled, Run.waited]; rw [hdiag]; exact he
  · simp [Run.polled, Run.waited, hreads', hreads]
  · simp [Run.polled, Run.waited, hwaits', hwaits]
  · simp [Run.polled, Run.waited, hsets', hsets]
  · simp [Run.polled, Run.waited, hstate', hst]

theorem network_delete_loop_status (client : Client) (networkId : String)
    (fuel : Nat) (resp : Run PrivateNetworkResourceModel)
    (response : sagadata.PrivateNetworkResponse)
    (hw : client.PollingWait resp.waits = none)
    (hg : client.GetPrivateNetworkWithResponse resp.reads networkId = .ok response) :
    (response.StatusCode ≠ 404 →
      ∃ resp' : Run PrivateNetworkResourceModel,
        PrivateNetworkResource.Delete.loop client networkId (fuel + 1) resp =
          PrivateNetworkResource.Delete.loop client networkId fuel resp' ∧
        resp'.Diagnostics = resp.Diagnostics ∧ resp'.State = resp.State ∧
        resp'.waits = resp.waits + 1 ∧ resp'.reads = resp.reads + 1 ∧
        resp'.calls = resp.calls ++
          [Event.PollingWait none, Event.GetPrivateNetwork networkId (.ok response)]) ∧
    (response.StatusCode = 404 →
      ∃ r, PrivateNetworkResource.Delete.loop client networkId (fuel + 1) resp = some r ∧
        r.Diagnostics = resp.Diagnostics ∧ r.State = resp.State ∧
        r.waits = resp.waits + 1 ∧ r.reads = resp.reads + 1 ∧
        r.calls = resp.calls ++
          [Event.PollingWait none, Event.GetPrivateNetwork networkId (.ok response)]) := by
  constructor
  · intro hne
    refine ⟨_, network_delete_loop_continues client networkId fuel resp
      response hw hg hne, rfl, rfl, rfl, rfl, ?_⟩
    simp [Run.polled, Run.waited]
  · intro h404
    refine ⟨_, network_delete_loop_gone client networkId fuel resp
      response hw hg h404, rfl, rfl, rfl, rfl, ?_⟩
    simp [Run.polled, Run.waited]

theorem network_delete_call_fails (client : Client)
    (fw : Framework PrivateNetworkResourceModel) (fuel : Nat)
    (hstate : Diagnostics.HasError fw.StateGet.2 = false)
    (hctx : fw.ContextWithTimeout = none)
    (hfail : ∀ response, client.DeletePrivateNetworkWithResponse
      fw.StateGet.1.Id.ValueString = .ok response → response.StatusCode ≠ 204) :
    ∃ r d, PrivateNetworkResource.Delete client fw fuel = some r ∧
      Diagnostics.Errors r.Diagnostics = [d] ∧ d.summary = "Client Error" ∧
      r.waits = 0 ∧ r.reads = 0 ∧
      r.calls = [Event.DeletePrivateNetwork fw.StateGet.1.Id.ValueString
        (client.DeletePrivateNetworkWithResponse fw.StateGet.1.Id.ValueString)] := by
  have h0 : ((Run.init (some fw.StateGet.1) : Run PrivateNetworkResourceModel).Append
      fw.StateGet.2).HasError = false := by
    simp [Run.HasError, Run.Append, Run.init, Diagnostics.HasError_Append, hstate,
      Diagnostics.HasError_nil]
  have h0' : Diagnostics.HasError (Diagnostics.Append [] fw.StateGet.2) = false := h0
  cases hres : client.DeletePrivateNetworkWithResponse fw.StateGet.1.Id.ValueString with
  | err e =>
    have hC : PrivateNetworkResource.Delete client fw fuel =
        some ((((Run.init (some fw.StateGet.1)).Append fw.StateGet.2).called
          (Event.DeletePrivateNetwork fw.StateGet.1.Id.ValueString (.err e))).AddError
          "Client Error" (Detail.generateErrorMessage "delete private network" e)) := by
      simp [PrivateNetworkResource.Delete, h0, hctx, hres]
    rw [hC]
    refine ⟨_, ⟨Severity.Error, "Client Error",
      Detail.generateErrorMessage "delete private network" e⟩, rfl, ?_, rfl, rfl, rfl, rfl⟩
    exact Diagnostics.Errors_AddError _ _ _ h0'
  | ok response =>
    have hC : PrivateNetworkResource.Delete client fw fuel =
        some ((((Run.init (some fw.StateGet.1)).Append fw.StateGet.2).called
          (Event.DeletePrivateNetwork fw.StateGet.1.Id.ValueString (.ok response))).AddError
          "Client Error" (Detail.generateClientErrorMessage "delete private network"
            { Body := response.Body, HTTPResponse := response.HTTPResponse,
              Error := response.JSONDefault })) := by
      simp [PrivateNetworkResource.Delete, h0, hctx, hres, hfail response hres]
    rw [hC]
    refine ⟨_, ⟨Severity.Error, "Client Error",
      Detail.generateClientErrorMessage "delete private network"
        { Body := response.Body, HTTPResponse := response.HTTPResponse,
          Error := response.JSONDefault }⟩, rfl, ?_, rfl, rfl, rfl, rfl⟩
    exact Diagnostics.Errors_AddError _ _ _ h0'

theorem network_delete_loop_entered (client : Client)
    (fw : Framework PrivateNetworkResourceModel) (fuel : Nat)
    (r : Run PrivateNetworkResourceModel)
    (h : PrivateNetworkResource.Delete client fw fuel = some r) (hw : r.waits ≠ 0) :
    ∃ response, client.DeletePrivateNetworkWithResponse fw.StateGet.1.Id.ValueString =
      .ok response ∧ response.StatusCode = 204 := by
  by_cases h0 : ((Run.init (some fw.StateGet.1) : Run PrivateNetworkResourceModel).Append
      fw.StateGet.2).HasError = true
  · simp [PrivateNetworkResource.Delete, h0] at h
    subst h
    exact absurd rfl hw
  cases hctx : fw.ContextWithTimeout with
  | some ds =>
    simp [PrivateNetworkResource.Delete, h0, hctx] at h
    subst h
    exact absurd rfl hw
  | none =>
    cases hres : client.DeletePrivateNetworkWithResponse fw.StateGet.1.Id.ValueString with
    | err e =>
      simp [PrivateNetworkResource.Delete, h0, hctx, hres] at h
      subst h
      exact absurd rfl hw
    | ok response =>
      by_cases h204 : response.StatusCode = 204
      · exact ⟨response, rfl, h204⟩
      · simp [PrivateNetworkResource.Delete, h0, hctx, hres, h204] at h
        subst h
        exact absurd rfl hw

/-! ## Private network: the remote calls of Create and Delete -/

theorem network_create_loop_calls (client : Client)
    (fw : Framework PrivateNetworkResourceModel) (networkId : String) :
    ∀ (fuel : Nat) (data : PrivateNetworkResourceModel)
      (resp r : Run PrivateNetworkResourceModel),
      PrivateNetworkResource.Create.loop client fw networkId fuel data resp = some r →
      ∃ reads, remoteCalls r.calls = remoteCalls resp.calls ++ reads ∧
        ∀ e, e ∈ reads → ∃ res, e = Event.GetPrivateNetwork networkId res := by
  intro fuel
  induction fuel with
  | zero => intro data resp r h; simp [PrivateNetworkResource.Create.loop] at h
  | succ fuel ih =>
    intro data resp r h
    have hone : ∀ (res : CallResult sagadata.PrivateNetworkResponse)
        (r' : Run PrivateNetworkResourceModel),
        r'.calls = resp.calls ++ [Event.PollingWait none,
          Event.GetPrivateNetwork networkId res] →
        ∃ reads, remoteCalls r'.calls = remoteCalls resp.calls ++ reads ∧
          ∀ e, e ∈ reads → ∃ res, e = Event.GetPrivateNetwork networkId res := by
      intro res r' hc
      refine ⟨[Event.GetPrivateNetwork networkId res], ?_, ?_⟩
      · rw [hc, remoteCalls_append]; rfl
      · intro e he
        simp only [List.mem_singleton] at he
        exact ⟨res, he⟩
    cases hw : client.PollingWait resp.waits with
    | some err =>
      rw [network_create_loop_wait_fails client fw networkId fuel data resp err hw] at h
      cases h
      refine ⟨[], ?_, by simp⟩
      simp [Run.AddError, Run.waited, remoteCalls_append, remoteCalls, Event.isRemote]
    | none =>
      cases hg : client.GetPrivateNetworkWithResponse resp.reads networkId with
      | err e =>
        rw [network_create_loop_read_fails client fw networkId fuel data resp e hw hg] at h
        cases h
        exact hone (.err e) _ (by simp [Run.AddError, Run.waited, Run.polled])
      | ok response =>
        have hg' : client.GetPrivateNetworkWithResponse (resp.waited none).reads networkId =
            .ok response := hg
        cases hb : response.JSON200 with
        | none =>
          rw [network_create_loop_read_no_body client fw networkId fuel data resp response hw hg
            hb] at h
          cases h
          exact hone (.ok response) _ (by simp [Run.AddError, Run.waited, Run.polled])
        | some body =>
          by_cases hs : body.PrivateNetwork.Status = sagadata.PrivateNetworkStatusCreated ∨
              body.PrivateNetwork.Status = sagadata.PrivateNetworkStatusError
          · rw [PrivateNetworkResource.Create.loop] at h
            simp only [hw, hg', hb, if_pos hs] at h
            split at h
            · cases h
              exact hone (.ok response) _ (by simp [Run.Append, Run.waited, Run.polled])
            · split at h
              · cases h
                exact hone (.ok response) _ (by simp [Run.StateSet, Run.Append, Run.waited, Run.polled])
              · split at h
                · cases h
                  exact hone (.ok response) _ (by
                    simp [Run.AddError, Run.StateSet, Run.Append, Run.waited, Run.polled])
                · cases h
                  exact hone (.ok response) _ (by simp [Run.StateSet, Run.Append, Run.waited, Run.polled])
          · have h1 : body.PrivateNetwork.Status ≠ sagadata.PrivateNetworkStatusCreated :=
              fun hh => hs (Or.inl hh)
            have h2 : body.PrivateNetwork.Status ≠ sagadata.PrivateNetworkStatusError :=
              fun hh => hs (Or.inr hh)
            rw [network_create_loop_transient client fw networkId fuel data resp response body
              hw hg hb h1 h2] at h
            obtain ⟨reads, hreads, hall⟩ := ih data _ r h
            refine ⟨Event.GetPrivateNetwork networkId (.ok response) :: reads, ?_, ?_⟩
            · rw [hreads]
              simp [Run.polled, Run.waited, remoteCalls_append, remoteCalls, Event.isRemote]
            · intro e he
              rcases List.mem_cons.mp he with rfl | he
              · exact ⟨_, rfl⟩
              · exact hall e he

theorem network_create_calls (client : Client)
    (fw : Framework PrivateNetworkResourceModel) (fuel : Nat)
    (r : Run PrivateNetworkResourceModel)
    (h : PrivateNetworkResource.Create client fw fuel = some r) :
    (remoteCalls r.calls = [] ∧
      (Diagnostics.HasError fw.PlanGet.2 = true ∨ fw.ContextWithTimeout ≠ none)) ∨
    (∃ reads, remoteCalls r.calls =
        Event.CreatePrivateNetwork (PrivateNetworkResource.Create.body fw.PlanGet.1)
          (client.CreatePrivateNetworkWithResponse
            (PrivateNetworkResource.Create.body fw.PlanGet.1)) :: reads ∧
      ∀ e, e ∈ reads → ∃ response created res,
        client.CreatePrivateNetworkWithResponse
          (PrivateNetworkResource.Create.body fw.PlanGet.1) = .ok response ∧
        response.JSON201 = some created ∧
        e = Event.GetPrivateNetwork created.PrivateNetwork.Id res) := by
  by_cases hplan : Diagnostics.HasError fw.PlanGet.2 = false
  swap
  · have h0 : ((Run.init none : Run PrivateNetworkResourceModel).Append
        fw.PlanGet.2).HasError = true := by
      simpa [Run.HasError, Run.Append, Run.init, Diagnostics.HasError_Append,
        Diagnostics.HasError_nil] using hplan
    simp only [PrivateNetworkResource.Create, h0, if_true, Option.some.injEq] at h
    subst h
    exact Or.inl ⟨rfl, Or.inl (by simpa using hplan)⟩
  have h0 : ((Run.init none : Run PrivateNetworkResourceModel).Append fw.PlanGet.2).HasError
      = false := by
    simp [Run.HasError, Run.Append, Run.init, Diagnostics.HasError_Append, hplan,
      Diagnostics.HasError_nil]
  have hsingle : ∀ r' : Run PrivateNetworkResourceModel,
      r'.calls = [Event.CreatePrivateNetwork
        (PrivateNetworkResource.Create.body fw.PlanGet.1)
        (client.CreatePrivateNetworkWithResponse
          (PrivateNetworkResource.Create.body fw.PlanGet.1))] →
      ∃ reads, remoteCalls r'.calls =
          Event.CreatePrivateNetwork (PrivateNetworkResource.Create.body fw.PlanGet.1)
            (client.CreatePrivateNetworkWithResponse
              (PrivateNetworkResource.Create.body fw.PlanGet.1)) :: reads ∧
        ∀ e, e ∈ reads → ∃ response created res,
          client.CreatePrivateNetworkWithResponse
            (PrivateNetworkResource.Create.body fw.PlanGet.1) = .ok response ∧
          response.JSON201 = some created ∧
          e = Event.GetPrivateNetwork created.PrivateNetwork.Id res := by
    intro r' hc
    refine ⟨[], ?_, by simp⟩
    rw [hc]; rfl
  cases hctx : fw.ContextWithTimeout with
  | some ds =>
    simp [PrivateNetworkResource.Create, h0, hctx] at h
    subst h
    exact Or.inl ⟨rfl, Or.inr (by simp)⟩
  | none =>
    right
    cases hres : client.CreatePrivateNetworkWithResponse
        (PrivateNetworkResource.Create.body fw.PlanGet.1) with
    | err e =>
      simp [PrivateNetworkResource.Create, h0, hctx, hres] at h
      subst h
      rw [← hres]
      refine hsingle _ ?_
      simp [Run.AddError, Run.called, Run.Append, Run.init, hres]
    | ok response =>
      cases h201 : response.JSON201 with
      | none =>
        simp [PrivateNetworkResource.Create, h0, hctx, hres, h201] at h
        subst h
        rw [← hres]
        refine hsingle _ ?_
        simp [Run.AddError, Run.called, Run.Append, Run.init, hres]
      | some created =>
        unfold PrivateNetworkResource.Create at h
        simp only [h0, hctx, hres, h201, Bool.false_eq_true, if_false] at h
        split at h
        · cases h
          rw [← hres]
          refine hsingle _ ?_
          simp [Run.called, Run.Append, Run.init, hres]
        · split at h
          · cases h
            rw [← hres]
            refine hsingle _ ?_
            simp [Run.StateSet, Run.called, Run.Append, Run.init, hres]
          · obtain ⟨reads, hreads, hall⟩ :=
              network_create_loop_calls client fw created.PrivateNetwork.Id fuel _ _ r h
            have hrc : remoteCalls r.calls =
                Event.CreatePrivateNetwork
                  (PrivateNetworkResource.Create.body fw.PlanGet.1) (.ok response) ::
                  reads := by
              rw [hreads]
              simp [Run.StateSet, Run.called, Run.Append, Run.init, remoteCalls,
                Event.isRemote]
            refine ⟨reads, hrc, fun e he => ?_⟩
            obtain ⟨res, hres'⟩ := hall e he
            exact ⟨response, created, res, rfl, h201, hres'⟩

theorem network_delete_loop_calls (client : Client) (networkId : String) :
    ∀ (fuel : Nat) (resp r : Run PrivateNetworkResourceModel),
      PrivateNetworkResource.Delete.loop client networkId fuel resp = some r →
      ∃ reads, remoteCalls r.calls = remoteCalls resp.calls ++ reads ∧
        ∀ e, e ∈ reads → ∃ res, e = Event.GetPrivateNetwork networkId res := by
  intro fuel
  induction fuel with
  | zero => intro resp r h; simp [PrivateNetworkResource.Delete.loop] at h
  | succ fuel ih =>
    intro resp r h
    have hone : ∀ (res : CallResult sagadata.PrivateNetworkResponse)
        (r' : Run PrivateNetworkResourceModel),
        r'.calls = resp.calls ++ [Event.PollingWait none,
          Event.GetPrivateNetwork networkId res] →
        ∃ reads, remoteCalls r'.calls = remoteCalls resp.calls ++ reads ∧
          ∀ e, e ∈ reads → ∃ res, e = Event.GetPrivateNetwork networkId res := by
      intro res r' hc
      refine ⟨[Event.GetPrivateNetwork networkId res], ?_, ?_⟩
      · rw [hc, remoteCalls_append]; rfl
      · intro e he
        simp only [List.mem_singleton] at he
        exact ⟨res, he⟩
    cases hw : client.PollingWait resp.waits with
    | some err =>
      rw [network_delete_loop_wait_fails client networkId fuel resp err hw] at h
      cases h
      refine ⟨[], ?_, by simp⟩
      simp [Run.AddError, Run.waited, remoteCalls_append, remoteCalls, Event.isRemote]
    | none =>
      cases hg : client.GetPrivateNetworkWithResponse resp.reads networkId with
      | err e =>
        rw [network_delete_loop_read_fails client networkId fuel resp e hw hg] at h
        cases h
        exact hone (.err e) _ (by simp [Run.AddError, Run.waited, Run.polled])
      | ok response =>
        by_cases h404 : response.StatusCode = 404
        · rw [network_delete_loop_gone client networkId fuel resp response hw hg h404] at h
          cases h
          exact hone (.ok response) _ (by simp [Run.waited, Run.polled])
        · rw [network_delete_loop_continues client networkId fuel resp response hw hg h404] at h
          obtain ⟨reads, hreads, hall⟩ := ih _ r h
          refine ⟨Event.GetPrivateNetwork networkId (.ok response) :: reads, ?_, ?_⟩
          · rw [hreads]
            simp [Run.polled, Run.waited, remoteCalls_append, remoteCalls, Event.isRemote]
          · intro e he
            rcases List.mem_cons.mp he with rfl | he
            · exact ⟨_, rfl⟩
            · exact hall e he

theorem network_delete_calls (client : Client)
    (fw : Framework PrivateNetworkResourceModel) (fuel : Nat)
    (r : Run PrivateNetworkResourceModel)
    (h : PrivateNetworkResource.Delete client fw fuel = some r) :
    (remoteCalls r.calls = [] ∧
      (Diagnostics.HasError fw.StateGet.2 = true ∨ fw.ContextWithTimeout ≠ none)) ∨
    (∃ reads, remoteCalls r.calls =
        Event.DeletePrivateNetwork fw.StateGet.1.Id.ValueString
          (client.DeletePrivateNetworkWithResponse fw.StateGet.1.Id.ValueString) :: reads ∧
      ∀ e, e ∈ reads →
        ∃ res, e = Event.GetPrivateNetwork fw.StateGet.1.Id.ValueString res) := by
  by_cases hstate : Diagnostics.HasError fw.StateGet.2 = false
  swap
  · have h0 : ((Run.init (some fw.StateGet.1) : Run PrivateNetworkResourceModel).Append
        fw.StateGet.2).HasError = true := by
      simpa [Run.HasError, Run.Append, Run.init, Diagnostics.HasError_Append,
        Diagnostics.HasError_nil] using hstate
    simp only [PrivateNetworkResource.Delete, h0, if_true, Option.some.injEq] at h
    subst h
    exact Or.inl ⟨rfl, Or.inl (by simpa using hstate)⟩
  have h0 : ((Run.init (some fw.StateGet.1) : Run PrivateNetworkResourceModel).Append
      fw.StateGet.2).HasError = false := by
    simp [Run.HasError, Run.Append, Run.init, Diagnostics.HasError_Append, hstate,
      Diagnostics.HasError_nil]
  have hsingle : ∀ r' : Run PrivateNetworkResourceModel,
      r'.calls = [Event.DeletePrivateNetwork fw.StateGet.1.Id.ValueString
        (client.DeletePrivateNetworkWithResponse fw.StateGet.1.Id.ValueString)] →
      ∃ reads, remoteCalls r'.calls =
          Event.DeletePrivateNetwork fw.StateGet.1.Id.ValueString
            (client.DeletePrivateNetworkWithResponse fw.StateGet.1.Id.ValueString) ::
            reads ∧
        ∀ e, e ∈ reads →
          ∃ res, e = Event.GetPrivateNetwork fw.StateGet.1.Id.ValueString res := by
    intro r' hc
    refine ⟨[], ?_, by simp⟩
    rw [hc]; rfl
  cases hctx : fw.ContextWithTimeout with
  | some ds =>
    simp [PrivateNetworkResource.Delete, h0, hctx] at h
    subst h
    exact Or.inl ⟨rfl, Or.inr (by simp)⟩
  | none =>
    right
    cases hres : client.DeletePrivateNetworkWithResponse fw.StateGet.1.Id.ValueString with
    | err e =>
      simp [PrivateNetworkResource.Delete, h0, hctx, hres] at h
      subst h
      rw [← hres]
      refine hsingle _ ?_
      simp [Run.AddError, Run.called, Run.Append, Run.init, hres]
    | ok response =>
      by_cases h204 : response.StatusCode = 204
      · rw [network_delete_eq_loop client fw fuel response hstate hctx hres h204] at h
        obtain ⟨reads, hreads, hall⟩ :=
          network_delete_loop_calls client fw.StateGet.1.Id.ValueString fuel _ r h
        have hrc : remoteCalls r.calls =
            Event.DeletePrivateNetwork fw.StateGet.1.Id.ValueString (.ok response) ::
              reads := by
          rw [hreads]
          simp [PrivateNetworkResource.Delete.entry, Run.called, Run.Append, Run.init,
            remoteCalls, Event.isRemote, hres]
        exact ⟨reads, hrc, hall⟩
      · simp [PrivateNetworkResource.Delete, h0, hctx, hres, h204] at h
        subst h
        rw [← hres]
        refine hsingle _ ?_
        simp [Run.AddError, Run.called, Run.Append, Run.init, hres]

/-! ## Private network: Read and Update -/

theorem network_read_no_wait (client : Client) (fw : Framework PrivateNetworkResourceModel) :
    (PrivateNetworkResource.Read client fw).waits = 0 ∧
    (∀ e, e ∈ (PrivateNetworkResource.Read client fw).calls → e.isRemote = true) ∧
    (PrivateNetworkResource.Read client fw).calls.length ≤ 1 := by
  unfold PrivateNetworkResource.Read
  simp only []
  split
  · simp [Run.Append, Run.init]
  · split
    · simp [Run.Append, Run.init]
    · split
      · simp [Run.AddError, Run.polled, Run.Append, Run.init, Event.isRemote]
      · split
        · simp [Run.AddError, Run.polled, Run.Append, Run.init, Event.isRemote]
        · split
          · simp [Run.polled, Run.Append, Run.init, Event.isRemote]
          · simp [Run.StateSet, Run.polled, Run.Append, Run.init, Event.isRemote]

theorem network_read_stores (client : Client) (fw : Framework PrivateNetworkResourceModel)
    (response : sagadata.PrivateNetworkResponse) (body : sagadata.PrivateNetworkBody)
    (hstate : Diagnostics.HasError fw.StateGet.2 = false)
    (hctx : fw.ContextWithTimeout = none)
    (hset : ∀ k m, Diagnostics.HasError (fw.StateSet k m) = false)
    (hget : client.GetPrivateNetworkWithResponse 0 fw.StateGet.1.Id.ValueString =
      .ok response)
    (h200 : response.JSON200 = some body) :
    (PrivateNetworkResource.Read client fw).calls =
      [Event.GetPrivateNetwork fw.StateGet.1.Id.ValueString (.ok response)] ∧
    (PrivateNetworkResource.Read client fw).State =
      some (fw.StateGet.1.PopulateFromClientResponse body.PrivateNetwork).1 ∧
    Diagnostics.HasError (PrivateNetworkResource.Read client fw).Diagnostics = false ∧
    (PrivateNetworkResource.Read client fw).sets = 1 := by
  have h0 : ((Run.init (some fw.StateGet.1) : Run PrivateNetworkResourceModel).Append
      fw.StateGet.2).HasError = false := by
    simp [Run.HasError, Run.Append, Run.init, Diagnostics.HasError_Append, hstate,
      Diagnostics.HasError_nil]
  have hget' : client.GetPrivateNetworkWithResponse
      ((Run.init (some fw.StateGet.1) : Run PrivateNetworkResourceModel).Append
        fw.StateGet.2).reads fw.StateGet.1.Id.ValueString = .ok response := hget
  have h1 : ((((Run.init (some fw.StateGet.1) : Run PrivateNetworkResourceModel).Append
      fw.StateGet.2).polled
      (Event.GetPrivateNetwork fw.StateGet.1.Id.ValueString (.ok response))).Append
      (fw.StateGet.1.PopulateFromClientResponse body.PrivateNetwork).2).HasError = false := by
    simpa [Run.HasError, Run.Append, Run.polled, network_populate_snd,
      Diagnostics.Append_nil] using h0
  have hR : PrivateNetworkResource.Read client fw =
      Run.StateSet fw ((((Run.init (some fw.StateGet.1) :
        Run PrivateNetworkResourceModel).Append fw.StateGet.2).polled
        (Event.GetPrivateNetwork fw.StateGet.1.Id.ValueString (.ok response))).Append
        (fw.StateGet.1.PopulateFromClientResponse body.PrivateNetwork).2)
        (fw.StateGet.1.PopulateFromClientResponse body.PrivateNetwork).1 := by
    unfold PrivateNetworkResource.Read
    simp only [h0, hctx, hget', h200, h1, Bool.false_eq_true, if_false]
  rw [hR]
  refine ⟨?_, ?_, ?_, ?_⟩
  · simp [Run.StateSet, Run.Append, Run.polled, Run.init]
  · simp [Run.StateSet, hset]
  · simp only [Run.StateSet, Diagnostics.HasError_Append, Bool.or_eq_false_iff]
    exact ⟨h1, hset _ _⟩
  · simp [Run.StateSet, Run.Append, Run.polled, Run.init]

theorem network_read_fails (client : Client) (fw : Framework PrivateNetworkResourceModel)
    (hstate : Diagnostics.HasError fw.StateGet.2 = false)
    (hctx : fw.ContextWithTimeout = none)
    (hfail : ∀ response, client.GetPrivateNetworkWithResponse 0
      fw.StateGet.1.Id.ValueString = .ok response → response.JSON200 = none) :
    ∃ d, (PrivateNetworkResource.Read client fw).calls =
        [Event.GetPrivateNetwork fw.StateGet.1.Id.ValueString
          (client.GetPrivateNetworkWithResponse 0 fw.StateGet.1.Id.ValueString)] ∧
      Diagnostics.Errors (PrivateNetworkResource.Read client fw).Diagnostics = [d] ∧
      d.summary = "Client Error" ∧
      (PrivateNetworkResource.Read client fw).sets = 0 ∧
      (PrivateNetworkResource.Read client fw).State = some fw.StateGet.1 := by
  have h0 : ((Run.init (some fw.StateGet.1) : Run PrivateNetworkResourceModel).Append
      fw.StateGet.2).HasError = false := by
    simp [Run.HasError, Run.Append, Run.init, Diagnostics.HasError_Append, hstate,
      Diagnostics.HasError_nil]
  have h0' : Diagnostics.HasError (Diagnostics.Append [] fw.StateGet.2) = false := h0
  cases hres : client.GetPrivateNetworkWithResponse 0 fw.StateGet.1.Id.ValueString with
  | err e =>
    have hget' : client.GetPrivateNetworkWithResponse
        ((Run.init (some fw.StateGet.1) : Run PrivateNetworkResourceModel).Append
          fw.StateGet.2).reads fw.StateGet.1.Id.ValueString = .err e := hres
    have hR : PrivateNetworkResource.Read client fw =
        (((Run.init (some fw.StateGet.1) : Run PrivateNetworkResourceModel).Append
          fw.StateGet.2).polled
          (Event.GetPrivateNetwork fw.StateGet.1.Id.ValueString (.err e))).AddError
          "Client Error" (Detail.generateErrorMessage "read private network" e) := by
      unfold PrivateNetworkResource.Read
      simp only [h0, hctx, hget', Bool.false_eq_true, if_false]
    rw [hR]
    refine ⟨⟨Severity.Error, "Client Error",
      Detail.generateErrorMessage "read private network" e⟩, rfl, ?_, rfl, rfl, rfl⟩
    exact Diagnostics.Errors_AddError _ _ _ h0'
  | ok response =>
    have hget' : client.GetPrivateNetworkWithResponse
        ((Run.init (some fw.StateGet.1) : Run PrivateNetworkResourceModel).Append
          fw.StateGet.2).reads fw.StateGet.1.Id.ValueString = .ok response := hres
    have hR : PrivateNetworkResource.Read client fw =
        (((Run.init (some fw.StateGet.1) : Run PrivateNetworkResourceModel).Append
          fw.StateGet.2).polled
          (Event.GetPrivateNetwork fw.StateGet.1.Id.ValueString (.ok response))).AddError
          "Client Error" (Detail.generateClientErrorMessage "read private network"
            { Body := response.Body, HTTPResponse := response.HTTPResponse,
              Error := response.JSONDefault }) := by
      unfold PrivateNetworkResource.Read
      simp only [h0, hctx, hget', hfail response hres, Bool.false_eq_true, if_false]
    rw [hR]
    refine ⟨⟨Severity.Error, "Client Error",
      Detail.generateClientErrorMessage "read private network"
        { Body := response.Body, HTTPResponse := response.HTTPResponse,
          Error := response.JSONDefault }⟩, rfl, ?_, rfl, rfl, rfl⟩
    exact Diagnostics.Errors_AddError _ _ _ h0'

theorem network_update_no_wait (client : Client)
    (fw : Framework PrivateNetworkResourceModel) :
    (PrivateNetworkResource.Update client fw).waits = 0 ∧
    (∀ e, e ∈ (PrivateNetworkResource.Update client fw).calls → e.isRemote = true) ∧
    (PrivateNetworkResource.Update client fw).calls.length ≤ 1 := by
  unfold PrivateNetworkResource.Update
  simp only []
  split
  · simp [Run.Append, Run.init]
  · split
    · simp [Run.Append, Run.init]
    · split
      · simp [Run.AddError, Run.called, Run.Append, Run.init, Event.isRemote]
      · split
        · simp [Run.AddError, Run.called, Run.Append, Run.init, Event.isRemote]
        · split
          · simp [Run.called, Run.Append, Run.init, Event.isRemote]
          · simp [Run.StateSet, Run.called, Run.Append, Run.init, Event.isRemote]

theorem network_update_stores (client : Client) (fw : Framework PrivateNetworkResourceModel)
    (response : sagadata.PrivateNetworkResponse) (body : sagadata.PrivateNetworkBody)
    (hplan : Diagnostics.HasError fw.PlanGet.2 = false)
    (hctx : fw.ContextWithTimeout = none)
    (hset : ∀ k m, Diagnostics.HasError (fw.StateSet k m) = false)
    (hcall : client.UpdatePrivateNetworkWithResponse fw.PlanGet.1.Id.ValueString
      (PrivateNetworkResource.Update.body fw.PlanGet.1) = .ok response)
    (h200 : response.JSON200 = some body) :
    (PrivateNetworkResource.Update client fw).calls =
      [Event.UpdatePrivateNetwork fw.PlanGet.1.Id.ValueString
        (PrivateNetworkResource.Update.body fw.PlanGet.1) (.ok response)] ∧
    (PrivateNetworkResource.Update client fw).State =
      some (fw.PlanGet.1.PopulateFromClientResponse body.PrivateNetwork).1 ∧
    Diagnostics.HasError (PrivateNetworkResource.Update client fw).Diagnostics = false ∧
    (PrivateNetworkResource.Update client fw).sets = 1 := by
  have h0 : ((Run.init (some fw.StateGet.1) : Run PrivateNetworkResourceModel).Append
      fw.PlanGet.2).HasError = false := by
    simp [Run.HasError, Run.Append, Run.init, Diagnostics.HasError_Append, hplan,
      Diagnostics.HasError_nil]
  have h1 : ((((Run.init (some fw.StateGet.1) : Run PrivateNetworkResourceModel).Append
      fw.PlanGet.2).called
      (Event.UpdatePrivateNetwork fw.PlanGet.1.Id.ValueString
        (PrivateNetworkResource.Update.body fw.PlanGet.1) (.ok response))).Append
      (fw.PlanGet.1.PopulateFromClientResponse body.PrivateNetwork).2).HasError = false := by
    simpa [Run.HasError, Run.Append, Run.called, network_populate_snd,
      Diagnostics.Append_nil] using h0
  have hR : PrivateNetworkResource.Update client fw =
      Run.StateSet fw ((((Run.init (some fw.StateGet.1) :
        Run PrivateNetworkResourceModel).Append fw.PlanGet.2).called
        (Event.UpdatePrivateNetwork fw.PlanGet.1.Id.ValueString
          (PrivateNetworkResource.Update.body fw.PlanGet.1) (.ok response))).Append
        (fw.PlanGet.1.PopulateFromClientResponse body.PrivateNetwork).2)
        (fw.PlanGet.1.PopulateFromClientResponse body.PrivateNetwork).1 := by
    unfold PrivateNetworkResource.Update
    simp only [h0, hctx, hcall, h200, h1, Bool.false_eq_true, if_false]
  rw [hR]
  refine ⟨?_, ?_, ?_, ?_⟩
  · simp [Run.StateSet, Run.Append, Run.called, Run.init]
  · simp [Run.StateSet, hset]
  · simp only [Run.StateSet, Diagnostics.HasError_Append, Bool.or_eq_false_iff]
    exact ⟨h1, hset _ _⟩
  · simp [Run.StateSet, Run.Append, Run.called, Run.init]

theorem network_update_fails (client : Client) (fw : Framework PrivateNetworkResourceModel)
    (hplan : Diagnostics.HasError fw.PlanGet.2 = false)
    (hctx : fw.ContextWithTimeout = none)
    (hfail : ∀ response, client.UpdatePrivateNetworkWithResponse
      fw.PlanGet.1.Id.ValueString (PrivateNetworkResource.Update.body fw.PlanGet.1) =
      .ok response → response.JSON200 = none) :
    ∃ d, (PrivateNetworkResource.Update client fw).calls =
        [Event.UpdatePrivateNetwork fw.PlanGet.1.Id.ValueString
          (PrivateNetworkResource.Update.body fw.PlanGet.1)
          (client.UpdatePrivateNetworkWithResponse fw.PlanGet.1.Id.ValueString
            (PrivateNetworkResource.Update.body fw.PlanGet.1))] ∧
      Diagnostics.Errors (PrivateNetworkResource.Update client fw).Diagnostics = [d] ∧
      d.summary = "Client Error" ∧
      (PrivateNetworkResource.Update client fw).sets = 0 ∧
      (PrivateNetworkResource.Update client fw).State = some fw.StateGet.1 := by
  have h0 : ((Run.init (some fw.StateGet.1) : Run PrivateNetworkResourceModel).Append
      fw.PlanGet.2).HasError = false := by
    simp [Run.HasError, Run.Append, Run.init, Diagnostics.HasError_Append, hplan,
      Diagnostics.HasError_nil]
  have h0' : Diagnostics.HasError (Diagnostics.Append [] fw.PlanGet.2) = false := h0
  cases hres : client.UpdatePrivateNetworkWithResponse fw.PlanGet.1.Id.ValueString
      (PrivateNetworkResource.Update.body fw.PlanGet.1) with
  | err e =>
    have hR : PrivateNetworkResource.Update client fw =
        (((Run.init (some fw.StateGet.1) : Run PrivateNetworkResourceModel).Append
          fw.PlanGet.2).called
          (Event.UpdatePrivateNetwork fw.PlanGet.1.Id.ValueString
            (PrivateNetworkResource.Update.body fw.PlanGet.1) (.err e))).AddError
          "Client Error" (Detail.generateErrorMessage "update private network" e) := by
      unfold PrivateNetworkResource.Update
      simp only [h0, hctx, hres, Bool.false_eq_true, if_false]
    rw [hR]
    refine ⟨⟨Severity.Error, "Client Error",
      Detail.generateErrorMessage "update private network" e⟩, rfl, ?_, rfl, rfl, rfl⟩
    exact Diagnostics.Errors_AddError _ _ _ h0'
  | ok response =>
    have hR : PrivateNetworkResource.Update client fw =
        (((Run.init (some fw.StateGet.1) : Run PrivateNetworkResourceModel).Append
          fw.PlanGet.2).called
          (Event.UpdatePrivateNetwork fw.PlanGet.1.Id.ValueString
            (PrivateNetworkResource.Update.body fw.PlanGet.1) (.ok response))).AddError
          "Client Error" (Detail.generateClientErrorMessage "update private network"
            { Body := response.Body, HTTPResponse := response.HTTPResponse,
              Error := response.JSONDefault }) := by
      unfold PrivateNetworkResource.Update
      simp only [h0, hctx, hres, hfail response hres, Bool.false_eq_true, if_false]
    rw [hR]
    refine ⟨⟨Severity.Error, "Client Error",
      Detail.generateClientErrorMessage "update private network"
        { Body := response.Body, HTTPResponse := response.HTTPResponse,
          Error := response.JSONDefault }⟩, rfl, ?_, rfl, rfl, rfl⟩
    exact Diagnostics.Errors_AddError _ _ _ h0'

theorem network_read_call (client : Client) (fw : Framework PrivateNetworkResourceModel)
    (hstate : Diagnostics.HasError fw.StateGet.2 = false)
    (hctx : fw.ContextWithTimeout = none) :
    (PrivateNetworkResource.Read client fw).calls =
      [Event.GetPrivateNetwork fw.StateGet.1.Id.ValueString
        (client.GetPrivateNetworkWithResponse 0 fw.StateGet.1.Id.ValueString)] := by
  have h0 : ((Run.init (some fw.StateGet.1) : Run PrivateNetworkResourceModel).Append
      fw.StateGet.2).HasError = false := by
    simp [Run.HasError, Run.Append, Run.init, Diagnostics.HasError_Append, hstate,
      Diagnostics.HasError_nil]
  have hreads : ((Run.init (some fw.StateGet.1) : Run PrivateNetworkResourceModel).Append
      fw.StateGet.2).reads = 0 := rfl
  unfold PrivateNetworkResource.Read
  simp only [h0, hctx, hreads, Bool.false_eq_true, if_false]
  split
  · simp [Run.AddError, Run.polled, Run.Append, Run.init, *]
  · split
    · simp [Run.AddError, Run.polled, Run.Append, Run.init, *]
    · split
      · simp [Run.polled, Run.Append, Run.init, *]
      · simp [Run.StateSet, Run.polled, Run.Append, Run.init, *]

theorem network_update_call (client : Client) (fw : Framework PrivateNetworkResourceModel)
    (hplan : Diagnostics.HasError fw.PlanGet.2 = false)
    (hctx : fw.ContextWithTimeout = none) :
    (PrivateNetworkResource.Update client fw).calls =
      [Event.UpdatePrivateNetwork fw.PlanGet.1.Id.ValueString
        (PrivateNetworkResource.Update.body fw.PlanGet.1)
        (client.UpdatePrivateNetworkWithResponse fw.PlanGet.1.Id.ValueString
          (PrivateNetworkResource.Update.body fw.PlanGet.1))] := by
  have h0 : ((Run.init (some fw.StateGet.1) : Run PrivateNetworkResourceModel).Append
      fw.PlanGet.2).HasError = false := by
    simp [Run.HasError, Run.Append, Run.init, Diagnostics.HasError_Append, hplan,
      Diagnostics.HasError_nil]
  unfold PrivateNetworkResource.Update
  simp only [h0, hctx, Bool.false_eq_true, if_false]
  split
  · simp [Run.AddError, Run.called, Run.Append, Run.init, *]
  · split
    · simp [Run.AddError, Run.called, Run.Append, Run.init, *]
    · split
      · simp [Run.called, Run.Append, Run.init, *]
      · simp [Run.StateSet, Run.called, Run.Append, Run.init, *]

theorem network_read_twice (client : Client)
    (fw fw' : Framework PrivateNetworkResourceModel) (record : sagadata.PrivateNetwork)
    (hget : ∀ i id, ∃ response, client.GetPrivateNetworkWithResponse i id = .ok response ∧
      response.JSON200 = some ⟨record⟩)
    (hstate : Diagnostics.HasError fw.StateGet.2 = false)
    (hctx : fw.ContextWithTimeout = none)
    (hset : ∀ k m, Diagnostics.HasError (fw.StateSet k m) = false)
    (hstate' : Diagnostics.HasError fw'.StateGet.2 = false)
    (hctx' : fw'.ContextWithTimeout = none)
    (hset' : ∀ k m, Diagnostics.HasError (fw'.StateSet k m) = false)
    (hnext : some fw'.StateGet.1 = (PrivateNetworkResource.Read client fw).State) :
    (PrivateNetworkResource.Read client fw).State =
      some (fw.StateGet.1.PopulateFromClientResponse record).1 ∧
    (PrivateNetworkResource.Read client fw').State =
      (PrivateNetworkResource.Read client fw).State := by
  obtain ⟨response, hr, h200⟩ := hget 0 fw.StateGet.1.Id.ValueString
  obtain ⟨response', hr', h200'⟩ := hget 0 fw'.StateGet.1.Id.ValueString
  have h1 := (network_read_stores client fw response ⟨record⟩ hstate hctx hset hr h200).2.1
  have h2 := (network_read_stores client fw' response' ⟨record⟩ hstate' hctx' hset' hr'
    h200').2.1
  refine ⟨h1, ?_⟩
  rw [h1] at hnext
  have hs : fw'.StateGet.1 = (fw.StateGet.1.PopulateFromClientResponse record).1 :=
    Option.some.inj hnext
  rw [h2, h1, hs, network_populate_twice]

/-! ## Claims -/

/-- C1 (as stated) fails. The client creates the resource in status "creating", answers the
first polling read with a 200 body in the transient status "provisioning", and the second poll
wait is cancelled. Create ends with the state still holding the projection of the create
response, not the projection of the most recent successful read. -/
theorem create_transient_read_not_persisted :
    (∃ r, KubernetesClusterResource.Create (Example.stalled (some 1)) Example.clusterFw 2 =
        some r ∧
      KubernetesClusterResource.lastRemoteRead r.calls =
        some (Example.cluster "provisioning" Example.t1) ∧
      r.State = some (Example.clusterPlan.PopulateFromClientResponse
        (Example.cluster "creating" Example.t0)).1 ∧
      r.State ≠ some (Example.clusterPlan.PopulateFromClientResponse
        (Example.cluster "provisioning" Example.t1)).1) ∧
    (∃ r, PrivateNetworkResource.Create (Example.stalled (some 1)) Example.networkFw 2 =
        some r ∧
      PrivateNetworkResource.lastRemoteRead r.calls =
        some (Example.network "provisioning" Example.t1) ∧
      r.State = some (Example.networkPlan.PopulateFromClientResponse
        (Example.network "creating" Example.t0)).1 ∧
      r.State ≠ some (Example.networkPlan.PopulateFromClientResponse
        (Example.network "provisioning" Example.t1)).1) :=
  ⟨⟨_, rfl, rfl, rfl, by decide⟩, ⟨_, rfl, rfl, rfl, by decide⟩⟩

/-- C1 (amended). In Create of the Kubernetes cluster and of the private network, when storing
the state reports no error: a run ends on a polling read with a 200 body only if that read's
status is terminal (active or error, resp. created or error), and then the persisted state is
the projection of that read's record; in every other finished run (error or timeout, after any
number of transient reads) the persisted state is the projection of the 201 body of the create
call, and null when there was none. -/
theorem create_state_is_last_terminal_projection (client : Client) (fuel : Nat) :
    (∀ (fw : Framework KubernetesClusterResourceModel) (r : Run KubernetesClusterResourceModel),
      (∀ k m, Diagnostics.HasError (fw.StateSet k m) = false) →
      KubernetesClusterResource.Create client fw fuel = some r →
      (∀ c, KubernetesClusterResource.lastRead r.calls = some c →
        (c.Status = sagadata.KubernetesClusterStatusActive ∨
          c.Status = sagadata.KubernetesClusterStatusError) ∧
        r.State = some (fw.PlanGet.1.PopulateFromClientResponse c).1) ∧
      (KubernetesClusterResource.lastRead r.calls = none →
        r.State = (KubernetesClusterResource.created r.calls).map
          (fun c => (fw.PlanGet.1.PopulateFromClientResponse c).1))) ∧
    (∀ (fw : Framework PrivateNetworkResourceModel) (r : Run PrivateNetworkResourceModel),
      (∀ k m, Diagnostics.HasError (fw.StateSet k m) = false) →
      PrivateNetworkResource.Create client fw fuel = some r →
      (∀ c, PrivateNetworkResource.lastRead r.calls = some c →
        (c.Status = sagadata.PrivateNetworkStatusCreated ∨
          c.Status = sagadata.PrivateNetworkStatusError) ∧
        r.State = some (fw.PlanGet.1.PopulateFromClientResponse c).1) ∧
      (PrivateNetworkResource.lastRead r.calls = none →
        r.State = (PrivateNetworkResource.created r.calls).map
          (fun c => (fw.PlanGet.1.PopulateFromClientResponse c).1))) :=
  ⟨fun fw r hset h => cluster_create_state client fw fuel r hset h,
   fun fw r hset h => network_create_state client fw fuel r hset h⟩

/-- Witness of C1 (amended): the settling example ends on its third read, whose projection is
stored, for both resources. -/
theorem create_state_is_last_terminal_projection_witness :
    (∃ r, KubernetesClusterResource.Create Example.settling Example.clusterFw 3 = some r ∧
      (∀ c, KubernetesClusterResource.lastRead r.calls = some c →
        (c.Status = sagadata.KubernetesClusterStatusActive ∨
          c.Status = sagadata.KubernetesClusterStatusError) ∧
        r.State = some (Example.clusterFw.PlanGet.1.PopulateFromClientResponse c).1) ∧
      (KubernetesClusterResource.lastRead r.calls = none →
        r.State = (KubernetesClusterResource.created r.calls).map
          (fun c => (Example.clusterFw.PlanGet.1.PopulateFromClientResponse c).1))) ∧
    (∃ r, PrivateNetworkResource.Create Example.settling Example.networkFw 3 = some r ∧
      (∀ c, PrivateNetworkResource.lastRead r.calls = some c →
        (c.Status = sagadata.PrivateNetworkStatusCreated ∨
          c.Status = sagadata.PrivateNetworkStatusError) ∧
        r.State = some (Example.networkFw.PlanGet.1.PopulateFromClientResponse c).1) ∧
      (PrivateNetworkResource.lastRead r.calls = none →
        r.State = (PrivateNetworkResource.created r.calls).map
          (fun c => (Example.networkFw.PlanGet.1.PopulateFromClientResponse c).1))) :=
  ⟨⟨_, rfl, (create_state_is_last_terminal_projection Example.settling 3).1
      Example.clusterFw _ (fun _ _ => rfl) rfl⟩,
   ⟨_, rfl, (create_state_is_last_terminal_projection Example.settling 3).2
      Example.networkFw _ (fun _ _ => rfl) rfl⟩⟩

/-- C2. For every N: when the plan is read without error, the bounded context is derived and
storing the state reports no error, the create call returns a 201 body, the first N reads of
the created id return a 200 body with a transient status, read N+1 returns a 200 body with the
terminal-success status (active, resp. created) and no poll wait fails, then Create returns
(within N+1 iterations) with no error diagnostic after exactly N+1 reads and N+1 poll waits,
and the persisted state is the projection of the terminal response. -/
theorem create_settles_after_transients (n fuel : Nat) (client : Client) :
    (∀ (fw : Framework KubernetesClusterResourceModel)
      (createResponse : sagadata.KubernetesClusterResponse) (created : sagadata.ClusterBody)
      (response : sagadata.KubernetesClusterResponse) (body : sagadata.ClusterBody),
      Diagnostics.HasError fw.PlanGet.2 = false →
      fw.ContextWithTimeout = none →
      (∀ k m, Diagnostics.HasError (fw.StateSet k m) = false) →
      client.CreateKubernetesClusterWithResponse
        (KubernetesClusterResource.Create.body fw.PlanGet.1) = .ok createResponse →
      createResponse.JSON201 = some created →
      (∀ i, client.PollingWait i = none) →
      (∀ i, i < n → ∃ response body,
        client.GetKubernetesClusterWithResponse i created.Cluster.Id = .ok response ∧
        response.JSON200 = some body ∧
        body.Cluster.Status ≠ sagadata.KubernetesClusterStatusActive ∧
        body.Cluster.Status ≠ sagadata.KubernetesClusterStatusError) →
      client.GetKubernetesClusterWithResponse n created.Cluster.Id = .ok response →
      response.JSON200 = some body →
      body.Cluster.Status = sagadata.KubernetesClusterStatusActive →
      n + 1 ≤ fuel →
      ∃ r, KubernetesClusterResource.Create client fw fuel = some r ∧
        Diagnostics.HasError r.Diagnostics = false ∧ r.reads = n + 1 ∧ r.waits = n + 1 ∧
        r.State = some (fw.PlanGet.1.PopulateFromClientResponse body.Cluster).1) ∧
    (∀ (fw : Framework PrivateNetworkResourceModel)
      (createResponse : sagadata.PrivateNetworkResponse) (created : sagadata.PrivateNetworkBody)
      (response : sagadata.PrivateNetworkResponse) (body : sagadata.PrivateNetworkBody),
      Diagnostics.HasError fw.PlanGet.2 = false →
      fw.ContextWithTimeout = none →
      (∀ k m, Diagnostics.HasError (fw.StateSet k m) = false) →
      client.CreatePrivateNetworkWithResponse
        (PrivateNetworkResource.Create.body fw.PlanGet.1) = .ok createResponse →
      createResponse.JSON201 = some created →
      (∀ i, client.PollingWait i = none) →
      (∀ i, i < n → ∃ response body,
        client.GetPrivateNetworkWithResponse i created.PrivateNetwork.Id = .ok response ∧
        response.JSON200 = some body ∧
        body.PrivateNetwork.Status ≠ sagadata.PrivateNetworkStatusCreated ∧
        body.PrivateNetwork.Status ≠ sagadata.PrivateNetworkStatusError) →
      client.GetPrivateNetworkWithResponse n created.PrivateNetwork.Id = .ok response →
      response.JSON200 = some body →
      body.PrivateNetwork.Status = sagadata.PrivateNetworkStatusCreated →
      n + 1 ≤ fuel →
      ∃ r, PrivateNetworkResource.Create client fw fuel = some r ∧
        Diagnostics.HasError r.Diagnostics = false ∧ r.reads = n + 1 ∧ r.waits = n + 1 ∧
        r.State = some (fw.PlanGet.1.PopulateFromClientResponse body.PrivateNetwork).1) :=
  ⟨fun fw createResponse created response body hplan hctx hset hcreate h201 hwait htrans hterm
      h200 hstatus hfuel =>
    cluster_create_settles client fw n fuel createResponse created response
      body hplan hctx hset hcreate h201 hwait htrans hterm h200 hstatus hfuel,
   fun fw createResponse created response body hplan hctx hset hcreate h201 hwait htrans hterm
      h200 hstatus hfuel =>
    network_create_settles client fw n fuel createResponse created response
      body hplan hctx hset hcreate h201 hwait htrans hterm h200 hstatus hfuel⟩

/-- Witness of C2: the settling example, two transient reads and then the settled one. -/
theorem create_settles_after_transients_witness :
    (∃ r, KubernetesClusterResource.Create Example.settling Example.clusterFw 7 = some r ∧
      Diagnostics.HasError r.Diagnostics = false ∧ r.reads = 2 + 1 ∧ r.waits = 2 + 1 ∧
      r.State = some (Example.clusterPlan.PopulateFromClientResponse
        (Example.cluster "active" Example.t1)).1) ∧
    (∃ r, PrivateNetworkResource.Create Example.settling Example.networkFw 7 = some r ∧
      Diagnostics.HasError r.Diagnostics = false ∧ r.reads = 2 + 1 ∧ r.waits = 2 + 1 ∧
      r.State = some (Example.networkPlan.PopulateFromClientResponse
        (Example.network "created" Example.t1)).1) :=
  ⟨(create_settles_after_transients 2 7 Example.settling).1 Example.clusterFw
      (Example.cluster201 (Example.cluster "creating" Example.t0))
      ⟨Example.cluster "creating" Example.t0⟩
      (Example.cluster200 (Example.cluster "active" Example.t1))
      ⟨Example.cluster "active" Example.t1⟩
      rfl rfl (fun _ _ => rfl) rfl rfl (fun _ => rfl)
      (fun i hi => by
        interval_cases i
        · exact ⟨_, _, rfl, rfl, by decide, by decide⟩
        · exact ⟨_, _, rfl, rfl, by decide, by decide⟩)
      rfl rfl rfl (by decide),
   (create_settles_after_transients 2 7 Example.settling).2 Example.networkFw
      (Example.network201 (Example.network "creating" Example.t0))
      ⟨Example.network "creating" Example.t0⟩
      (Example.network200 (Example.network "created" Example.t1))
      ⟨Example.network "created" Example.t1⟩
      rfl rfl (fun _ _ => rfl) rfl rfl (fun _ => rfl)
      (fun i hi => by
        interval_cases i
        · exact ⟨_, _, rfl, rfl, by decide, by decide⟩
        · exact ⟨_, _, rfl, rfl, by decide, by decide⟩)
      rfl rfl rfl (by decide)⟩

/-- C3. When the plan is read without error, the bounded context is derived, storing the
state reports no error, the create call returns a 201 body and the first polling read returns
a 200 body with the terminal-failure status (error), Create returns after exactly one read
with exactly one error diagnostic, "Provisioning Error" built from `ErrResourceInErrorState`,
and the persisted state is the projection of that read: its status is the error status. -/
theorem create_surfaces_failure_with_record (fuel : Nat) (client : Client) :
    (∀ (fw : Framework KubernetesClusterResourceModel)
      (createResponse : sagadata.KubernetesClusterResponse) (created : sagadata.ClusterBody)
      (response : sagadata.KubernetesClusterResponse) (body : sagadata.ClusterBody),
      Diagnostics.HasError fw.PlanGet.2 = false →
      fw.ContextWithTimeout = none →
      (∀ k m, Diagnostics.HasError (fw.StateSet k m) = false) →
      client.CreateKubernetesClusterWithResponse
        (KubernetesClusterResource.Create.body fw.PlanGet.1) = .ok createResponse →
      createResponse.JSON201 = some created →
      client.PollingWait 0 = none →
      client.GetKubernetesClusterWithResponse 0 created.Cluster.Id = .ok response →
      response.JSON200 = some body →
      body.Cluster.Status = sagadata.KubernetesClusterStatusError →
      1 ≤ fuel →
      ∃ r m, KubernetesClusterResource.Create client fw fuel = some r ∧ r.reads = 1 ∧
        Diagnostics.Errors r.Diagnostics =
          [{ severity := Severity.Error, summary := "Provisioning Error",
             detail := Detail.generateErrorMessage "polling kubernetes cluster"
               GoError.ErrResourceInErrorState }] ∧
        r.State = some m ∧ m = (fw.PlanGet.1.PopulateFromClientResponse body.Cluster).1 ∧
        m.Status = TfString.value sagadata.KubernetesClusterStatusError) ∧
    (∀ (fw : Framework PrivateNetworkResourceModel)
      (createResponse : sagadata.PrivateNetworkResponse) (created : sagadata.PrivateNetworkBody)
      (response : sagadata.PrivateNetworkResponse) (body : sagadata.PrivateNetworkBody),
      Diagnostics.HasError fw.PlanGet.2 = false →
      fw.ContextWithTimeout = none →
      (∀ k m, Diagnostics.HasError (fw.StateSet k m) = false) →
      client.CreatePrivateNetworkWithResponse
        (PrivateNetworkResource.Create.body fw.PlanGet.1) = .ok createResponse →
      createResponse.JSON201 = some created →
      client.PollingWait 0 = none →
      client.GetPrivateNetworkWithResponse 0 created.PrivateNetwork.Id = .ok response →
      response.JSON200 = some body →
      body.PrivateNetwork.Status = sagadata.PrivateNetworkStatusError →
      1 ≤ fuel →
      ∃ r m, PrivateNetworkResource.Create client fw fuel = some r ∧ r.reads = 1 ∧
        Diagnostics.Errors r.Diagnostics =
          [{ severity := Severity.Error, summary := "Provisioning Error",
             detail := Detail.generateErrorMessage "polling private network"
               GoError.ErrResourceInErrorState }] ∧
        r.State = some m ∧ m = (fw.PlanGet.1.PopulateFromClientResponse body.PrivateNetwork).1 ∧
        m.Status = TfString.value sagadata.PrivateNetworkStatusError) :=
  ⟨fun fw createResponse created response body hplan hctx hset hcreate h201 hwait hread h200
      hstatus hfuel =>
    cluster_create_surfaces_failure client fw fuel createResponse created
      response body hplan hctx hset hcreate h201 hwait hread h200 hstatus hfuel,
   fun fw createResponse created response body hplan hctx hset hcreate h201 hwait hread h200
      hstatus hfuel =>
    network_create_surfaces_failure client fw fuel createResponse created
      response body hplan hctx hset hcreate h201 hwait hread h200 hstatus hfuel⟩

/-- Witness of C3: the failing example, whose first read reports status "error". -/
theorem create_surfaces_failure_with_record_witness :
    (∃ r m, KubernetesClusterResource.Create Example.failing Example.clusterFw 1 = some r ∧
      r.reads = 1 ∧
      Diagnostics.Errors r.Diagnostics =
        [{ severity := Severity.Error, summary := "Provisioning Error",
           detail := Detail.generateErrorMessage "polling kubernetes cluster"
             GoError.ErrResourceInErrorState }] ∧
      r.State = some m ∧
      m = (Example.clusterPlan.PopulateFromClientResponse
        (Example.cluster "error" Example.t1)).1 ∧
      m.Status = TfString.value sagadata.KubernetesClusterStatusError) ∧
    (∃ r m, PrivateNetworkResource.Create Example.failing Example.networkFw 1 = some r ∧
      r.reads = 1 ∧
      Diagnostics.Errors r.Diagnostics =
        [{ severity := Severity.Error, summary := "Provisioning Error",
           detail := Detail.generateErrorMessage "polling private network"
             GoError.ErrResourceInErrorState }] ∧
      r.State = some m ∧
      m = (Example.networkPlan.PopulateFromClientResponse
        (Example.network "error" Example.t1)).1 ∧
      m.Status = TfString.value sagadata.PrivateNetworkStatusError) :=
  ⟨(create_surfaces_failure_with_record 1 Example.failing).1 Example.clusterFw
      (Example.cluster201 (Example.cluster "creating" Example.t0))
      ⟨Example.cluster "creating" Example.t0⟩
      (Example.cluster200 (Example.cluster "error" Example.t1))
      ⟨Example.cluster "error" Example.t1⟩
      rfl rfl (fun _ _ => rfl) rfl rfl rfl rfl rfl rfl (by decide),
   (create_surfaces_failure_with_record 1 Example.failing).2 Example.networkFw
      (Example.network201 (Example.network "creating" Example.t0))
      ⟨Example.network "creating" Example.t0⟩
      (Example.network200 (Example.network "error" Example.t1))
      ⟨Example.network "error" Example.t1⟩
      rfl rfl (fun _ _ => rfl) rfl rfl rfl rfl rfl rfl (by decide)⟩

/-- C4. For every terminating run of Create in which reading the plan and storing the state
raise no diagnostics (and a failed timeout scope reports an error): Create ends with no error
diagnostic if and only if its last remote call was a read that returned a 200 body with the
terminal-success status (active, resp. created); a last remote call that is a 200 read with
status error gives an error outcome; and a run that ends on a 200 read ends on a terminal
status, so no read with another status ends the loop. -/
theorem create_outcome_classification (client : Client) (fuel : Nat) :
    (∀ (fw : Framework KubernetesClusterResourceModel) (r : Run KubernetesClusterResourceModel),
      fw.PlanGet.2 = [] →
      (∀ ds, fw.ContextWithTimeout = some ds → Diagnostics.HasError ds = true) →
      (∀ k m, fw.StateSet k m = []) →
      KubernetesClusterResource.Create client fw fuel = some r →
      (Diagnostics.HasError r.Diagnostics = false ↔
        ∃ c, KubernetesClusterResource.lastRemoteRead r.calls = some c ∧
          c.Status = sagadata.KubernetesClusterStatusActive) ∧
      (∀ c, KubernetesClusterResource.lastRemoteRead r.calls = some c →
        c.Status = sagadata.KubernetesClusterStatusError →
        Diagnostics.HasError r.Diagnostics = true) ∧
      (∀ c, KubernetesClusterResource.lastRead r.calls = some c →
        c.Status = sagadata.KubernetesClusterStatusActive ∨
          c.Status = sagadata.KubernetesClusterStatusError)) ∧
    (∀ (fw : Framework PrivateNetworkResourceModel) (r : Run PrivateNetworkResourceModel),
      fw.PlanGet.2 = [] →
      (∀ ds, fw.ContextWithTimeout = some ds → Diagnostics.HasError ds = true) →
      (∀ k m, fw.StateSet k m = []) →
      PrivateNetworkResource.Create client fw fuel = some r →
      (Diagnostics.HasError r.Diagnostics = false ↔
        ∃ c, PrivateNetworkResource.lastRemoteRead r.calls = some c ∧
          c.Status = sagadata.PrivateNetworkStatusCreated) ∧
      (∀ c, PrivateNetworkResource.lastRemoteRead r.calls = some c →
        c.Status = sagadata.PrivateNetworkStatusError →
        Diagnostics.HasError r.Diagnostics = true) ∧
      (∀ c, PrivateNetworkResource.lastRead r.calls = some c →
        c.Status = sagadata.PrivateNetworkStatusCreated ∨
          c.Status = sagadata.PrivateNetworkStatusError)) :=
  ⟨fun fw r hplan hctx hset h =>
    cluster_create_outcome client fw fuel r hplan hctx hset h,
   fun fw r hplan hctx hset h =>
    network_create_outcome client fw fuel r hplan hctx hset h⟩

/-- Witness of C4: the run of the settling example (success) for the cluster and the run of
the failing example (error outcome) for the private network. -/
theorem create_outcome_classification_witness :
    (∃ r, KubernetesClusterResource.Create Example.settling Example.clusterFw 4 = some r ∧
      (Diagnostics.HasError r.Diagnostics = false ↔
        ∃ c, KubernetesClusterResource.lastRemoteRead r.calls = some c ∧
          c.Status = sagadata.KubernetesClusterStatusActive) ∧
      (∀ c, KubernetesClusterResource.lastRemoteRead r.calls = some c →
        c.Status = sagadata.KubernetesClusterStatusError →
        Diagnostics.HasError r.Diagnostics = true) ∧
      (∀ c, KubernetesClusterResource.lastRead r.calls = some c →
        c.Status = sagadata.KubernetesClusterStatusActive ∨
          c.Status = sagadata.KubernetesClusterStatusError)) ∧
    (∃ r, PrivateNetworkResource.Create Example.failing Example.networkFw 4 = some r ∧
      (Diagnostics.HasError r.Diagnostics = false ↔
        ∃ c, PrivateNetworkResource.lastRemoteRead r.calls = some c ∧
          c.Status = sagadata.PrivateNetworkStatusCreated) ∧
      (∀ c, PrivateNetworkResource.lastRemoteRead r.calls = some c →
        c.Status = sagadata.PrivateNetworkStatusError →
        Diagnostics.HasError r.Diagnostics = true) ∧
      (∀ c, PrivateNetworkResource.lastRead r.calls = some c →
        c.Status = sagadata.PrivateNetworkStatusCreated ∨
          c.Status = sagadata.PrivateNetworkStatusError)) :=
  ⟨⟨_, rfl, (create_outcome_classification Example.settling 4).1 Example.clusterFw _ rfl
      (fun _ h => by cases h) (fun _ _ => rfl) rfl⟩,
   ⟨_, rfl, (create_outcome_classification Example.failing 4).2 Example.networkFw _ rfl
      (fun _ h => by cases h) (fun _ _ => rfl) rfl⟩⟩

/-- C5. When the plan is read without error and the bounded context is derived, and the
create call fails with a transport error or returns a response without a 201 body, Create
returns at once (whatever the fuel) with exactly one error diagnostic, "Client Error"; it has
made no poll wait and no read, its only client interaction is the create call, and the state
was never written (it is still null). -/
theorem create_call_failure_aborts (client : Client) (fuel : Nat) :
    (∀ (fw : Framework KubernetesClusterResourceModel),
      Diagnostics.HasError fw.PlanGet.2 = false →
      fw.ContextWithTimeout = none →
      (∀ response, client.CreateKubernetesClusterWithResponse
        (KubernetesClusterResource.Create.body fw.PlanGet.1) = .ok response →
        response.JSON201 = none) →
      ∃ r d, KubernetesClusterResource.Create client fw fuel = some r ∧
        Diagnostics.Errors r.Diagnostics = [d] ∧ d.summary = "Client Error" ∧
        r.waits = 0 ∧ r.reads = 0 ∧ r.sets = 0 ∧ r.State = none ∧
        r.calls = [Event.CreateKubernetesCluster
          (KubernetesClusterResource.Create.body fw.PlanGet.1)
          (client.CreateKubernetesClusterWithResponse
            (KubernetesClusterResource.Create.body fw.PlanGet.1))]) ∧
    (∀ (fw : Framework PrivateNetworkResourceModel),
      Diagnostics.HasError fw.PlanGet.2 = false →
      fw.ContextWithTimeout = none →
      (∀ response, client.CreatePrivateNetworkWithResponse
        (PrivateNetworkResource.Create.body fw.PlanGet.1) = .ok response →
        response.JSON201 = none) →
      ∃ r d, PrivateNetworkResource.Create client fw fuel = some r ∧
        Diagnostics.Errors r.Diagnostics = [d] ∧ d.summary = "Client Error" ∧
        r.waits = 0 ∧ r.reads = 0 ∧ r.sets = 0 ∧ r.State = none ∧
        r.calls = [Event.CreatePrivateNetwork
          (PrivateNetworkResource.Create.body fw.PlanGet.1)
          (client.CreatePrivateNetworkWithResponse
            (PrivateNetworkResource.Create.body fw.PlanGet.1))]) :=
  ⟨fun fw hplan hctx hfail =>
    cluster_create_call_fails client fw fuel hplan hctx hfail,
   fun fw hplan hctx hfail =>
    network_create_call_fails client fw fuel hplan hctx hfail⟩

/-- Witness of C5: on the offline client the create call fails with a transport error. -/
theorem create_call_failure_aborts_witness :
    (∃ r d, KubernetesClusterResource.Create Example.offline Example.clusterFw 9 = some r ∧
      Diagnostics.Errors r.Diagnostics = [d] ∧ d.summary = "Client Error" ∧
      r.waits = 0 ∧ r.reads = 0 ∧ r.sets = 0 ∧ r.State = none ∧
      r.calls = [Event.CreateKubernetesCluster
        (KubernetesClusterResource.Create.body Example.clusterFw.PlanGet.1)
        (Example.offline.CreateKubernetesClusterWithResponse
          (KubernetesClusterResource.Create.body Example.clusterFw.PlanGet.1))]) ∧
    (∃ r d, PrivateNetworkResource.Create Example.offline Example.networkFw 9 = some r ∧
      Diagnostics.Errors r.Diagnostics = [d] ∧ d.summary = "Client Error" ∧
      r.waits = 0 ∧ r.reads = 0 ∧ r.sets = 0 ∧ r.State = none ∧
      r.calls = [Event.CreatePrivateNetwork
        (PrivateNetworkResource.Create.body Example.networkFw.PlanGet.1)
        (Example.offline.CreatePrivateNetworkWithResponse
          (PrivateNetworkResource.Create.body Example.networkFw.PlanGet.1))]) :=
  ⟨(create_call_failure_aborts Example.offline 9).1 Example.clusterFw rfl rfl
      (fun _ h => by cases h),
   (create_call_failure_aborts Example.offline 9).2 Example.networkFw rfl rfl
      (fun _ h => by cases h)⟩

/-- C6. In the settling loop of Create, from any loop state without error diagnostics: when
the poll wait passes and the polling read fails with a transport error or returns no 200 body,
the loop returns in that iteration with exactly one diagnostic added, an error "Client Error";
the only interactions added are that wait and that read (no further wait or remote call), and
the persisted state and the number of state writes are exactly as before the read. -/
theorem create_poll_read_failure_aborts (client : Client) (fuel : Nat) :
    (∀ (fw : Framework KubernetesClusterResourceModel) (clusterId : String)
      (data : KubernetesClusterResourceModel) (resp : Run KubernetesClusterResourceModel),
      resp.HasError = false →
      client.PollingWait resp.waits = none →
      (∀ response, client.GetKubernetesClusterWithResponse resp.reads clusterId =
        .ok response → response.JSON200 = none) →
      ∃ r d, KubernetesClusterResource.Create.loop client fw clusterId (fuel + 1) data resp =
          some r ∧
        r.Diagnostics = resp.Diagnostics ++ [d] ∧ d.severity = Severity.Error ∧
        d.summary = "Client Error" ∧ r.State = resp.State ∧ r.sets = resp.sets ∧
        r.waits = resp.waits + 1 ∧ r.reads = resp.reads + 1 ∧
        r.calls = resp.calls ++ [Event.PollingWait none, Event.GetKubernetesCluster clusterId
          (client.GetKubernetesClusterWithResponse resp.reads clusterId)]) ∧
    (∀ (fw : Framework PrivateNetworkResourceModel) (networkId : String)
      (data : PrivateNetworkResourceModel) (resp : Run PrivateNetworkResourceModel),
      resp.HasError = false →
      client.PollingWait resp.waits = none →
      (∀ response, client.GetPrivateNetworkWithResponse resp.reads networkId =
        .ok response → response.JSON200 = none) →
      ∃ r d, PrivateNetworkResource.Create.loop client fw networkId (fuel + 1) data resp =
          some r ∧
        r.Diagnostics = resp.Diagnostics ++ [d] ∧ d.severity = Severity.Error ∧
        d.summary = "Client Error" ∧ r.State = resp.State ∧ r.sets = resp.sets ∧
        r.waits = resp.waits + 1 ∧ r.reads = resp.reads + 1 ∧
        r.calls = resp.calls ++ [Event.PollingWait none, Event.GetPrivateNetwork networkId
          (client.GetPrivateNetworkWithResponse resp.reads networkId)]) :=
  ⟨fun fw clusterId data resp hd hw hfail =>
    cluster_create_loop_read_aborts client fw clusterId fuel data resp hd hw
      hfail,
   fun fw networkId data resp hd hw hfail =>
    network_create_loop_read_aborts client fw networkId fuel data resp hd hw
      hfail⟩

/-- Witness of C6: the vanishing example at the entry of the settling loop; its first read is
a typed not-found. -/
theorem create_poll_read_failure_aborts_witness :
    (∃ r d, KubernetesClusterResource.Create.loop Example.vanishing Example.clusterFw "k8s-1"
        (0 + 1) Example.clusterState
        (KubernetesClusterResource.Create.entry Example.vanishing Example.clusterFw
          Example.clusterState) = some r ∧
      r.Diagnostics = (KubernetesClusterResource.Create.entry Example.vanishing
        Example.clusterFw Example.clusterState).Diagnostics ++ [d] ∧
      d.severity = Severity.Error ∧ d.summary = "Client Error" ∧
      r.State = (KubernetesClusterResource.Create.entry Example.vanishing Example.clusterFw
        Example.clusterState).State ∧
      r.sets = (KubernetesClusterResource.Create.entry Example.vanishing Example.clusterFw
        Example.clusterState).sets ∧
      r.waits = (KubernetesClusterResource.Create.entry Example.vanishing Example.clusterFw
        Example.clusterState).waits + 1 ∧
      r.reads = (KubernetesClusterResource.Create.entry Example.vanishing Example.clusterFw
        Example.clusterState).reads + 1 ∧
      r.calls = (KubernetesClusterResource.Create.entry Example.vanishing Example.clusterFw
        Example.clusterState).calls ++ [Event.PollingWait none,
          Event.GetKubernetesCluster "k8s-1"
            (Example.vanishing.GetKubernetesClusterWithResponse
              (KubernetesClusterResource.Create.entry Example.vanishing Example.clusterFw
                Example.clusterState).reads "k8s-1")]) ∧
    (∃ r d, PrivateNetworkResource.Create.loop Example.vanishing Example.networkFw "net-1"
        (0 + 1) Example.networkState
        (PrivateNetworkResource.Create.entry Example.vanishing Example.networkFw
          Example.networkState) = some r ∧
      r.Diagnostics = (PrivateNetworkResource.Create.entry Example.vanishing
        Example.networkFw Example.networkState).Diagnostics ++ [d] ∧
      d.severity = Severity.Error ∧ d.summary = "Client Error" ∧
      r.State = (PrivateNetworkResource.Create.entry Example.vanishing Example.networkFw
        Example.networkState).State ∧
      r.sets = (PrivateNetworkResource.Create.entry Example.vanishing Example.networkFw
        Example.networkState).sets ∧
      r.waits = (PrivateNetworkResource.Create.entry Example.vanishing Example.networkFw
        Example.networkState).waits + 1 ∧
      r.reads = (PrivateNetworkResource.Create.entry Example.vanishing Example.networkFw
        Example.networkState).reads + 1 ∧
      r.calls = (PrivateNetworkResource.Create.entry Example.vanishing Example.networkFw
        Example.networkState).calls ++ [Event.PollingWait none,
          Event.GetPrivateNetwork "net-1"
            (Example.vanishing.GetPrivateNetworkWithResponse
              (PrivateNetworkResource.Create.entry Example.vanishing Example.networkFw
                Example.networkState).reads "net-1")]) :=
  ⟨(create_poll_read_failure_aborts Example.vanishing 0).1 Example.clusterFw "k8s-1"
      Example.clusterState _ rfl rfl (fun response h => by cases h; rfl),
   (create_poll_read_failure_aborts Example.vanishing 0).2 Example.networkFw "net-1"
      Example.networkState _ rfl rfl (fun response h => by cases h; rfl)⟩

/-- C7. For every k ≥ 1: when the plan is read without error, the bounded context is derived,
storing the state reports no error, the create call returns a 201 body, the first k-1 poll
waits pass and the first k-1 reads return a 200 body with a transient status, and the k-th
poll wait returns a cancellation error, then Create returns (within k iterations) after
exactly k-1 reads and k waits with exactly one error diagnostic, "Polling Error" built from
that error; the failed wait is its last interaction, and the persisted state is the projection
of the create response, whose id is the id returned by the create call. -/
theorem create_deadline_keeps_record (k fuel : Nat) (client : Client) :
    (∀ (fw : Framework KubernetesClusterResourceModel)
      (createResponse : sagadata.KubernetesClusterResponse) (created : sagadata.ClusterBody)
      (err : GoError),
      Diagnostics.HasError fw.PlanGet.2 = false →
      fw.ContextWithTimeout = none →
      (∀ k m, Diagnostics.HasError (fw.StateSet k m) = false) →
      client.CreateKubernetesClusterWithResponse
        (KubernetesClusterResource.Create.body fw.PlanGet.1) = .ok createResponse →
      createResponse.JSON201 = some created →
      1 ≤ k →
      (∀ i, i < k - 1 → client.PollingWait i = none) →
      client.PollingWait (k - 1) = some err →
      (∀ i, i < k - 1 → ∃ response body,
        client.GetKubernetesClusterWithResponse i created.Cluster.Id = .ok response ∧
        response.JSON200 = some body ∧
        body.Cluster.Status ≠ sagadata.KubernetesClusterStatusActive ∧
        body.Cluster.Status ≠ sagadata.KubernetesClusterStatusError) →
      k ≤ fuel →
      ∃ r m, KubernetesClusterResource.Create client fw fuel = some r ∧ r.reads = k - 1 ∧
        r.waits = k ∧
        Diagnostics.Errors r.Diagnostics =
          [{ severity := Severity.Error, summary := "Polling Error",
             detail := Detail.generateErrorMessage "polling kubernetes cluster" err }] ∧
        r.calls.getLast? = some (Event.PollingWait (some err)) ∧
        r.State = some m ∧ m = (fw.PlanGet.1.PopulateFromClientResponse created.Cluster).1 ∧
        m.Id = TfString.value created.Cluster.Id) ∧
    (∀ (fw : Framework PrivateNetworkResourceModel)
      (createResponse : sagadata.PrivateNetworkResponse) (created : sagadata.PrivateNetworkBody)
      (err : GoError),
      Diagnostics.HasError fw.PlanGet.2 = false →
      fw.ContextWithTimeout = none →
      (∀ k m, Diagnostics.HasError (fw.StateSet k m) = false) →
      client.CreatePrivateNetworkWithResponse
        (PrivateNetworkResource.Create.body fw.PlanGet.1) = .ok createResponse →
      createResponse.JSON201 = some created →
      1 ≤ k →
      (∀ i, i < k - 1 → client.PollingWait i = none) →
      client.PollingWait (k - 1) = some err →
      (∀ i, i < k - 1 → ∃ response body,
        client.GetPrivateNetworkWithResponse i created.PrivateNetwork.Id = .ok response ∧
        response.JSON200 = some body ∧
        body.PrivateNetwork.Status ≠ sagadata.PrivateNetworkStatusCreated ∧
        body.PrivateNetwork.Status ≠ sagadata.PrivateNetworkStatusError) →
      k ≤ fuel →
      ∃ r m, PrivateNetworkResource.Create client fw fuel = some r ∧ r.reads = k - 1 ∧
        r.waits = k ∧
        Diagnostics.Errors r.Diagnostics =
          [{ severity := Severity.Error, summary := "Polling Error",
             detail := Detail.generateErrorMessage "polling private network" err }] ∧
        r.calls.getLast? = some (Event.PollingWait (some err)) ∧
        r.State = some m ∧
        m = (fw.PlanGet.1.PopulateFromClientResponse created.PrivateNetwork).1 ∧
        m.Id = TfString.value created.PrivateNetwork.Id) :=
  ⟨fun fw createResponse created err hplan hctx hset hcreate h201 hk hwait hcancel htrans
      hfuel =>
    cluster_create_deadline client fw k fuel createResponse created err hplan
      hctx hset hcreate h201 hk hwait hcancel htrans hfuel,
   fun fw createResponse created err hplan hctx hset hcreate h201 hk hwait hcancel htrans
      hfuel =>
    network_create_deadline client fw k fuel createResponse created err hplan
      hctx hset hcreate h201 hk hwait hcancel htrans hfuel⟩

/-- Witness of C7: the stalled example with its third poll wait cancelled. -/
theorem create_deadline_keeps_record_witness :
    (∃ r m, KubernetesClusterResource.Create (Example.stalled (some 2)) Example.clusterFw 3 =
        some r ∧ r.reads = 3 - 1 ∧ r.waits = 3 ∧
      Diagnostics.Errors r.Diagnostics =
        [{ severity := Severity.Error, summary := "Polling Error",
           detail := Detail.generateErrorMessage "polling kubernetes cluster"
             Example.deadlineExceeded }] ∧
      r.calls.getLast? = some (Event.PollingWait (some Example.deadlineExceeded)) ∧
      r.State = some m ∧
      m = (Example.clusterPlan.PopulateFromClientResponse
        (Example.cluster "creating" Example.t0)).1 ∧
      m.Id = TfString.value "k8s-1") ∧
    (∃ r m, PrivateNetworkResource.Create (Example.stalled (some 2)) Example.networkFw 3 =
        some r ∧ r.reads = 3 - 1 ∧ r.waits = 3 ∧
      Diagnostics.Errors r.Diagnostics =
        [{ severity := Severity.Error, summary := "Polling Error",
           detail := Detail.generateErrorMessage "polling private network"
             Example.deadlineExceeded }] ∧
      r.calls.getLast? = some (Event.PollingWait (some Example.deadlineExceeded)) ∧
      r.State = some m ∧
      m = (Example.networkPlan.PopulateFromClientResponse
        (Example.network "creating" Example.t0)).1 ∧
      m.Id = TfString.value "net-1") :=
  ⟨(create_deadline_keeps_record 3 3 (Example.stalled (some 2))).1 Example.clusterFw
      (Example.cluster201 (Example.cluster "creating" Example.t0))
      ⟨Example.cluster "creating" Example.t0⟩ Example.deadlineExceeded
      rfl rfl (fun _ _ => rfl) rfl rfl (by decide)
      (fun i hi => by
        have hi' : i < 2 := hi
        interval_cases i <;> rfl)
      rfl
      (fun i hi => by
        have hi' : i < 2 := hi
        interval_cases i
        · exact ⟨_, _, rfl, rfl, by decide, by decide⟩
        · exact ⟨_, _, rfl, rfl, by decide, by decide⟩)
      (by decide),
   (create_deadline_keeps_record 3 3 (Example.stalled (some 2))).2 Example.networkFw
      (Example.network201 (Example.network "creating" Example.t0))
      ⟨Example.network "creating" Example.t0⟩ Example.deadlineExceeded
      rfl rfl (fun _ _ => rfl) rfl rfl (by decide)
      (fun i hi => by
        have hi' : i < 2 := hi
        interval_cases i <;> rfl)
      rfl
      (fun i hi => by
        have hi' : i < 2 := hi
        interval_cases i
        · exact ⟨_, _, rfl, rfl, by decide, by decide⟩
        · exact ⟨_, _, rfl, rfl, by decide, by decide⟩)
      (by decide)⟩

/-- C8. For every N: when the prior state is read without error and the bounded context is
derived, the delete call returns status 204, the first N reads return status 200 (a live
record), read N+1 returns status 404 and no poll wait fails, then Delete returns (within N+1
iterations) with no error diagnostic after exactly N+1 reads and N+1 poll waits, and it has
never written the state: no state write was made and the response state is the prior one. -/
theorem delete_confirms_via_not_found (n fuel : Nat) (client : Client) :
    (∀ (fw : Framework KubernetesClusterResourceModel)
      (deleted gone : sagadata.KubernetesClusterResponse),
      Diagnostics.HasError fw.StateGet.2 = false →
      fw.ContextWithTimeout = none →
      client.DeleteKubernetesClusterWithResponse fw.StateGet.1.Id.ValueString = .ok deleted →
      deleted.StatusCode = 204 →
      (∀ i, client.PollingWait i = none) →
      (∀ i, i < n → ∃ response,
        client.GetKubernetesClusterWithResponse i fw.StateGet.1.Id.ValueString = .ok response ∧
        response.StatusCode = 200) →
      client.GetKubernetesClusterWithResponse n fw.StateGet.1.Id.ValueString = .ok gone →
      gone.StatusCode = 404 →
      n + 1 ≤ fuel →
      ∃ r, KubernetesClusterResource.Delete client fw fuel = some r ∧
        Diagnostics.HasError r.Diagnostics = false ∧ r.reads = n + 1 ∧ r.waits = n + 1 ∧
        r.sets = 0 ∧ r.State = some fw.StateGet.1) ∧
    (∀ (fw : Framework PrivateNetworkResourceModel)
      (deleted gone : sagadata.PrivateNetworkResponse),
      Diagnostics.HasError fw.StateGet.2 = false →
      fw.ContextWithTimeout = none →
      client.DeletePrivateNetworkWithResponse fw.StateGet.1.Id.ValueString = .ok deleted →
      deleted.StatusCode = 204 →
      (∀ i, client.PollingWait i = none) →
      (∀ i, i < n → ∃ response,
        client.GetPrivateNetworkWithResponse i fw.StateGet.1.Id.ValueString = .ok response ∧
        response.StatusCode = 200) →
      client.GetPrivateNetworkWithResponse n fw.StateGet.1.Id.ValueString = .ok gone →
      gone.StatusCode = 404 →
      n + 1 ≤ fuel →
      ∃ r, PrivateNetworkResource.Delete client fw fuel = some r ∧
        Diagnostics.HasError r.Diagnostics = false ∧ r.reads = n + 1 ∧ r.waits = n + 1 ∧
        r.sets = 0 ∧ r.State = some fw.StateGet.1) :=
  ⟨fun fw deleted gone hstate hctx hdel h204 hwait hlive hgone h404 hfuel =>
    cluster_delete_confirms client fw n fuel deleted gone hstate hctx hdel
      h204 hwait hlive hgone h404 hfuel,
   fun fw deleted gone hstate hctx hdel h204 hwait hlive hgone h404 hfuel =>
    network_delete_confirms client fw n fuel deleted gone hstate hctx hdel
      h204 hwait hlive hgone h404 hfuel⟩

/-- Witness of C8: a live record for two reads, then a not-found on the third. -/
theorem delete_confirms_via_not_found_witness :
    (∃ r, KubernetesClusterResource.Delete (Example.deleting [200, 200, 404])
        Example.clusterFw 3 = some r ∧
      Diagnostics.HasError r.Diagnostics = false ∧ r.reads = 2 + 1 ∧ r.waits = 2 + 1 ∧
      r.sets = 0 ∧ r.State = some Example.clusterState) ∧
    (∃ r, PrivateNetworkResource.Delete (Example.deleting [200, 200, 404])
        Example.networkFw 3 = some r ∧
      Diagnostics.HasError r.Diagnostics = false ∧ r.reads = 2 + 1 ∧ r.waits = 2 + 1 ∧
      r.sets = 0 ∧ r.State = some Example.networkState) :=
  ⟨(delete_confirms_via_not_found 2 3 (Example.deleting [200, 200, 404])).1 Example.clusterFw
      (Example.clusterStatus 204) (Example.clusterStatus 404)
      rfl rfl rfl rfl (fun _ => rfl)
      (fun i hi => by
        interval_cases i
        · exact ⟨_, rfl, rfl⟩
        · exact ⟨_, rfl, rfl⟩)
      rfl rfl (by decide),
   (delete_confirms_via_not_found 2 3 (Example.deleting [200, 200, 404])).2 Example.networkFw
      (Example.networkStatus 204) (Example.networkStatus 404)
      rfl rfl rfl rfl (fun _ => rfl)
      (fun i hi => by
        interval_cases i
        · exact ⟨_, rfl, rfl⟩
        · exact ⟨_, rfl, rfl⟩)
      rfl rfl (by decide)⟩

/-- C9 (as stated) fails. The client accepts the deletion with status 204, answers the first
polling read with the unexpected status 500 (no transport error) and the second with 404.
Delete does not abort on the 500: it waits and reads again, and ends after two reads with no
error diagnostic. -/
theorem delete_unexpected_status_keeps_polling :
    (∃ r, KubernetesClusterResource.Delete (Example.deleting [500, 404]) Example.clusterFw 2 =
        some r ∧
      Diagnostics.HasError r.Diagnostics = false ∧ r.Diagnostics = [] ∧ r.reads = 2 ∧
      r.calls = [Event.DeleteKubernetesCluster "k8s-1" (.ok (Example.clusterStatus 204)),
        Event.PollingWait none,
        Event.GetKubernetesCluster "k8s-1" (.ok (Example.clusterStatus 500)),
        Event.PollingWait none,
        Event.GetKubernetesCluster "k8s-1" (.ok (Example.clusterStatus 404))]) ∧
    (∃ r, PrivateNetworkResource.Delete (Example.deleting [500, 404]) Example.networkFw 2 =
        some r ∧
      Diagnostics.HasError r.Diagnostics = false ∧ r.Diagnostics = [] ∧ r.reads = 2 ∧
      r.calls = [Event.DeletePrivateNetwork "net-1" (.ok (Example.networkStatus 204)),
        Event.PollingWait none,
        Event.GetPrivateNetwork "net-1" (.ok (Example.networkStatus 500)),
        Event.PollingWait none,
        Event.GetPrivateNetwork "net-1" (.ok (Example.networkStatus 404))]) :=
  ⟨⟨_, rfl, rfl, rfl, rfl, rfl⟩, ⟨_, rfl, rfl, rfl, rfl, rfl⟩⟩

/-- C9 (amended). In the disappearance loop of Delete, from any loop state, a polling read
that completes without transport error after a passed poll wait ends the loop only when its
status code is 404, and then without adding a diagnostic; with any other status code (200
for a live record as well as an unexpected status such as 500 or 401) no diagnostic is added,
the state is untouched and the loop goes on to its next iteration. -/
theorem delete_loop_ends_only_on_not_found (client : Client) (fuel : Nat) :
    (∀ (clusterId : String) (resp : Run KubernetesClusterResourceModel)
      (response : sagadata.KubernetesClusterResponse),
      client.PollingWait resp.waits = none →
      client.GetKubernetesClusterWithResponse resp.reads clusterId = .ok response →
      (response.StatusCode ≠ 404 →
        ∃ resp' : Run KubernetesClusterResourceModel,
          KubernetesClusterResource.Delete.loop client clusterId (fuel + 1) resp =
            KubernetesClusterResource.Delete.loop client clusterId fuel resp' ∧
          resp'.Diagnostics = resp.Diagnostics ∧ resp'.State = resp.State ∧
          resp'.waits = resp.waits + 1 ∧ resp'.reads = resp.reads + 1 ∧
          resp'.calls = resp.calls ++
            [Event.PollingWait none, Event.GetKubernetesCluster clusterId (.ok response)]) ∧
      (response.StatusCode = 404 →
        ∃ r, KubernetesClusterResource.Delete.loop client clusterId (fuel + 1) resp = some r ∧
          r.Diagnostics = resp.Diagnostics ∧ r.State = resp.State ∧
          r.waits = resp.waits + 1 ∧ r.reads = resp.reads + 1 ∧
          r.calls = resp.calls ++
            [Event.PollingWait none, Event.GetKubernetesCluster clusterId (.ok response)])) ∧
    (∀ (networkId : String) (resp : Run PrivateNetworkResourceModel)
      (response : sagadata.PrivateNetworkResponse),
      client.PollingWait resp.waits = none →
      client.GetPrivateNetworkWithResponse resp.reads networkId = .ok response →
      (response.StatusCode ≠ 404 →
        ∃ resp' : Run PrivateNetworkResourceModel,
          PrivateNetworkResource.Delete.loop client networkId (fuel + 1) resp =
            PrivateNetworkResource.Delete.loop client networkId fuel resp' ∧
          resp'.Diagnostics = resp.Diagnostics ∧ resp'.State = resp.State ∧
          resp'.waits = resp.waits + 1 ∧ resp'.reads = resp.reads + 1 ∧
          resp'.calls = resp.calls ++
            [Event.PollingWait none, Event.GetPrivateNetwork networkId (.ok response)]) ∧
      (response.StatusCode = 404 →
        ∃ r, PrivateNetworkResource.Delete.loop client networkId (fuel + 1) resp = some r ∧
          r.Diagnostics = resp.Diagnostics ∧ r.State = resp.State ∧
          r.waits = resp.waits + 1 ∧ r.reads = resp.reads + 1 ∧
          r.calls = resp.calls ++
            [Event.PollingWait none, Event.GetPrivateNetwork networkId (.ok response)])) :=
  ⟨fun clusterId resp response hw hg =>
    cluster_delete_loop_status client clusterId fuel resp response hw hg,
   fun networkId resp response hw hg =>
    network_delete_loop_status client networkId fuel resp response hw hg⟩

/-- Witness of C9 (amended): at the entry of the disappearance loop, a read with status 500
lets the cluster loop go on, and a read with status 404 ends the network loop. -/
theorem delete_loop_ends_only_on_not_found_witness :
    (∃ resp' : Run KubernetesClusterResourceModel,
      KubernetesClusterResource.Delete.loop (Example.deleting [500, 404]) "k8s-1" (1 + 1)
          (KubernetesClusterResource.Delete.entry (Example.deleting [500, 404])
            Example.clusterFw) =
        KubernetesClusterResource.Delete.loop (Example.deleting [500, 404]) "k8s-1" 1 resp' ∧
      resp'.Diagnostics = (KubernetesClusterResource.Delete.entry (Example.deleting [500, 404])
        Example.clusterFw).Diagnostics ∧
      resp'.State = (KubernetesClusterResource.Delete.entry (Example.deleting [500, 404])
        Example.clusterFw).State ∧
      resp'.waits = (KubernetesClusterResource.Delete.entry (Example.deleting [500, 404])
        Example.clusterFw).waits + 1 ∧
      resp'.reads = (KubernetesClusterResource.Delete.entry (Example.deleting [500, 404])
        Example.clusterFw).reads + 1 ∧
      resp'.calls = (KubernetesClusterResource.Delete.entry (Example.deleting [500, 404])
        Example.clusterFw).calls ++ [Event.PollingWait none,
          Event.GetKubernetesCluster "k8s-1" (.ok (Example.clusterStatus 500))]) ∧
    (∃ r, PrivateNetworkResource.Delete.loop (Example.deleting [404]) "net-1" (1 + 1)
          (PrivateNetworkResource.Delete.entry (Example.deleting [404]) Example.networkFw) =
        some r ∧
      r.Diagnostics = (PrivateNetworkResource.Delete.entry (Example.deleting [404])
        Example.networkFw).Diagnostics ∧
      r.State = (PrivateNetworkResource.Delete.entry (Example.deleting [404])
        Example.networkFw).State ∧
      r.waits = (PrivateNetworkResource.Delete.entry (Example.deleting [404])
        Example.networkFw).waits + 1 ∧
      r.reads = (PrivateNetworkResource.Delete.entry (Example.deleting [404])
        Example.networkFw).reads + 1 ∧
      r.calls = (PrivateNetworkResource.Delete.entry (Example.deleting [404])
        Example.networkFw).calls ++ [Event.PollingWait none,
          Event.GetPrivateNetwork "net-1" (.ok (Example.networkStatus 404))]) :=
  ⟨((delete_loop_ends_only_on_not_found (Example.deleting [500, 404]) 1).1 "k8s-1"
      (KubernetesClusterResource.Delete.entry (Example.deleting [500, 404]) Example.clusterFw)
      (Example.clusterStatus 500) rfl rfl).1 (by decide),
   ((delete_loop_ends_only_on_not_found (Example.deleting [404]) 1).2 "net-1"
      (PrivateNetworkResource.Delete.entry (Example.deleting [404]) Example.networkFw)
      (Example.networkStatus 404) rfl rfl).2 rfl⟩

/-- C10. When the prior state is read without error and the bounded context is derived, and
the delete call fails with a transport error or returns a status code other than 204, Delete
returns at once (whatever the fuel) with exactly one error diagnostic, "Client Error"; it has
made no poll wait and no read, and its only client interaction is the delete call. Conversely
a finished run of Delete that made a poll wait had its delete call answered with status 204:
the disappearance loop is entered only after a 204. -/
theorem delete_call_failure_aborts (client : Client) (fuel : Nat) :
    ((∀ (fw : Framework KubernetesClusterResourceModel),
      Diagnostics.HasError fw.StateGet.2 = false →
      fw.ContextWithTimeout = none →
      (∀ response, client.DeleteKubernetesClusterWithResponse
        fw.StateGet.1.Id.ValueString = .ok response → response.StatusCode ≠ 204) →
      ∃ r d, KubernetesClusterResource.Delete client fw fuel = some r ∧
        Diagnostics.Errors r.Diagnostics = [d] ∧ d.summary = "Client Error" ∧
        r.waits = 0 ∧ r.reads = 0 ∧
        r.calls = [Event.DeleteKubernetesCluster fw.StateGet.1.Id.ValueString
          (client.DeleteKubernetesClusterWithResponse fw.StateGet.1.Id.ValueString)]) ∧
    (∀ (fw : Framework KubernetesClusterResourceModel) (r : Run KubernetesClusterResourceModel),
      KubernetesClusterResource.Delete client fw fuel = some r → r.waits ≠ 0 →
      ∃ response, client.DeleteKubernetesClusterWithResponse fw.StateGet.1.Id.ValueString =
        .ok response ∧ response.StatusCode = 204)) ∧
    ((∀ (fw : Framework PrivateNetworkResourceModel),
      Diagnostics.HasError fw.StateGet.2 = false →
      fw.ContextWithTimeout = none →
      (∀ response, client.DeletePrivateNetworkWithResponse
        fw.StateGet.1.Id.ValueString = .ok response → response.StatusCode ≠ 204) →
      ∃ r d, PrivateNetworkResource.Delete client fw fuel = some r ∧
        Diagnostics.Errors r.Diagnostics = [d] ∧ d.summary = "Client Error" ∧
        r.waits = 0 ∧ r.reads = 0 ∧
        r.calls = [Event.DeletePrivateNetwork fw.StateGet.1.Id.ValueString
          (client.DeletePrivateNetworkWithResponse fw.StateGet.1.Id.ValueString)]) ∧
    (∀ (fw : Framework PrivateNetworkResourceModel) (r : Run PrivateNetworkResourceModel),
      PrivateNetworkResource.Delete client fw fuel = some r → r.waits ≠ 0 →
      ∃ response, client.DeletePrivateNetworkWithResponse fw.StateGet.1.Id.ValueString =
        .ok response ∧ response.StatusCode = 204)) :=
  ⟨⟨fun fw hstate hctx hfail =>
      cluster_delete_call_fails client fw fuel hstate hctx hfail,
    fun fw r h hw => cluster_delete_loop_entered client fw fuel r h hw⟩,
   ⟨fun fw hstate hctx hfail =>
      network_delete_call_fails client fw fuel hstate hctx hfail,
    fun fw r h hw => network_delete_loop_entered client fw fuel r h hw⟩⟩

/-- Witness of C10: on the offline client the delete call fails with a transport error (the
cluster), and a run that polled had its delete call answered with 204 (the network). -/
theorem delete_call_failure_aborts_witness :
    (∃ r d, KubernetesClusterResource.Delete Example.offline Example.clusterFw 5 = some r ∧
      Diagnostics.Errors r.Diagnostics = [d] ∧ d.summary = "Client Error" ∧
      r.waits = 0 ∧ r.reads = 0 ∧
      r.calls = [Event.DeleteKubernetesCluster Example.clusterFw.StateGet.1.Id.ValueString
        (Example.offline.DeleteKubernetesClusterWithResponse
          Example.clusterFw.StateGet.1.Id.ValueString)]) ∧
    (∃ response, (Example.deleting [404]).DeletePrivateNetworkWithResponse
        Example.networkFw.StateGet.1.Id.ValueString = .ok response ∧
      response.StatusCode = 204) :=
  ⟨(delete_call_failure_aborts Example.offline 5).1.1 Example.clusterFw rfl rfl
      (fun _ h => by cases h),
   (delete_call_failure_aborts (Example.deleting [404]) 5).2.2 Example.networkFw
      ((PrivateNetworkResource.Delete (Example.deleting [404]) Example.networkFw 5).get
        (by decide))
      (by decide) (by decide)⟩

/-- C11. The calls to the remote API made by a finished lifecycle operation, in order and with
the poll waits left out, for the Kubernetes cluster and the private network and for any
client. Create made either no remote call at all, which happens only when reading the plan
reported an error or the bounded context was not derived, or exactly one create call, made
first, followed only by reads, each addressed to the id in the 201 body of the create
response. Delete made either no remote call (only when reading the prior state reported an
error or the context was not derived), or exactly one delete call, made first and addressed to
the id stored in the state, followed only by reads addressed to that same id. -/
theorem lifecycle_calls_have_fixed_shape (client : Client) (fuel : Nat) :
    (∀ (fw : Framework KubernetesClusterResourceModel) (r : Run KubernetesClusterResourceModel),
      KubernetesClusterResource.Create client fw fuel = some r →
      (remoteCalls r.calls = [] ∧
        (Diagnostics.HasError fw.PlanGet.2 = true ∨ fw.ContextWithTimeout ≠ none)) ∨
      (∃ reads, remoteCalls r.calls =
          Event.CreateKubernetesCluster (KubernetesClusterResource.Create.body fw.PlanGet.1)
            (client.CreateKubernetesClusterWithResponse
              (KubernetesClusterResource.Create.body fw.PlanGet.1)) :: reads ∧
        ∀ e, e ∈ reads → ∃ response created res,
          client.CreateKubernetesClusterWithResponse
            (KubernetesClusterResource.Create.body fw.PlanGet.1) = .ok response ∧
          response.JSON201 = some created ∧
          e = Event.GetKubernetesCluster created.Cluster.Id res)) ∧
    (∀ (fw : Framework KubernetesClusterResourceModel) (r : Run KubernetesClusterResourceModel),
      KubernetesClusterResource.Delete client fw fuel = some r →
      (remoteCalls r.calls = [] ∧
        (Diagnostics.HasError fw.StateGet.2 = true ∨ fw.ContextWithTimeout ≠ none)) ∨
      (∃ reads, remoteCalls r.calls =
          Event.DeleteKubernetesCluster fw.StateGet.1.Id.ValueString
            (client.DeleteKubernetesClusterWithResponse fw.StateGet.1.Id.ValueString) :: reads ∧
        ∀ e, e ∈ reads →
          ∃ res, e = Event.GetKubernetesCluster fw.StateGet.1.Id.ValueString res)) ∧
    (∀ (fw : Framework PrivateNetworkResourceModel) (r : Run PrivateNetworkResourceModel),
      PrivateNetworkResource.Create client fw fuel = some r →
      (remoteCalls r.calls = [] ∧
        (Diagnostics.HasError fw.PlanGet.2 = true ∨ fw.ContextWithTimeout ≠ none)) ∨
      (∃ reads, remoteCalls r.calls =
          Event.CreatePrivateNetwork (PrivateNetworkResource.Create.body fw.PlanGet.1)
            (client.CreatePrivateNetworkWithResponse
              (PrivateNetworkResource.Create.body fw.PlanGet.1)) :: reads ∧
        ∀ e, e ∈ reads → ∃ response created res,
          client.CreatePrivateNetworkWithResponse
            (PrivateNetworkResource.Create.body fw.PlanGet.1) = .ok response ∧
          response.JSON201 = some created ∧
          e = Event.GetPrivateNetwork created.PrivateNetwork.Id res)) ∧
    (∀ (fw : Framework PrivateNetworkResourceModel) (r : Run PrivateNetworkResourceModel),
      PrivateNetworkResource.Delete client fw fuel = some r →
      (remoteCalls r.calls = [] ∧
        (Diagnostics.HasError fw.StateGet.2 = true ∨ fw.ContextWithTimeout ≠ none)) ∨
      (∃ reads, remoteCalls r.calls =
          Event.DeletePrivateNetwork fw.StateGet.1.Id.ValueString
            (client.DeletePrivateNetworkWithResponse fw.StateGet.1.Id.ValueString) :: reads ∧
        ∀ e, e ∈ reads →
          ∃ res, e = Event.GetPrivateNetwork fw.StateGet.1.Id.ValueString res)) :=
  ⟨fun fw r h => cluster_create_calls client fw fuel r h,
   fun fw r h => cluster_delete_calls client fw fuel r h,
   fun fw r h => network_create_calls client fw fuel r h,
   fun fw r h => network_delete_calls client fw fuel r h⟩

/-- Witness of C11: the settling client creates the cluster and reads it three times; the
deleting client accepts the deletion of the private network and answers the second read with
404. Both runs finish and their remote calls have the stated shape. -/
theorem lifecycle_calls_have_fixed_shape_witness :
    (∃ r, KubernetesClusterResource.Create Example.settling Example.clusterFw 5 = some r ∧
      (remoteCalls r.calls).length = 4 ∧
      ((remoteCalls r.calls = [] ∧
        (Diagnostics.HasError Example.clusterFw.PlanGet.2 = true ∨
          Example.clusterFw.ContextWithTimeout ≠ none)) ∨
      (∃ reads, remoteCalls r.calls =
          Event.CreateKubernetesCluster
            (KubernetesClusterResource.Create.body Example.clusterFw.PlanGet.1)
            (Example.settling.CreateKubernetesClusterWithResponse
              (KubernetesClusterResource.Create.body Example.clusterFw.PlanGet.1)) :: reads ∧
        ∀ e, e ∈ reads → ∃ response created res,
          Example.settling.CreateKubernetesClusterWithResponse
            (KubernetesClusterResource.Create.body Example.clusterFw.PlanGet.1) =
              .ok response ∧
          response.JSON201 = some created ∧
          e = Event.GetKubernetesCluster created.Cluster.Id res))) ∧
    (∃ r, PrivateNetworkResource.Delete (Example.deleting [200, 404]) Example.networkFw 5 =
        some r ∧
      (remoteCalls r.calls).length = 3 ∧
      ((remoteCalls r.calls = [] ∧
        (Diagnostics.HasError Example.networkFw.StateGet.2 = true ∨
          Example.networkFw.ContextWithTimeout ≠ none)) ∨
      (∃ reads, remoteCalls r.calls =
          Event.DeletePrivateNetwork Example.networkFw.StateGet.1.Id.ValueString
            ((Example.deleting [200, 404]).DeletePrivateNetworkWithResponse
              Example.networkFw.StateGet.1.Id.ValueString) :: reads ∧
        ∀ e, e ∈ reads →
          ∃ res, e = Event.GetPrivateNetwork Example.networkFw.StateGet.1.Id.ValueString
            res))) :=
  ⟨⟨(KubernetesClusterResource.Create Example.settling Example.clusterFw 5).get (by decide),
      by decide, by decide,
      (lifecycle_calls_have_fixed_shape Example.settling 5).1 Example.clusterFw _
        (by decide)⟩,
   ⟨(PrivateNetworkResource.Delete (Example.deleting [200, 404]) Example.networkFw 5).get
        (by decide),
      by decide, by decide,
      (lifecycle_calls_have_fixed_shape (Example.deleting [200, 404]) 5).2.2.2
        Example.networkFw _ (by decide)⟩⟩

/-- C12 (as stated) fails. The plan of the stored private network leaves the description null
(or unknown): the body that Update builds carries a Description that is a pointer to the empty
string, not nil. A plan in which only the description is set, the name being null, yields a
body that carries the name as well, as the empty string. With the serving client the update
call is made with that body. -/
theorem update_sends_empty_for_unset :
    PrivateNetworkResource.Update.body { Example.networkState with Description := .null } =
      { Description := some "", Name := some "lan" } ∧
    (PrivateNetworkResource.Update.body
      { Example.networkState with Description := .null }).Description ≠ none ∧
    PrivateNetworkResource.Update.body { Example.networkState with Description := .unknown } =
      { Description := some "", Name := some "lan" } ∧
    PrivateNetworkResource.Update.body
        { Example.networkState with Name := .null, Description := .value "office" } =
      { Description := some "office", Name := some "" } ∧
    (PrivateNetworkResource.Update Example.serving
      (Example.framework { Example.networkState with Description := .null }
        Example.networkState)).calls =
      [Event.UpdatePrivateNetwork "net-1" { Description := some "", Name := some "lan" }
        (.ok (Example.network200 (Example.network "created" Example.t1)))] := by
  decide

/-- C12 (amended). In Update of the private network the request body always carries both
attributes: Name is a pointer to the string value of the plan's name and Description a pointer
to the string value of the plan's description, which is the known string when the attribute
is known and the empty string when it is null or unknown; neither is ever nil. When the plan
is read without error and the bounded context is derived, the single client interaction of
Update is the update call with this body, addressed to the id in the plan. -/
theorem update_network_body_is_total (client : Client) :
    (∀ data : PrivateNetworkResourceModel,
      PrivateNetworkResource.Update.body data =
        { Description := some data.Description.ValueString,
          Name := some data.Name.ValueString } ∧
      (∀ v, data.Description = TfString.value v →
        (PrivateNetworkResource.Update.body data).Description = some v) ∧
      (data.Description.IsNull = true ∨ data.Description.IsUnknown = true →
        (PrivateNetworkResource.Update.body data).Description = some "") ∧
      (data.Name.IsNull = true ∨ data.Name.IsUnknown = true →
        (PrivateNetworkResource.Update.body data).Name = some "")) ∧
    (∀ fw : Framework PrivateNetworkResourceModel,
      Diagnostics.HasError fw.PlanGet.2 = false →
      fw.ContextWithTimeout = none →
      (PrivateNetworkResource.Update client fw).calls =
        [Event.UpdatePrivateNetwork fw.PlanGet.1.Id.ValueString
          { Description := some fw.PlanGet.1.Description.ValueString,
            Name := some fw.PlanGet.1.Name.ValueString }
          (client.UpdatePrivateNetworkWithResponse fw.PlanGet.1.Id.ValueString
            { Description := some fw.PlanGet.1.Description.ValueString,
              Name := some fw.PlanGet.1.Name.ValueString })]) := by
  refine ⟨fun data => ⟨rfl, ?_, ?_, ?_⟩, fun fw hplan hctx =>
    network_update_call client fw hplan hctx⟩
  · intro v hv
    simp [PrivateNetworkResource.Update.body, pointer, hv, TfString.ValueString]
  · intro h
    cases hd : data.Description <;>
      simp_all [PrivateNetworkResource.Update.body, pointer, TfString.ValueString,
        TfString.IsNull, TfString.IsUnknown]
  · intro h
    cases hd : data.Name <;>
      simp_all [PrivateNetworkResource.Update.body, pointer, TfString.ValueString,
        TfString.IsNull, TfString.IsUnknown]

/-- Witness of C12 (amended): a plan with a null description, sent by the offline client. -/
theorem update_network_body_is_total_witness :
    (PrivateNetworkResource.Update.body
      { Example.networkState with Description := .null }).Description = some "" ∧
    (PrivateNetworkResource.Update Example.offline
      (Example.framework { Example.networkState with Description := .null }
        Example.networkState)).calls =
      [Event.UpdatePrivateNetwork "net-1" { Description := some "", Name := some "lan" }
        (.err (.other "connection refused"))] :=
  ⟨((update_network_body_is_total Example.offline).1
      { Example.networkState with Description := .null }).2.2.1 (Or.inl rfl),
   (update_network_body_is_total Example.offline).2
      (Example.framework { Example.networkState with Description := .null }
        Example.networkState) rfl rfl⟩

/-- C13. In Update of the Kubernetes cluster the request body consists of the Network field
alone; it is present exactly when the plan's network is neither null nor unknown, and then it
is the plan's network value. When the plan is read without error and the bounded context is
derived, the single client interaction of Update is the update call with this body, addressed
to the id in the plan. -/
theorem update_cluster_body_network_iff_known (client : Client) :
    (∀ data : KubernetesClusterResourceModel,
      ((KubernetesClusterResource.Update.body data).Network ≠ none ↔
        (data.Network.IsNull = false ∧ data.Network.IsUnknown = false)) ∧
      (∀ v, (KubernetesClusterResource.Update.body data).Network = some v ↔
        data.Network = TfString.value v) ∧
      KubernetesClusterResource.Update.body data =
        { Network := match data.Network with
            | TfString.value v => some v
            | _ => none }) ∧
    (∀ fw : Framework KubernetesClusterResourceModel,
      Diagnostics.HasError fw.PlanGet.2 = false →
      fw.ContextWithTimeout = none →
      (KubernetesClusterResource.Update client fw).calls =
        [Event.UpdateKubernetesCluster fw.PlanGet.1.Id.ValueString
          (KubernetesClusterResource.Update.body fw.PlanGet.1)
          (client.UpdateKubernetesClusterWithResponse fw.PlanGet.1.Id.ValueString
            (KubernetesClusterResource.Update.body fw.PlanGet.1))]) := by
  refine ⟨fun data => ?_, fun fw hplan hctx => cluster_update_call client fw hplan hctx⟩
  cases hd : data.Network <;>
    simp [KubernetesClusterResource.Update.body, TfString.IsNull, TfString.IsUnknown,
      TfString.ValueStringPointer, hd]

/-- Witness of C13: the plan of the stored cluster names the network "net-1"; the serving
client receives the update addressed to "k8s-1" with that network. -/
theorem update_cluster_body_network_iff_known_witness :
    (KubernetesClusterResource.Update Example.serving
      (Example.framework Example.clusterState Example.clusterState)).calls =
      [Event.UpdateKubernetesCluster "k8s-1" { Network := some "net-1" }
        (.ok (Example.cluster200 (Example.cluster "active" Example.t1)))] :=
  (update_cluster_body_network_iff_known Example.serving).2
    (Example.framework Example.clusterState Example.clusterState) rfl rfl

/-- C14. Read and Update of the Kubernetes cluster and of the private network, for any client.
Each run makes no poll wait and at most one client interaction, a remote call; when the
prior state (for Read) or the plan (for Update) is read without error and the bounded context
is derived, it makes exactly one: the read of the stored id, or the update of the planned id.
If that call returns a 200 body and storing the state reports no error, the state is the
projection of the body's record onto the model that was read, it was written once, and the
diagnostics hold no error. If the call fails with a transport error or returns no 200 body,
the run has exactly one error diagnostic, "Client Error", the state was never written and is
still the prior state. -/
theorem read_update_single_shot (client : Client) :
    ((∀ fw : Framework KubernetesClusterResourceModel,
      (KubernetesClusterResource.Read client fw).waits = 0 ∧
      (∀ e, e ∈ (KubernetesClusterResource.Read client fw).calls → e.isRemote = true) ∧
      (KubernetesClusterResource.Read client fw).calls.length ≤ 1) ∧
    (∀ fw : Framework KubernetesClusterResourceModel,
      Diagnostics.HasError fw.StateGet.2 = false →
      fw.ContextWithTimeout = none →
      (KubernetesClusterResource.Read client fw).calls =
        [Event.GetKubernetesCluster fw.StateGet.1.Id.ValueString
          (client.GetKubernetesClusterWithResponse 0 fw.StateGet.1.Id.ValueString)]) ∧
    (∀ (fw : Framework KubernetesClusterResourceModel)
      (response : sagadata.KubernetesClusterResponse) (body : sagadata.ClusterBody),
      Diagnostics.HasError fw.StateGet.2 = false →
      fw.ContextWithTimeout = none →
      (∀ k m, Diagnostics.HasError (fw.StateSet k m) = false) →
      client.GetKubernetesClusterWithResponse 0 fw.StateGet.1.Id.ValueString = .ok response →
      response.JSON200 = some body →
      (KubernetesClusterResource.Read client fw).State =
        some (fw.StateGet.1.PopulateFromClientResponse body.Cluster).1 ∧
      Diagnostics.HasError (KubernetesClusterResource.Read client fw).Diagnostics = false ∧
      (KubernetesClusterResource.Read client fw).sets = 1) ∧
    (∀ fw : Framework KubernetesClusterResourceModel,
      Diagnostics.HasError fw.StateGet.2 = false →
      fw.ContextWithTimeout = none →
      (∀ response, client.GetKubernetesClusterWithResponse 0
        fw.StateGet.1.Id.ValueString = .ok response → response.JSON200 = none) →
      ∃ d, Diagnostics.Errors (KubernetesClusterResource.Read client fw).Diagnostics = [d] ∧
        d.summary = "Client Error" ∧
        (KubernetesClusterResource.Read client fw).sets = 0 ∧
        (KubernetesClusterResource.Read client fw).State = some fw.StateGet.1)) ∧
    ((∀ fw : Framework KubernetesClusterResourceModel,
      (KubernetesClusterResource.Update client fw).waits = 0 ∧
      (∀ e, e ∈ (KubernetesClusterResource.Update client fw).calls → e.isRemote = true) ∧
      (KubernetesClusterResource.Update client fw).calls.length ≤ 1) ∧
    (∀ fw : Framework KubernetesClusterResourceModel,
      Diagnostics.HasError fw.PlanGet.2 = false →
      fw.ContextWithTimeout = none →
      (KubernetesClusterResource.Update client fw).calls =
        [Event.UpdateKubernetesCluster fw.PlanGet.1.Id.ValueString
          (KubernetesClusterResource.Update.body fw.PlanGet.1)
          (client.UpdateKubernetesClusterWithResponse fw.PlanGet.1.Id.ValueString
            (KubernetesClusterResource.Update.body fw.PlanGet.1))]) ∧
    (∀ (fw : Framework KubernetesClusterResourceModel)
      (response : sagadata.KubernetesClusterResponse) (body : sagadata.ClusterBody),
      Diagnostics.HasError fw.PlanGet.2 = false →
      fw.ContextWithTimeout = none →
      (∀ k m, Diagnostics.HasError (fw.StateSet k m) = false) →
      client.UpdateKubernetesClusterWithResponse fw.PlanGet.1.Id.ValueString
        (KubernetesClusterResource.Update.body fw.PlanGet.1) = .ok response →
      response.JSON200 = some body →
      (KubernetesClusterResource.Update client fw).State =
        some (fw.PlanGet.1.PopulateFromClientResponse body.Cluster).1 ∧
      Diagnostics.HasError (KubernetesClusterResource.Update client fw).Diagnostics = false ∧
      (KubernetesClusterResource.Update client fw).sets = 1) ∧
    (∀ fw : Framework KubernetesClusterResourceModel,
      Diagnostics.HasError fw.PlanGet.2 = false →
      fw.ContextWithTimeout = none →
      (∀ response, client.UpdateKubernetesClusterWithResponse
        fw.PlanGet.1.Id.ValueString (KubernetesClusterResource.Update.body fw.PlanGet.1) =
        .ok response → response.JSON200 = none) →
      ∃ d, Diagnostics.Errors (KubernetesClusterResource.Update client fw).Diagnostics = [d] ∧
        d.summary = "Client Error" ∧
        (KubernetesClusterResource.Update client fw).sets = 0 ∧
        (KubernetesClusterResource.Update client fw).State = some fw.StateGet.1)) ∧
    ((∀ fw : Framework PrivateNetworkResourceModel,
      (PrivateNetworkResource.Read client fw).waits = 0 ∧
      (∀ e, e ∈ (PrivateNetworkResource.Read client fw).calls → e.isRemote = true) ∧
      (PrivateNetworkResource.Read client fw).calls.length ≤ 1) ∧
    (∀ fw : Framework PrivateNetworkResourceModel,
      Diagnostics.HasError fw.StateGet.2 = false →
      fw.ContextWithTimeout = none →
      (PrivateNetworkResource.Read client fw).calls =
        [Event.GetPrivateNetwork fw.StateGet.1.Id.ValueString
          (client.GetPrivateNetworkWithResponse 0 fw.StateGet.1.Id.ValueString)]) ∧
    (∀ (fw : Framework PrivateNetworkResourceModel)
      (response : sagadata.PrivateNetworkResponse) (body : sagadata.PrivateNetworkBody),
      Diagnostics.HasError fw.StateGet.2 = false →
      fw.ContextWithTimeout = none →
      (∀ k m, Diagnostics.HasError (fw.StateSet k m) = false) →
      client.GetPrivateNetworkWithResponse 0 fw.StateGet.1.Id.ValueString = .ok response →
      response.JSON200 = some body →
      (PrivateNetworkResource.Read client fw).State =
        some (fw.StateGet.1.PopulateFromClientResponse body.PrivateNetwork).1 ∧
      Diagnostics.HasError (PrivateNetworkResource.Read client fw).Diagnostics = false ∧
      (PrivateNetworkResource.Read client fw).sets = 1) ∧
    (∀ fw : Framework PrivateNetworkResourceModel,
      Diagnostics.HasError fw.StateGet.2 = false →
      fw.ContextWithTimeout = none →
      (∀ response, client.GetPrivateNetworkWithResponse 0
        fw.StateGet.1.Id.ValueString = .ok response → response.JSON200 = none) →
      ∃ d, Diagnostics.Errors (PrivateNetworkResource.Read client fw).Diagnostics = [d] ∧
        d.summary = "Client Error" ∧
        (PrivateNetworkResource.Read client fw).sets = 0 ∧
        (PrivateNetworkResource.Read client fw).State = some fw.StateGet.1)) ∧
    ((∀ fw : Framework PrivateNetworkResourceModel,
      (PrivateNetworkResource.Update client fw).waits = 0 ∧
      (∀ e, e ∈ (PrivateNetworkResource.Update client fw).calls → e.isRemote = true) ∧
      (PrivateNetworkResource.Update client fw).calls.length ≤ 1) ∧
    (∀ fw : Framework PrivateNetworkResourceModel,
      Diagnostics.HasError fw.PlanGet.2 = false →
      fw.ContextWithTimeout = none →
      (PrivateNetworkResource.Update client fw).calls =
        [Event.UpdatePrivateNetwork fw.PlanGet.1.Id.ValueString
          (PrivateNetworkResource.Update.body fw.PlanGet.1)
          (client.UpdatePrivateNetworkWithResponse fw.PlanGet.1.Id.ValueString
            (PrivateNetworkResource.Update.body fw.PlanGet.1))]) ∧
    (∀ (fw : Framework PrivateNetworkResourceModel)
      (response : sagadata.PrivateNetworkResponse) (body : sagadata.PrivateNetworkBody),
      Diagnostics.HasError fw.PlanGet.2 = false →
      fw.ContextWithTimeout = none →
      (∀ k m, Diagnostics.HasError (fw.StateSet k m) = false) →
      client.UpdatePrivateNetworkWithResponse fw.PlanGet.1.Id.ValueString
        (PrivateNetworkResource.Update.body fw.PlanGet.1) = .ok response →
      response.JSON200 = some body →
      (PrivateNetworkResource.Update client fw).State =
        some (fw.PlanGet.1.PopulateFromClientResponse body.PrivateNetwork).1 ∧
      Diagnostics.HasError (PrivateNetworkResource.Update client fw).Diagnostics = false ∧
      (PrivateNetworkResource.Update client fw).sets = 1) ∧
    (∀ fw : Framework PrivateNetworkResourceModel,
      Diagnostics.HasError fw.PlanGet.2 = false →
      fw.ContextWithTimeout = none →
      (∀ response, client.UpdatePrivateNetworkWithResponse
        fw.PlanGet.1.Id.ValueString (PrivateNetworkResource.Update.body fw.PlanGet.1) =
        .ok response → response.JSON200 = none) →
      ∃ d, Diagnostics.Errors (PrivateNetworkResource.Update client fw).Diagnostics = [d] ∧
        d.summary = "Client Error" ∧
        (PrivateNetworkResource.Update client fw).sets = 0 ∧
        (PrivateNetworkResource.Update client fw).State = some fw.StateGet.1)) :=
  ⟨⟨fun fw => cluster_read_no_wait client fw,
    fun fw hstate hctx => cluster_read_call client fw hstate hctx,
    fun fw response body hstate hctx hset hget h200 =>
      (cluster_read_stores client fw response body hstate hctx hset hget h200).2,
    fun fw hstate hctx hfail =>
      (cluster_read_fails client fw hstate hctx hfail).imp (fun _ h => h.2)⟩,
   ⟨fun fw => cluster_update_no_wait client fw,
    fun fw hplan hctx => cluster_update_call client fw hplan hctx,
    fun fw response body hplan hctx hset hcall h200 =>
      (cluster_update_stores client fw response body hplan hctx hset hcall h200).2,
    fun fw hplan hctx hfail =>
      (cluster_update_fails client fw hplan hctx hfail).imp (fun _ h => h.2)⟩,
   ⟨fun fw => network_read_no_wait client fw,
    fun fw hstate hctx => network_read_call client fw hstate hctx,
    fun fw response body hstate hctx hset hget h200 =>
      (network_read_stores client fw response body hstate hctx hset hget h200).2,
    fun fw hstate hctx hfail =>
      (network_read_fails client fw hstate hctx hfail).imp (fun _ h => h.2)⟩,
   ⟨fun fw => network_update_no_wait client fw,
    fun fw hplan hctx => network_update_call client fw hplan hctx,
    fun fw response body hplan hctx hset hcall h200 =>
      (network_update_stores client fw response body hplan hctx hset hcall h200).2,
    fun fw hplan hctx hfail =>
      (network_update_fails client fw hplan hctx hfail).imp (fun _ h => h.2)⟩⟩

/-- Witness of C14: the serving client answers the read of the stored cluster with a 200 body,
which Read stores; the offline client fails the update of the private network, which leaves one
"Client Error" and the prior state. -/
theorem read_update_single_shot_witness :
    ((KubernetesClusterResource.Read Example.serving Example.clusterFw).State =
        some (Example.clusterFw.StateGet.1.PopulateFromClientResponse
          (Example.cluster "active" Example.t1)).1 ∧
      Diagnostics.HasError
        (KubernetesClusterResource.Read Example.serving Example.clusterFw).Diagnostics = false ∧
      (KubernetesClusterResource.Read Example.serving Example.clusterFw).sets = 1) ∧
    (KubernetesClusterResource.Read Example.serving Example.clusterFw).calls =
      [Event.GetKubernetesCluster "k8s-1"
        (.ok (Example.cluster200 (Example.cluster "active" Example.t1)))] ∧
    (∃ d, Diagnostics.Errors
        (PrivateNetworkResource.Update Example.offline Example.networkFw).Diagnostics = [d] ∧
      d.summary = "Client Error" ∧
      (PrivateNetworkResource.Update Example.offline Example.networkFw).sets = 0 ∧
      (PrivateNetworkResource.Update Example.offline Example.networkFw).State =
        some Example.networkFw.StateGet.1) :=
  ⟨(read_update_single_shot Example.serving).1.2.2.1 Example.clusterFw
      (Example.cluster200 (Example.cluster "active" Example.t1))
      ⟨Example.cluster "active" Example.t1⟩ rfl rfl (fun _ _ => rfl) rfl rfl,
   (read_update_single_shot Example.serving).1.2.1 Example.clusterFw rfl rfl,
   (read_update_single_shot Example.offline).2.2.2.2.2.2 Example.networkFw rfl rfl
      (fun _ h => by cases h)⟩

/-- C15. Read is idempotent, for the Kubernetes cluster and the private network. Projecting a
remote record r onto the projection of r onto any stored record s changes nothing. And for
any client that answers every read with a 200 body carrying r: when both runs read their
prior state without error, derive the bounded context and store without error, a first Read
on s stores the projection of r onto s, and a second Read, whose prior state is the state the
first one stored, stores a state equal to it. -/
theorem read_is_idempotent (client : Client) :
    (∀ (s : KubernetesClusterResourceModel) (r : sagadata.KubernetesCluster),
      ((s.PopulateFromClientResponse r).1.PopulateFromClientResponse r).1 =
        (s.PopulateFromClientResponse r).1) ∧
    (∀ (s : PrivateNetworkResourceModel) (r : sagadata.PrivateNetwork),
      ((s.PopulateFromClientResponse r).1.PopulateFromClientResponse r).1 =
        (s.PopulateFromClientResponse r).1) ∧
    (∀ (fw fw' : Framework KubernetesClusterResourceModel) (r : sagadata.KubernetesCluster),
      (∀ i id, ∃ response, client.GetKubernetesClusterWithResponse i id = .ok response ∧
        response.JSON200 = some ⟨r⟩) →
      Diagnostics.HasError fw.StateGet.2 = false →
      fw.ContextWithTimeout = none →
      (∀ k m, Diagnostics.HasError (fw.StateSet k m) = false) →
      Diagnostics.HasError fw'.StateGet.2 = false →
      fw'.ContextWithTimeout = none →
      (∀ k m, Diagnostics.HasError (fw'.StateSet k m) = false) →
      some fw'.StateGet.1 = (KubernetesClusterResource.Read client fw).State →
      (KubernetesClusterResource.Read client fw).State =
        some (fw.StateGet.1.PopulateFromClientResponse r).1 ∧
      (KubernetesClusterResource.Read client fw').State =
        (KubernetesClusterResource.Read client fw).State) ∧
    (∀ (fw fw' : Framework PrivateNetworkResourceModel) (r : sagadata.PrivateNetwork),
      (∀ i id, ∃ response, client.GetPrivateNetworkWithResponse i id = .ok response ∧
        response.JSON200 = some ⟨r⟩) →
      Diagnostics.HasError fw.StateGet.2 = false →
      fw.ContextWithTimeout = none →
      (∀ k m, Diagnostics.HasError (fw.StateSet k m) = false) →
      Diagnostics.HasError fw'.StateGet.2 = false →
      fw'.ContextWithTimeout = none →
      (∀ k m, Diagnostics.HasError (fw'.StateSet k m) = false) →
      some fw'.StateGet.1 = (PrivateNetworkResource.Read client fw).State →
      (PrivateNetworkResource.Read client fw).State =
        some (fw.StateGet.1.PopulateFromClientResponse r).1 ∧
      (PrivateNetworkResource.Read client fw').State =
        (PrivateNetworkResource.Read client fw).State) :=
  ⟨fun s r => cluster_populate_twice s r r,
   fun s r => network_populate_twice s r r,
   fun fw fw' r hget hstate hctx hset hstate' hctx' hset' hnext =>
     cluster_read_twice client fw fw' r hget hstate hctx hset hstate' hctx' hset' hnext,
   fun fw fw' r hget hstate hctx hset hstate' hctx' hset' hnext =>
     network_read_twice client fw fw' r hget hstate hctx hset hstate' hctx' hset' hnext⟩

/-- Witness of C15: the serving client answers every read with the cluster in status "active";
Read on the stored cluster, then Read on what it stored, yield the same state. -/
theorem read_is_idempotent_witness :
    (KubernetesClusterResource.Read Example.serving Example.clusterFw).State =
      some (Example.clusterFw.StateGet.1.PopulateFromClientResponse
        (Example.cluster "active" Example.t1)).1 ∧
    (KubernetesClusterResource.Read Example.serving
      (Example.framework Example.clusterPlan
        (Example.clusterState.PopulateFromClientResponse
          (Example.cluster "active" Example.t1)).1)).State =
      (KubernetesClusterResource.Read Example.serving Example.clusterFw).State :=
  (read_is_idempotent Example.serving).2.2.1 Example.clusterFw
    (Example.framework Example.clusterPlan
      (Example.clusterState.PopulateFromClientResponse
        (Example.cluster "active" Example.t1)).1)
    (Example.cluster "active" Example.t1)
    (fun i id => ⟨Example.cluster200 (Example.cluster "active" Example.t1),
      by simp [Example.serving, Example.scripted], rfl⟩)
    rfl rfl (fun _ _ => rfl) rfl rfl (fun _ _ => rfl) (by decide)

/-- C16. In every state projector an optional remote field becomes the known value of the
remote field when it is present and the null marker when it is absent, whatever the model
held before: Network in the Kubernetes cluster resource model and in the data source model,
CidrV4 and CidrV6 in the private network model, JoinCommand in the credentials projector. A
present empty string becomes the known empty string, which is not null. -/
theorem projectors_map_optional_fields :
    (∀ (data : KubernetesClusterResourceModel) (cluster : sagadata.KubernetesCluster),
      (data.PopulateFromClientResponse cluster).1.Network =
        match cluster.Network with
        | some network => TfString.value network
        | none => TfString.null) ∧
    (∀ (data : KubernetesClusterDataSourceModel) (cluster : sagadata.KubernetesCluster),
      (data.PopulateFromClientResponse cluster).1.Network =
        match cluster.Network with
        | some network => TfString.value network
        | none => TfString.null) ∧
    (∀ (data : PrivateNetworkResourceModel) (network : sagadata.PrivateNetwork),
      (data.PopulateFromClientResponse network).1.CidrV4 =
        (match network.CidrV4 with
        | some cidr => TfString.value cidr
        | none => TfString.null) ∧
      (data.PopulateFromClientResponse network).1.CidrV6 =
        (match network.CidrV6 with
        | some cidr => TfString.value cidr
        | none => TfString.null)) ∧
    (∀ (data : KubernetesClusterDataSourceModel)
      (creds : sagadata.K8sClusterCredentialsResponse),
      (data.PopulateCredentialsFromClientResponse creds).1.JoinCommand =
        match creds.JoinCommand with
        | some joinCommand => TfString.value joinCommand
        | none => TfString.null) ∧
    (∀ (data : KubernetesClusterResourceModel) (cluster : sagadata.KubernetesCluster),
      (data.PopulateFromClientResponse { cluster with Network := some "" }).1.Network =
        TfString.value "" ∧
      (data.PopulateFromClientResponse { cluster with Network := some "" }).1.Network.IsNull =
        false) ∧
    (∀ (data : PrivateNetworkResourceModel) (network : sagadata.PrivateNetwork),
      (data.PopulateFromClientResponse { network with CidrV4 := some "" }).1.CidrV4 =
        TfString.value "" ∧
      (data.PopulateFromClientResponse { network with CidrV6 := some "" }).1.CidrV6 =
        TfString.value "") ∧
    (∀ (data : KubernetesClusterDataSourceModel)
      (creds : sagadata.K8sClusterCredentialsResponse),
      (data.PopulateCredentialsFromClientResponse
        { creds with JoinCommand := some "" }).1.JoinCommand = TfString.value "") := by
  refine ⟨?_, ?_, ?_, ?_, ?_, ?_, ?_⟩
  · intro data cluster
    cases h : cluster.Network <;>
      simp [KubernetesClusterResourceModel.PopulateFromClientResponse, h, types.StringValue,
        types.StringNull]
  · intro data cluster
    cases h : cluster.Network <;>
      simp [KubernetesClusterDataSourceModel.PopulateFromClientResponse, h, types.StringValue,
        types.StringNull]
  · intro data network
    cases h4 : network.CidrV4 <;> cases h6 : network.CidrV6 <;>
      simp [PrivateNetworkResourceModel.PopulateFromClientResponse, h4, h6, types.StringValue,
        types.StringNull]
  · intro data creds
    cases h : creds.JoinCommand <;>
      simp [KubernetesClusterDataSourceModel.PopulateCredentialsFromClientResponse, h,
        types.StringValue, types.StringNull]
  · intro data cluster
    simp [KubernetesClusterResourceModel.PopulateFromClientResponse, types.StringValue,
      TfString.IsNull]
  · intro data network
    constructor
    · cases h6 : network.CidrV6 <;>
        simp [PrivateNetworkResourceModel.PopulateFromClientResponse, h6, types.StringValue]
    · cases h4 : network.CidrV4 <;>
        simp [PrivateNetworkResourceModel.PopulateFromClientResponse, h4, types.StringValue]
  · intro data creds
    simp [KubernetesClusterDataSourceModel.PopulateCredentialsFromClientResponse,
      types.StringValue]

/-- C17. Each projector is a field-by-field mapping that returns no diagnostics. The
projectors of the Kubernetes cluster resource model and of the private network model set
every attribute from the remote record alone (id, name, status, and for the private network
description and region, as known strings; created_at and updated_at as the formatted remote
timestamps; the optional fields as known or null) and keep Timeouts. The projector of the
data source model sets the same six attributes and keeps Kubeconfig, JoinCommand and Timeouts;
the credentials projector changes Kubeconfig and JoinCommand only; the instance status
projector changes InstanceId and Status only. -/
theorem projectors_are_field_mappings :
    (∀ (data : KubernetesClusterResourceModel) (cluster : sagadata.KubernetesCluster),
      data.PopulateFromClientResponse cluster =
        ({ CreatedAt := TfString.value cluster.CreatedAt.Format,
           Id := TfString.value cluster.Id,
           Name := TfString.value cluster.Name,
           Network := match cluster.Network with
             | some network => TfString.value network
             | none => TfString.null,
           Status := TfString.value cluster.Status,
           UpdatedAt := TfString.value cluster.UpdatedAt.Format,
           Timeouts := data.Timeouts }, [])) ∧
    (∀ (data : PrivateNetworkResourceModel) (network : sagadata.PrivateNetwork),
      data.PopulateFromClientResponse network =
        ({ CreatedAt := TfString.value network.CreatedAt.Format,
           CidrV4 := match network.CidrV4 with
             | some cidr => TfString.value cidr
             | none => TfString.null,
           CidrV6 := match network.CidrV6 with
             | some cidr => TfString.value cidr
             | none => TfString.null,
           Description := TfString.value network.Description,
           Id := TfString.value network.Id,
           Name := TfString.value network.Name,
           Region := TfString.value network.Region,
           Status := TfString.value network.Status,
           UpdatedAt := TfString.value network.UpdatedAt.Format,
           Timeouts := data.Timeouts }, [])) ∧
    (∀ (data : KubernetesClusterDataSourceModel) (cluster : sagadata.KubernetesCluster),
      data.PopulateFromClientResponse cluster =
        ({ Id := TfString.value cluster.Id,
           Name := TfString.value cluster.Name,
           Network := match cluster.Network with
             | some network => TfString.value network
             | none => TfString.null,
           Status := TfString.value cluster.Status,
           CreatedAt := TfString.value cluster.CreatedAt.Format,
           UpdatedAt := TfString.value cluster.UpdatedAt.Format,
           Kubeconfig := data.Kubeconfig,
           JoinCommand := data.JoinCommand,
           Timeouts := data.Timeouts }, [])) ∧
    (∀ (data : KubernetesClusterDataSourceModel)
      (creds : sagadata.K8sClusterCredentialsResponse),
      data.PopulateCredentialsFromClientResponse creds =
        ({ data with
           Kubeconfig := TfString.value creds.Kubeconfig,
           JoinCommand := match creds.JoinCommand with
             | some joinCommand => TfString.value joinCommand
             | none => TfString.null }, [])) ∧
    (∀ (data : InstanceStatusResourceModel) (remote : sagadata.Instance),
      data.PopulateFromClientResponse remote =
        ({ InstanceId := TfString.value remote.Id,
           Status := TfString.value remote.Status,
           Timeouts := data.Timeouts }, [])) := by
  refine ⟨?_, ?_, ?_, ?_, ?_⟩
  · intro data cluster
    cases h : cluster.Network <;>
      simp [KubernetesClusterResourceModel.PopulateFromClientResponse, h, types.StringValue,
        types.StringNull]
  · intro data network
    cases h4 : network.CidrV4 <;> cases h6 : network.CidrV6 <;>
      simp [PrivateNetworkResourceModel.PopulateFromClientResponse, h4, h6, types.StringValue,
        types.StringNull]
  · intro data cluster
    cases h : cluster.Network <;>
      simp [KubernetesClusterDataSourceModel.PopulateFromClientResponse, h, types.StringValue,
        types.StringNull]
  · intro data creds
    cases h : creds.JoinCommand <;>
      simp [KubernetesClusterDataSourceModel.PopulateCredentialsFromClientResponse, h,
        types.StringValue, types.StringNull]
  · intro data remote
    simp [InstanceStatusResourceModel.PopulateFromClientResponse, types.StringValue]

/-- C18 (divergence). The list returned by `Resources` does not contain
`NewKubernetesClusterResource` and the list returned by `DataSources` does not contain
`NewKubernetesClusterDataSource`, although both constructors are implemented in the package;
`Resources` does contain the instance and the private network constructors, and `DataSources`
is the images data source alone. -/
theorem kubernetes_cluster_not_registered :
    ResourceConstructor.NewKubernetesClusterResource ∉ SagaDataProvider.Resources ∧
    DataSourceConstructor.NewKubernetesClusterDataSource ∉ SagaDataProvider.DataSources ∧
    ResourceConstructor.NewInstanceResource ∈ SagaDataProvider.Resources ∧
    ResourceConstructor.NewPrivateNetworkResource ∈ SagaDataProvider.Resources ∧
    SagaDataProvider.Resources.length = 9 ∧
    SagaDataProvider.DataSources = [DataSourceConstructor.NewImagesDataSource] := by
  decide

/-- C19 (divergence). The configuration sets the endpoint to the empty string and the
environment variable SAGADATA_ENDPOINT holds "https://env.example"; no value is unknown and
the token is configured. The client is built with the default endpoint although the variable
is provided: the endpoint is neither the configured value nor the value of the environment
variable, while the description of the attribute keeps the default for the case that neither
is provided. -/
theorem configure_empty_endpoint_hides_environment :
    (Example.host ⟨.value "", .value "secret", .null⟩ "https://env.example" "").Getenv
      "SAGADATA_ENDPOINT" = "https://env.example" ∧
    (Example.host ⟨.value "", .value "secret", .null⟩ "https://env.example" "").DefaultEndpoint =
      "https://api.sagadata.example" ∧
    (SagaDataProvider.Configure
      (Example.host ⟨.value "", .value "secret", .null⟩ "https://env.example" "")).newClient =
      some { Endpoint := "https://api.sagadata.example", Token := "secret",
             PollingInterval := 2 * time.Second } ∧
    (SagaDataProvider.Configure
      (Example.host ⟨.value "", .value "secret", .null⟩ "https://env.example" "")).ResourceData =
      some { Endpoint := "https://api.sagadata.example", Token := "secret",
             PollingInterval := 2 * time.Second } ∧
    (SagaDataProvider.Configure
      (Example.host ⟨.value "", .value "secret", .null⟩ "https://env.example" "")).Diagnostics =
      [] := by
  decide

/-- C19 (what Configure computes). In Configure, when the configuration is decoded without
error, no value is unknown, the polling interval parses (or is null) and the resolved token is
not empty, the client is built from a configuration whose endpoint is resolved in two steps:
first the configured endpoint when it is not null, even if it is the empty string, and
otherwise the value of SAGADATA_ENDPOINT; then the default endpoint when that result is the
empty string. So the claim holds whenever the configured endpoint is null or not empty: a
configured non-empty endpoint wins over the environment variable, a null endpoint gives the
environment variable when that is not empty, and the default endpoint when the variable is
empty. It does not hold for an endpoint configured as the empty string: that gives the default
endpoint whatever the variable holds. -/
theorem configure_endpoint_resolution (host : ConfigureHost) (interval : Duration)
    (hget : Diagnostics.HasError host.ConfigGet.2 = false)
    (hE : host.ConfigGet.1.Endpoint.IsUnknown = false)
    (hT : host.ConfigGet.1.Token.IsUnknown = false)
    (hP : host.ConfigGet.1.PollingInterval.IsUnknown = false)
    (hparse : (if !host.ConfigGet.1.PollingInterval.IsNull then
        host.ParseDuration host.ConfigGet.1.PollingInterval.ValueString
      else Except.ok (2 * time.Second)) = Except.ok interval)
    (htoken : (if !host.ConfigGet.1.Token.IsNull then host.ConfigGet.1.Token.ValueString
      else host.Getenv "SAGADATA_TOKEN") ≠ "") :
    ∃ cfg, (SagaDataProvider.Configure host).newClient = some cfg ∧
      cfg.Endpoint =
        (if (if !host.ConfigGet.1.Endpoint.IsNull then host.ConfigGet.1.Endpoint.ValueString
          else host.Getenv "SAGADATA_ENDPOINT") = "" then host.DefaultEndpoint
        else (if !host.ConfigGet.1.Endpoint.IsNull then host.ConfigGet.1.Endpoint.ValueString
          else host.Getenv "SAGADATA_ENDPOINT")) ∧
      (∀ v, host.ConfigGet.1.Endpoint = TfString.value v → v ≠ "" → cfg.Endpoint = v) ∧
      (host.ConfigGet.1.Endpoint = TfString.value "" → cfg.Endpoint = host.DefaultEndpoint) ∧
      (host.ConfigGet.1.Endpoint = TfString.null → host.Getenv "SAGADATA_ENDPOINT" ≠ "" →
        cfg.Endpoint = host.Getenv "SAGADATA_ENDPOINT") ∧
      (host.ConfigGet.1.Endpoint = TfString.null → host.Getenv "SAGADATA_ENDPOINT" = "" →
        cfg.Endpoint = host.DefaultEndpoint) ∧
      (host.NewClient cfg = none →
        (SagaDataProvider.Configure host).ResourceData = some cfg ∧
        (SagaDataProvider.Configure host).DataSourceData = some cfg) := by
  obtain ⟨h1, _, h3, _⟩ :=
    configure_client_facts host interval _ hget hE hT hP hparse htoken rfl
  refine ⟨_, h1, rfl, ?_, ?_, ?_, ?_, fun h => ⟨(h3 h).2.1, (h3 h).1⟩⟩
  · intro v hv hne
    simp [hv, TfString.IsNull, TfString.ValueString, hne]
  · intro hv
    simp [hv, TfString.IsNull, TfString.ValueString]
  · intro hv hne
    simp [hv, TfString.IsNull, hne]
  · intro hv he
    simp [hv, TfString.IsNull, he]

/-- Witness of C19: endpoint and token configured, the interval "5s", and an
environment variable that names another endpoint: the configured endpoint is used. -/
theorem configure_endpoint_resolution_witness :
    ∃ cfg, (SagaDataProvider.Configure
        (Example.host ⟨.value "https://cfg.example", .value "secret", .value "5s"⟩
          "https://env.example" "")).newClient = some cfg ∧
      cfg.Endpoint = "https://cfg.example" :=
  (configure_endpoint_resolution
    (Example.host ⟨.value "https://cfg.example", .value "secret", .value "5s"⟩
      "https://env.example" "")
    (5 * time.Second) rfl rfl rfl rfl rfl (by decide)).imp
    (fun _ h => ⟨h.1, h.2.2.1 "https://cfg.example" rfl (by decide)⟩)

/-- C20. In Configure, when the configuration is decoded without error, no value is unknown
and the polling interval parses (or is null), let the resolved token be the configured token
when it is not null and the value of SAGADATA_TOKEN otherwise. A "Missing Saga Data API token"
error is reported and `NewClient` is not called if and only if the resolved token is the empty
string; in that case it is the only error, it is attached to the token attribute, and no
client is stored. Otherwise no such error is reported and `NewClient` is called with a
configuration whose token is the resolved token; when it builds the client, that client is
stored for resources and data sources and no error is reported. -/
theorem configure_token_resolution (host : ConfigureHost) (interval : Duration)
    (hget : Diagnostics.HasError host.ConfigGet.2 = false)
    (hE : host.ConfigGet.1.Endpoint.IsUnknown = false)
    (hT : host.ConfigGet.1.Token.IsUnknown = false)
    (hP : host.ConfigGet.1.PollingInterval.IsUnknown = false)
    (hparse : (if !host.ConfigGet.1.PollingInterval.IsNull then
        host.ParseDuration host.ConfigGet.1.PollingInterval.ValueString
      else Except.ok (2 * time.Second)) = Except.ok interval) :
    (((∃ d, d ∈ Diagnostics.Errors (SagaDataProvider.Configure host).Diagnostics ∧
          d.summary = "Missing Saga Data API token") ∧
        (SagaDataProvider.Configure host).newClient = none) ↔
      (if !host.ConfigGet.1.Token.IsNull then host.ConfigGet.1.Token.ValueString
        else host.Getenv "SAGADATA_TOKEN") = "") ∧
    ((if !host.ConfigGet.1.Token.IsNull then host.ConfigGet.1.Token.ValueString
        else host.Getenv "SAGADATA_TOKEN") = "" →
      (∃ s, Diagnostics.Errors (SagaDataProvider.Configure host).Diagnostics =
        [{ severity := Severity.Error, summary := "Missing Saga Data API token",
           detail := Detail.attribute "token" s }]) ∧
      (SagaDataProvider.Configure host).DataSourceData = none ∧
      (SagaDataProvider.Configure host).ResourceData = none) ∧
    ((if !host.ConfigGet.1.Token.IsNull then host.ConfigGet.1.Token.ValueString
        else host.Getenv "SAGADATA_TOKEN") ≠ "" →
      ∃ cfg, (SagaDataProvider.Configure host).newClient = some cfg ∧
        cfg.Token = (if !host.ConfigGet.1.Token.IsNull then host.ConfigGet.1.Token.ValueString
          else host.Getenv "SAGADATA_TOKEN") ∧
        cfg.PollingInterval = interval ∧
        (∀ d, d ∈ Diagnostics.Errors (SagaDataProvider.Configure host).Diagnostics →
          d.summary ≠ "Missing Saga Data API token") ∧
        (host.NewClient cfg = none →
          (SagaDataProvider.Configure host).DataSourceData = some cfg ∧
          (SagaDataProvider.Configure host).ResourceData = some cfg ∧
          Diagnostics.HasError (SagaDataProvider.Configure host).Diagnostics = false)) := by
  by_cases htoken : (if !host.ConfigGet.1.Token.IsNull then host.ConfigGet.1.Token.ValueString
      else host.Getenv "SAGADATA_TOKEN") = ""
  · obtain ⟨h1, h2, h3, s, h4⟩ :=
      configure_missing_token host interval hget hE hT hP hparse htoken
    refine ⟨⟨fun _ => htoken, fun _ =>
        ⟨⟨{ severity := Severity.Error, summary := "Missing Saga Data API token",
            detail := Detail.attribute "token" s }, ?_, rfl⟩, h1⟩⟩,
      fun _ => ⟨⟨s, h4⟩, h2, h3⟩, fun h => absurd htoken h⟩
    rw [h4]
    exact List.mem_singleton.mpr rfl
  · obtain ⟨h1, h2, h3, _⟩ :=
      configure_client_facts host interval _ hget hE hT hP hparse htoken rfl
    refine ⟨⟨fun h => ?_, fun h => absurd h htoken⟩, fun h => absurd h htoken,
      fun _ => ⟨_, h1, rfl, rfl, h2, h3⟩⟩
    rw [h1] at h
    exact Option.noConfusion h.2

/-- Witness of C20: the token is not configured and SAGADATA_TOKEN holds "from-env": the client
is built with that token. With the variable empty as well, the token is reported missing. -/
theorem configure_token_resolution_witness :
    (∃ cfg, (SagaDataProvider.Configure
        (Example.host ⟨.null, .null, .null⟩ "" "from-env")).newClient = some cfg ∧
      cfg.Token = "from-env") ∧
    ((∃ s, Diagnostics.Errors (SagaDataProvider.Configure
        (Example.host ⟨.null, .null, .null⟩ "" "")).Diagnostics =
        [{ severity := Severity.Error, summary := "Missing Saga Data API token",
           detail := Detail.attribute "token" s }]) ∧
      (SagaDataProvider.Configure
        (Example.host ⟨.null, .null, .null⟩ "" "")).DataSourceData = none ∧
      (SagaDataProvider.Configure
        (Example.host ⟨.null, .null, .null⟩ "" "")).ResourceData = none) :=
  ⟨((configure_token_resolution (Example.host ⟨.null, .null, .null⟩ "" "from-env")
      (2 * time.Second) rfl rfl rfl rfl rfl).2.2 (by decide)).imp
      (fun _ h => ⟨h.1, h.2.1⟩),
   (configure_token_resolution (Example.host ⟨.null, .null, .null⟩ "" "")
      (2 * time.Second) rfl rfl rfl rfl rfl).2.1 (by decide)⟩

/-- C21. In Create of the Kubernetes cluster the request body always carries an Id, the string
value of the plan's name: the name itself when it is known, the empty string when it is null
or unknown. The body's Network is present exactly when the plan's network is neither null
nor unknown, and then it is the plan's network value. When the plan is read without error and
the bounded context is derived, the first remote call of every finished run of Create is the
create call with this body. -/
theorem create_cluster_body_carries_name (client : Client) (fuel : Nat) :
    (∀ data : KubernetesClusterResourceModel,
      (KubernetesClusterResource.Create.body data).Id = some data.Name.ValueString ∧
      (∀ v, data.Name = TfString.value v →
        (KubernetesClusterResource.Create.body data).Id = some v) ∧
      (data.Name.IsNull = true ∨ data.Name.IsUnknown = true →
        (KubernetesClusterResource.Create.body data).Id = some "") ∧
      ((KubernetesClusterResource.Create.body data).Network ≠ none ↔
        (data.Network.IsNull = false ∧ data.Network.IsUnknown = false)) ∧
      (∀ v, (KubernetesClusterResource.Create.body data).Network = some v ↔
        data.Network = TfString.value v)) ∧
    (∀ (fw : Framework KubernetesClusterResourceModel) (r : Run KubernetesClusterResourceModel),
      KubernetesClusterResource.Create client fw fuel = some r →
      Diagnostics.HasError fw.PlanGet.2 = false →
      fw.ContextWithTimeout = none →
      ∃ reads, remoteCalls r.calls =
        Event.CreateKubernetesCluster (KubernetesClusterResource.Create.body fw.PlanGet.1)
          (client.CreateKubernetesClusterWithResponse
            (KubernetesClusterResource.Create.body fw.PlanGet.1)) :: reads) := by
  refine ⟨fun data => ⟨?_, ?_, ?_, ?_⟩, fun fw r h hplan hctx => ?_⟩
  · cases hn : data.Network <;>
      simp [KubernetesClusterResource.Create.body, pointer, TfString.IsNull,
        TfString.IsUnknown, TfString.ValueStringPointer, hn]
  · intro v hv
    cases hn : data.Network <;>
      simp [KubernetesClusterResource.Create.body, pointer, TfString.IsNull,
        TfString.IsUnknown, TfString.ValueStringPointer, TfString.ValueString, hn, hv]
  · intro hname
    cases hn : data.Network <;> cases hv : data.Name <;>
      simp_all [KubernetesClusterResource.Create.body, pointer, TfString.IsNull,
        TfString.IsUnknown, TfString.ValueStringPointer, TfString.ValueString]
  · cases hn : data.Network <;>
      simp [KubernetesClusterResource.Create.body, pointer, TfString.IsNull,
        TfString.IsUnknown, TfString.ValueStringPointer, hn]
  · rcases cluster_create_calls client fw fuel r h with ⟨_, hb | hc⟩ | ⟨reads, hr, _⟩
    · rw [hplan] at hb
      cases hb
    · exact absurd hctx hc
    · exact ⟨reads, hr⟩

/-- Witness of C21: the plan names the cluster "demo" on the network "net-1"; the settling
client receives a create call whose body has Id "demo" and that network. -/
theorem create_cluster_body_carries_name_witness :
    ∃ r, KubernetesClusterResource.Create Example.settling Example.clusterFw 5 = some r ∧
      KubernetesClusterResource.Create.body Example.clusterFw.PlanGet.1 =
        { Id := some "demo", Network := some "net-1" } ∧
      ∃ reads, remoteCalls r.calls =
        Event.CreateKubernetesCluster
          (KubernetesClusterResource.Create.body Example.clusterFw.PlanGet.1)
          (Example.settling.CreateKubernetesClusterWithResponse
            (KubernetesClusterResource.Create.body Example.clusterFw.PlanGet.1)) :: reads :=
  ⟨(KubernetesClusterResource.Create Example.settling Example.clusterFw 5).get (by decide),
    by decide, by decide,
    (create_cluster_body_carries_name Example.settling 5).2 Example.clusterFw _
      (by decide) rfl rfl⟩

/-- C22. Read of the Kubernetes cluster data source, for any client. The state is written, and
the response state is other than null, only when the read of the cluster and the read of the
credentials both returned a 200 body; when they do, the configuration is read without error,
the bounded context is derived and storing reports no error, the state is the projection of
the credentials onto the projection of the cluster record onto the configured model, written
once, with no error. If the read of the cluster fails with a transport error or returns no 200
body, it is the only client interaction: the credentials are not requested. If the read of the
credentials fails with a transport error or returns no 200 body after the cluster was read,
the run has exactly one error diagnostic, "Client Error", and the state is not written: it
stays null. -/
theorem datasource_read_all_or_nothing (client : Client) :
    (∀ fw : DataSourceFramework KubernetesClusterDataSourceModel,
      (KubernetesClusterDataSource.Read client fw).sets ≠ 0 ∨
        (KubernetesClusterDataSource.Read client fw).State ≠ none →
      ∃ response body credsResponse creds,
        client.GetKubernetesClusterWithResponse 0 fw.ConfigGet.1.Id.ValueString =
          .ok response ∧
        response.JSON200 = some body ∧
        client.GetKubernetesClusterCredentialsWithResponse fw.ConfigGet.1.Id.ValueString =
          .ok credsResponse ∧
        credsResponse.JSON200 = some creds ∧
        (KubernetesClusterDataSource.Read client fw).sets = 1 ∧
        ((KubernetesClusterDataSource.Read client fw).State ≠ none →
          (KubernetesClusterDataSource.Read client fw).State =
            some ((fw.ConfigGet.1.PopulateFromClientResponse
              body.Cluster).1.PopulateCredentialsFromClientResponse creds).1)) ∧
    (∀ (fw : DataSourceFramework KubernetesClusterDataSourceModel)
      (response : sagadata.KubernetesClusterResponse) (body : sagadata.ClusterBody)
      (credsResponse : sagadata.CredentialsResponse)
      (creds : sagadata.K8sClusterCredentialsResponse),
      Diagnostics.HasError fw.ConfigGet.2 = false →
      fw.ContextWithTimeout = none →
      (∀ k m, Diagnostics.HasError (fw.StateSet k m) = false) →
      client.GetKubernetesClusterWithResponse 0 fw.ConfigGet.1.Id.ValueString =
        .ok response →
      response.JSON200 = some body →
      client.GetKubernetesClusterCredentialsWithResponse fw.ConfigGet.1.Id.ValueString =
        .ok credsResponse →
      credsResponse.JSON200 = some creds →
      (KubernetesClusterDataSource.Read client fw).calls =
        [Event.GetKubernetesCluster fw.ConfigGet.1.Id.ValueString (.ok response),
         Event.GetKubernetesClusterCredentials fw.ConfigGet.1.Id.ValueString
          (.ok credsResponse)] ∧
      (KubernetesClusterDataSource.Read client fw).State =
        some ((fw.ConfigGet.1.PopulateFromClientResponse
          body.Cluster).1.PopulateCredentialsFromClientResponse creds).1 ∧
      Diagnostics.HasError (KubernetesClusterDataSource.Read client fw).Diagnostics = false ∧
      (KubernetesClusterDataSource.Read client fw).sets = 1) ∧
    (∀ fw : DataSourceFramework KubernetesClusterDataSourceModel,
      Diagnostics.HasError fw.ConfigGet.2 = false →
      fw.ContextWithTimeout = none →
      (∀ response, client.GetKubernetesClusterWithResponse 0
        fw.ConfigGet.1.Id.ValueString = .ok response → response.JSON200 = none) →
      ∃ d, (KubernetesClusterDataSource.Read client fw).calls =
          [Event.GetKubernetesCluster fw.ConfigGet.1.Id.ValueString
            (client.GetKubernetesClusterWithResponse 0 fw.ConfigGet.1.Id.ValueString)] ∧
        Diagnostics.Errors (KubernetesClusterDataSource.Read client fw).Diagnostics = [d] ∧
        d.summary = "Client Error" ∧
        (KubernetesClusterDataSource.Read client fw).sets = 0 ∧
        (KubernetesClusterDataSource.Read client fw).State = none) ∧
    (∀ (fw : DataSourceFramework KubernetesClusterDataSourceModel)
      (response : sagadata.KubernetesClusterResponse) (body : sagadata.ClusterBody),
      Diagnostics.HasError fw.ConfigGet.2 = false →
      fw.ContextWithTimeout = none →
      client.GetKubernetesClusterWithResponse 0 fw.ConfigGet.1.Id.ValueString =
        .ok response →
      response.JSON200 = some body →
      (∀ credsResponse, client.GetKubernetesClusterCredentialsWithResponse
        fw.ConfigGet.1.Id.ValueString = .ok credsResponse → credsResponse.JSON200 = none) →
      ∃ d, (KubernetesClusterDataSource.Read client fw).calls =
          [Event.GetKubernetesCluster fw.ConfigGet.1.Id.ValueString (.ok response),
           Event.GetKubernetesClusterCredentials fw.ConfigGet.1.Id.ValueString
            (client.GetKubernetesClusterCredentialsWithResponse
              fw.ConfigGet.1.Id.ValueString)] ∧
        Diagnostics.Errors (KubernetesClusterDataSource.Read client fw).Diagnostics = [d] ∧
        d.summary = "Client Error" ∧
        (KubernetesClusterDataSource.Read client fw).sets = 0 ∧
        (KubernetesClusterDataSource.Read client fw).State = none) :=
  ⟨fun fw h => datasource_read_written client fw h,
   fun fw response body credsResponse creds hcfg hctx hset hget h200 hcreds hc200 =>
     datasource_read_stores client fw response body credsResponse creds hcfg hctx hset hget
       h200 hcreds hc200,
   fun fw hcfg hctx hfail => datasource_read_cluster_fails client fw hcfg hctx hfail,
   fun fw response body hcfg hctx hget h200 hfail =>
     datasource_read_credentials_fail client fw response body hcfg hctx hget h200 hfail⟩

/-- Witness of C22: the serving client answers the read of the cluster but fails the
credentials call: one "Client Error", nothing written. The offline client fails the read of
the cluster: the credentials are not requested. -/
theorem datasource_read_all_or_nothing_witness :
    (∃ d, (KubernetesClusterDataSource.Read Example.serving Example.dataSourceFw).calls =
        [Event.GetKubernetesCluster "k8s-1"
          (.ok (Example.cluster200 (Example.cluster "active" Example.t1))),
         Event.GetKubernetesClusterCredentials "k8s-1"
          (Example.serving.GetKubernetesClusterCredentialsWithResponse "k8s-1")] ∧
      Diagnostics.Errors
        (KubernetesClusterDataSource.Read Example.serving Example.dataSourceFw).Diagnostics =
        [d] ∧
      d.summary = "Client Error" ∧
      (KubernetesClusterDataSource.Read Example.serving Example.dataSourceFw).sets = 0 ∧
      (KubernetesClusterDataSource.Read Example.serving Example.dataSourceFw).State = none) ∧
    (∃ d, (KubernetesClusterDataSource.Read Example.offline Example.dataSourceFw).calls =
        [Event.GetKubernetesCluster "k8s-1"
          (Example.offline.GetKubernetesClusterWithResponse 0 "k8s-1")] ∧
      Diagnostics.Errors
        (KubernetesClusterDataSource.Read Example.offline Example.dataSourceFw).Diagnostics =
        [d] ∧
      d.summary = "Client Error" ∧
      (KubernetesClusterDataSource.Read Example.offline Example.dataSourceFw).sets = 0 ∧
      (KubernetesClusterDataSource.Read Example.offline Example.dataSourceFw).State = none) ∧
    ((KubernetesClusterDataSource.Read Example.credentialed Example.dataSourceFw).State =
        some ((Example.clusterConfig.PopulateFromClientResponse
          (Example.cluster "active" Example.t1)).1.PopulateCredentialsFromClientResponse
            Example.credentials).1 ∧
      (KubernetesClusterDataSource.Read Example.credentialed Example.dataSourceFw).sets = 1) :=
  ⟨(datasource_read_all_or_nothing Example.serving).2.2.2 Example.dataSourceFw
      (Example.cluster200 (Example.cluster "active" Example.t1))
      ⟨Example.cluster "active" Example.t1⟩ rfl rfl rfl rfl (fun _ h => by cases h),
   (datasource_read_all_or_nothing Example.offline).2.2.1 Example.dataSourceFw rfl rfl
      (fun _ h => by cases h),
   ⟨((datasource_read_all_or_nothing Example.credentialed).2.1 Example.dataSourceFw
      (Example.cluster200 (Example.cluster "active" Example.t1))
      ⟨Example.cluster "active" Example.t1⟩
      { Body := "", HTTPResponse := some ⟨200⟩, JSON200 := some Example.credentials,
        JSONDefault := none }
      Example.credentials rfl rfl (fun _ _ => rfl) rfl rfl rfl rfl).2.1,
    ((datasource_read_all_or_nothing Example.credentialed).2.1 Example.dataSourceFw
      (Example.cluster200 (Example.cluster "active" Example.t1))
      ⟨Example.cluster "active" Example.t1⟩
      { Body := "", HTTPResponse := some ⟨200⟩, JSON200 := some Example.credentials,
        JSONDefault := none }
      Example.credentials rfl rfl (fun _ _ => rfl) rfl rfl rfl rfl).2.2.2⟩⟩

/-- C23. In Configure, when the configuration is decoded without error. If no value is
unknown and the resolved token is not empty, the client is built with a polling interval of
2 seconds when polling_interval is null, and with the duration parsed from the configured
string otherwise. If no value is unknown and the configured string cannot be parsed, the only
error is "Timeout Cannot Be Parsed", attached to polling_interval with the text of the parse
error, and no client is built or stored. If any of endpoint, token and polling_interval is
unknown, the errors are exactly one per unknown attribute, attached to it, in that order, and
no client is built or stored. -/
theorem configure_interval_and_unknowns (host : ConfigureHost)
    (hget : Diagnostics.HasError host.ConfigGet.2 = false) :
    (host.ConfigGet.1.Endpoint.IsUnknown = false →
      host.ConfigGet.1.Token.IsUnknown = false →
      host.ConfigGet.1.PollingInterval.IsUnknown = false →
      ((if !host.ConfigGet.1.Token.IsNull then host.ConfigGet.1.Token.ValueString
          else host.Getenv "SAGADATA_TOKEN") ≠ "" →
        host.ConfigGet.1.PollingInterval.IsNull = true →
        ∃ cfg, (SagaDataProvider.Configure host).newClient = some cfg ∧
          cfg.PollingInterval = 2 * time.Second) ∧
      (∀ d, (if !host.ConfigGet.1.Token.IsNull then host.ConfigGet.1.Token.ValueString
          else host.Getenv "SAGADATA_TOKEN") ≠ "" →
        host.ConfigGet.1.PollingInterval.IsNull = false →
        host.ParseDuration host.ConfigGet.1.PollingInterval.ValueString = Except.ok d →
        ∃ cfg, (SagaDataProvider.Configure host).newClient = some cfg ∧
          cfg.PollingInterval = d) ∧
      (∀ err, host.ConfigGet.1.PollingInterval.IsNull = false →
        host.ParseDuration host.ConfigGet.1.PollingInterval.ValueString = Except.error err →
        (SagaDataProvider.Configure host).newClient = none ∧
        (SagaDataProvider.Configure host).DataSourceData = none ∧
        (SagaDataProvider.Configure host).ResourceData = none ∧
        Diagnostics.Errors (SagaDataProvider.Configure host).Diagnostics =
          [{ severity := Severity.Error, summary := "Timeout Cannot Be Parsed",
             detail := Detail.attribute "polling_interval" err }])) ∧
    (host.ConfigGet.1.Endpoint.IsUnknown = true ∨
        host.ConfigGet.1.Token.IsUnknown = true ∨
        host.ConfigGet.1.PollingInterval.IsUnknown = true →
      (SagaDataProvider.Configure host).newClient = none ∧
      (SagaDataProvider.Configure host).DataSourceData = none ∧
      (SagaDataProvider.Configure host).ResourceData = none ∧
      ∃ s1 s2 s3, Diagnostics.Errors (SagaDataProvider.Configure host).Diagnostics =
        (if host.ConfigGet.1.Endpoint.IsUnknown then
          [{ severity := Severity.Error, summary := "Unknown Saga Data API endpoint",
             detail := Detail.attribute "endpoint" s1 }] else []) ++
        (if host.ConfigGet.1.Token.IsUnknown then
          [{ severity := Severity.Error, summary := "Unknown Saga Data API token",
             detail := Detail.attribute "token" s2 }] else []) ++
        (if host.ConfigGet.1.PollingInterval.IsUnknown then
          [{ severity := Severity.Error, summary := "Unknown Polling Interval",
             detail := Detail.attribute "polling_interval" s3 }] else [])) := by
  refine ⟨fun hE hT hP => ⟨fun htoken hnull => ?_, fun d htoken hnull hparse => ?_,
    fun err hnull hparse =>
      configure_interval_unparsed host err hget hE hT hP hnull hparse⟩,
    fun hany => configure_unknown_values host hget hany⟩
  · exact ⟨_, (configure_client_facts host (2 * time.Second) _ hget hE hT hP
      (by simp [hnull]) htoken rfl).1, rfl⟩
  · exact ⟨_, (configure_client_facts host d _ hget hE hT hP
      (by simp [hnull, hparse]) htoken rfl).1, rfl⟩

/-- Witness of C23: the interval "5s" reaches the client as five seconds; the interval "soon"
is reported as unparsable; an unknown endpoint and an unknown interval give two errors. -/
theorem configure_interval_and_unknowns_witness :
    (∃ cfg, (SagaDataProvider.Configure
        (Example.host ⟨.null, .value "secret", .value "5s"⟩ "" "")).newClient = some cfg ∧
      cfg.PollingInterval = 5 * time.Second) ∧
    ((SagaDataProvider.Configure
        (Example.host ⟨.null, .value "secret", .value "soon"⟩ "" "")).newClient = none ∧
      (SagaDataProvider.Configure
        (Example.host ⟨.null, .value "secret", .value "soon"⟩ "" "")).DataSourceData = none ∧
      (SagaDataProvider.Configure
        (Example.host ⟨.null, .value "secret", .value "soon"⟩ "" "")).ResourceData = none ∧
      Diagnostics.Errors (SagaDataProvider.Configure
        (Example.host ⟨.null, .value "secret", .value "soon"⟩ "" "")).Diagnostics =
        [{ severity := Severity.Error, summary := "Timeout Cannot Be Parsed",
           detail := Detail.attribute "polling_interval" "time: invalid duration" }]) ∧
    (SagaDataProvider.Configure
      (Example.host ⟨.unknown, .value "secret", .unknown⟩ "" "")).newClient = none ∧
    (Diagnostics.Errors (SagaDataProvider.Configure
      (Example.host ⟨.unknown, .value "secret", .unknown⟩ "" "")).Diagnostics).length = 2 :=
  ⟨((configure_interval_and_unknowns
      (Example.host ⟨.null, .value "secret", .value "5s"⟩ "" "") rfl).1 rfl rfl rfl).2.1
      (5 * time.Second) (by decide) rfl rfl,
   ((configure_interval_and_unknowns
      (Example.host ⟨.null, .value "secret", .value "soon"⟩ "" "") rfl).1 rfl rfl rfl).2.2
      "time: invalid duration" rfl rfl,
   ((configure_interval_and_unknowns
      (Example.host ⟨.unknown, .value "secret", .unknown⟩ "" "") rfl).2 (Or.inl rfl)).1,
   by
    obtain ⟨_, _, _, s1, s2, s3, h⟩ := (configure_interval_and_unknowns
      (Example.host ⟨.unknown, .value "secret", .unknown⟩ "" "") rfl).2 (Or.inl rfl)
    rw [h]
    rfl⟩

/-- C24. The two projectors of a Kubernetes cluster agree: for every remote record, every
resource model and every data source model, `PopulateFromClientResponse` of the resource model
and of the data source model give the same values to the six shared attributes (created_at,
id, name, network, status, updated_at) and return the same, empty, diagnostics; the projector
of the data source model leaves Kubeconfig, JoinCommand and Timeouts as they were. -/
theorem kubernetes_projectors_agree :
    ∀ (resource : KubernetesClusterResourceModel) (source : KubernetesClusterDataSourceModel)
      (cluster : sagadata.KubernetesCluster),
      (resource.PopulateFromClientResponse cluster).1.CreatedAt =
        (source.PopulateFromClientResponse cluster).1.CreatedAt ∧
      (resource.PopulateFromClientResponse cluster).1.Id =
        (source.PopulateFromClientResponse cluster).1.Id ∧
      (resource.PopulateFromClientResponse cluster).1.Name =
        (source.PopulateFromClientResponse cluster).1.Name ∧
      (resource.PopulateFromClientResponse cluster).1.Network =
        (source.PopulateFromClientResponse cluster).1.Network ∧
      (resource.PopulateFromClientResponse cluster).1.Status =
        (source.PopulateFromClientResponse cluster).1.Status ∧
      (resource.PopulateFromClientResponse cluster).1.UpdatedAt =
        (source.PopulateFromClientResponse cluster).1.UpdatedAt ∧
      (resource.PopulateFromClientResponse cluster).2 =
        (source.PopulateFromClientResponse cluster).2 ∧
      (source.PopulateFromClientResponse cluster).1.Kubeconfig = source.Kubeconfig ∧
      (source.PopulateFromClientResponse cluster).1.JoinCommand = source.JoinCommand ∧
      (source.PopulateFromClientResponse cluster).1.Timeouts = source.Timeouts := by
  intro resource source cluster
  cases h : cluster.Network <;>
    simp [KubernetesClusterResourceModel.PopulateFromClientResponse,
      KubernetesClusterDataSourceModel.PopulateFromClientResponse, h]

end Provider
